import Mathlib

/-!
# XilCert X.509 certificate generator (xcert_genx509cert.c)

A shallow embedding of the certificate store and of the certificate generator of
`lib/sw_services/xilcert/src/xcert_genx509cert.c`.

* Bytes, lengths, identifiers and addresses are natural numbers; a store to a `u8`
  location reduces modulo 256 where the C code can exceed a byte.
* The two function-local statics `CertDB` and `NumOfEntriesInUserCfgDB` are the fields
  of `CertStore`; functions that touch them take and return the store.
* A byte buffer that the C code fills through pointers is a `List Nat` together with
  offsets into it; `*(Curr++) = v` is `wr b Curr v` followed by `Curr + 1`.
-/

namespace XCert

/-! ## Status codes -/

/-- Status values returned by the functions of the file. The numeric values of the
named codes live in headers outside the file; only their being distinct is used.
`other` carries a code handed back verbatim from an external primitive. -/
inductive Status where
  | XST_SUCCESS
  | XST_FAILURE
  | XST_INVALID_PARAM
  | XOCP_ERR_X509_USER_CFG_STORE_LIMIT_CROSSED
  | XOCP_ERR_X509_USR_CFG_NOT_FOUND
  | XOCP_ERR_X509_INVALID_USER_CFG
  | XOCP_ERR_X509_GEN_SIGN_ALGO_FIELD
  | XOCP_ERR_X509_GEN_TBSCERT_DIGEST
  | XOCP_ERR_X509_GET_SIGN
  | XOCP_ERR_X509_CALC_SIGN
  | XOCP_ERR_X509_UPDATE_ENCODED_LEN
  | XOCP_ERR_X509_GEN_TBSCERT_SIGN_ALGO_FIELD
  | XOCP_ERR_X509_GEN_TBSCERT_PUB_KEY_INFO_FIELD
  | XOCP_ECDSA_NOT_ENABLED_ERR
  | other (code : Nat)
  deriving DecidableEq, Repr

open Status

/-! ## Constants of the file -/

/-- Length of the Serial field, `XCERT_SERIAL_FIELD_LEN`. -/
def XCERT_SERIAL_FIELD_LEN : Nat := 22

/-- Mask of bit 7, `XCERT_BIT7_MASK`. -/
def XCERT_BIT7_MASK : Nat := 0x80

/-- Mask of the lower nibble, `XCERT_LOWER_NIBBLE_MASK`. -/
def XCERT_LOWER_NIBBLE_MASK : Nat := 0xF

/-- The one value of `IsSignAvailable` that marks a stored signature as present. -/
def XCERT_SIGN_AVAILABLE : Nat := 0x3

/-- Mask of a byte, `XCERT_BYTE_MASK`. -/
def XCERT_BYTE_MASK : Nat := 0xFF

/-- Number of slots of the certificate data base, `XCERT_MAX_CERT_SUPPORT`. -/
def XCERT_MAX_CERT_SUPPORT : Nat := 4

/-- Length of the value of the Subject Key Identifier. -/
def XCERT_SUB_KEY_ID_VAL_LEN : Nat := 20

/-- Length of the value of the Authority Key Identifier. -/
def XCERT_AUTH_KEY_ID_VAL_LEN : Nat := 20

/-- Maximum length of the key usage value. -/
def XCERT_MAX_LEN_OF_KEYUSAGE_VAL : Nat := 2

/-- Length of a word in bytes. -/
def XCERT_WORD_LEN : Nat := 4

/-- Length of a byte in bits. -/
def XCERT_LEN_OF_BYTE_IN_BITS : Nat := 8

/-- Tag byte that replaces the OCTET STRING tag of the key identifier. -/
def XCERT_AUTH_KEY_ID_OPTIONAL_PARAM : Nat := 0x80

/-- Context tag `[0]`. -/
def XCERT_OPTIONAL_PARAM_0_TAG : Nat := 0xA0

/-- Context tag `[3]`. -/
def XCERT_OPTIONAL_PARAM_3_TAG : Nat := 0xA3

/-- Context tag `[6]`. -/
def XCERT_OPTIONAL_PARAM_6_TAG : Nat := 0xA6

/-- Address of the first DNA register. -/
def XCERT_DNA_0_ADDRESS : Nat := 0xF1250020

/-- Number of DNA words. -/
def XCERT_DNA_LEN_IN_WORDS : Nat := 4

/-- Number of DNA bytes. -/
def XCERT_DNA_LEN_IN_BYTES : Nat := XCERT_DNA_LEN_IN_WORDS * XCERT_WORD_LEN

/-- Pre-encoded OID of ecdsa-with-SHA384. -/
def XCERT_OID_SIGN_ALGO : String := "06082A8648CE3D040303"

/-- Pre-encoded OID of ecPublicKey. -/
def XCERT_OID_EC_PUBLIC_KEY : String := "06072A8648CE3D0201"

/-- Pre-encoded OID of secp384r1. -/
def XCERT_OID_P384 : String := "06052B81040022"

/-- Pre-encoded OID of the Subject Key Identifier extension. -/
def XCERT_OID_SUB_KEY_IDENTIFIER : String := "0603551D0E"

/-- Pre-encoded OID of the Authority Key Identifier extension. -/
def XCERT_OID_AUTH_KEY_IDENTIFIER : String := "0603551D23"

/-- Pre-encoded OID of the DICE TCB Info extension. -/
def XCERT_OID_TCB_INFO_EXTN : String := "0606678105050401"

/-- Pre-encoded OID of the DICE UEID extension. -/
def XCERT_OID_UEID_EXTN : String := "0606678105050404"

/-- Pre-encoded OID of the Key Usage extension. -/
def XCERT_OID_KEY_USAGE_EXTN : String := "0603551D0F"

/-- Pre-encoded OID of the Extended Key Usage extension. -/
def XCERT_OID_EKU_EXTN : String := "0603551D25"

/-- Pre-encoded OID of the clientAuth key purpose. -/
def XCERT_OID_EKU_CLIENT_AUTH : String := "06082B06010505070302"

/-- Pre-encoded OID of SHA3-384. -/
def XCERT_OID_SHA3_384 : String := "0609608648016503040209"

/-- The key usage options, `XCert_KeyUsageOption`, by their enumeration values. -/
def XCERT_DIGITALSIGNATURE : Nat := 0

/-- Key usage option keyAgreement. -/
def XCERT_KEYAGREEMENT : Nat := 4

/-- Key usage option keyCertSign. -/
def XCERT_KEYCERTSIGN : Nat := 5

/-- The C truth value `TRUE`. -/
def TRUE : Nat := 1

/-! ## Declarations of headers that are not part of the source tree -/

/-- Modelled from the spec: the field kinds of `XCert_UserCfgFields`
(xcert_genx509cert.h), which the spec lists as Issuer, Subject, Validity; the code
treats `XCERT_VALIDITY` as the largest of them. -/
def XCERT_ISSUER : Nat := 0

/-- Modelled from the spec: second field kind of `XCert_UserCfgFields`. -/
def XCERT_SUBJECT : Nat := 1

/-- Modelled from the spec: last field kind of `XCert_UserCfgFields`. -/
def XCERT_VALIDITY : Nat := 2

/-- Modelled from the spec: the digest is 48 bytes (`XCERT_HASH_SIZE_IN_BYTES`). -/
def XCERT_HASH_SIZE_IN_BYTES : Nat := 48

/-- Modelled from the spec: each of r and s is 48 bytes
(`XSECURE_ECC_P384_SIZE_IN_BYTES`). -/
def XSECURE_ECC_P384_SIZE_IN_BYTES : Nat := 48

/-- Modelled from the spec: the raw uncompressed P-384 point is 96 bytes
(`XCERT_ECC_P384_PUBLIC_KEY_LEN`). -/
def XCERT_ECC_P384_PUBLIC_KEY_LEN : Nat := 96

/-- Build-time parameters. The per-field maximum sizes of the user configuration are
defined in xcert_genx509cert.h, outside the source tree, so they are parameters of the
model; `PLM_ECDSA_EXCLUDE` is the preprocessor switch that compiles ECDSA support out. -/
structure Build where
  XCERT_ISSUER_MAX_SIZE : Nat
  XCERT_SUBJECT_MAX_SIZE : Nat
  XCERT_VALIDITY_MAX_SIZE : Nat
  PLM_ECDSA_EXCLUDE : Bool
  deriving DecidableEq, Repr

/-! ## Data model -/

/-- User configuration of one subsystem, `XCert_UserCfg`: three byte arrays of fixed
capacity, each with the length of the value stored in it. -/
structure XCert_UserCfg where
  Issuer : List Nat
  IssuerLen : Nat
  Subject : List Nat
  SubjectLen : Nat
  Validity : List Nat
  ValidityLen : Nat
  deriving DecidableEq, Repr

/-- Signing record of one subsystem, `XCert_SignStore`. -/
structure XCert_SignStore where
  Hash : List Nat
  Sign : List Nat
  IsSignAvailable : Nat
  deriving DecidableEq, Repr

/-- One slot of the data base, `XCert_InfoStore`. -/
structure XCert_InfoStore where
  SubsystemId : Nat
  UserCfg : XCert_UserCfg
  SignStore : XCert_SignStore
  deriving DecidableEq, Repr

/-- The process-wide store: the static array `CertDB` of `XCert_GetCertDB` and the static
counter of `XCert_GetNumOfEntriesInUserCfgDB`. -/
structure CertStore where
  CertDB : List XCert_InfoStore
  NumOfEntriesInUserCfgDB : Nat
  deriving DecidableEq, Repr

/-- A zero-initialised slot, as the static initialiser `{0U}` leaves it. -/
def zeroInfoStore (Z : Build) : XCert_InfoStore :=
  { SubsystemId := 0
    UserCfg :=
      { Issuer := List.replicate Z.XCERT_ISSUER_MAX_SIZE 0
        IssuerLen := 0
        Subject := List.replicate Z.XCERT_SUBJECT_MAX_SIZE 0
        SubjectLen := 0
        Validity := List.replicate Z.XCERT_VALIDITY_MAX_SIZE 0
        ValidityLen := 0 }
    SignStore :=
      { Hash := List.replicate XCERT_HASH_SIZE_IN_BYTES 0
        Sign := List.replicate (XSECURE_ECC_P384_SIZE_IN_BYTES * 2) 0
        IsSignAvailable := 0 } }

/-- The store at start-up: four zeroed slots and a zero counter. -/
def initStore (Z : Build) : CertStore :=
  { CertDB := List.replicate XCERT_MAX_CERT_SUPPORT (zeroInfoStore Z)
    NumOfEntriesInUserCfgDB := 0 }

/-- Slot `Idx` of the data base, `CertDB[Idx]`. -/
def slot (Z : Build) (st : CertStore) (Idx : Nat) : XCert_InfoStore :=
  st.CertDB.getD Idx (zeroInfoStore Z)

/-- The shape the C types give every store: four slots, arrays of their declared
sizes, and a counter that never passes the number of slots. -/
def CertStore.WF (Z : Build) (st : CertStore) : Prop :=
  st.CertDB.length = XCERT_MAX_CERT_SUPPORT ∧
  st.NumOfEntriesInUserCfgDB ≤ XCERT_MAX_CERT_SUPPORT ∧
  ∀ e ∈ st.CertDB,
    e.UserCfg.Issuer.length = Z.XCERT_ISSUER_MAX_SIZE ∧
    e.UserCfg.Subject.length = Z.XCERT_SUBJECT_MAX_SIZE ∧
    e.UserCfg.Validity.length = Z.XCERT_VALIDITY_MAX_SIZE ∧
    e.SignStore.Hash.length = XCERT_HASH_SIZE_IN_BYTES ∧
    e.SignStore.Sign.length = XSECURE_ECC_P384_SIZE_IN_BYTES * 2

/-! ## Memory helpers of the libraries -/

/-- The `n` bytes a C routine reads through a pointer to the array `l`, `l[0 .. n)`. A
byte past the end of the list reads as 0. -/
def fit (n : Nat) (l : List Nat) : List Nat := (l ++ List.replicate n 0).take n

/-- Byte copy `XSecure_MemCpy(Dest, Src, Len)`: the first `Len` bytes of `Dest` become
the first `Len` bytes of `Src`, the rest of `Dest` stays. -/
def XSecure_MemCpy (Dest Src : List Nat) (Len : Nat) : List Nat :=
  fit Len Src ++ Dest.drop Len

/-- Conversion of a `u32` to `int` at a call with an `int` parameter. -/
def u32ToInt (n : Nat) : Int :=
  if n % 2 ^ 32 < 2 ^ 31 then ((n % 2 ^ 32 : Nat) : Int) else ((n % 2 ^ 32 : Nat) : Int) - 2 ^ 32

/-! ## The certificate store -/

/-- `XCert_IsBufferNonZero`: ORs the first `BufferLen` bytes together and fails when the
result is zero. -/
def XCert_IsBufferNonZero (Buffer : List Nat) (BufferLen : Int) : Status :=
  let Sum := (List.range BufferLen.toNat).foldl (fun s i => s ||| Buffer.getD i 0) 0
  if Sum = 0 then XST_FAILURE else XST_SUCCESS

/-- The search loop shared by the three store functions:
`for (Idx = 0; Idx < Num; Idx++) if (CertDB[Idx].SubsystemId == SubsystemId)`,
giving the first matching index. -/
def findIdx (Z : Build) (st : CertStore) (SubsystemId : Nat) : Option Nat :=
  (List.range st.NumOfEntriesInUserCfgDB).find?
    (fun Idx => decide ((slot Z st Idx).SubsystemId = SubsystemId))

/-- `XCert_GetUserCfg`: the status and, on success, the index of the slot whose
`UserCfg` the returned pointer designates. -/
def XCert_GetUserCfg (Z : Build) (st : CertStore) (SubsystemId : Nat) : Status × Option Nat :=
  match findIdx Z st SubsystemId with
  | some Idx =>
    if XCert_IsBufferNonZero (slot Z st Idx).UserCfg.Issuer
        (u32ToInt (slot Z st Idx).UserCfg.IssuerLen) ≠ XST_SUCCESS then
      (XOCP_ERR_X509_INVALID_USER_CFG, none)
    else if XCert_IsBufferNonZero (slot Z st Idx).UserCfg.Subject
        (u32ToInt (slot Z st Idx).UserCfg.SubjectLen) ≠ XST_SUCCESS then
      (XOCP_ERR_X509_INVALID_USER_CFG, none)
    else if XCert_IsBufferNonZero (slot Z st Idx).UserCfg.Validity
        (u32ToInt (slot Z st Idx).UserCfg.ValidityLen) ≠ XST_SUCCESS then
      (XOCP_ERR_X509_INVALID_USER_CFG, none)
    else
      (XST_SUCCESS, some Idx)
  | none => (XOCP_ERR_X509_USR_CFG_NOT_FOUND, none)

/-- `XCert_GetSignStored`: the status and, on success, the index of the slot whose
`SignStore` the returned pointer designates. -/
def XCert_GetSignStored (Z : Build) (st : CertStore) (SubsystemId : Nat) : Status × Option Nat :=
  match findIdx Z st SubsystemId with
  | some Idx => (XST_SUCCESS, some Idx)
  | none => (XST_FAILURE, none)

/-- Replace slot `Idx` of the data base. -/
def setSlot (st : CertStore) (Idx : Nat) (e : XCert_InfoStore) : CertStore :=
  { st with CertDB := st.CertDB.set Idx e }

/-- The three-way branch at the end of `XCert_StoreCertUserInput`: copy `Val` into the
array of the field and record `Len`. -/
def writeField (U : XCert_UserCfg) (FieldType : Nat) (Val : List Nat) (Len : Nat) :
    XCert_UserCfg :=
  if FieldType = XCERT_ISSUER then
    { U with Issuer := XSecure_MemCpy U.Issuer Val Len, IssuerLen := Len }
  else if FieldType = XCERT_SUBJECT then
    { U with Subject := XSecure_MemCpy U.Subject Val Len, SubjectLen := Len }
  else
    { U with Validity := XSecure_MemCpy U.Validity Val Len, ValidityLen := Len }

/-- `XCert_StoreCertUserInput`: the returned status and the store afterwards. -/
def XCert_StoreCertUserInput (Z : Build) (st : CertStore) (SubSystemId FieldType : Nat)
    (Val : List Nat) (Len : Nat) : Status × CertStore :=
  if FieldType > XCERT_VALIDITY then (XST_INVALID_PARAM, st)
  else if (FieldType = XCERT_VALIDITY ∧ Len > Z.XCERT_VALIDITY_MAX_SIZE) ∨
      (FieldType = XCERT_ISSUER ∧ Len > Z.XCERT_ISSUER_MAX_SIZE) ∨
      (FieldType = XCERT_SUBJECT ∧ Len > Z.XCERT_SUBJECT_MAX_SIZE) then
    (XST_INVALID_PARAM, st)
  else
    match findIdx Z st SubSystemId with
    | some IdxToBeUpdated =>
      let e := slot Z st IdxToBeUpdated
      (XST_SUCCESS,
        setSlot st IdxToBeUpdated { e with UserCfg := writeField e.UserCfg FieldType Val Len })
    | none =>
      let IdxToBeUpdated := st.NumOfEntriesInUserCfgDB
      if IdxToBeUpdated ≥ XCERT_MAX_CERT_SUPPORT then
        (XOCP_ERR_X509_USER_CFG_STORE_LIMIT_CROSSED, st)
      else
        let e := { slot Z st IdxToBeUpdated with SubsystemId := SubSystemId }
        let st1 : CertStore :=
          { CertDB := st.CertDB.set IdxToBeUpdated e
            NumOfEntriesInUserCfgDB := st.NumOfEntriesInUserCfgDB + 1 }
        (XST_SUCCESS,
          setSlot st1 IdxToBeUpdated { e with UserCfg := writeField e.UserCfg FieldType Val Len })

/-! ## Byte buffers -/

/-- Store of one byte, `Buf[i] = v`. -/
def wr (b : List Nat) (i v : Nat) : List Nat := b.set i v

/-- Store of consecutive bytes starting at offset `i`, `Buf[i + k] = vs[k]`. As with
`wr`, the array keeps its size: a store past its end is lost. -/
def wrBytes : List Nat → Nat → List Nat → List Nat
  | [], _, _ => []
  | x :: b, 0, [] => x :: b
  | _ :: b, 0, v :: vs => v :: wrBytes b 0 vs
  | x :: b, i + 1, vs => x :: wrBytes b i vs

/-- The `n` bytes starting at offset `p`. -/
def rd (b : List Nat) (p n : Nat) : List Nat := (b.drop p).take n

/-- `Xil_SMemCmp` of xil_util: compares the first `CmpLen` bytes after its size
checks. -/
def Xil_SMemCmp (Src1 : List Nat) (Src1Size : Nat) (Src2 : List Nat) (Src2Size CmpLen : Nat) :
    Status :=
  if CmpLen = 0 ∨ Src1Size < CmpLen ∨ Src2Size < CmpLen then XST_INVALID_PARAM
  else if fit CmpLen Src1 = fit CmpLen Src2 then XST_SUCCESS
  else XST_FAILURE

/-- `Xil_SMemCpy` of xil_util between two distinct arrays: copies `CopyLen` bytes after
its size checks. -/
def Xil_SMemCpy (Dest : List Nat) (DestSize : Nat) (Src : List Nat) (SrcSize CopyLen : Nat) :
    Status × List Nat :=
  if CopyLen = 0 ∨ DestSize < CopyLen ∨ SrcSize < CopyLen then (XST_INVALID_PARAM, Dest)
  else (XST_SUCCESS, XSecure_MemCpy Dest Src CopyLen)

/-- `Xil_SMemMove` of xil_util inside one buffer: moves `CopyLen` bytes from offset `Src`
to offset `Dest` after its size checks. -/
def Xil_SMemMove (b : List Nat) (Dest DestSize Src SrcSize CopyLen : Nat) : Status × List Nat :=
  if CopyLen = 0 ∨ DestSize < CopyLen ∨ SrcSize < CopyLen then (XST_INVALID_PARAM, b)
  else (XST_SUCCESS, wrBytes b Dest (rd b Src CopyLen))

/-- `XSecure_FixEndiannessNCopy(Size, Dest, Src)`: `Dest[i] = Src[Size - 1 - i]`. -/
def XSecure_FixEndiannessNCopy (Size : Nat) (Dest Src : List Nat) : List Nat :=
  (fit Size Src).reverse ++ Dest.drop Size

/-! ## DER helpers of xcert_createfield.c -/

/-- Modelled from the spec: ASN.1 tag of INTEGER (`XCERT_ASN1_TAG_INTEGER`). -/
def XCERT_ASN1_TAG_INTEGER : Nat := 0x02

/-- Modelled from the spec: ASN.1 tag of BIT STRING. -/
def XCERT_ASN1_TAG_BITSTRING : Nat := 0x03

/-- Modelled from the spec: ASN.1 tag of OCTET STRING. -/
def XCERT_ASN1_TAG_OCTETSTRING : Nat := 0x04

/-- Modelled from the spec: ASN.1 tag of NULL. -/
def XCERT_ASN1_TAG_NULL : Nat := 0x05

/-- Modelled from the spec: ASN.1 tag of BOOLEAN. -/
def XCERT_ASN1_TAG_BOOLEAN : Nat := 0x01

/-- Modelled from the spec: ASN.1 tag of SEQUENCE. -/
def XCERT_ASN1_TAG_SEQUENCE : Nat := 0x30

/-- Modelled from the spec: the length byte of NULL. -/
def XCERT_NULL_VALUE : Nat := 0x00

/-- Modelled from the spec: the version value is one byte long. -/
def XCERT_LEN_OF_VALUE_OF_VERSION : Nat := 0x01

/-- Modelled from the spec: the version is fixed to v3, whose value is 2. -/
def XCERT_VERSION_VALUE_V3 : Nat := 0x02

/-- Modelled from the spec: the serial value is 20 bytes long. -/
def XCERT_LEN_OF_VALUE_OF_SERIAL : Nat := 20

/-- Modelled from the spec: `WriteInteger` of xcert_createfield.c, which is not in the
source tree. Emits the INTEGER tag, a length byte, a 0x00 pad when the most significant
bit of the first value byte is set, and the value bytes; gives the buffer and the
number of bytes written. -/
def XCert_CreateInteger (b : List Nat) (DataBuf : Nat) (IntegerVal : List Nat)
    (IntegerLen : Nat) : List Nat × Nat :=
  let Curr := DataBuf
  let b := wr b Curr XCERT_ASN1_TAG_INTEGER
  let Curr := Curr + 1
  let IntegerLenIdx := Curr
  let Curr := Curr + 1
  let IntegerValIdx := Curr
  let pad := (IntegerVal.getD 0 0 &&& XCERT_BIT7_MASK) = XCERT_BIT7_MASK
  let b := if pad then wr b Curr 0x00 else b
  let Curr := if pad then Curr + 1 else Curr
  let b := wrBytes b Curr (fit IntegerLen IntegerVal)
  let Curr := Curr + IntegerLen
  let b := wr b IntegerLenIdx ((Curr - IntegerValIdx) % 256)
  (b, Curr - DataBuf)

/-- Modelled from the spec: `WriteOctetString` of xcert_createfield.c: tag, length
byte, value bytes. -/
def XCert_CreateOctetString (b : List Nat) (DataBuf : Nat) (OctetStringVal : List Nat)
    (OctetStringLen : Nat) : List Nat × Nat :=
  let Curr := DataBuf
  let b := wr b Curr XCERT_ASN1_TAG_OCTETSTRING
  let Curr := Curr + 1
  let b := wr b Curr (OctetStringLen % 256)
  let Curr := Curr + 1
  let b := wrBytes b Curr (fit OctetStringLen OctetStringVal)
  let Curr := Curr + OctetStringLen
  (b, Curr - DataBuf)

/-- Modelled from the spec: `WriteBitString` of xcert_createfield.c: tag, length byte,
one byte with 0 unused bits, value bytes. -/
def XCert_CreateBitString (b : List Nat) (DataBuf : Nat) (BitStringVal : List Nat)
    (BitStringLen : Nat) : List Nat × Nat :=
  let Curr := DataBuf
  let b := wr b Curr XCERT_ASN1_TAG_BITSTRING
  let Curr := Curr + 1
  let b := wr b Curr ((BitStringLen + 1) % 256)
  let Curr := Curr + 1
  let b := wr b Curr 0x00
  let Curr := Curr + 1
  let b := wrBytes b Curr (fit BitStringLen BitStringVal)
  let Curr := Curr + BitStringLen
  (b, Curr - DataBuf)

/-- Modelled from the spec: `WriteBoolean` of xcert_createfield.c: tag, length 1, and
the DER value 0xFF for true, 0x00 for false. -/
def XCert_CreateBoolean (b : List Nat) (DataBuf : Nat) (BooleanVal : Nat) : List Nat × Nat :=
  let Curr := DataBuf
  let b := wr b Curr XCERT_ASN1_TAG_BOOLEAN
  let Curr := Curr + 1
  let b := wr b Curr 0x01
  let Curr := Curr + 1
  let b := wr b Curr (if BooleanVal = TRUE then 0xFF else 0x00)
  let Curr := Curr + 1
  (b, Curr - DataBuf)

/-- Value of one hexadecimal digit. -/
def hexDigit (c : Char) : Option Nat :=
  if 48 ≤ c.toNat ∧ c.toNat ≤ 57 then some (c.toNat - 48)
  else if 65 ≤ c.toNat ∧ c.toNat ≤ 70 then some (c.toNat - 55)
  else if 97 ≤ c.toNat ∧ c.toNat ≤ 102 then some (c.toNat - 87)
  else none

/-- Bytes of a hexadecimal string, two digits a byte; none for an odd number of digits
or a character that is no digit. -/
def hexBytes : List Char → Option (List Nat)
  | [] => some []
  | [_] => none
  | hi :: lo :: cs =>
    match hexDigit hi, hexDigit lo, hexBytes cs with
    | some h, some l, some r => some ((h * 16 + l) :: r)
    | _, _, _ => none

/-- Modelled from the spec: `WriteRawOidHex` of xcert_createfield.c: copies the bytes
spelled by the hexadecimal string verbatim and fails on a malformed string. -/
def XCert_CreateRawDataFromStr (b : List Nat) (DataBuf : Nat) (RawData : String) :
    Status × List Nat × Nat :=
  match hexBytes RawData.data with
  | some bs => (XST_SUCCESS, wrBytes b DataBuf bs, bs.length)
  | none => (XST_FAILURE, b, 0)

/-- Modelled from the spec: `WriteRawBytes` of xcert_createfield.c: copies the
caller-supplied, already encoded bytes verbatim. -/
def XCert_CreateRawDataFromByteArray (b : List Nat) (DataBuf : Nat) (RawData : List Nat)
    (LenOfRawDataVal : Nat) : List Nat × Nat :=
  (wrBytes b DataBuf (fit LenOfRawDataVal RawData), LenOfRawDataVal)

/-- Modelled from the spec: `BackpatchLength` of xcert_createfield.c. A length up to 127
is stored in the reserved byte; a longer one is stored as 0x80 | byte-count in the
reserved byte followed by the big-endian length bytes, for which the content is first
moved right by the byte-count. The call fails for a length that two length bytes cannot
hold. The callers learn the number of inserted bytes from the low nibble of the reserved
byte. -/
def XCert_UpdateEncodedLength (b : List Nat) (LenIdx Len ValIdx : Nat) : Status × List Nat :=
  if Len ≤ 127 then
    (XST_SUCCESS, wr b LenIdx Len)
  else if Len ≤ 255 then
    let b := wr b LenIdx 0x81
    match Xil_SMemMove b (ValIdx + 1) Len ValIdx Len Len with
    | (s, b) =>
      if s ≠ XST_SUCCESS then (s, b)
      else (XST_SUCCESS, wr b ValIdx Len)
  else if Len ≤ 65535 then
    let b := wr b LenIdx 0x82
    match Xil_SMemMove b (ValIdx + 2) Len ValIdx Len Len with
    | (s, b) =>
      if s ≠ XST_SUCCESS then (s, b)
      else
        let b := wr b ValIdx (Len / 256)
        (XST_SUCCESS, wr b (ValIdx + 1) (Len % 256))
  else
    (XST_FAILURE, b)

/-! ## External collaborators and machine state -/

/-- Application configuration of one generation call, `Cfg->AppCfg`. -/
structure XCert_AppCfg where
  IsSelfSigned : Nat
  SubjectPublicKey : List Nat
  IssuerPrvtKey : List Nat
  IssuerPublicKey : List Nat
  FwHash : List Nat
  deriving DecidableEq, Repr

/-- The primitives the file calls but does not implement. The signing primitive draws an
ephemeral key on every call; its first argument, the number of earlier signing calls,
stands for that fresh randomness. -/
structure Env where
  Sha384Digest : List Nat → Status × List Nat
  Sha384Kat : Status
  EllipticGenEphemeralNSign : Nat → List Nat → List Nat → Status × List Nat
  In32 : Nat → Nat

/-- One call of an external primitive, as recorded in the trace. -/
inductive Event where
  | Digest (Data : List Nat)
  | Kat
  | Sign (Hash : List Nat) (Key : List Nat)
  | OutByte64 (Addr : Nat) (Val : Nat)
  deriving DecidableEq, Repr

/-- The state that outlives a call: the certificate store, the bit of the KAT mask
that records a passed SHA-384 known-answer test, and the trace of the calls of
external primitives made so far, oldest first. -/
structure Machine where
  Store : CertStore
  KatRan : Bool
  Trace : List Event
  deriving DecidableEq, Repr

/-- Number of runs of the signing primitive recorded in a trace. -/
def signCalls (t : List Event) : Nat :=
  t.countP (fun e => match e with
    | Event.Sign _ _ => true
    | _ => false)

/-- Number of runs of the digest primitive recorded in a trace. -/
def digestCalls (t : List Event) : Nat :=
  t.countP (fun e => match e with
    | Event.Digest _ => true
    | _ => false)

/-- The bytes sent to the destination, in the order of the writes. -/
def outBytes (t : List Event) : List (Nat × Nat) :=
  t.filterMap (fun e => match e with
    | Event.OutByte64 a v => some (a, v)
    | _ => none)

/-- `XSecure_Sha384Digest(Data, Len, Hash)`: status and content of the 48-byte output
array. -/
def XSecure_Sha384Digest (E : Env) (Data : List Nat) : Status × List Nat :=
  ((E.Sha384Digest Data).1, fit XCERT_HASH_SIZE_IN_BYTES (E.Sha384Digest Data).2)

/-- `XSecure_EllipticGenEphemeralNSign(P384, Hash, 48, Key, Sign)` as the `n`-th signing
call: status and content of the 96-byte output array. -/
def XSecure_EllipticGenEphemeralNSign (E : Env) (n : Nat) (Hash Key : List Nat) :
    Status × List Nat :=
  ((E.EllipticGenEphemeralNSign n Hash Key).1,
    fit (XSECURE_ECC_P384_SIZE_IN_BYTES * 2) (E.EllipticGenEphemeralNSign n Hash Key).2)

/-! ## Field generators -/

/-- `XCert_GenVersionField`. -/
def XCert_GenVersionField (b : List Nat) (TBSCertBuf : Nat) : List Nat × Nat :=
  let Curr := TBSCertBuf
  let b := wr b Curr XCERT_ASN1_TAG_INTEGER
  let Curr := Curr + 1
  let b := wr b Curr XCERT_LEN_OF_VALUE_OF_VERSION
  let Curr := Curr + 1
  let b := wr b Curr XCERT_VERSION_VALUE_V3
  let Curr := Curr + 1
  (b, Curr - TBSCertBuf)

/-- `XCert_GenSerialField`. -/
def XCert_GenSerialField (b : List Nat) (TBSCertBuf : Nat) (DataHash : List Nat) :
    List Nat × Nat :=
  let Serial := List.replicate XCERT_LEN_OF_VALUE_OF_SERIAL 0
  let LenToBeCopied :=
    if (DataHash.getD 0 0 &&& XCERT_BIT7_MASK) = XCERT_BIT7_MASK then
      XCERT_LEN_OF_VALUE_OF_SERIAL - 1
    else XCERT_LEN_OF_VALUE_OF_SERIAL
  let Serial := XSecure_MemCpy Serial DataHash LenToBeCopied
  XCert_CreateInteger b TBSCertBuf Serial LenToBeCopied

/-- `XCert_GenSignAlgoField`. -/
def XCert_GenSignAlgoField (b : List Nat) (CertBuf : Nat) : Status × List Nat × Nat :=
  let Curr := CertBuf
  let b := wr b Curr XCERT_ASN1_TAG_SEQUENCE
  let Curr := Curr + 1
  let SequenceLenIdx := Curr
  let Curr := Curr + 1
  let SequenceValIdx := Curr
  match XCert_CreateRawDataFromStr b Curr XCERT_OID_SIGN_ALGO with
  | (s, b, OidLen) =>
    if s ≠ XST_SUCCESS then (s, b, 0)
    else
      let Curr := Curr + OidLen
      let b := wr b Curr XCERT_ASN1_TAG_NULL
      let Curr := Curr + 1
      let b := wr b Curr XCERT_NULL_VALUE
      let Curr := Curr + 1
      let b := wr b SequenceLenIdx ((Curr - SequenceValIdx) % 256)
      (XST_SUCCESS, b, Curr - CertBuf)

/-- `XCert_GenIssuerField`. -/
def XCert_GenIssuerField (b : List Nat) (TBSCertBuf : Nat) (Issuer : List Nat)
    (IssuerValLen : Nat) : List Nat × Nat :=
  XCert_CreateRawDataFromByteArray b TBSCertBuf Issuer IssuerValLen

/-- `XCert_GenValidityField`. -/
def XCert_GenValidityField (b : List Nat) (TBSCertBuf : Nat) (Validity : List Nat)
    (ValidityValLen : Nat) : List Nat × Nat :=
  XCert_CreateRawDataFromByteArray b TBSCertBuf Validity ValidityValLen

/-- `XCert_GenSubjectField`. -/
def XCert_GenSubjectField (b : List Nat) (TBSCertBuf : Nat) (Subject : List Nat)
    (SubjectValLen : Nat) : List Nat × Nat :=
  XCert_CreateRawDataFromByteArray b TBSCertBuf Subject SubjectValLen

/-- `XCert_GenPubKeyAlgIdentifierField`. -/
def XCert_GenPubKeyAlgIdentifierField (b : List Nat) (TBSCertBuf : Nat) :
    Status × List Nat × Nat :=
  let Curr := TBSCertBuf
  let b := wr b Curr XCERT_ASN1_TAG_SEQUENCE
  let Curr := Curr + 1
  let SequenceLenIdx := Curr
  let Curr := Curr + 1
  let SequenceValIdx := Curr
  match XCert_CreateRawDataFromStr b Curr XCERT_OID_EC_PUBLIC_KEY with
  | (s, b, OidLen) =>
    if s ≠ XST_SUCCESS then (s, b, 0)
    else
      let Curr := Curr + OidLen
      match XCert_CreateRawDataFromStr b Curr XCERT_OID_P384 with
      | (s, b, OidLen) =>
        if s ≠ XST_SUCCESS then (s, b, 0)
        else
          let Curr := Curr + OidLen
          let b := wr b SequenceLenIdx ((Curr - SequenceValIdx) % 256)
          (XST_SUCCESS, b, Curr - TBSCertBuf)

/-- `XCert_GenPublicKeyInfoField`. -/
def XCert_GenPublicKeyInfoField (b : List Nat) (TBSCertBuf : Nat) (SubjectPublicKey : List Nat) :
    Status × List Nat × Nat :=
  let KeyLen := XSECURE_ECC_P384_SIZE_IN_BYTES + XSECURE_ECC_P384_SIZE_IN_BYTES
  let Curr := TBSCertBuf
  let b := wr b Curr XCERT_ASN1_TAG_SEQUENCE
  let Curr := Curr + 1
  let SequenceLenIdx := Curr
  let Curr := Curr + 1
  let SequenceValIdx := Curr
  match XCert_GenPubKeyAlgIdentifierField b Curr with
  | (s, b, Len) =>
    if s ≠ XST_SUCCESS then (s, b, 0)
    else
      let Curr := Curr + Len
      match XCert_CreateBitString b Curr SubjectPublicKey KeyLen with
      | (b, Len) =>
        let Curr := Curr + Len
        let b := wr b SequenceLenIdx ((Curr - SequenceValIdx) % 256)
        (XST_SUCCESS, b, Curr - TBSCertBuf)

/-- `XCert_GenSubjectKeyIdentifierField`: status, the calls of external primitives made,
buffer and length. -/
def XCert_GenSubjectKeyIdentifierField (E : Env) (b : List Nat)
    (TBSCertBuf : Nat) (SubjectPublicKey : List Nat) : Status × List Event × List Nat × Nat :=
  let Curr := TBSCertBuf
  let b := wr b Curr XCERT_ASN1_TAG_SEQUENCE
  let Curr := Curr + 1
  let SequenceLenIdx := Curr
  let Curr := Curr + 1
  let SequenceValIdx := Curr
  match XCert_CreateRawDataFromStr b Curr XCERT_OID_SUB_KEY_IDENTIFIER with
  | (s, b, OidLen) =>
    if s ≠ XST_SUCCESS then (s, [], b, 0)
    else
      let Curr := Curr + OidLen
      let Data := fit XCERT_ECC_P384_PUBLIC_KEY_LEN SubjectPublicKey
      let t := [Event.Digest Data]
      match XSecure_Sha384Digest E Data with
      | (s, Hash) =>
        if s ≠ XST_SUCCESS then (s, t, b, 0)
        else
          let b := wr b Curr XCERT_ASN1_TAG_OCTETSTRING
          let Curr := Curr + 1
          let OctetStrLenIdx := Curr
          let Curr := Curr + 1
          let OctetStrValIdx := Curr
          match XCert_CreateOctetString b Curr Hash XCERT_SUB_KEY_ID_VAL_LEN with
          | (b, FieldLen) =>
            let Curr := Curr + FieldLen
            let b := wr b OctetStrLenIdx ((Curr - OctetStrValIdx) % 256)
            let b := wr b SequenceLenIdx ((Curr - SequenceValIdx) % 256)
            (XST_SUCCESS, t, b, Curr - TBSCertBuf)

/-- `XCert_GenAuthorityKeyIdentifierField`: status, the calls of external primitives
made, buffer and length. -/
def XCert_GenAuthorityKeyIdentifierField (E : Env) (b : List Nat)
    (TBSCertBuf : Nat) (IssuerPublicKey : List Nat) : Status × List Event × List Nat × Nat :=
  let Curr := TBSCertBuf
  let b := wr b Curr XCERT_ASN1_TAG_SEQUENCE
  let Curr := Curr + 1
  let SequenceLenIdx := Curr
  let Curr := Curr + 1
  let SequenceValIdx := Curr
  match XCert_CreateRawDataFromStr b Curr XCERT_OID_AUTH_KEY_IDENTIFIER with
  | (s, b, OidLen) =>
    if s ≠ XST_SUCCESS then (s, [], b, 0)
    else
      let Curr := Curr + OidLen
      let Data := fit XCERT_ECC_P384_PUBLIC_KEY_LEN IssuerPublicKey
      let t := [Event.Digest Data]
      match XSecure_Sha384Digest E Data with
      | (s, Hash) =>
        if s ≠ XST_SUCCESS then (s, t, b, 0)
        else
          let b := wr b Curr XCERT_ASN1_TAG_OCTETSTRING
          let Curr := Curr + 1
          let OctetStrLenIdx := Curr
          let Curr := Curr + 1
          let OctetStrValIdx := Curr
          let b := wr b Curr XCERT_ASN1_TAG_SEQUENCE
          let Curr := Curr + 1
          let KeyIdSequenceLenIdx := Curr
          let Curr := Curr + 1
          let KeyIdSequenceValIdx := Curr
          match XCert_CreateOctetString b Curr Hash XCERT_AUTH_KEY_ID_VAL_LEN with
          | (b, FieldLen) =>
            let Curr := Curr + FieldLen
            let b := wr b KeyIdSequenceValIdx XCERT_AUTH_KEY_ID_OPTIONAL_PARAM
            let b := wr b KeyIdSequenceLenIdx ((Curr - KeyIdSequenceValIdx) % 256)
            let b := wr b OctetStrLenIdx ((Curr - OctetStrValIdx) % 256)
            let b := wr b SequenceLenIdx ((Curr - SequenceValIdx) % 256)
            (XST_SUCCESS, t, b, Curr - TBSCertBuf)

/-- `XCert_GenTcbInfoExtnField`. -/
def XCert_GenTcbInfoExtnField (b : List Nat) (TBSCertBuf : Nat) (A : XCert_AppCfg) :
    Status × List Nat × Nat :=
  let Curr := TBSCertBuf
  let b := wr b Curr XCERT_ASN1_TAG_SEQUENCE
  let Curr := Curr + 1
  let SequenceLenIdx := Curr
  let Curr := Curr + 1
  let SequenceValIdx := Curr
  match XCert_CreateRawDataFromStr b Curr XCERT_OID_TCB_INFO_EXTN with
  | (s, b, OidLen) =>
    if s ≠ XST_SUCCESS then (s, b, 0)
    else
      let Curr := Curr + OidLen
      let b := wr b Curr XCERT_ASN1_TAG_OCTETSTRING
      let Curr := Curr + 1
      let OctetStrLenIdx := Curr
      let Curr := Curr + 1
      let OctetStrValIdx := Curr
      let b := wr b Curr XCERT_ASN1_TAG_SEQUENCE
      let Curr := Curr + 1
      let TcbInfoSequenceLenIdx := Curr
      let Curr := Curr + 1
      let TcbInfoSequenceValIdx := Curr
      let b := wr b Curr XCERT_OPTIONAL_PARAM_6_TAG
      let Curr := Curr + 1
      let OptionalTagLenIdx := Curr
      let Curr := Curr + 1
      let OptionalTagValIdx := Curr
      let b := wr b Curr XCERT_ASN1_TAG_SEQUENCE
      let Curr := Curr + 1
      let FwIdSequenceLenIdx := Curr
      let Curr := Curr + 1
      let FwIdSequenceValIdx := Curr
      match XCert_CreateRawDataFromStr b Curr XCERT_OID_SHA3_384 with
      | (s, b, OidLen) =>
        if s ≠ XST_SUCCESS then (s, b, 0)
        else
          let Curr := Curr + OidLen
          match XCert_CreateOctetString b Curr A.FwHash XCERT_HASH_SIZE_IN_BYTES with
          | (b, FieldLen) =>
            let Curr := Curr + FieldLen
            let b := wr b FwIdSequenceLenIdx ((Curr - FwIdSequenceValIdx) % 256)
            let b := wr b OptionalTagLenIdx ((Curr - OptionalTagValIdx) % 256)
            let b := wr b TcbInfoSequenceLenIdx ((Curr - TcbInfoSequenceValIdx) % 256)
            let b := wr b OctetStrLenIdx ((Curr - OctetStrValIdx) % 256)
            let b := wr b SequenceLenIdx ((Curr - SequenceValIdx) % 256)
            (XST_SUCCESS, b, Curr - TBSCertBuf)

/-- The bytes of a 32-bit word in memory order (the processor is little-endian), as the
cast `(u8*)Dna` sees them. -/
def wordBytes (w : Nat) : List Nat :=
  [w % 256, w / 256 % 256, w / 65536 % 256, w / 16777216 % 256]

/-- `XCert_GenUeidExnField`; the four DNA words are read through `XCert_In32`. -/
def XCert_GenUeidExnField (E : Env) (b : List Nat) (TBSCertBuf : Nat) :
    Status × List Nat × Nat :=
  let Curr := TBSCertBuf
  let b := wr b Curr XCERT_ASN1_TAG_SEQUENCE
  let Curr := Curr + 1
  let SequenceLenIdx := Curr
  let Curr := Curr + 1
  let SequenceValIdx := Curr
  match XCert_CreateRawDataFromStr b Curr XCERT_OID_UEID_EXTN with
  | (s, b, OidLen) =>
    if s ≠ XST_SUCCESS then (s, b, 0)
    else
      let Curr := Curr + OidLen
      let b := wr b Curr XCERT_ASN1_TAG_OCTETSTRING
      let Curr := Curr + 1
      let OctetStrLenIdx := Curr
      let Curr := Curr + 1
      let OctetStrValIdx := Curr
      let b := wr b Curr XCERT_ASN1_TAG_SEQUENCE
      let Curr := Curr + 1
      let UeidSequenceLenIdx := Curr
      let Curr := Curr + 1
      let UeidSequenceValIdx := Curr
      let Dna := (List.range XCERT_DNA_LEN_IN_WORDS).map
        (fun Offset => E.In32 (XCERT_DNA_0_ADDRESS + Offset * XCERT_WORD_LEN))
      let DnaBytes := (Dna.map wordBytes).flatten
      match XCert_CreateOctetString b Curr DnaBytes XCERT_DNA_LEN_IN_BYTES with
      | (b, FieldLen) =>
        let Curr := Curr + FieldLen
        let b := wr b UeidSequenceLenIdx ((Curr - UeidSequenceValIdx) % 256)
        let b := wr b OctetStrLenIdx ((Curr - OctetStrValIdx) % 256)
        let b := wr b SequenceLenIdx ((Curr - SequenceValIdx) % 256)
        (XST_SUCCESS, b, Curr - TBSCertBuf)

/-- `XCert_UpdateKeyUsageVal`: `Idx` and `ShiftVal` are `u8`, the subtraction is done in
32-bit unsigned arithmetic, and the byte of the array is OR-ed with `1U << ShiftVal`. -/
def XCert_UpdateKeyUsageVal (KeyUsageVal : List Nat) (KeyUsageOption : Nat) : List Nat :=
  let Idx := KeyUsageOption / XCERT_LEN_OF_BYTE_IN_BITS % 256
  let ShiftVal :=
    (XCERT_LEN_OF_BYTE_IN_BITS * (Idx + 1) + 2 ^ 32 - KeyUsageOption % 256 + 2 ^ 32 - 1)
      % 2 ^ 32 % 256
  KeyUsageVal.set Idx ((KeyUsageVal.getD Idx 0 ||| (1 <<< ShiftVal) % 2 ^ 32) % 256)

/-- `XCert_GenKeyUsageField`. -/
def XCert_GenKeyUsageField (b : List Nat) (TBSCertBuf : Nat) (A : XCert_AppCfg) :
    Status × List Nat × Nat :=
  let Curr := TBSCertBuf
  let b := wr b Curr XCERT_ASN1_TAG_SEQUENCE
  let Curr := Curr + 1
  let SequenceLenIdx := Curr
  let Curr := Curr + 1
  let SequenceValIdx := Curr
  match XCert_CreateRawDataFromStr b Curr XCERT_OID_KEY_USAGE_EXTN with
  | (s, b, OidLen) =>
    if s ≠ XST_SUCCESS then (s, b, 0)
    else
      let Curr := Curr + OidLen
      match XCert_CreateBoolean b Curr TRUE with
      | (b, FieldLen) =>
        let Curr := Curr + FieldLen
        let b := wr b Curr XCERT_ASN1_TAG_OCTETSTRING
        let Curr := Curr + 1
        let OctetStrLenIdx := Curr
        let Curr := Curr + 1
        let OctetStrValIdx := Curr
        let KeyUsageVal := List.replicate XCERT_MAX_LEN_OF_KEYUSAGE_VAL 0
        let KeyUsageVal :=
          if A.IsSelfSigned = TRUE then
            XCert_UpdateKeyUsageVal KeyUsageVal XCERT_KEYCERTSIGN
          else
            XCert_UpdateKeyUsageVal
              (XCert_UpdateKeyUsageVal KeyUsageVal XCERT_DIGITALSIGNATURE) XCERT_KEYAGREEMENT
        let KeyUsageValLen :=
          if (KeyUsageVal.getD 1 0 &&& XCERT_BYTE_MASK) = 0 then
            XCERT_MAX_LEN_OF_KEYUSAGE_VAL - 1
          else XCERT_MAX_LEN_OF_KEYUSAGE_VAL
        match XCert_CreateBitString b Curr KeyUsageVal KeyUsageValLen with
        | (b, FieldLen) =>
          let Curr := Curr + FieldLen
          let b := wr b OctetStrLenIdx ((Curr - OctetStrValIdx) % 256)
          let b := wr b SequenceLenIdx ((Curr - SequenceValIdx) % 256)
          (XST_SUCCESS, b, Curr - TBSCertBuf)

/-- `XCert_GenExtKeyUsageField`. -/
def XCert_GenExtKeyUsageField (b : List Nat) (TBSCertBuf : Nat) : Status × List Nat × Nat :=
  let Curr := TBSCertBuf
  let b := wr b Curr XCERT_ASN1_TAG_SEQUENCE
  let Curr := Curr + 1
  let SequenceLenIdx := Curr
  let Curr := Curr + 1
  let SequenceValIdx := Curr
  match XCert_CreateRawDataFromStr b Curr XCERT_OID_EKU_EXTN with
  | (s, b, OidLen) =>
    if s ≠ XST_SUCCESS then (s, b, 0)
    else
      let Curr := Curr + OidLen
      match XCert_CreateBoolean b Curr TRUE with
      | (b, FieldLen) =>
        let Curr := Curr + FieldLen
        let b := wr b Curr XCERT_ASN1_TAG_OCTETSTRING
        let Curr := Curr + 1
        let OctetStrLenIdx := Curr
        let Curr := Curr + 1
        let OctetStrValIdx := Curr
        let b := wr b Curr XCERT_ASN1_TAG_SEQUENCE
        let Curr := Curr + 1
        let EkuSequenceLenIdx := Curr
        let Curr := Curr + 1
        let EkuSequenceValIdx := Curr
        match XCert_CreateRawDataFromStr b Curr XCERT_OID_EKU_CLIENT_AUTH with
        | (s, b, OidLen) =>
          if s ≠ XST_SUCCESS then (s, b, 0)
          else
            let Curr := Curr + OidLen
            let b := wr b EkuSequenceLenIdx ((Curr - EkuSequenceValIdx) % 256)
            let b := wr b OctetStrLenIdx ((Curr - OctetStrValIdx) % 256)
            let b := wr b SequenceLenIdx ((Curr - SequenceValIdx) % 256)
            (XST_SUCCESS, b, Curr - TBSCertBuf)

/-- The end of `XCert_GenX509v3ExtensionsField`, after the last extension: the
back-patch of the length of the SEQUENCE and then of the `[3]` tag, each followed by the
cursor adjustment read from the low nibble of the reserved byte. `Curr` is the cursor
after the last extension. Gives the status, the buffer and `*ExtensionsLen`. -/
def XCert_GenX509v3ExtensionsField_finish (b : List Nat)
    (TBSCertBuf OptionalTagLenIdx OptionalTagValIdx SequenceLenIdx SequenceValIdx Curr : Nat) :
    Status × List Nat × Nat :=
  match XCert_UpdateEncodedLength b SequenceLenIdx (Curr - SequenceValIdx) SequenceValIdx with
  | (s, b) =>
    if s ≠ XST_SUCCESS then (XOCP_ERR_X509_UPDATE_ENCODED_LEN, b, 0)
    else
      let Curr := Curr + (b.getD SequenceLenIdx 0 &&& XCERT_LOWER_NIBBLE_MASK)
      match XCert_UpdateEncodedLength b OptionalTagLenIdx (Curr - OptionalTagValIdx)
          OptionalTagValIdx with
      | (s, b) =>
        if s ≠ XST_SUCCESS then (XOCP_ERR_X509_UPDATE_ENCODED_LEN, b, 0)
        else
          let Curr := Curr + (b.getD OptionalTagLenIdx 0 &&& XCERT_LOWER_NIBBLE_MASK)
          (XST_SUCCESS, b, Curr - TBSCertBuf)

/-- `XCert_GenX509v3ExtensionsField`: status, the calls of external primitives made,
buffer and length. -/
def XCert_GenX509v3ExtensionsField (E : Env) (b : List Nat) (TBSCertBuf : Nat)
    (A : XCert_AppCfg) : Status × List Event × List Nat × Nat :=
  let Curr := TBSCertBuf
  let b := wr b Curr XCERT_OPTIONAL_PARAM_3_TAG
  let Curr := Curr + 1
  let OptionalTagLenIdx := Curr
  let Curr := Curr + 1
  let OptionalTagValIdx := Curr
  let b := wr b Curr XCERT_ASN1_TAG_SEQUENCE
  let Curr := Curr + 1
  let SequenceLenIdx := Curr
  let Curr := Curr + 1
  let SequenceValIdx := Curr
  match XCert_GenSubjectKeyIdentifierField E b Curr A.SubjectPublicKey with
  | (s, t, b, Len) =>
    if s ≠ XST_SUCCESS then (s, t, b, 0)
    else
      let Curr := Curr + Len
      match XCert_GenAuthorityKeyIdentifierField E b Curr A.IssuerPublicKey with
      | (s, t2, b, Len) =>
        let t := t ++ t2
        if s ≠ XST_SUCCESS then (s, t, b, 0)
        else
          let Curr := Curr + Len
          match XCert_GenTcbInfoExtnField b Curr A with
          | (s, b, Len) =>
            if s ≠ XST_SUCCESS then (s, t, b, 0)
            else
              let Curr := Curr + Len
              match (if A.IsSelfSigned = TRUE then XCert_GenUeidExnField E b Curr
                     else (XST_SUCCESS, b, 0)) with
              | (s, b, Len) =>
                if s ≠ XST_SUCCESS then (s, t, b, 0)
                else
                  let Curr := Curr + Len
                  match XCert_GenKeyUsageField b Curr A with
                  | (s, b, Len) =>
                    if s ≠ XST_SUCCESS then (s, t, b, 0)
                    else
                      let Curr := Curr + Len
                      match (if A.IsSelfSigned = TRUE then XCert_GenExtKeyUsageField b Curr
                             else (XST_SUCCESS, b, 0)) with
                      | (s, b, Len) =>
                        if s ≠ XST_SUCCESS then (s, t, b, 0)
                        else
                          let Curr := Curr + Len
                          match XCert_GenX509v3ExtensionsField_finish b TBSCertBuf
                              OptionalTagLenIdx OptionalTagValIdx SequenceLenIdx SequenceValIdx
                              Curr with
                          | (s, b, ExtensionsLen) => (s, t, b, ExtensionsLen)

/-- The part of `XCert_GenTBSCertificate` that follows the extensions: the KAT gate, the
digest of the fields after the serial position, the 22-byte move, the Serial field and
the length of the outer SEQUENCE. `Curr` is the cursor after the extensions. Gives the
status, the KAT bit, the calls of external primitives made, the buffer and
`*TBSCertLen`. -/
def XCert_GenTBSCertificate_finish (E : Env) (KatRan : Bool) (b : List Nat)
    (Start SequenceLenIdx SequenceValIdx SerialStartIdx Curr : Nat) :
    Status × Bool × List Event × List Nat × Nat :=
  match (if KatRan ≠ true then
          (if E.Sha384Kat ≠ XST_SUCCESS then (E.Sha384Kat, KatRan, [Event.Kat])
           else (XST_SUCCESS, true, [Event.Kat]))
         else (XST_SUCCESS, KatRan, [])) with
  | (s, KatRan, t) =>
    if s ≠ XST_SUCCESS then (s, KatRan, t, b, 0)
    else
      let Data := rd b SerialStartIdx (Curr - SerialStartIdx)
      let t := t ++ [Event.Digest Data]
      match XSecure_Sha384Digest E Data with
      | (s, Hash) =>
        if s ≠ XST_SUCCESS then (s, KatRan, t, b, 0)
        else
          match Xil_SMemMove b (SerialStartIdx + XCERT_SERIAL_FIELD_LEN) (Curr - SerialStartIdx)
              SerialStartIdx (Curr - SerialStartIdx) (Curr - SerialStartIdx) with
          | (s, b) =>
            if s ≠ XST_SUCCESS then (s, KatRan, t, b, 0)
            else
              match XCert_GenSerialField b SerialStartIdx Hash with
              | (b, _) =>
                let Curr := Curr + XCERT_SERIAL_FIELD_LEN
                match XCert_UpdateEncodedLength b SequenceLenIdx (Curr - SequenceValIdx)
                    SequenceValIdx with
                | (s, b) =>
                  if s ≠ XST_SUCCESS then (XOCP_ERR_X509_UPDATE_ENCODED_LEN, KatRan, t, b, 0)
                  else
                    let Curr := Curr + (b.getD SequenceLenIdx 0 &&& XCERT_LOWER_NIBBLE_MASK)
                    (XST_SUCCESS, KatRan, t, b, Curr - Start)

/-- `XCert_GenTBSCertificate`: status, KAT bit, the calls of external primitives made,
buffer and `*TBSCertLen` (0, the caller's initial value, when the function leaves
early). `U` is the user configuration that `Cfg->UserCfg` points to. -/
def XCert_GenTBSCertificate (E : Env) (Z : Build) (KatRan : Bool)
    (b : List Nat) (TBSCertBuf : Nat) (U : XCert_UserCfg) (A : XCert_AppCfg) :
    Status × Bool × List Event × List Nat × Nat :=
  let Start := TBSCertBuf
  let Curr := Start
  let b := wr b Curr XCERT_ASN1_TAG_SEQUENCE
  let Curr := Curr + 1
  let SequenceLenIdx := Curr
  let Curr := Curr + 1
  let SequenceValIdx := Curr
  match XCert_GenVersionField b Curr with
  | (b, Len) =>
    let Curr := Curr + Len
    let SerialStartIdx := Curr
    match XCert_GenSignAlgoField b Curr with
    | (s, b, Len) =>
      if s ≠ XST_SUCCESS then (XOCP_ERR_X509_GEN_TBSCERT_SIGN_ALGO_FIELD, KatRan, [], b, 0)
      else
        let Curr := Curr + Len
        match XCert_GenIssuerField b Curr U.Issuer U.IssuerLen with
        | (b, Len) =>
          let Curr := Curr + Len
          match XCert_GenValidityField b Curr U.Validity U.ValidityLen with
          | (b, Len) =>
            let Curr := Curr + Len
            match XCert_GenSubjectField b Curr U.Subject U.SubjectLen with
            | (b, Len) =>
              let Curr := Curr + Len
              if Z.PLM_ECDSA_EXCLUDE then (XOCP_ECDSA_NOT_ENABLED_ERR, KatRan, [], b, 0)
              else
                match XCert_GenPublicKeyInfoField b Curr A.SubjectPublicKey with
                | (s, b, Len) =>
                  if s ≠ XST_SUCCESS then
                    (XOCP_ERR_X509_GEN_TBSCERT_PUB_KEY_INFO_FIELD, KatRan, [], b, 0)
                  else
                    let Curr := Curr + Len
                    match XCert_GenX509v3ExtensionsField E b Curr A with
                    | (s, t, b, Len) =>
                      if s ≠ XST_SUCCESS then (s, KatRan, t, b, 0)
                      else
                        let Curr := Curr + Len
                        match XCert_GenTBSCertificate_finish E KatRan b Start SequenceLenIdx
                            SequenceValIdx SerialStartIdx Curr with
                        | (s, KatRan, t2, b, TBSCertLen) => (s, KatRan, t ++ t2, b, TBSCertLen)

/-- `XCert_GenSignField`. -/
def XCert_GenSignField (b : List Nat) (X509CertBuf : Nat) (Signature : List Nat) :
    List Nat × Nat :=
  let Curr := X509CertBuf
  let b := wr b Curr XCERT_ASN1_TAG_BITSTRING
  let Curr := Curr + 1
  let BitStrLenIdx := Curr
  let Curr := Curr + 1
  let BitStrValIdx := Curr
  let Curr := Curr + 1
  let b := wr b BitStrValIdx 0x00
  let b := wr b Curr XCERT_ASN1_TAG_SEQUENCE
  let Curr := Curr + 1
  let SequenceLenIdx := Curr
  let Curr := Curr + 1
  let SequenceValIdx := Curr
  match XCert_CreateInteger b Curr Signature XSECURE_ECC_P384_SIZE_IN_BYTES with
  | (b, Len) =>
    let Curr := Curr + Len
    match XCert_CreateInteger b Curr (Signature.drop XSECURE_ECC_P384_SIZE_IN_BYTES)
        XSECURE_ECC_P384_SIZE_IN_BYTES with
    | (b, Len) =>
      let Curr := Curr + Len
      let b := wr b SequenceLenIdx ((Curr - SequenceValIdx) % 256)
      let b := wr b BitStrLenIdx ((Curr - BitStrValIdx) % 256)
      (b, Curr - X509CertBuf)

/-- `XCert_GetData`: the bytes `Src[0 .. Size)` go to `DstAddr`, one `XSecure_OutByte64`
each. -/
def XCert_GetData (Size : Nat) (Src : List Nat) (DstAddr : Nat) : List Event :=
  (List.range Size).map (fun Index => Event.OutByte64 (DstAddr + Index) (Src.getD Index 0))

/-! ## The certificate generator -/

/-- Replace the signing record of slot `Idx`. -/
def setSignStore (Z : Build) (st : CertStore) (Idx : Nat) (S : XCert_SignStore) : CertStore :=
  setSlot st Idx { slot Z st Idx with SignStore := S }

/-- The signing step of `XCert_GenerateX509Cert` (from `XCert_GetSignStored` to the end
of the re-signing branch): status, store, trace and the local array `Sign` that is
handed to `XCert_GenSignField`. `HashTmp` is the digest of the TBS certificate. -/
def XCert_GenerateX509Cert_sign (E : Env) (Z : Build) (st : CertStore) (t : List Event)
    (SubSystemId : Nat) (HashTmp IssuerPrvtKey : List Nat) :
    Status × CertStore × List Event × List Nat :=
  let Sign := List.replicate (XSECURE_ECC_P384_SIZE_IN_BYTES * 2) 0
  match XCert_GetSignStored Z st SubSystemId with
  | (s, p) =>
    if s ≠ XST_SUCCESS then (XOCP_ERR_X509_GET_SIGN, st, t, Sign)
    else
      let Idx := p.getD 0
      let SignStore := (slot Z st Idx).SignStore
      let HashCmpStatus :=
        if SignStore.IsSignAvailable = XCERT_SIGN_AVAILABLE then
          Xil_SMemCmp HashTmp XCERT_HASH_SIZE_IN_BYTES SignStore.Hash XCERT_HASH_SIZE_IN_BYTES
            XCERT_HASH_SIZE_IN_BYTES
        else XST_FAILURE
      match (if SignStore.IsSignAvailable = XCERT_SIGN_AVAILABLE ∧ HashCmpStatus = XST_SUCCESS then
              Xil_SMemCpy Sign (XSECURE_ECC_P384_SIZE_IN_BYTES * 2) SignStore.Sign
                (XSECURE_ECC_P384_SIZE_IN_BYTES * 2) (XSECURE_ECC_P384_SIZE_IN_BYTES * 2)
             else (XST_SUCCESS, Sign)) with
      | (s, Sign) =>
        if s ≠ XST_SUCCESS then (s, st, t, Sign)
        else if SignStore.IsSignAvailable ≠ XCERT_SIGN_AVAILABLE ∨ HashCmpStatus ≠ XST_SUCCESS then
          let Hash := XSecure_FixEndiannessNCopy XSECURE_ECC_P384_SIZE_IN_BYTES
            (List.replicate XCERT_HASH_SIZE_IN_BYTES 0) HashTmp
          match XSecure_EllipticGenEphemeralNSign E (signCalls t) Hash IssuerPrvtKey with
          | (s, SignTmp) =>
            let t := t ++ [Event.Sign Hash IssuerPrvtKey]
            if s ≠ XST_SUCCESS then (XOCP_ERR_X509_CALC_SIGN, st, t, Sign)
            else
              let Sign := XSecure_FixEndiannessNCopy XSECURE_ECC_P384_SIZE_IN_BYTES Sign SignTmp
              let Sign := Sign.take XSECURE_ECC_P384_SIZE_IN_BYTES ++
                XSecure_FixEndiannessNCopy XSECURE_ECC_P384_SIZE_IN_BYTES
                  (Sign.drop XSECURE_ECC_P384_SIZE_IN_BYTES)
                  (SignTmp.drop XSECURE_ECC_P384_SIZE_IN_BYTES)
              match Xil_SMemCpy SignStore.Hash XCERT_HASH_SIZE_IN_BYTES HashTmp
                  XCERT_HASH_SIZE_IN_BYTES XCERT_HASH_SIZE_IN_BYTES with
              | (s, NewHash) =>
                let st := setSignStore Z st Idx { SignStore with Hash := NewHash }
                if s ≠ XST_SUCCESS then (s, st, t, Sign)
                else
                  match Xil_SMemCpy SignStore.Sign (XSECURE_ECC_P384_SIZE_IN_BYTES * 2) Sign
                      (XSECURE_ECC_P384_SIZE_IN_BYTES * 2)
                      (XSECURE_ECC_P384_SIZE_IN_BYTES * 2) with
                  | (s, NewSign) =>
                    let st := setSignStore Z st Idx
                      { Hash := NewHash, Sign := NewSign,
                        IsSignAvailable := SignStore.IsSignAvailable }
                    if s ≠ XST_SUCCESS then (s, st, t, Sign)
                    else
                      (XST_SUCCESS,
                        setSignStore Z st Idx
                          { Hash := NewHash, Sign := NewSign,
                            IsSignAvailable := XCERT_SIGN_AVAILABLE },
                        t, Sign)
        else (XST_SUCCESS, st, t, Sign)

/-- What a call of `XCert_GenerateX509Cert` leaves behind: the returned status, the
machine state, `*X509CertSize` when it was written, and the content of two local arrays
when the function returns: `HashTmp`, the digest of the TBS certificate, and `Sign`, the
signature handed to `XCert_GenSignField`. -/
structure GenResult where
  Ret : Status
  M : Machine
  X509CertSize : Option Nat
  HashTmp : List Nat
  Sign : List Nat
  deriving DecidableEq, Repr

/-- `XCert_GenerateX509Cert`. `X509CertBuf` is the content the uninitialised local array
of 1024 bytes happens to have when the function is entered; `SubSystemId` and `A` are
`Cfg->SubSystemId` and `Cfg->AppCfg`. -/
def XCert_GenerateX509Cert (E : Env) (Z : Build) (m : Machine) (X509CertBuf : List Nat)
    (X509CertAddr MaxCertSize SubSystemId : Nat) (A : XCert_AppCfg) : GenResult :=
  let _unused := MaxCertSize
  let Sign0 := List.replicate (XSECURE_ECC_P384_SIZE_IN_BYTES * 2) 0
  let HashTmp0 := List.replicate XCERT_HASH_SIZE_IN_BYTES 0
  let Start := 0
  let Curr := Start
  let b := wr X509CertBuf Curr XCERT_ASN1_TAG_SEQUENCE
  let Curr := Curr + 1
  let SequenceLenIdx := Curr
  let Curr := Curr + 1
  let SequenceValIdx := Curr
  match XCert_GetUserCfg Z m.Store SubSystemId with
  | (s, p) =>
    if s ≠ XST_SUCCESS then { Ret := s, M := m, X509CertSize := none, HashTmp := HashTmp0, Sign := Sign0 }
    else
      let U := (slot Z m.Store (p.getD 0)).UserCfg
      let TbsCertStart := Curr
      match XCert_GenTBSCertificate E Z m.KatRan b Curr U A with
      | (s, KatRan, t, b, TBSCertLen) =>
        let t := m.Trace ++ t
        if s ≠ XST_SUCCESS then
          { Ret := s, M := { Store := m.Store, KatRan := KatRan, Trace := t },
            X509CertSize := none, HashTmp := HashTmp0, Sign := Sign0 }
        else
          let Curr := Curr + TBSCertLen
          match XCert_GenSignAlgoField b Curr with
          | (s, b, SignAlgoLen) =>
            if s ≠ XST_SUCCESS then
              { Ret := XOCP_ERR_X509_GEN_SIGN_ALGO_FIELD,
                M := { Store := m.Store, KatRan := KatRan, Trace := t },
                X509CertSize := none, HashTmp := HashTmp0, Sign := Sign0 }
            else
              let Curr := Curr + SignAlgoLen
              let Data := rd b TbsCertStart TBSCertLen
              let t := t ++ [Event.Digest Data]
              match XSecure_Sha384Digest E Data with
              | (s, HashTmp) =>
                if s ≠ XST_SUCCESS then
                  { Ret := XOCP_ERR_X509_GEN_TBSCERT_DIGEST,
                    M := { Store := m.Store, KatRan := KatRan, Trace := t },
                    X509CertSize := none, HashTmp := HashTmp, Sign := Sign0 }
                else if Z.PLM_ECDSA_EXCLUDE then
                  { Ret := XOCP_ECDSA_NOT_ENABLED_ERR,
                    M := { Store := m.Store, KatRan := KatRan, Trace := t },
                    X509CertSize := none, HashTmp := HashTmp, Sign := Sign0 }
                else
                  match XCert_GenerateX509Cert_sign E Z m.Store t SubSystemId HashTmp
                      A.IssuerPrvtKey with
                  | (s, st, t, Sign) =>
                    if s ≠ XST_SUCCESS then
                      { Ret := s, M := { Store := st, KatRan := KatRan, Trace := t },
                        X509CertSize := none, HashTmp := HashTmp, Sign := Sign }
                    else
                      match XCert_GenSignField b Curr Sign with
                      | (b, SignLen) =>
                        let Curr := Curr + SignLen
                        match XCert_UpdateEncodedLength b SequenceLenIdx
                            (Curr - SequenceValIdx) SequenceValIdx with
                        | (s, b) =>
                          if s ≠ XST_SUCCESS then
                            { Ret := XOCP_ERR_X509_UPDATE_ENCODED_LEN,
                              M := { Store := st, KatRan := KatRan, Trace := t },
                              X509CertSize := none, HashTmp := HashTmp, Sign := Sign }
                          else
                            let Curr :=
                              Curr + (b.getD SequenceLenIdx 0 &&& XCERT_LOWER_NIBBLE_MASK)
                            let Size := Curr - Start
                            { Ret := XST_SUCCESS,
                              M := { Store := st, KatRan := KatRan,
                                     Trace := t ++ XCert_GetData Size b X509CertAddr },
                              X509CertSize := some Size, HashTmp := HashTmp, Sign := Sign }

/-! ## Statement vocabulary -/

/-- The array of the field of kind `FieldType` in a user configuration. -/
def fieldVal (U : XCert_UserCfg) (FieldType : Nat) : List Nat :=
  if FieldType = XCERT_ISSUER then U.Issuer
  else if FieldType = XCERT_SUBJECT then U.Subject
  else U.Validity

/-- The stored length of the field of kind `FieldType` in a user configuration. -/
def fieldLen (U : XCert_UserCfg) (FieldType : Nat) : Nat :=
  if FieldType = XCERT_ISSUER then U.IssuerLen
  else if FieldType = XCERT_SUBJECT then U.SubjectLen
  else U.ValidityLen

/-- The per-field maximum of the field kind `FieldType`. -/
def fieldMax (Z : Build) (FieldType : Nat) : Nat :=
  if FieldType = XCERT_ISSUER then Z.XCERT_ISSUER_MAX_SIZE
  else if FieldType = XCERT_SUBJECT then Z.XCERT_SUBJECT_MAX_SIZE
  else Z.XCERT_VALIDITY_MAX_SIZE

/-- No byte of `Buffer[0 .. Len)` is non-zero. -/
def allZero (Buffer : List Nat) (Len : Nat) : Prop :=
  ∀ i, i < Len → Buffer.getD i 0 = 0

instance (Buffer : List Nat) (Len : Nat) : Decidable (allZero Buffer Len) := by
  unfold allZero
  infer_instance

/-! ## Concrete inputs -/

/-- A build with four-byte fields and ECDSA support. -/
def buildW : Build :=
  { XCERT_ISSUER_MAX_SIZE := 4
    XCERT_SUBJECT_MAX_SIZE := 4
    XCERT_VALIDITY_MAX_SIZE := 4
    PLM_ECDSA_EXCLUDE := false }

/-- A zeroed slot of `buildW` carrying the subsystem identifier `Id`. -/
def slotW (Id : Nat) : XCert_InfoStore :=
  { zeroInfoStore buildW with SubsystemId := Id }

/-- A store of `buildW` whose four slots are in use by the subsystems 1, 2, 3 and 4. -/
def storeFullW : CertStore :=
  { CertDB := [slotW 1, slotW 2, slotW 3, slotW 4]
    NumOfEntriesInUserCfgDB := 4 }

/-- A store of `buildW` with two slots in use, by the subsystems 1 and 2. -/
def storeTwoW : CertStore :=
  { CertDB := [slotW 1, slotW 2, slotW 0, slotW 0]
    NumOfEntriesInUserCfgDB := 2 }

/-- A slot of `buildW` for subsystem 7 whose three fields are configured. -/
def slotCfgW : XCert_InfoStore :=
  { SubsystemId := 7
    UserCfg :=
      { Issuer := [0x30, 0x00, 0, 0]
        IssuerLen := 2
        Subject := [0x30, 0x01, 0x05, 0]
        SubjectLen := 3
        Validity := [0x30, 0x00, 0, 0]
        ValidityLen := 2 }
    SignStore := (zeroInfoStore buildW).SignStore }

/-- A store of `buildW` with one configured subsystem, 7, in slot 1. -/
def storeCfgW : CertStore :=
  { CertDB := [slotW 1, slotCfgW, slotW 0, slotW 0]
    NumOfEntriesInUserCfgDB := 2 }

/-- The arguments of one call of `XCert_StoreCertUserInput`. -/
structure StoreCall where
  SubSystemId : Nat
  FieldType : Nat
  Val : List Nat
  Len : Nat
  deriving DecidableEq, Repr

/-- The call of `XCert_StoreCertUserInput` with the arguments `c`. -/
def storeCall (Z : Build) (st : CertStore) (c : StoreCall) : Status × CertStore :=
  XCert_StoreCertUserInput Z st c.SubSystemId c.FieldType c.Val c.Len

/-- The store after the calls `cs`, made in order, when every one of them returned
`XST_SUCCESS`; none when one of them failed. -/
def storeAll (Z : Build) (st : CertStore) (cs : List StoreCall) : Option CertStore :=
  cs.foldl
    (fun o c => o.bind (fun s =>
      if (storeCall Z s c).1 = XST_SUCCESS then some (storeCall Z s c).2 else none))
    (some st)

/-- The most recent call of the sequence `cs` that stores the field of kind `FieldType`
of the subsystem `SubSystemId`. -/
def lastStored (cs : List StoreCall) (SubSystemId FieldType : Nat) : Option StoreCall :=
  cs.reverse.find? (fun c => decide (c.SubSystemId = SubSystemId ∧ c.FieldType = FieldType))

/-- Four store calls for subsystem 7 on `buildW`: Issuer, a three-byte Subject,
Validity, and then a one-byte Subject over the longer one. -/
def callsW : List StoreCall :=
  [ { SubSystemId := 7, FieldType := XCERT_ISSUER, Val := [0x30, 0x00], Len := 2 },
    { SubSystemId := 7, FieldType := XCERT_SUBJECT, Val := [0x30, 0x01, 0x05], Len := 3 },
    { SubSystemId := 7, FieldType := XCERT_VALIDITY, Val := [0x30, 0x00], Len := 2 },
    { SubSystemId := 7, FieldType := XCERT_SUBJECT, Val := [0x31], Len := 1 } ]

/-- The store that the calls `callsW` leave when they start from the empty store. -/
def storeAfterCallsW : CertStore :=
  { CertDB :=
      [ { SubsystemId := 7
          UserCfg :=
            { Issuer := [0x30, 0x00, 0, 0]
              IssuerLen := 2
              Subject := [0x31, 0x01, 0x05, 0]
              SubjectLen := 1
              Validity := [0x30, 0x00, 0, 0]
              ValidityLen := 2 }
          SignStore := (zeroInfoStore buildW).SignStore },
        zeroInfoStore buildW, zeroInfoStore buildW, zeroInfoStore buildW ]
    NumOfEntriesInUserCfgDB := 1 }

/-- One call of an entry point of the file, with its arguments. For a generation call
`X509CertBuf` is the content the local array has on entry. -/
inductive Call where
  | store (c : StoreCall)
  | generate (X509CertBuf : List Nat) (X509CertAddr MaxCertSize SubSystemId : Nat)
      (A : XCert_AppCfg)
  deriving DecidableEq, Repr

/-- The machine state after one call. -/
def step (E : Env) (Z : Build) (m : Machine) : Call → Machine
  | Call.store c => { m with Store := (storeCall Z m.Store c).2 }
  | Call.generate X509CertBuf X509CertAddr MaxCertSize SubSystemId A =>
    (XCert_GenerateX509Cert E Z m X509CertBuf X509CertAddr MaxCertSize SubSystemId A).M

/-- The machine state after a sequence of calls. -/
def run (E : Env) (Z : Build) (m : Machine) (cs : List Call) : Machine :=
  cs.foldl (step E Z) m

/-- Two stores that differ at most in signing records: same counter, same number of
slots, and in every slot the same identifier and user configuration. -/
def sameCfg (Z : Build) (st st2 : CertStore) : Prop :=
  st2.NumOfEntriesInUserCfgDB = st.NumOfEntriesInUserCfgDB ∧
  st2.CertDB.length = st.CertDB.length ∧
  ∀ i, (slot Z st2 i).SubsystemId = (slot Z st i).SubsystemId ∧
    (slot Z st2 i).UserCfg = (slot Z st i).UserCfg

/-- A stretch of trace that holds digest and KAT calls only. -/
def quiet (ev : List Event) : Prop :=
  ∀ e ∈ ev, (∃ d, e = Event.Digest d) ∨ e = Event.Kat

/-! ## Encoded bytes

The byte strings that the DER helpers and the field generators leave in the buffer,
written as plain lists. They are compared with the buffer-writing functions above. -/

/-- Whether an INTEGER value needs the 0x00 pad: bit 7 of its first byte is set. -/
def needsPad (v : List Nat) : Bool :=
  decide ((v.getD 0 0 &&& XCERT_BIT7_MASK) = XCERT_BIT7_MASK)

/-- The bytes of an INTEGER field with the `n` value bytes `v[0 .. n)`. -/
def integerBytes (v : List Nat) (n : Nat) : List Nat :=
  if needsPad v then 0x02 :: ((n + 1) % 256) :: 0x00 :: fit n v
  else 0x02 :: (n % 256) :: fit n v

/-- The bytes of an OCTET STRING field with the `n` value bytes `v[0 .. n)`. -/
def octetStringBytes (v : List Nat) (n : Nat) : List Nat :=
  0x04 :: (n % 256) :: fit n v

/-- The bytes of a BIT STRING field with the `n` value bytes `v[0 .. n)`. -/
def bitStringBytes (v : List Nat) (n : Nat) : List Nat :=
  0x03 :: ((n + 1) % 256) :: 0x00 :: fit n v

/-- The bytes of the signature algorithm field: SEQUENCE { OID ecdsa-with-SHA384,
NULL }. -/
def signAlgoBytes : List Nat :=
  [0x30, 0x0C, 0x06, 0x08, 0x2A, 0x86, 0x48, 0xCE, 0x3D, 0x04, 0x03, 0x03, 0x05, 0x00]

/-- The bytes of the Version field as the code writes it: INTEGER 2. -/
def versionBytes : List Nat := [0x02, 0x01, 0x02]

/-- The bytes of the public key algorithm identifier: SEQUENCE { OID ecPublicKey,
OID secp384r1 }. -/
def pubKeyAlgIdentifierBytes : List Nat :=
  [0x30, 0x10, 0x06, 0x07, 0x2A, 0x86, 0x48, 0xCE, 0x3D, 0x02, 0x01,
    0x06, 0x05, 0x2B, 0x81, 0x04, 0x00, 0x22]

/-- The bytes of the Subject Public Key Info field for the 96-byte key `key[0 .. 96)`. -/
def publicKeyInfoBytes (key : List Nat) : List Nat :=
  [0x30, 0x75] ++ pubKeyAlgIdentifierBytes ++ [0x03, 0x61, 0x00] ++ fit 96 key

/-- The bytes of the Subject Key Identifier extension for the digest `h` of the subject
public key. -/
def subjectKeyIdentifierBytes (h : List Nat) : List Nat :=
  [0x30, 0x1D, 0x06, 0x03, 0x55, 0x1D, 0x0E, 0x04, 0x16, 0x04, 0x14] ++ fit 20 h

/-- The bytes of the Authority Key Identifier extension for the digest `h` of the issuer
public key. -/
def authorityKeyIdentifierBytes (h : List Nat) : List Nat :=
  [0x30, 0x1F, 0x06, 0x03, 0x55, 0x1D, 0x23, 0x04, 0x18, 0x30, 0x16, 0x80, 0x14] ++ fit 20 h

/-- The bytes of the TCB Info extension for the firmware hash `fw[0 .. 48)`. -/
def tcbInfoExtnBytes (fw : List Nat) : List Nat :=
  [0x30, 0x4D, 0x06, 0x06, 0x67, 0x81, 0x05, 0x05, 0x04, 0x01, 0x04, 0x43, 0x30, 0x41,
    0xA6, 0x3F, 0x30, 0x3D, 0x06, 0x09, 0x60, 0x86, 0x48, 0x01, 0x65, 0x03, 0x04, 0x02,
    0x09, 0x04, 0x30] ++ fit 48 fw

/-- The 16 bytes of the device DNA as `XCert_GenUeidExnField` reads them. -/
def dnaBytes (E : Env) : List Nat :=
  (((List.range XCERT_DNA_LEN_IN_WORDS).map
    (fun Offset => E.In32 (XCERT_DNA_0_ADDRESS + Offset * XCERT_WORD_LEN))).map
      wordBytes).flatten

/-- The bytes of the UEID extension for the 16 DNA bytes. -/
def ueidExnBytes (dna : List Nat) : List Nat :=
  [0x30, 0x1E, 0x06, 0x06, 0x67, 0x81, 0x05, 0x05, 0x04, 0x04, 0x04, 0x14, 0x30, 0x12,
    0x04, 0x10] ++ fit 16 dna

/-- The bytes of the Key Usage extension. -/
def keyUsageBytes (IsSelfSigned : Nat) : List Nat :=
  [0x30, 0x0E, 0x06, 0x03, 0x55, 0x1D, 0x0F, 0x01, 0x01, 0xFF, 0x04, 0x04, 0x03, 0x02, 0x00,
    if IsSelfSigned = TRUE then 0x04 else 0x88]

/-- The bytes of the Extended Key Usage extension. -/
def extKeyUsageBytes : List Nat :=
  [0x30, 0x16, 0x06, 0x03, 0x55, 0x1D, 0x25, 0x01, 0x01, 0xFF, 0x04, 0x0C, 0x30, 0x0A,
    0x06, 0x08, 0x2B, 0x06, 0x01, 0x05, 0x05, 0x07, 0x03, 0x02]

/-- The content of the Extensions SEQUENCE: the extensions in the order the code writes
them. `hs` and `hi` are the digests of the subject and of the issuer public key. -/
def extensionListBytes (E : Env) (A : XCert_AppCfg) (hs hi : List Nat) : List Nat :=
  subjectKeyIdentifierBytes hs ++ (authorityKeyIdentifierBytes hi ++
    (tcbInfoExtnBytes A.FwHash ++
      ((if A.IsSelfSigned = TRUE then ueidExnBytes (dnaBytes E) else []) ++
        (keyUsageBytes A.IsSelfSigned ++
          (if A.IsSelfSigned = TRUE then extKeyUsageBytes else [])))))

/-- The bytes of the Extensions field: `[3]` around a SEQUENCE, both with a length in
the one-byte long form. -/
def extensionsBytes (E : Env) (A : XCert_AppCfg) (hs hi : List Nat) : List Nat :=
  0xA3 :: 0x81 :: ((extensionListBytes E A hs hi).length + 3) ::
    0x30 :: 0x81 :: (extensionListBytes E A hs hi).length :: extensionListBytes E A hs hi

/-- The number of digest bytes that `XCert_GenSerialField` copies into the serial
value: 19 when the pad is needed, 20 otherwise. -/
def serialCopyLen (DataHash : List Nat) : Nat :=
  if (DataHash.getD 0 0 &&& XCERT_BIT7_MASK) = XCERT_BIT7_MASK then
    XCERT_LEN_OF_VALUE_OF_SERIAL - 1
  else XCERT_LEN_OF_VALUE_OF_SERIAL

/-- The bytes of the Serial field for the digest `DataHash`. -/
def serialFieldBytes (DataHash : List Nat) : List Nat :=
  integerBytes
    (XSecure_MemCpy (List.replicate XCERT_LEN_OF_VALUE_OF_SERIAL 0) DataHash
      (serialCopyLen DataHash))
    (serialCopyLen DataHash)

/-- The bytes of the TBS certificate that follow the serial position: signature
algorithm, Issuer, Validity, Subject, public key info and extensions. `hs` and `hi` are
the digests of the subject and of the issuer public key. -/
def tbsBodyBytes (E : Env) (U : XCert_UserCfg) (A : XCert_AppCfg) (hs hi : List Nat) :
    List Nat :=
  signAlgoBytes ++ (fit U.IssuerLen U.Issuer ++ (fit U.ValidityLen U.Validity ++
    (fit U.SubjectLen U.Subject ++ (publicKeyInfoBytes A.SubjectPublicKey ++
      extensionsBytes E A hs hi))))

/-- The bytes of a TBS certificate with the body `body` and the digest `h` of that body:
SEQUENCE with a two-byte long-form length around Version, Serial and the body. -/
def tbsBytes (body h : List Nat) : List Nat :=
  0x30 :: 0x82 :: ((body.length + 25) / 256) :: ((body.length + 25) % 256) ::
    0x02 :: 0x01 :: 0x02 :: (serialFieldBytes h ++ body)

/-! ## Signature and certificate bytes -/

/-- The content of the local array `Sign` after the two `XSecure_FixEndiannessNCopy`
calls of the re-signing branch: each 48-byte half of the output of the signing primitive,
byte-reversed. -/
def signFromTmp (SignTmp : List Nat) : List Nat :=
  (fit 48 SignTmp).reverse ++ (fit 48 (SignTmp.drop 48)).reverse

/-- The hash handed to the signing primitive: the 48 digest bytes, byte-reversed. -/
def hashForSign (HashTmp : List Nat) : List Nat := (fit 48 HashTmp).reverse

/-- The bytes of the signature field for the 96-byte signature `Sign`: BIT STRING with
zero unused bits around SEQUENCE { INTEGER r, INTEGER s }. -/
def signFieldBytes (Sign : List Nat) : List Nat :=
  0x03 :: (((integerBytes Sign 48).length +
      (integerBytes (Sign.drop 48) 48).length + 3) % 256) :: 0x00 ::
    0x30 :: (((integerBytes Sign 48).length +
      (integerBytes (Sign.drop 48) 48).length) % 256) ::
    (integerBytes Sign 48 ++ integerBytes (Sign.drop 48) 48)

/-- The content of the outer SEQUENCE of a certificate: TBS certificate, signature
algorithm and signature field. -/
def certContentBytes (tbs Sign : List Nat) : List Nat :=
  tbs ++ (signAlgoBytes ++ signFieldBytes Sign)

/-- The bytes of a certificate: SEQUENCE with a two-byte long-form length around the
content. -/
def certBytes (tbs Sign : List Nat) : List Nat :=
  0x30 :: 0x82 :: ((certContentBytes tbs Sign).length / 256) ::
    ((certContentBytes tbs Sign).length % 256) :: certContentBytes tbs Sign

/-- The destination writes that send the bytes `cert` to the address `Addr`. -/
def certOut (Addr : Nat) (cert : List Nat) : List (Nat × Nat) :=
  (List.range cert.length).map (fun Index => (Addr + Index, cert.getD Index 0))

/-! ## Vocabulary of the store invariant -/

/-- The identifiers of the slots in use, `CertDB[0 .. NumOfEntriesInUserCfgDB)`, are
pairwise distinct. -/
def idsDistinct (Z : Build) (st : CertStore) : Prop :=
  ∀ i j, i < j → j < st.NumOfEntriesInUserCfgDB →
    (slot Z st i).SubsystemId ≠ (slot Z st j).SubsystemId

/-! ## Inputs of the generator examples -/

/-- External primitives for the worked examples: a digest that depends on the length of
its input, a signing primitive whose output changes with every call, a passing KAT. -/
def envW : Env :=
  { Sha384Digest := fun d => (XST_SUCCESS, List.replicate 48 (d.length % 256))
    Sha384Kat := XST_SUCCESS
    EllipticGenEphemeralNSign := fun n h _ =>
      (XST_SUCCESS, List.replicate 96 (n + 129 + h.length))
    In32 := fun a => a % 256 }

/-- An application configuration for the worked examples: a self-signed certificate. -/
def appW : XCert_AppCfg :=
  { IsSelfSigned := 1
    SubjectPublicKey := List.replicate 96 7
    IssuerPrvtKey := List.replicate 48 9
    IssuerPublicKey := List.replicate 96 5
    FwHash := List.replicate 48 3 }

/-- The machine of the worked examples before any generation call: the store `storeCfgW`,
no KAT run yet, an empty trace. -/
def machineW : Machine :=
  { Store := storeCfgW, KatRan := false, Trace := [] }

/-- A content of the 1024-byte local array on entry. -/
def bufW : List Nat := List.replicate 1024 0xEE

/-- Another content of the 1024-byte local array on entry. -/
def bufW2 : List Nat := List.replicate 1024 0x55

/-- The machine that one generation call for subsystem 7 leaves when it starts from
`machineW`: the slot of the subsystem holds the digest and the signature of its
certificate. -/
def machineCachedW : Machine :=
  (XCert_GenerateX509Cert envW buildW machineW bufW 4096 1024 7 appW).M

/-- A store call for the worked examples: a new two-byte Subject for subsystem 7. -/
def subjectCallW : StoreCall :=
  { SubSystemId := 7, FieldType := XCERT_SUBJECT, Val := [0x31, 0x02], Len := 2 }

/-- A machine whose slot of subsystem 7 holds, with `IsSignAvailable` unset, the very
digest that `envW` gives for the TBS certificate of `appW`, next to a signature that
no signing run produced. -/
def machineStaleW : Machine :=
  { Store :=
      { CertDB :=
          [ slotW 1,
            { slotCfgW with
              SignStore :=
                { Hash := List.replicate 48 134
                  Sign := List.replicate 96 0xAB
                  IsSignAvailable := 0 } },
            slotW 0, slotW 0 ]
        NumOfEntriesInUserCfgDB := 2 }
    KatRan := false
    Trace := [] }

/-- External primitives for a worked example of a late failure: as `envW`, with a signing
primitive that fails. -/
def envSignFailW : Env :=
  { envW with EllipticGenEphemeralNSign := fun _ _ _ => (XST_FAILURE, []) }

/-! ## Well-formed DER -/

/-- The DER length octets at the head of a byte string: the length they encode and the
bytes after them. The short form, and the long forms `81 nn` and `82 hh ll`, each only
for a length that needs it; every other head is refused. -/
def derLen : List Nat → Option (Nat × List Nat)
  | [] => none
  | l :: rest =>
    if l < 0x80 then some (l, rest)
    else if l = 0x81 then
      match rest with
      | n :: rest => if 0x80 ≤ n ∧ n < 0x100 then some (n, rest) else none
      | [] => none
    else if l = 0x82 then
      match rest with
      | hi :: lo :: rest =>
        if 0 < hi ∧ hi < 0x100 ∧ lo < 0x100 then some (hi * 256 + lo, rest) else none
      | _ => none
    else none

/-- Whether a byte string is a concatenation of well-formed TLVs: each has a tag byte and
length octets whose length lies within the bytes that follow, and the content of a
constructed one (bit 5 of the tag set) is again such a concatenation. `fuel` bounds the
number of tag bytes read; the length of the byte string is enough. -/
def derSeq : Nat → List Nat → Bool
  | _, [] => true
  | 0, _ :: _ => false
  | fuel + 1, t :: rest =>
    match derLen rest with
    | none => false
    | some (n, after) =>
      decide (n ≤ after.length) &&
        ((if t &&& 0x20 = 0x20 then derSeq fuel (after.take n) else true) &&
          derSeq fuel (after.drop n))

/-- Whether a byte string is exactly one well-formed TLV: its length octets account for
all the bytes that follow them, and when it is constructed its content is a concatenation
of well-formed TLVs. -/
def derOne (bs : List Nat) : Bool :=
  match bs with
  | [] => false
  | t :: rest =>
    match derLen rest with
    | none => false
    | some (n, content) =>
      decide (n = content.length) &&
        (if t &&& 0x20 = 0x20 then derSeq content.length content else true)

/-- A byte string that `derSeq` accepts with every fuel from its length on. -/
def GoodSeq (bs : List Nat) : Prop :=
  ∀ fuel, bs.length ≤ fuel → derSeq fuel bs = true

/-- A machine whose slot of subsystem 7 holds three fields that are each one DER element:
the Issuer `30 00`, the Subject `30 02 05 00` and the Validity `30 00`. -/
def machineDerW : Machine :=
  { Store :=
      { CertDB :=
          [ slotW 1,
            { SubsystemId := 7
              UserCfg :=
                { Issuer := [0x30, 0x00, 0, 0]
                  IssuerLen := 2
                  Subject := [0x30, 0x02, 0x05, 0x00]
                  SubjectLen := 4
                  Validity := [0x30, 0x00, 0, 0]
                  ValidityLen := 2 }
              SignStore := (zeroInfoStore buildW).SignStore },
            slotW 0, slotW 0 ]
        NumOfEntriesInUserCfgDB := 2 }
    KatRan := false
    Trace := [] }

/-- The build `buildW` without ECDSA support: `PLM_ECDSA_EXCLUDE` is defined. -/
def buildNoEcdsaW : Build :=
  { buildW with PLM_ECDSA_EXCLUDE := true }

/-! ## Object identifiers and integers, decoded -/

/-- The base-128 digits of `n` above the last one, most significant first, each with the
continuation bit `0x80` set. `fuel` bounds the number of digits. -/
def base128High : Nat → Nat → List Nat
  | 0, _ => []
  | fuel + 1, n => if n = 0 then [] else base128High fuel (n / 128) ++ [0x80 ||| n % 128]

/-- The bytes of one OID component: its base-128 digits, most significant first, with the
continuation bit set on every byte but the last. Covers components below `128 ^ 6`. -/
def arcBytes (n : Nat) : List Nat :=
  base128High 5 (n / 128) ++ [n % 128]

/-- The content bytes of the standard encoding of an object identifier: the first two
components as `40 * a + b`, then every further component. -/
def oidContent : List Nat → List Nat
  | a :: b :: rest => arcBytes (40 * a + b) ++ (rest.map arcBytes).flatten
  | _ => []

/-- The encoding of an object identifier as one element: tag `06`, length byte, content. -/
def oidBytes (arcs : List Nat) : List Nat :=
  0x06 :: (oidContent arcs).length :: oidContent arcs

/-- The number that a byte string spells as an unsigned big-endian integer. -/
def beNat (bs : List Nat) : Nat :=
  bs.foldl (fun acc x => acc * 256 + x) 0

/-- The number that a byte string spells as a two's-complement big-endian integer, the
reading of the content of a DER INTEGER: negative when bit 7 of the first byte is set. -/
def twosBE (bs : List Nat) : Int :=
  if 0x80 ≤ bs.getD 0 0 then (beNat bs : Int) - (256 : Int) ^ bs.length else (beNat bs : Int)

/-- An environment for the worked examples whose signing primitive depends on the private
key: the 96 bytes of a signature repeat the first byte of the key. -/
def envKeyW : Env :=
  { Sha384Digest := fun d => (XST_SUCCESS, List.replicate 48 (d.length % 256))
    Sha384Kat := XST_SUCCESS
    EllipticGenEphemeralNSign := fun _ _ k => (XST_SUCCESS, List.replicate 96 (k.getD 0 0))
    In32 := fun a => a % 256 }

/-- The application configuration `appW` with another issuer private key. -/
def appKey2W : XCert_AppCfg :=
  { appW with IssuerPrvtKey := List.replicate 48 1 }

/-! ## Lemmas on the search loop -/

theorem find_range_none (p : Nat → Bool) (n : Nat) :
    (List.range n).find? p = none ↔ ∀ j, j < n → p j = false := by
  simp [List.find?_eq_none]

theorem find_range_some (p : Nat → Bool) (n i : Nat) :
    (List.range n).find? p = some i ↔ i < n ∧ p i = true ∧ ∀ j, j < i → p j = false := by
  induction n generalizing i with
  | zero => simp
  | succ n ih =>
    rw [List.range_succ, List.find?_append]
    cases hfn : (List.range n).find? p with
    | some x =>
      have hx := (ih x).mp hfn
      simp only [Option.or]
      constructor
      · intro h
        have hxi : x = i := by simpa using h
        subst hxi
        exact ⟨Nat.lt_succ_of_lt hx.1, hx.2⟩
      · rintro ⟨_, hpi, hlt⟩
        rcases Nat.lt_trichotomy x i with h | h | h
        · have := hlt x h; rw [hx.2.1] at this; simp at this
        · rw [h]
        · have := hx.2.2 i h; rw [hpi] at this; simp at this
    | none =>
      have hnone := (find_range_none p n).mp hfn
      simp only [Option.or]
      constructor
      · intro h
        have hp : p n = true := by
          cases hc : p n with
          | true => rfl
          | false => simp [List.find?, hc] at h
        have hi : n = i := by simpa [List.find?, hp] using h
        subst hi
        exact ⟨Nat.lt_succ_self _, hp, hnone⟩
      · rintro ⟨hi, hpi, hlt⟩
        rcases Nat.lt_succ_iff_lt_or_eq.mp hi with h | h
        · have := hnone i h; rw [hpi] at this; simp at this
        · subst h
          simp [List.find?, hpi]

theorem findIdx_none_iff (Z : Build) (st : CertStore) (Id : Nat) :
    findIdx Z st Id = none ↔
      ∀ i, i < st.NumOfEntriesInUserCfgDB → (slot Z st i).SubsystemId ≠ Id := by
  unfold findIdx
  rw [find_range_none]
  simp

theorem findIdx_some_iff (Z : Build) (st : CertStore) (Id Idx : Nat) :
    findIdx Z st Id = some Idx ↔
      Idx < st.NumOfEntriesInUserCfgDB ∧ (slot Z st Idx).SubsystemId = Id ∧
        ∀ j, j < Idx → (slot Z st j).SubsystemId ≠ Id := by
  unfold findIdx
  rw [find_range_some]
  simp

/-! ## Lemmas on slots -/

theorem slot_setSlot_same (Z : Build) (st : CertStore) (Idx : Nat) (e : XCert_InfoStore)
    (h : Idx < st.CertDB.length) : slot Z (setSlot st Idx e) Idx = e := by
  simp [slot, setSlot, List.getD_eq_getElem?_getD, h]

theorem slot_setSlot_other (Z : Build) (st : CertStore) (Idx j : Nat) (e : XCert_InfoStore)
    (h : j ≠ Idx) : slot Z (setSlot st Idx e) j = slot Z st j := by
  simp [slot, setSlot, List.getD_eq_getElem?_getD, List.getElem?_set, Ne.symm h]

theorem setSlot_num (st : CertStore) (Idx : Nat) (e : XCert_InfoStore) :
    (setSlot st Idx e).NumOfEntriesInUserCfgDB = st.NumOfEntriesInUserCfgDB := rfl

theorem setSlot_length (st : CertStore) (Idx : Nat) (e : XCert_InfoStore) :
    (setSlot st Idx e).CertDB.length = st.CertDB.length := by
  simp [setSlot]

theorem lor_eq_zero (a b : Nat) : a ||| b = 0 ↔ a = 0 ∧ b = 0 := by
  constructor
  · intro h
    have key : ∀ i, (a.testBit i || b.testBit i) = false := by
      intro i
      rw [← Nat.testBit_or, h]; simp
    constructor
    · apply Nat.eq_of_testBit_eq
      intro i
      have := key i
      simp only [Bool.or_eq_false_iff] at this
      simp [this.1]
    · apply Nat.eq_of_testBit_eq
      intro i
      have := key i
      simp only [Bool.or_eq_false_iff] at this
      simp [this.2]
  · rintro ⟨rfl, rfl⟩; simp

theorem foldl_lor_eq_zero (f : Nat → Nat) (l : List Nat) (s : Nat) :
    l.foldl (fun s i => s ||| f i) s = 0 ↔ s = 0 ∧ ∀ i ∈ l, f i = 0 := by
  induction l generalizing s with
  | nil => simp
  | cons x xs ih =>
    simp only [List.foldl_cons, ih, lor_eq_zero, List.mem_cons, forall_eq_or_imp]
    tauto

theorem u32ToInt_small (n : Nat) (h : n < 2 ^ 31) : u32ToInt n = (n : Int) := by
  unfold u32ToInt
  have h1 : n % 2 ^ 32 = n := Nat.mod_eq_of_lt (by omega)
  rw [h1]
  have h2 : n < 2147483648 := by norm_num at h; exact h
  simp [h2]

theorem isBufferNonZero_failure_iff (Buffer : List Nat) (Len : Nat) (h : Len < 2 ^ 31) :
    XCert_IsBufferNonZero Buffer (u32ToInt Len) ≠ XST_SUCCESS ↔ allZero Buffer Len := by
  unfold XCert_IsBufferNonZero allZero
  rw [u32ToInt_small Len h]
  simp only [Int.toNat_ofNat]
  by_cases hz : (List.range Len).foldl (fun s i => s ||| Buffer.getD i 0) 0 = 0
  · simp only [hz, if_true]
    have := (foldl_lor_eq_zero (fun i => Buffer.getD i 0) (List.range Len) 0).mp hz
    simp only [List.mem_range] at this
    simp only [ne_eq, reduceCtorEq, not_false_eq_true, true_iff]
    exact this.2
  · simp only [hz, if_false]
    simp only [ne_eq, not_true_eq_false, false_iff]
    intro hall
    apply hz
    rw [foldl_lor_eq_zero]
    exact ⟨rfl, fun i hi => hall i (List.mem_range.mp hi)⟩

theorem fit_length (n : Nat) (l : List Nat) : (fit n l).length = n := by
  simp [fit]

theorem fit_eq_take (n : Nat) (l : List Nat) (h : n ≤ l.length) : fit n l = l.take n := by
  unfold fit
  rw [List.take_append_of_le_length h]

theorem fit_of_length (n : Nat) (l : List Nat) (h : l.length = n) : fit n l = l := by
  rw [fit_eq_take n l (le_of_eq h.symm), ← h, List.take_length]

theorem memCpy_take (Dest Src : List Nat) (Len : Nat) :
    (XSecure_MemCpy Dest Src Len).take Len = fit Len Src := by
  unfold XSecure_MemCpy
  rw [List.take_append_of_le_length (by rw [fit_length])]
  rw [List.take_of_length_le (by rw [fit_length])]

theorem memCpy_length (Dest Src : List Nat) (Len : Nat) (h : Len ≤ Dest.length) :
    (XSecure_MemCpy Dest Src Len).length = Dest.length := by
  unfold XSecure_MemCpy
  simp [fit_length]
  omega

/-! ## The certificate store: claims -/

theorem store_valid_args (Z : Build) (st : CertStore) (SubSystemId FieldType : Nat)
    (Val : List Nat) (Len : Nat) (hkind : FieldType ≤ XCERT_VALIDITY)
    (hlen : Len ≤ fieldMax Z FieldType) :
    XCert_StoreCertUserInput Z st SubSystemId FieldType Val Len =
      match findIdx Z st SubSystemId with
      | some IdxToBeUpdated =>
        (XST_SUCCESS,
          setSlot st IdxToBeUpdated
            { slot Z st IdxToBeUpdated with
              UserCfg := writeField (slot Z st IdxToBeUpdated).UserCfg FieldType Val Len })
      | none =>
        if st.NumOfEntriesInUserCfgDB ≥ XCERT_MAX_CERT_SUPPORT then
          (XOCP_ERR_X509_USER_CFG_STORE_LIMIT_CROSSED, st)
        else
          (XST_SUCCESS,
            setSlot
              { CertDB := st.CertDB.set st.NumOfEntriesInUserCfgDB
                  { slot Z st st.NumOfEntriesInUserCfgDB with SubsystemId := SubSystemId }
                NumOfEntriesInUserCfgDB := st.NumOfEntriesInUserCfgDB + 1 }
              st.NumOfEntriesInUserCfgDB
              { SubsystemId := SubSystemId
                UserCfg := writeField (slot Z st st.NumOfEntriesInUserCfgDB).UserCfg
                  FieldType Val Len
                SignStore := (slot Z st st.NumOfEntriesInUserCfgDB).SignStore }) := by
  unfold XCert_StoreCertUserInput
  have h1 : ¬ FieldType > XCERT_VALIDITY := Nat.not_lt.mpr hkind
  have h2 : ¬ ((FieldType = XCERT_VALIDITY ∧ Len > Z.XCERT_VALIDITY_MAX_SIZE) ∨
      (FieldType = XCERT_ISSUER ∧ Len > Z.XCERT_ISSUER_MAX_SIZE) ∨
      (FieldType = XCERT_SUBJECT ∧ Len > Z.XCERT_SUBJECT_MAX_SIZE)) := by
    unfold fieldMax at hlen
    unfold XCERT_VALIDITY XCERT_ISSUER XCERT_SUBJECT at *
    rintro (⟨rfl, h⟩ | ⟨rfl, h⟩ | ⟨rfl, h⟩) <;> simp at hlen <;> omega
  rw [if_neg h1, if_neg h2]

/-- C1: in a store whose four slots are in use, `XCert_StoreCertUserInput` for a
subsystem identifier that none of them carries, with a valid field kind and a length
within the maximum of the field, returns `XOCP_ERR_X509_USER_CFG_STORE_LIMIT_CROSSED`
and leaves the store (the counter and every slot) as it was. -/
theorem store_limit_crossed (Z : Build) (st : CertStore) (SubSystemId FieldType : Nat)
    (Val : List Nat) (Len : Nat)
    (hfull : st.NumOfEntriesInUserCfgDB = XCERT_MAX_CERT_SUPPORT)
    (hnew : ∀ i, i < XCERT_MAX_CERT_SUPPORT → (slot Z st i).SubsystemId ≠ SubSystemId)
    (hkind : FieldType ≤ XCERT_VALIDITY)
    (hlen : Len ≤ fieldMax Z FieldType) :
    XCert_StoreCertUserInput Z st SubSystemId FieldType Val Len =
      (XOCP_ERR_X509_USER_CFG_STORE_LIMIT_CROSSED, st) := by
  rw [store_valid_args Z st SubSystemId FieldType Val Len hkind hlen]
  have hnone : findIdx Z st SubSystemId = none := by
    rw [findIdx_none_iff]
    intro i hi
    exact hnew i (hfull ▸ hi)
  rw [hnone]
  simp [hfull]

theorem store_limit_crossed_witness :
    XCert_StoreCertUserInput buildW storeFullW 9 XCERT_SUBJECT [0x30, 0x00] 2 =
      (XOCP_ERR_X509_USER_CFG_STORE_LIMIT_CROSSED, storeFullW) :=
  store_limit_crossed buildW storeFullW 9 XCERT_SUBJECT [0x30, 0x00] 2
    (by decide) (by decide) (by decide) (by decide)

/-- C2: `XCert_StoreCertUserInput` returns `XST_INVALID_PARAM` when the field kind is
out of range or the length exceeds the maximum of the field, and the store is then
unchanged, whether or not the subsystem identifier was seen before. -/
theorem store_invalid_param (Z : Build) (st : CertStore) (SubSystemId FieldType : Nat)
    (Val : List Nat) (Len : Nat)
    (h : FieldType > XCERT_VALIDITY ∨ Len > fieldMax Z FieldType) :
    XCert_StoreCertUserInput Z st SubSystemId FieldType Val Len = (XST_INVALID_PARAM, st) := by
  unfold XCert_StoreCertUserInput
  by_cases h1 : FieldType > XCERT_VALIDITY
  · rw [if_pos h1]
  · rw [if_neg h1]
    have hl : Len > fieldMax Z FieldType := h.resolve_left h1
    have h2 : (FieldType = XCERT_VALIDITY ∧ Len > Z.XCERT_VALIDITY_MAX_SIZE) ∨
        (FieldType = XCERT_ISSUER ∧ Len > Z.XCERT_ISSUER_MAX_SIZE) ∨
        (FieldType = XCERT_SUBJECT ∧ Len > Z.XCERT_SUBJECT_MAX_SIZE) := by
      unfold fieldMax at hl
      unfold XCERT_VALIDITY XCERT_ISSUER XCERT_SUBJECT at *
      have h3 : FieldType = 0 ∨ FieldType = 1 ∨ FieldType = 2 := by omega
      rcases h3 with rfl | rfl | rfl <;> simp at hl ⊢ <;> omega
    rw [if_pos h2]

theorem store_invalid_param_witness :
    XCert_StoreCertUserInput buildW storeTwoW 9 XCERT_VALIDITY [1, 2, 3, 4, 5] 5 =
      (XST_INVALID_PARAM, storeTwoW) :=
  store_invalid_param buildW storeTwoW 9 XCERT_VALIDITY [1, 2, 3, 4, 5] 5
    (Or.inr (by decide))

theorem writeField_len (U : XCert_UserCfg) (FieldType : Nat) (Val : List Nat) (Len : Nat) :
    fieldLen (writeField U FieldType Val Len) FieldType = Len := by
  unfold fieldLen writeField
  have hne : ¬ XCERT_SUBJECT = XCERT_ISSUER := by decide
  by_cases h0 : FieldType = XCERT_ISSUER
  · simp [h0]
  · by_cases h1 : FieldType = XCERT_SUBJECT
    · simp [h1, hne]
    · simp [h0, h1]

theorem writeField_val (U : XCert_UserCfg) (FieldType : Nat) (Val : List Nat) (Len : Nat) :
    (fieldVal (writeField U FieldType Val Len) FieldType).take Len = fit Len Val := by
  unfold fieldVal writeField
  have hne : ¬ XCERT_SUBJECT = XCERT_ISSUER := by decide
  by_cases h0 : FieldType = XCERT_ISSUER
  · simp [h0, memCpy_take]
  · by_cases h1 : FieldType = XCERT_SUBJECT
    · simp [h1, hne, memCpy_take]
    · simp [h0, h1, memCpy_take]

theorem writeField_other (U : XCert_UserCfg) (FieldType : Nat) (Val : List Nat) (Len : Nat)
    (hkind : FieldType ≤ XCERT_VALIDITY) :
    (FieldType ≠ XCERT_ISSUER →
      (writeField U FieldType Val Len).Issuer = U.Issuer ∧
      (writeField U FieldType Val Len).IssuerLen = U.IssuerLen) ∧
    (FieldType ≠ XCERT_SUBJECT →
      (writeField U FieldType Val Len).Subject = U.Subject ∧
      (writeField U FieldType Val Len).SubjectLen = U.SubjectLen) ∧
    (FieldType ≠ XCERT_VALIDITY →
      (writeField U FieldType Val Len).Validity = U.Validity ∧
      (writeField U FieldType Val Len).ValidityLen = U.ValidityLen) := by
  have h3 : FieldType = 0 ∨ FieldType = 1 ∨ FieldType = 2 := by
    unfold XCERT_VALIDITY at hkind
    omega
  rcases h3 with rfl | rfl | rfl <;>
    simp [writeField, XCERT_ISSUER, XCERT_SUBJECT, XCERT_VALIDITY]

/-- C3: in a store with `n < 4` slots in use, `XCert_StoreCertUserInput` for a subsystem
identifier that none of them carries, with a valid field kind and a length within the
maximum of the field, returns `XST_SUCCESS`; the counter becomes `n + 1`; slot `n`
carries the identifier, the length `Len` and, in the array of the field, the bytes
`Val[0 .. Len)`; the slots `0 .. n - 1` are unchanged. -/
theorem store_new_entry (Z : Build) (st : CertStore) (SubSystemId FieldType : Nat)
    (Val : List Nat) (Len : Nat)
    (hdb : st.CertDB.length = XCERT_MAX_CERT_SUPPORT)
    (hn : st.NumOfEntriesInUserCfgDB < XCERT_MAX_CERT_SUPPORT)
    (hnew : ∀ i, i < st.NumOfEntriesInUserCfgDB → (slot Z st i).SubsystemId ≠ SubSystemId)
    (hkind : FieldType ≤ XCERT_VALIDITY)
    (hlen : Len ≤ fieldMax Z FieldType)
    (hval : Len ≤ Val.length) :
    (XCert_StoreCertUserInput Z st SubSystemId FieldType Val Len).1 = XST_SUCCESS ∧
    (XCert_StoreCertUserInput Z st SubSystemId FieldType Val Len).2.NumOfEntriesInUserCfgDB =
      st.NumOfEntriesInUserCfgDB + 1 ∧
    (slot Z (XCert_StoreCertUserInput Z st SubSystemId FieldType Val Len).2
      st.NumOfEntriesInUserCfgDB).SubsystemId = SubSystemId ∧
    fieldLen (slot Z (XCert_StoreCertUserInput Z st SubSystemId FieldType Val Len).2
      st.NumOfEntriesInUserCfgDB).UserCfg FieldType = Len ∧
    (fieldVal (slot Z (XCert_StoreCertUserInput Z st SubSystemId FieldType Val Len).2
      st.NumOfEntriesInUserCfgDB).UserCfg FieldType).take Len = Val.take Len ∧
    ∀ i, i < st.NumOfEntriesInUserCfgDB →
      slot Z (XCert_StoreCertUserInput Z st SubSystemId FieldType Val Len).2 i = slot Z st i := by
  rw [store_valid_args Z st SubSystemId FieldType Val Len hkind hlen]
  have hnone : findIdx Z st SubSystemId = none := (findIdx_none_iff Z st SubSystemId).mpr hnew
  rw [hnone]
  have hlt : ¬ st.NumOfEntriesInUserCfgDB ≥ XCERT_MAX_CERT_SUPPORT := Nat.not_le.mpr hn
  rw [if_neg hlt]
  have hin : st.NumOfEntriesInUserCfgDB < st.CertDB.length := by rw [hdb]; exact hn
  refine ⟨rfl, rfl, ?_, ?_, ?_, ?_⟩
  · rw [slot_setSlot_same Z _ _ _ (by simpa using hin)]
  · rw [slot_setSlot_same Z _ _ _ (by simpa using hin)]
    exact writeField_len _ _ _ _
  · rw [slot_setSlot_same Z _ _ _ (by simpa using hin)]
    rw [← fit_eq_take Len Val hval]
    exact writeField_val _ _ _ _
  · intro i hi
    rw [slot_setSlot_other Z _ _ _ _ (Nat.ne_of_lt hi)]
    simp [slot, List.getD_eq_getElem?_getD, List.getElem?_set, Nat.ne_of_gt hi]

theorem store_new_entry_witness :
    (XCert_StoreCertUserInput buildW storeTwoW 9 XCERT_SUBJECT [0x30, 0x00, 0x55] 2).1
        = XST_SUCCESS ∧
    (XCert_StoreCertUserInput buildW storeTwoW 9 XCERT_SUBJECT
      [0x30, 0x00, 0x55] 2).2.NumOfEntriesInUserCfgDB = 3 :=
  ⟨(store_new_entry buildW storeTwoW 9 XCERT_SUBJECT [0x30, 0x00, 0x55] 2
      (by decide) (by decide) (by decide) (by decide) (by decide) (by decide)).1,
   (store_new_entry buildW storeTwoW 9 XCERT_SUBJECT [0x30, 0x00, 0x55] 2
      (by decide) (by decide) (by decide) (by decide) (by decide) (by decide)).2.1⟩

/-- C4: when the store holds the subsystem identifier (its first entry being slot
`Idx`), a successful `XCert_StoreCertUserInput` for it leaves the counter, every other
slot, and in slot `Idx` the identifier, the signing record and the arrays and lengths of
the two other fields as they were: only the field of kind `FieldType` is written. -/
theorem store_update_frame (Z : Build) (st : CertStore) (SubSystemId FieldType : Nat)
    (Val : List Nat) (Len Idx : Nat)
    (hdb : st.CertDB.length = XCERT_MAX_CERT_SUPPORT)
    (hnum : st.NumOfEntriesInUserCfgDB ≤ XCERT_MAX_CERT_SUPPORT)
    (hidx : Idx < st.NumOfEntriesInUserCfgDB)
    (hid : (slot Z st Idx).SubsystemId = SubSystemId)
    (hfirst : ∀ j, j < Idx → (slot Z st j).SubsystemId ≠ SubSystemId)
    (hok : (XCert_StoreCertUserInput Z st SubSystemId FieldType Val Len).1 = XST_SUCCESS) :
    (XCert_StoreCertUserInput Z st SubSystemId FieldType Val Len).2.NumOfEntriesInUserCfgDB =
      st.NumOfEntriesInUserCfgDB ∧
    (∀ j, j ≠ Idx →
      slot Z (XCert_StoreCertUserInput Z st SubSystemId FieldType Val Len).2 j = slot Z st j) ∧
    (slot Z (XCert_StoreCertUserInput Z st SubSystemId FieldType Val Len).2 Idx).SubsystemId =
      SubSystemId ∧
    (slot Z (XCert_StoreCertUserInput Z st SubSystemId FieldType Val Len).2 Idx).SignStore =
      (slot Z st Idx).SignStore ∧
    (FieldType ≠ XCERT_ISSUER →
      (slot Z (XCert_StoreCertUserInput Z st SubSystemId FieldType Val Len).2 Idx).UserCfg.Issuer =
        (slot Z st Idx).UserCfg.Issuer ∧
      (slot Z (XCert_StoreCertUserInput Z st SubSystemId FieldType Val Len).2
        Idx).UserCfg.IssuerLen = (slot Z st Idx).UserCfg.IssuerLen) ∧
    (FieldType ≠ XCERT_SUBJECT →
      (slot Z (XCert_StoreCertUserInput Z st SubSystemId FieldType Val Len).2
        Idx).UserCfg.Subject = (slot Z st Idx).UserCfg.Subject ∧
      (slot Z (XCert_StoreCertUserInput Z st SubSystemId FieldType Val Len).2
        Idx).UserCfg.SubjectLen = (slot Z st Idx).UserCfg.SubjectLen) ∧
    (FieldType ≠ XCERT_VALIDITY →
      (slot Z (XCert_StoreCertUserInput Z st SubSystemId FieldType Val Len).2
        Idx).UserCfg.Validity = (slot Z st Idx).UserCfg.Validity ∧
      (slot Z (XCert_StoreCertUserInput Z st SubSystemId FieldType Val Len).2
        Idx).UserCfg.ValidityLen = (slot Z st Idx).UserCfg.ValidityLen) := by
  have hsome : findIdx Z st SubSystemId = some Idx :=
    (findIdx_some_iff Z st SubSystemId Idx).mpr ⟨hidx, hid, hfirst⟩
  have hin : Idx < st.CertDB.length := by rw [hdb]; exact Nat.lt_of_lt_of_le hidx hnum
  by_cases hkind : FieldType ≤ XCERT_VALIDITY
  · by_cases hlen : Len ≤ fieldMax Z FieldType
    · rw [store_valid_args Z st SubSystemId FieldType Val Len hkind hlen, hsome]
      simp only []
      refine ⟨rfl, ?_, ?_, ?_, ?_⟩
      · intro j hj
        exact slot_setSlot_other Z _ _ _ _ hj
      · rw [slot_setSlot_same Z _ _ _ hin]; exact hid
      · rw [slot_setSlot_same Z _ _ _ hin]
      · rw [slot_setSlot_same Z _ _ _ hin]
        exact writeField_other _ _ _ _ hkind
    · rw [store_invalid_param Z st SubSystemId FieldType Val Len
        (Or.inr (Nat.not_le.mp hlen))] at hok
      simp at hok
  · rw [store_invalid_param Z st SubSystemId FieldType Val Len
      (Or.inl (Nat.not_le.mp hkind))] at hok
    simp at hok

theorem store_update_frame_witness :
    (slot buildW (XCert_StoreCertUserInput buildW storeCfgW 7 XCERT_SUBJECT [0x30] 1).2
      1).SignStore = (slot buildW storeCfgW 1).SignStore :=
  (store_update_frame buildW storeCfgW 7 XCERT_SUBJECT [0x30] 1 1
    (by decide) (by decide) (by decide) (by decide) (by decide) (by decide)).2.2.2.1

/-- C5: `XCert_GetUserCfg` returns `XOCP_ERR_X509_USR_CFG_NOT_FOUND` exactly when no
slot in use carries the identifier. When slot `Idx` is the first that carries it, the
function returns `XOCP_ERR_X509_INVALID_USER_CFG` exactly when one of Issuer, Subject,
Validity has no non-zero byte within its stored length (a stored length of 0 included),
whatever the other two hold, and otherwise it returns `XST_SUCCESS` with the user
configuration of slot `Idx`. The stored lengths are lengths of arrays, below 2^31. -/
theorem getUserCfg_spec (Z : Build) (st : CertStore) (SubsystemId : Nat)
    (hlen : ∀ i, i < st.NumOfEntriesInUserCfgDB →
      (slot Z st i).UserCfg.IssuerLen < 2 ^ 31 ∧ (slot Z st i).UserCfg.SubjectLen < 2 ^ 31 ∧
      (slot Z st i).UserCfg.ValidityLen < 2 ^ 31) :
    ((XCert_GetUserCfg Z st SubsystemId).1 = XOCP_ERR_X509_USR_CFG_NOT_FOUND ↔
      ∀ i, i < st.NumOfEntriesInUserCfgDB → (slot Z st i).SubsystemId ≠ SubsystemId) ∧
    ∀ Idx, Idx < st.NumOfEntriesInUserCfgDB → (slot Z st Idx).SubsystemId = SubsystemId →
      (∀ j, j < Idx → (slot Z st j).SubsystemId ≠ SubsystemId) →
      ((XCert_GetUserCfg Z st SubsystemId).1 = XOCP_ERR_X509_INVALID_USER_CFG ↔
        (allZero (slot Z st Idx).UserCfg.Issuer (slot Z st Idx).UserCfg.IssuerLen ∨
         allZero (slot Z st Idx).UserCfg.Subject (slot Z st Idx).UserCfg.SubjectLen ∨
         allZero (slot Z st Idx).UserCfg.Validity (slot Z st Idx).UserCfg.ValidityLen)) ∧
      (¬ (allZero (slot Z st Idx).UserCfg.Issuer (slot Z st Idx).UserCfg.IssuerLen ∨
          allZero (slot Z st Idx).UserCfg.Subject (slot Z st Idx).UserCfg.SubjectLen ∨
          allZero (slot Z st Idx).UserCfg.Validity (slot Z st Idx).UserCfg.ValidityLen) →
        XCert_GetUserCfg Z st SubsystemId = (XST_SUCCESS, some Idx)) := by
  constructor
  · rw [← findIdx_none_iff]
    unfold XCert_GetUserCfg
    cases hf : findIdx Z st SubsystemId with
    | none => simp
    | some Idx =>
      simp only []
      split_ifs <;> simp
  · intro Idx hidx hid hfirst
    have hsome : findIdx Z st SubsystemId = some Idx :=
      (findIdx_some_iff Z st SubsystemId Idx).mpr ⟨hidx, hid, hfirst⟩
    have hI := isBufferNonZero_failure_iff (slot Z st Idx).UserCfg.Issuer _ (hlen Idx hidx).1
    have hS := isBufferNonZero_failure_iff (slot Z st Idx).UserCfg.Subject _ (hlen Idx hidx).2.1
    have hV := isBufferNonZero_failure_iff (slot Z st Idx).UserCfg.Validity _ (hlen Idx hidx).2.2
    unfold XCert_GetUserCfg
    rw [hsome]
    simp only []
    by_cases h1 : XCert_IsBufferNonZero (slot Z st Idx).UserCfg.Issuer
        (u32ToInt (slot Z st Idx).UserCfg.IssuerLen) ≠ XST_SUCCESS
    · rw [if_pos h1]
      have := hI.mp h1
      simp [this]
    · rw [if_neg h1]
      have n1 := mt hI.mpr h1
      by_cases h2 : XCert_IsBufferNonZero (slot Z st Idx).UserCfg.Subject
          (u32ToInt (slot Z st Idx).UserCfg.SubjectLen) ≠ XST_SUCCESS
      · rw [if_pos h2]
        have := hS.mp h2
        simp [this]
      · rw [if_neg h2]
        have n2 := mt hS.mpr h2
        by_cases h3 : XCert_IsBufferNonZero (slot Z st Idx).UserCfg.Validity
            (u32ToInt (slot Z st Idx).UserCfg.ValidityLen) ≠ XST_SUCCESS
        · rw [if_pos h3]
          have := hV.mp h3
          simp [this]
        · rw [if_neg h3]
          have n3 := mt hV.mpr h3
          simp [n1, n2, n3]

theorem getUserCfg_spec_witness :
    XCert_GetUserCfg buildW storeCfgW 7 = (XST_SUCCESS, some 1) :=
  ((getUserCfg_spec buildW storeCfgW 7 (by decide)).2 1 (by decide) (by decide)
    (by decide)).2 (by decide)

/-- C7: `XCert_GetSignStored` fails exactly when no slot in use carries the identifier;
when slot `Idx` is the first that carries it, the function returns `XST_SUCCESS` with
the signing record of slot `Idx`, whatever that record holds. -/
theorem getSignStored_spec (Z : Build) (st : CertStore) (SubsystemId : Nat) :
    ((XCert_GetSignStored Z st SubsystemId).1 ≠ XST_SUCCESS ↔
      ∀ i, i < st.NumOfEntriesInUserCfgDB → (slot Z st i).SubsystemId ≠ SubsystemId) ∧
    ∀ Idx, Idx < st.NumOfEntriesInUserCfgDB → (slot Z st Idx).SubsystemId = SubsystemId →
      (∀ j, j < Idx → (slot Z st j).SubsystemId ≠ SubsystemId) →
      XCert_GetSignStored Z st SubsystemId = (XST_SUCCESS, some Idx) := by
  constructor
  · rw [← findIdx_none_iff]
    unfold XCert_GetSignStored
    cases hf : findIdx Z st SubsystemId <;> simp
  · intro Idx hidx hid hfirst
    have hsome : findIdx Z st SubsystemId = some Idx :=
      (findIdx_some_iff Z st SubsystemId Idx).mpr ⟨hidx, hid, hfirst⟩
    unfold XCert_GetSignStored
    rw [hsome]

theorem getSignStored_spec_witness :
    XCert_GetSignStored buildW storeCfgW 7 = (XST_SUCCESS, some 1) :=
  (getSignStored_spec buildW storeCfgW 7).2 1 (by decide) (by decide) (by decide)

/-! ## One successful store call -/

theorem store_step (Z : Build) (st : CertStore) (Id k : Nat) (Val : List Nat) (Len : Nat)
    (hdb : st.CertDB.length = XCERT_MAX_CERT_SUPPORT)
    (hnum : st.NumOfEntriesInUserCfgDB ≤ XCERT_MAX_CERT_SUPPORT)
    (hok : (XCert_StoreCertUserInput Z st Id k Val Len).1 = XST_SUCCESS) :
    (XCert_StoreCertUserInput Z st Id k Val Len).2.CertDB.length = XCERT_MAX_CERT_SUPPORT ∧
    (XCert_StoreCertUserInput Z st Id k Val Len).2.NumOfEntriesInUserCfgDB
      ≤ XCERT_MAX_CERT_SUPPORT ∧
    k ≤ XCERT_VALIDITY ∧ Len ≤ fieldMax Z k ∧
    ∃ Idx, Idx < (XCert_StoreCertUserInput Z st Id k Val Len).2.NumOfEntriesInUserCfgDB ∧
      ((findIdx Z st Id = some Idx ∧
          (XCert_StoreCertUserInput Z st Id k Val Len).2.NumOfEntriesInUserCfgDB =
            st.NumOfEntriesInUserCfgDB) ∨
        (findIdx Z st Id = none ∧ Idx = st.NumOfEntriesInUserCfgDB ∧
          (XCert_StoreCertUserInput Z st Id k Val Len).2.NumOfEntriesInUserCfgDB =
            st.NumOfEntriesInUserCfgDB + 1)) ∧
      (∀ j, j ≠ Idx → slot Z (XCert_StoreCertUserInput Z st Id k Val Len).2 j = slot Z st j) ∧
      slot Z (XCert_StoreCertUserInput Z st Id k Val Len).2 Idx =
        { SubsystemId := Id
          UserCfg := writeField (slot Z st Idx).UserCfg k Val Len
          SignStore := (slot Z st Idx).SignStore } := by
  have hkind : k ≤ XCERT_VALIDITY := by
    by_contra hc
    rw [store_invalid_param Z st Id k Val Len (Or.inl (Nat.not_le.mp hc))] at hok
    simp at hok
  have hlen : Len ≤ fieldMax Z k := by
    by_contra hc
    rw [store_invalid_param Z st Id k Val Len (Or.inr (Nat.not_le.mp hc))] at hok
    simp at hok
  rw [store_valid_args Z st Id k Val Len hkind hlen] at hok ⊢
  cases hf : findIdx Z st Id with
  | some Idx =>
    have hc := (findIdx_some_iff Z st Id Idx).mp hf
    have hin : Idx < st.CertDB.length := by rw [hdb]; exact Nat.lt_of_lt_of_le hc.1 hnum
    simp only []
    refine ⟨by rw [setSlot_length]; exact hdb, hnum, hkind, hlen, Idx, hc.1, Or.inl ⟨by simp, rfl⟩,
      ?_, ?_⟩
    · intro j hj
      exact slot_setSlot_other Z _ _ _ _ hj
    · rw [slot_setSlot_same Z _ _ _ hin, hc.2.1]
  | none =>
    rw [hf] at hok
    simp only [] at hok ⊢
    by_cases hfull : st.NumOfEntriesInUserCfgDB ≥ XCERT_MAX_CERT_SUPPORT
    · rw [if_pos hfull] at hok
      simp at hok
    · rw [if_neg hfull]
      have hn : st.NumOfEntriesInUserCfgDB < XCERT_MAX_CERT_SUPPORT := Nat.not_le.mp hfull
      have hin : st.NumOfEntriesInUserCfgDB < st.CertDB.length := by rw [hdb]; exact hn
      refine ⟨by simp [setSlot, hdb], hn, hkind, hlen, st.NumOfEntriesInUserCfgDB,
        Nat.lt_succ_self _, Or.inr ⟨by simp, rfl, rfl⟩, ?_, ?_⟩
      · intro j hj
        rw [slot_setSlot_other Z _ _ _ _ hj]
        simp [slot, List.getD_eq_getElem?_getD, List.getElem?_set, Ne.symm hj]
      · rw [slot_setSlot_same Z _ _ _ (by simpa using hin)]

theorem store_step_findIdx_same (Z : Build) (st : CertStore) (Id k : Nat) (Val : List Nat)
    (Len : Nat)
    (hdb : st.CertDB.length = XCERT_MAX_CERT_SUPPORT)
    (hnum : st.NumOfEntriesInUserCfgDB ≤ XCERT_MAX_CERT_SUPPORT)
    (hok : (XCert_StoreCertUserInput Z st Id k Val Len).1 = XST_SUCCESS) :
    ∃ Idx, findIdx Z (XCert_StoreCertUserInput Z st Id k Val Len).2 Id = some Idx ∧
      (findIdx Z st Id = some Idx ∨ findIdx Z st Id = none) ∧
      slot Z (XCert_StoreCertUserInput Z st Id k Val Len).2 Idx =
        { SubsystemId := Id
          UserCfg := writeField (slot Z st Idx).UserCfg k Val Len
          SignStore := (slot Z st Idx).SignStore } := by
  obtain ⟨-, -, -, -, Idx, hlt, hcase, hother, hsame⟩ := store_step Z st Id k Val Len hdb hnum hok
  refine ⟨Idx, ?_, ?_, hsame⟩
  · rw [findIdx_some_iff]
    refine ⟨hlt, by rw [hsame], ?_⟩
    intro j hj
    rw [hother j (Nat.ne_of_lt hj)]
    rcases hcase with ⟨hf, -⟩ | ⟨hf, hi, -⟩
    · exact ((findIdx_some_iff Z st Id Idx).mp hf).2.2 j hj
    · exact (findIdx_none_iff Z st Id).mp hf j (hi ▸ hj)
  · rcases hcase with ⟨hf, -⟩ | ⟨hf, -, -⟩
    · exact Or.inl hf
    · exact Or.inr hf

theorem store_step_findIdx_other (Z : Build) (st : CertStore) (Id k : Nat) (Val : List Nat)
    (Len Id2 : Nat)
    (hdb : st.CertDB.length = XCERT_MAX_CERT_SUPPORT)
    (hnum : st.NumOfEntriesInUserCfgDB ≤ XCERT_MAX_CERT_SUPPORT)
    (hok : (XCert_StoreCertUserInput Z st Id k Val Len).1 = XST_SUCCESS)
    (hne : Id2 ≠ Id) :
    findIdx Z (XCert_StoreCertUserInput Z st Id k Val Len).2 Id2 = findIdx Z st Id2 ∧
    ∀ i, findIdx Z st Id2 = some i →
      slot Z (XCert_StoreCertUserInput Z st Id k Val Len).2 i = slot Z st i := by
  obtain ⟨-, -, -, -, Idx, hlt, hcase, hother, hsame⟩ := store_step Z st Id k Val Len hdb hnum hok
  have hnumle : ∀ i, i < st.NumOfEntriesInUserCfgDB →
      i < (XCert_StoreCertUserInput Z st Id k Val Len).2.NumOfEntriesInUserCfgDB := by
    intro i hi
    rcases hcase with ⟨-, hn⟩ | ⟨-, -, hn⟩ <;> rw [hn]
    · exact hi
    · exact Nat.lt_succ_of_lt hi
  have hnumge : ∀ i, i ≠ Idx →
      i < (XCert_StoreCertUserInput Z st Id k Val Len).2.NumOfEntriesInUserCfgDB →
      i < st.NumOfEntriesInUserCfgDB := by
    intro i hi hlt2
    rcases hcase with ⟨-, hn⟩ | ⟨-, hidx, hn⟩ <;> rw [hn] at hlt2
    · exact hlt2
    · rw [hidx] at hi
      omega
  have hslot2 : ∀ i, (slot Z st i).SubsystemId = Id2 → i < st.NumOfEntriesInUserCfgDB →
      i ≠ Idx := by
    intro i hi hilt heq
    subst heq
    rcases hcase with ⟨hf, -⟩ | ⟨-, hidx, -⟩
    · have := ((findIdx_some_iff Z st Id i).mp hf).2.1
      rw [this] at hi
      exact hne hi.symm
    · omega
  have hid' : ∀ j, (slot Z (XCert_StoreCertUserInput Z st Id k Val Len).2 j).SubsystemId = Id2 →
      j ≠ Idx := by
    intro j hj heq
    subst heq
    rw [hsame] at hj
    exact hne hj.symm
  constructor
  · cases hf2 : findIdx Z st Id2 with
    | none =>
      rw [findIdx_none_iff] at hf2 ⊢
      intro i hi hid
      have hiI := hid' i hid
      rw [hother i hiI] at hid
      exact hf2 i (hnumge i hiI hi) hid
    | some i =>
      rw [findIdx_some_iff] at hf2 ⊢
      obtain ⟨hi, hid, hfirst⟩ := hf2
      have hiI := hslot2 i hid hi
      refine ⟨hnumle i hi, by rw [hother i hiI]; exact hid, ?_⟩
      intro j hj hjd
      have hjI := hid' j hjd
      rw [hother j hjI] at hjd
      exact hfirst j hj hjd
  · intro i hf2
    obtain ⟨hi, hid, -⟩ := (findIdx_some_iff Z st Id2 i).mp hf2
    exact hother i (hslot2 i hid hi)

/-! ## Sequences of store calls -/

theorem fieldVal_writeField_other (U : XCert_UserCfg) (k k2 : Nat) (Val : List Nat) (Len : Nat)
    (hk : k ≤ XCERT_VALIDITY) (hk2 : k2 ≤ XCERT_VALIDITY) (hne : k ≠ k2) :
    fieldVal (writeField U k2 Val Len) k = fieldVal U k ∧
    fieldLen (writeField U k2 Val Len) k = fieldLen U k := by
  have h3 : k = 0 ∨ k = 1 ∨ k = 2 := by
    unfold XCERT_VALIDITY at hk
    omega
  have h4 : k2 = 0 ∨ k2 = 1 ∨ k2 = 2 := by
    unfold XCERT_VALIDITY at hk2
    omega
  rcases h3 with rfl | rfl | rfl <;> rcases h4 with rfl | rfl | rfl <;>
    first
    | exact absurd rfl hne
    | simp [writeField, fieldVal, fieldLen, XCERT_ISSUER, XCERT_SUBJECT, XCERT_VALIDITY]

theorem storeAll_snoc (Z : Build) (st0 : CertStore) (cs : List StoreCall) (c : StoreCall)
    (st2 : CertStore) (h : storeAll Z st0 (cs ++ [c]) = some st2) :
    ∃ st, storeAll Z st0 cs = some st ∧ (storeCall Z st c).1 = XST_SUCCESS ∧
      st2 = (storeCall Z st c).2 := by
  unfold storeAll at h ⊢
  rw [List.foldl_append] at h
  simp only [List.foldl_cons, List.foldl_nil] at h
  cases hs : List.foldl
      (fun o c => o.bind (fun s =>
        if (storeCall Z s c).1 = XST_SUCCESS then some (storeCall Z s c).2 else none))
      (some st0) cs with
  | none => rw [hs] at h; simp at h
  | some st =>
    rw [hs] at h
    simp only [Option.bind] at h
    by_cases hok : (storeCall Z st c).1 = XST_SUCCESS
    · rw [if_pos hok] at h
      exact ⟨st, rfl, hok, (Option.some.inj h).symm⟩
    · rw [if_neg hok] at h
      simp at h

theorem lastStored_snoc (cs : List StoreCall) (c : StoreCall) (Id k : Nat) :
    lastStored (cs ++ [c]) Id k =
      if c.SubSystemId = Id ∧ c.FieldType = k then some c else lastStored cs Id k := by
  unfold lastStored
  rw [List.reverse_append]
  simp only [List.reverse_cons, List.reverse_nil, List.nil_append, List.singleton_append,
    List.find?_cons]
  by_cases h : c.SubSystemId = Id ∧ c.FieldType = k
  · simp [h]
  · simp [h]

/-- What a sequence of successful store calls leaves behind for a subsystem: for each
field kind, the most recently stored value and length sit in the slot that the search
loop finds for the identifier. -/
theorem storeAll_inv (Z : Build) (st0 : CertStore) (Id : Nat)
    (hdb : st0.CertDB.length = XCERT_MAX_CERT_SUPPORT)
    (hnum : st0.NumOfEntriesInUserCfgDB ≤ XCERT_MAX_CERT_SUPPORT)
    (cs : List StoreCall) :
    ∀ st, storeAll Z st0 cs = some st →
      st.CertDB.length = XCERT_MAX_CERT_SUPPORT ∧
      st.NumOfEntriesInUserCfgDB ≤ XCERT_MAX_CERT_SUPPORT ∧
      ∀ k, k ≤ XCERT_VALIDITY → ∀ c, lastStored cs Id k = some c →
        ∃ Idx, findIdx Z st Id = some Idx ∧
          fieldLen (slot Z st Idx).UserCfg k = c.Len ∧
          (fieldVal (slot Z st Idx).UserCfg k).take c.Len = fit c.Len c.Val ∧
          c.Len ≤ fieldMax Z k := by
  induction cs using List.reverseRecOn with
  | nil =>
    intro st h
    have : st = st0 := by
      unfold storeAll at h
      simpa using h.symm
    subst this
    refine ⟨hdb, hnum, ?_⟩
    intro k _ c hc
    simp [lastStored] at hc
  | append_singleton cs c ih =>
    intro st2 h
    obtain ⟨st, hst, hok, rfl⟩ := storeAll_snoc Z st0 cs c st2 h
    obtain ⟨hdb1, hnum1, hflds⟩ := ih st hst
    unfold storeCall at hok ⊢
    obtain ⟨hdb2, hnum2, hkind, hlen, -⟩ :=
      store_step Z st c.SubSystemId c.FieldType c.Val c.Len hdb1 hnum1 hok
    refine ⟨hdb2, hnum2, ?_⟩
    intro k hk c0 hc0
    rw [lastStored_snoc] at hc0
    by_cases hid : c.SubSystemId = Id
    · obtain ⟨Idx, hf2, hf1, hslot⟩ :=
        store_step_findIdx_same Z st c.SubSystemId c.FieldType c.Val c.Len hdb1 hnum1 hok
      rw [hid] at hf1
      have hf2 : findIdx Z (XCert_StoreCertUserInput Z st c.SubSystemId c.FieldType c.Val
          c.Len).2 Id = some Idx := by
        rw [← hid]; exact hf2
      by_cases hkk : c.FieldType = k
      · rw [if_pos ⟨hid, hkk⟩] at hc0
        have hc : c = c0 := Option.some.inj hc0
        subst hc
        subst hkk
        refine ⟨Idx, hf2, ?_, ?_, hlen⟩
        · rw [hslot]; exact writeField_len _ _ _ _
        · rw [hslot]; exact writeField_val _ _ _ _
      · rw [if_neg (fun hh => hkk hh.2)] at hc0
        obtain ⟨Idx0, hfi, hl, hv, hm⟩ := hflds k hk c0 hc0
        have hI : Idx = Idx0 := by
          rcases hf1 with h1 | h1
          · rw [h1] at hfi; exact Option.some.inj hfi
          · rw [h1] at hfi; simp at hfi
        subst hI
        have hw := fieldVal_writeField_other (slot Z st Idx).UserCfg k c.FieldType c.Val c.Len
          hk hkind (Ne.symm hkk)
        refine ⟨Idx, hf2, ?_, ?_, hm⟩
        · rw [hslot]; simp only []; rw [hw.2]; exact hl
        · rw [hslot]; simp only []; rw [hw.1]; exact hv
    · rw [if_neg (fun hh => hid hh.1)] at hc0
      obtain ⟨Idx0, hfi, hl, hv, hm⟩ := hflds k hk c0 hc0
      obtain ⟨hsame, hslot⟩ :=
        store_step_findIdx_other Z st c.SubSystemId c.FieldType c.Val c.Len Id hdb1 hnum1 hok
          (Ne.symm hid)
      refine ⟨Idx0, by rw [hsame]; exact hfi, ?_, ?_, hm⟩
      · rw [hslot Idx0 hfi]; exact hl
      · rw [hslot Idx0 hfi]; exact hv

theorem allZero_of_take (buf v : List Nat) (Len : Nat) (h : buf.take Len = fit Len v) :
    allZero buf Len ↔ allZero v Len := by
  have key : ∀ i, i < Len → buf.getD i 0 = v.getD i 0 := by
    intro i hi
    have h1 : (buf.take Len).getD i 0 = buf.getD i 0 := by
      simp [List.getD_eq_getElem?_getD, List.getElem?_take, hi]
    have h2 : (fit Len v).getD i 0 = v.getD i 0 := by
      unfold fit
      simp only [List.getD_eq_getElem?_getD, List.getElem?_take, hi, if_true]
      by_cases hv : i < v.length
      · rw [List.getElem?_append_left hv]
      · rw [List.getElem?_append_right (Nat.le_of_not_lt hv)]
        rw [List.getElem?_eq_none (Nat.le_of_not_lt hv)]
        simp only [List.getElem?_replicate]
        split_ifs <;> rfl
    rw [← h1, h, h2]
  unfold allZero
  constructor
  · intro ha i hi; rw [← key i hi]; exact ha i hi
  · intro ha i hi; rw [key i hi]; exact ha i hi

theorem getUserCfg_success (Z : Build) (st : CertStore) (Id Idx : Nat)
    (hf : findIdx Z st Id = some Idx)
    (hI : (slot Z st Idx).UserCfg.IssuerLen < 2 ^ 31)
    (hS : (slot Z st Idx).UserCfg.SubjectLen < 2 ^ 31)
    (hV : (slot Z st Idx).UserCfg.ValidityLen < 2 ^ 31)
    (nI : ¬ allZero (slot Z st Idx).UserCfg.Issuer (slot Z st Idx).UserCfg.IssuerLen)
    (nS : ¬ allZero (slot Z st Idx).UserCfg.Subject (slot Z st Idx).UserCfg.SubjectLen)
    (nV : ¬ allZero (slot Z st Idx).UserCfg.Validity (slot Z st Idx).UserCfg.ValidityLen) :
    XCert_GetUserCfg Z st Id = (XST_SUCCESS, some Idx) := by
  unfold XCert_GetUserCfg
  rw [hf]
  simp only []
  rw [if_neg (mt (isBufferNonZero_failure_iff _ _ hI).mp nI),
    if_neg (mt (isBufferNonZero_failure_iff _ _ hS).mp nS),
    if_neg (mt (isBufferNonZero_failure_iff _ _ hV).mp nV)]

/-- C6: after any sequence of successful `XCert_StoreCertUserInput` calls in which, for
one subsystem identifier, the most recent Issuer, Subject and Validity values each hold a
non-zero byte within their length, `XCert_GetUserCfg` for that identifier succeeds, and
in the slot it returns each field has the most recently stored length and, in its first
`length` bytes, the most recently stored value (a shorter value stored over a longer one
included). The sequence starts from any store of four slots; the field maxima are array
sizes, below 2^31. -/
theorem store_lookup_roundtrip (Z : Build) (st0 st : CertStore) (cs : List StoreCall)
    (Id : Nat) (cI cS cV : StoreCall)
    (hdb : st0.CertDB.length = XCERT_MAX_CERT_SUPPORT)
    (hnum : st0.NumOfEntriesInUserCfgDB ≤ XCERT_MAX_CERT_SUPPORT)
    (hmax : Z.XCERT_ISSUER_MAX_SIZE < 2 ^ 31 ∧ Z.XCERT_SUBJECT_MAX_SIZE < 2 ^ 31 ∧
      Z.XCERT_VALIDITY_MAX_SIZE < 2 ^ 31)
    (hrun : storeAll Z st0 cs = some st)
    (hI : lastStored cs Id XCERT_ISSUER = some cI)
    (hS : lastStored cs Id XCERT_SUBJECT = some cS)
    (hV : lastStored cs Id XCERT_VALIDITY = some cV)
    (hIv : cI.Len ≤ cI.Val.length) (hSv : cS.Len ≤ cS.Val.length)
    (hVv : cV.Len ≤ cV.Val.length)
    (nI : ¬ allZero cI.Val cI.Len) (nS : ¬ allZero cS.Val cS.Len)
    (nV : ¬ allZero cV.Val cV.Len) :
    ∃ Idx, XCert_GetUserCfg Z st Id = (XST_SUCCESS, some Idx) ∧
      (slot Z st Idx).UserCfg.IssuerLen = cI.Len ∧
      (slot Z st Idx).UserCfg.Issuer.take cI.Len = cI.Val.take cI.Len ∧
      (slot Z st Idx).UserCfg.SubjectLen = cS.Len ∧
      (slot Z st Idx).UserCfg.Subject.take cS.Len = cS.Val.take cS.Len ∧
      (slot Z st Idx).UserCfg.ValidityLen = cV.Len ∧
      (slot Z st Idx).UserCfg.Validity.take cV.Len = cV.Val.take cV.Len := by
  obtain ⟨-, -, hflds⟩ := storeAll_inv Z st0 Id hdb hnum cs st hrun
  obtain ⟨Idx, hf, hIl, hIb, hIm⟩ := hflds XCERT_ISSUER (by decide) cI hI
  obtain ⟨Idx2, hf2, hSl, hSb, hSm⟩ := hflds XCERT_SUBJECT (by decide) cS hS
  obtain ⟨Idx3, hf3, hVl, hVb, hVm⟩ := hflds XCERT_VALIDITY (by decide) cV hV
  have e2 : Idx = Idx2 := by rw [hf] at hf2; exact Option.some.inj hf2
  have e3 : Idx = Idx3 := by rw [hf] at hf3; exact Option.some.inj hf3
  subst e2
  subst e3
  have hIl2 : (slot Z st Idx).UserCfg.IssuerLen = cI.Len := by
    simpa [fieldLen, XCERT_ISSUER] using hIl
  have hSl2 : (slot Z st Idx).UserCfg.SubjectLen = cS.Len := by
    simpa [fieldLen, XCERT_ISSUER, XCERT_SUBJECT] using hSl
  have hVl2 : (slot Z st Idx).UserCfg.ValidityLen = cV.Len := by
    simpa [fieldLen, XCERT_ISSUER, XCERT_SUBJECT, XCERT_VALIDITY] using hVl
  have hIb2 : (slot Z st Idx).UserCfg.Issuer.take cI.Len = fit cI.Len cI.Val := by
    simpa [fieldVal, XCERT_ISSUER] using hIb
  have hSb2 : (slot Z st Idx).UserCfg.Subject.take cS.Len = fit cS.Len cS.Val := by
    simpa [fieldVal, XCERT_ISSUER, XCERT_SUBJECT] using hSb
  have hVb2 : (slot Z st Idx).UserCfg.Validity.take cV.Len = fit cV.Len cV.Val := by
    simpa [fieldVal, XCERT_ISSUER, XCERT_SUBJECT, XCERT_VALIDITY] using hVb
  have hIm2 : cI.Len ≤ Z.XCERT_ISSUER_MAX_SIZE := by
    simpa [fieldMax, XCERT_ISSUER] using hIm
  have hSm2 : cS.Len ≤ Z.XCERT_SUBJECT_MAX_SIZE := by
    simpa [fieldMax, XCERT_ISSUER, XCERT_SUBJECT] using hSm
  have hVm2 : cV.Len ≤ Z.XCERT_VALIDITY_MAX_SIZE := by
    simpa [fieldMax, XCERT_ISSUER, XCERT_SUBJECT, XCERT_VALIDITY] using hVm
  refine ⟨Idx, ?_, hIl2, ?_, hSl2, ?_, hVl2, ?_⟩
  · apply getUserCfg_success Z st Id Idx hf
    · rw [hIl2]; exact Nat.lt_of_le_of_lt hIm2 hmax.1
    · rw [hSl2]; exact Nat.lt_of_le_of_lt hSm2 hmax.2.1
    · rw [hVl2]; exact Nat.lt_of_le_of_lt hVm2 hmax.2.2
    · rw [hIl2, allZero_of_take _ _ _ hIb2]; exact nI
    · rw [hSl2, allZero_of_take _ _ _ hSb2]; exact nS
    · rw [hVl2, allZero_of_take _ _ _ hVb2]; exact nV
  · rw [hIb2, fit_eq_take _ _ hIv]
  · rw [hSb2, fit_eq_take _ _ hSv]
  · rw [hVb2, fit_eq_take _ _ hVv]

theorem store_lookup_roundtrip_witness :
    ∃ Idx, XCert_GetUserCfg buildW storeAfterCallsW 7 = (XST_SUCCESS, some Idx) ∧
      (slot buildW storeAfterCallsW Idx).UserCfg.IssuerLen = 2 ∧
      (slot buildW storeAfterCallsW Idx).UserCfg.Issuer.take 2 = [0x30, 0x00] ∧
      (slot buildW storeAfterCallsW Idx).UserCfg.SubjectLen = 1 ∧
      (slot buildW storeAfterCallsW Idx).UserCfg.Subject.take 1 = [0x31] ∧
      (slot buildW storeAfterCallsW Idx).UserCfg.ValidityLen = 2 ∧
      (slot buildW storeAfterCallsW Idx).UserCfg.Validity.take 2 = [0x30, 0x00] :=
  store_lookup_roundtrip buildW (initStore buildW) storeAfterCallsW callsW 7
    { SubSystemId := 7, FieldType := XCERT_ISSUER, Val := [0x30, 0x00], Len := 2 }
    { SubSystemId := 7, FieldType := XCERT_SUBJECT, Val := [0x31], Len := 1 }
    { SubSystemId := 7, FieldType := XCERT_VALIDITY, Val := [0x30, 0x00], Len := 2 }
    (by decide) (by decide) (by decide) (by decide) (by decide) (by decide) (by decide)
    (by decide) (by decide) (by decide) (by decide) (by decide) (by decide)

/-! ## The store across a generation call -/

theorem sameCfg_refl (Z : Build) (st : CertStore) : sameCfg Z st st :=
  ⟨rfl, rfl, fun _ => ⟨rfl, rfl⟩⟩

theorem sameCfg_trans (Z : Build) (a b c : CertStore) (h1 : sameCfg Z a b)
    (h2 : sameCfg Z b c) : sameCfg Z a c :=
  ⟨h2.1.trans h1.1, h2.2.1.trans h1.2.1,
    fun i => ⟨((h2.2.2 i).1).trans (h1.2.2 i).1, ((h2.2.2 i).2).trans (h1.2.2 i).2⟩⟩

theorem sameCfg_setSignStore (Z : Build) (st : CertStore) (Idx : Nat) (S : XCert_SignStore) :
    sameCfg Z st (setSignStore Z st Idx S) := by
  refine ⟨rfl, by simp [setSignStore, setSlot], ?_⟩
  intro i
  unfold setSignStore
  by_cases hi : i = Idx
  · subst hi
    by_cases hin : i < st.CertDB.length
    · rw [slot_setSlot_same Z _ _ _ hin]
      exact ⟨rfl, rfl⟩
    · have : setSlot st i { slot Z st i with SignStore := S } = st := by
        unfold setSlot
        rw [List.set_eq_of_length_le (Nat.le_of_not_lt hin)]
      rw [this]
      exact ⟨rfl, rfl⟩
  · rw [slot_setSlot_other Z _ _ _ _ hi]
    exact ⟨rfl, rfl⟩

theorem sign_sameCfg (E : Env) (Z : Build) (st : CertStore) (t : List Event) (Id : Nat)
    (HashTmp Key : List Nat) :
    sameCfg Z st (XCert_GenerateX509Cert_sign E Z st t Id HashTmp Key).2.1 := by
  unfold XCert_GenerateX509Cert_sign
  simp only []
  repeat' split
  all_goals
    first
    | exact sameCfg_refl Z st
    | exact sameCfg_setSignStore Z st _ _
    | exact sameCfg_trans Z _ _ _ (sameCfg_setSignStore Z st _ _)
        (sameCfg_setSignStore Z _ _ _)
    | exact sameCfg_trans Z _ _ _ (sameCfg_trans Z _ _ _ (sameCfg_setSignStore Z st _ _)
        (sameCfg_setSignStore Z _ _ _)) (sameCfg_setSignStore Z _ _ _)

/-! ## Algebra of buffer stores -/

theorem wrBytes_nil (p : Nat) (xs : List Nat) : wrBytes [] p xs = [] := by
  cases p <;> cases xs <;> rfl

theorem wrBytes_getElem? (b : List Nat) (p : Nat) (xs : List Nat) (i : Nat) :
    (wrBytes b p xs)[i]? =
      if p ≤ i ∧ i < p + xs.length ∧ i < b.length then xs[i - p]? else b[i]? := by
  induction b generalizing p xs i with
  | nil => simp [wrBytes_nil]
  | cons x b ih =>
    cases p with
    | zero =>
      cases xs with
      | nil => simp [wrBytes]
      | cons v vs =>
        cases i with
        | zero => simp [wrBytes]
        | succ i =>
          simp only [wrBytes, List.getElem?_cons_succ, ih, Nat.zero_le, true_and, Nat.sub_zero,
            List.length_cons, Nat.zero_add, Nat.add_lt_add_iff_right]
    | succ p =>
      cases i with
      | zero => simp [wrBytes]
      | succ i =>
        simp only [wrBytes, List.getElem?_cons_succ, ih, List.length_cons,
          Nat.add_le_add_iff_right, Nat.add_lt_add_iff_right]
        have h1 : i + 1 - (p + 1) = i - p := by omega
        rw [h1]
        by_cases hc : p ≤ i ∧ i < p + xs.length ∧ i < b.length
        · have hc2 : p ≤ i ∧ i + 1 < p + 1 + xs.length ∧ i < b.length := by omega
          rw [if_pos hc, if_pos hc2]
        · have hc2 : ¬ (p ≤ i ∧ i + 1 < p + 1 + xs.length ∧ i < b.length) := by omega
          rw [if_neg hc, if_neg hc2]

theorem wrBytes_length (b : List Nat) (p : Nat) (xs : List Nat) :
    (wrBytes b p xs).length = b.length := by
  induction b generalizing p xs with
  | nil => simp [wrBytes_nil]
  | cons x b ih =>
    cases p with
    | zero =>
      cases xs with
      | nil => simp [wrBytes]
      | cons v vs => simp [wrBytes, ih]
    | succ p => simp [wrBytes, ih]

theorem wr_eq_wrBytes (b : List Nat) (i v : Nat) : wr b i v = wrBytes b i [v] := by
  apply List.ext_getElem?
  intro j
  rw [wrBytes_getElem?]
  unfold wr
  rw [List.getElem?_set]
  by_cases h : i = j
  · subst h
    by_cases hl : i < b.length
    · simp [hl]
    · simp [hl]
      omega
  · simp only [h, if_false, List.length_singleton]
    have : ¬ (i ≤ j ∧ j < i + 1 ∧ j < b.length) := by omega
    rw [if_neg this]

/-- Two stores, the second starting where the first ends, are one store. -/
theorem wrBytes_append (b : List Nat) (p n : Nat) (xs ys : List Nat) (h : xs.length = n) :
    wrBytes (wrBytes b p xs) (p + n) ys = wrBytes b p (xs ++ ys) := by
  subst h
  apply List.ext_getElem?
  intro i
  simp only [wrBytes_getElem?, wrBytes_length, List.length_append]
  by_cases h1 : p + xs.length ≤ i ∧ i < p + xs.length + ys.length ∧ i < b.length
  · rw [if_pos h1]
    have h2 : p ≤ i ∧ i < p + (xs.length + ys.length) ∧ i < b.length := by omega
    rw [if_pos h2]
    rw [List.getElem?_append_right (by omega)]
    congr 1
    omega
  · rw [if_neg h1]
    by_cases h2 : p ≤ i ∧ i < p + xs.length ∧ i < b.length
    · rw [if_pos h2]
      have h3 : p ≤ i ∧ i < p + (xs.length + ys.length) ∧ i < b.length := by omega
      rw [if_pos h3]
      rw [List.getElem?_append_left (by omega)]
    · rw [if_neg h2]
      have h3 : ¬ (p ≤ i ∧ i < p + (xs.length + ys.length) ∧ i < b.length) := by omega
      rw [if_neg h3]

/-- A store that leaves one byte out after an earlier store equals one store in which
the byte left out keeps the value the buffer had. -/
theorem wrBytes_gap (b : List Nat) (p n : Nat) (xs ys : List Nat) (h : xs.length = n) :
    wrBytes (wrBytes b p xs) (p + (n + 1)) ys = wrBytes b p (xs ++ b.getD (p + n) 0 :: ys) := by
  subst h
  apply List.ext_getElem?
  intro i
  simp only [wrBytes_getElem?, wrBytes_length, List.length_append, List.length_cons]
  by_cases h1 : p + (xs.length + 1) ≤ i ∧ i < p + (xs.length + 1) + ys.length ∧ i < b.length
  · rw [if_pos h1]
    have h2 : p ≤ i ∧ i < p + (xs.length + (ys.length + 1)) ∧ i < b.length := by omega
    rw [if_pos h2]
    rw [List.getElem?_append_right (by omega)]
    have h3 : i - p - xs.length = (i - (p + (xs.length + 1))) + 1 := by omega
    rw [h3, List.getElem?_cons_succ]
  · rw [if_neg h1]
    by_cases h2 : p ≤ i ∧ i < p + xs.length ∧ i < b.length
    · rw [if_pos h2]
      have h3 : p ≤ i ∧ i < p + (xs.length + (ys.length + 1)) ∧ i < b.length := by omega
      rw [if_pos h3]
      rw [List.getElem?_append_left (by omega)]
    · rw [if_neg h2]
      by_cases h4 : i = p + xs.length ∧ i < b.length
      · have h3 : p ≤ i ∧ i < p + (xs.length + (ys.length + 1)) ∧ i < b.length := by omega
        rw [if_pos h3]
        rw [List.getElem?_append_right (by omega)]
        have h5 : i - p - xs.length = 0 := by omega
        rw [h5, h4.1]
        simp [List.getD_eq_getElem?_getD, List.getElem?_eq_getElem (h4.1 ▸ h4.2)]
      · have h3 : ¬ (p ≤ i ∧ i < p + (xs.length + (ys.length + 1)) ∧ i < b.length) := by omega
        rw [if_neg h3]

/-- A store of one byte into the part an earlier store has written changes that byte of
the earlier store. -/
theorem wrBytes_set (b : List Nat) (p k : Nat) (xs : List Nat) (v : Nat) (h : k < xs.length) :
    wrBytes (wrBytes b p xs) (p + k) [v] = wrBytes b p (xs.set k v) := by
  apply List.ext_getElem?
  intro i
  simp only [wrBytes_getElem?, wrBytes_length, List.length_singleton, List.length_set]
  by_cases h1 : p + k ≤ i ∧ i < p + k + 1 ∧ i < b.length
  · rw [if_pos h1]
    have h2 : p ≤ i ∧ i < p + xs.length ∧ i < b.length := by omega
    rw [if_pos h2]
    have h3 : i - (p + k) = 0 := by omega
    have h4 : i - p = k := by omega
    rw [h3, h4, List.getElem?_set]
    simp [h]
  · rw [if_neg h1]
    by_cases h2 : p ≤ i ∧ i < p + xs.length ∧ i < b.length
    · rw [if_pos h2, if_pos h2]
      rw [List.getElem?_set]
      have h3 : ¬ k = i - p := by omega
      simp [h3]
    · rw [if_neg h2, if_neg h2]

/-! ## The DER helpers in closed form -/

theorem wrBytes_set_zero (b : List Nat) (p : Nat) (xs : List Nat) (v : Nat)
    (h : 0 < xs.length) : wrBytes (wrBytes b p xs) p [v] = wrBytes b p (xs.set 0 v) := by
  have := wrBytes_set b p 0 xs v h
  simpa using this

theorem wrBytes_gap_one (b : List Nat) (p n : Nat) (xs ys : List Nat) (h : xs.length + 1 = n) :
    wrBytes (wrBytes b p xs) (p + n) ys = wrBytes b p (xs ++ b.getD (p + xs.length) 0 :: ys) := by
  subst h
  exact wrBytes_gap b p xs.length xs ys rfl

theorem wrBytes_first_gap (b : List Nat) (p : Nat) (x : Nat) (ys : List Nat) :
    wrBytes (wrBytes b p [x]) (p + 2) ys = wrBytes b p (x :: b.getD (p + 1) 0 :: ys) :=
  wrBytes_gap b p 1 [x] ys rfl

theorem integerBytes_length (v : List Nat) (n : Nat) :
    (integerBytes v n).length = if needsPad v then n + 3 else n + 2 := by
  unfold integerBytes
  split_ifs <;> simp [fit_length]

theorem createInteger_eq (b : List Nat) (p : Nat) (v : List Nat) (n : Nat) :
    XCert_CreateInteger b p v n = (wrBytes b p (integerBytes v n), (integerBytes v n).length) := by
  unfold XCert_CreateInteger integerBytes needsPad
  simp only [wr_eq_wrBytes, XCERT_ASN1_TAG_INTEGER]
  by_cases hp : (v.getD 0 0 &&& XCERT_BIT7_MASK) = XCERT_BIT7_MASK
  · simp only [hp, if_true, decide_True]
    have e1 : p + 1 + 1 = p + 2 := by omega
    have e2 : p + 2 + 1 = p + 3 := by omega
    have e3 : p + 3 + n - (p + 2) = n + 1 := by omega
    have e4 : p + 3 + n - p = n + 3 := by omega
    rw [e1, e2, e3, e4]
    rw [wrBytes_first_gap, wrBytes_append b p 3 _ _ (by rfl), wrBytes_set b p 1 _ _ (by simp)]
    simp [fit_length]
  · simp only [hp, if_false, decide_False, Bool.false_eq_true]
    have e1 : p + 1 + 1 = p + 2 := by omega
    have e3 : p + 2 + n - (p + 2) = n := by omega
    have e4 : p + 2 + n - p = n + 2 := by omega
    rw [e1, e3, e4]
    rw [wrBytes_first_gap, wrBytes_set b p 1 _ _ (by simp)]
    simp [fit_length]

theorem createOctetString_eq (b : List Nat) (p : Nat) (v : List Nat) (n : Nat) :
    XCert_CreateOctetString b p v n = (wrBytes b p (octetStringBytes v n), n + 2) := by
  unfold XCert_CreateOctetString octetStringBytes
  simp only [wr_eq_wrBytes, XCERT_ASN1_TAG_OCTETSTRING]
  have e1 : p + 1 + 1 = p + 2 := by omega
  have e4 : p + 2 + n - p = n + 2 := by omega
  rw [e1, e4]
  rw [wrBytes_append b p 1 _ _ (by rfl), wrBytes_append b p 2 _ _ (by rfl)]
  simp

theorem createBitString_eq (b : List Nat) (p : Nat) (v : List Nat) (n : Nat) :
    XCert_CreateBitString b p v n = (wrBytes b p (bitStringBytes v n), n + 3) := by
  unfold XCert_CreateBitString bitStringBytes
  simp only [wr_eq_wrBytes, XCERT_ASN1_TAG_BITSTRING]
  have e1 : p + 1 + 1 = p + 2 := by omega
  have e2 : p + 2 + 1 = p + 3 := by omega
  have e4 : p + 3 + n - p = n + 3 := by omega
  rw [e1, e2, e4]
  rw [wrBytes_append b p 1 _ _ (by rfl), wrBytes_append b p 2 _ _ (by rfl), wrBytes_append b p 3 _ _ (by rfl)]
  simp

theorem createBoolean_true_eq (b : List Nat) (p : Nat) :
    XCert_CreateBoolean b p TRUE = (wrBytes b p [0x01, 0x01, 0xFF], 3) := by
  unfold XCert_CreateBoolean
  simp only [wr_eq_wrBytes, XCERT_ASN1_TAG_BOOLEAN, if_true]
  have e1 : p + 1 + 1 = p + 2 := by omega
  have e4 : p + 2 + 1 - p = 3 := by omega
  rw [e1, e4]
  rw [wrBytes_append b p 1 _ _ (by rfl), wrBytes_append b p 2 _ _ (by rfl)]
  simp

theorem createRawDataFromByteArray_eq (b : List Nat) (p : Nat) (v : List Nat) (n : Nat) :
    XCert_CreateRawDataFromByteArray b p v n = (wrBytes b p (fit n v), n) := rfl

theorem createRawDataFromStr_eq (b : List Nat) (p : Nat) (RawData : String) (bs : List Nat)
    (h : hexBytes RawData.data = some bs) :
    XCert_CreateRawDataFromStr b p RawData = (XST_SUCCESS, wrBytes b p bs, bs.length) := by
  unfold XCert_CreateRawDataFromStr
  rw [h]

theorem oid_sign_algo :
    hexBytes XCERT_OID_SIGN_ALGO.data =
      some [0x06, 0x08, 0x2A, 0x86, 0x48, 0xCE, 0x3D, 0x04, 0x03, 0x03] := by decide

theorem oid_ec_public_key :
    hexBytes XCERT_OID_EC_PUBLIC_KEY.data =
      some [0x06, 0x07, 0x2A, 0x86, 0x48, 0xCE, 0x3D, 0x02, 0x01] := by decide

theorem oid_p384 :
    hexBytes XCERT_OID_P384.data = some [0x06, 0x05, 0x2B, 0x81, 0x04, 0x00, 0x22] := by decide

theorem oid_sub_key_identifier :
    hexBytes XCERT_OID_SUB_KEY_IDENTIFIER.data = some [0x06, 0x03, 0x55, 0x1D, 0x0E] := by
  decide

theorem oid_auth_key_identifier :
    hexBytes XCERT_OID_AUTH_KEY_IDENTIFIER.data = some [0x06, 0x03, 0x55, 0x1D, 0x23] := by
  decide

theorem oid_tcb_info_extn :
    hexBytes XCERT_OID_TCB_INFO_EXTN.data =
      some [0x06, 0x06, 0x67, 0x81, 0x05, 0x05, 0x04, 0x01] := by decide

theorem oid_ueid_extn :
    hexBytes XCERT_OID_UEID_EXTN.data =
      some [0x06, 0x06, 0x67, 0x81, 0x05, 0x05, 0x04, 0x04] := by decide

theorem oid_key_usage_extn :
    hexBytes XCERT_OID_KEY_USAGE_EXTN.data = some [0x06, 0x03, 0x55, 0x1D, 0x0F] := by decide

theorem oid_eku_extn :
    hexBytes XCERT_OID_EKU_EXTN.data = some [0x06, 0x03, 0x55, 0x1D, 0x25] := by decide

theorem oid_eku_client_auth :
    hexBytes XCERT_OID_EKU_CLIENT_AUTH.data =
      some [0x06, 0x08, 0x2B, 0x06, 0x01, 0x05, 0x05, 0x07, 0x03, 0x02] := by decide

theorem oid_sha3_384 :
    hexBytes XCERT_OID_SHA3_384.data =
      some [0x06, 0x09, 0x60, 0x86, 0x48, 0x01, 0x65, 0x03, 0x04, 0x02, 0x09] := by decide

/-! ## The field generators in closed form -/

theorem genSignAlgoField_eq (b : List Nat) (p : Nat) :
    XCert_GenSignAlgoField b p = (XST_SUCCESS, wrBytes b p signAlgoBytes, 14) := by
  unfold XCert_GenSignAlgoField signAlgoBytes
  simp only [createRawDataFromStr_eq _ _ _ _ oid_sign_algo, wr_eq_wrBytes, Nat.add_assoc, Nat.reduceAdd, Nat.reduceSub, Nat.reduceMod, Nat.reduceLT,
    Nat.reduceMul, Nat.add_sub_add_left, Nat.add_sub_cancel_left, wrBytes_first_gap, wrBytes_append,
    wrBytes_gap_one, wrBytes_set, wrBytes_set_zero, List.length_cons, List.length_nil,
    List.length_append, fit_length, List.cons_append, List.nil_append, List.append_assoc,
    List.singleton_append, List.set_cons_succ, List.set_cons_zero, ne_eq, not_true_eq_false,
    if_false, ite_false, if_true, ite_true, XCERT_ASN1_TAG_INTEGER, XCERT_ASN1_TAG_BITSTRING,
    XCERT_ASN1_TAG_OCTETSTRING, XCERT_ASN1_TAG_NULL, XCERT_ASN1_TAG_BOOLEAN,
    XCERT_ASN1_TAG_SEQUENCE, XCERT_NULL_VALUE, XCERT_LEN_OF_VALUE_OF_VERSION,
    XCERT_VERSION_VALUE_V3, XCERT_LEN_OF_VALUE_OF_SERIAL, XCERT_SUB_KEY_ID_VAL_LEN,
    XCERT_AUTH_KEY_ID_VAL_LEN, XCERT_HASH_SIZE_IN_BYTES, XSECURE_ECC_P384_SIZE_IN_BYTES,
    XCERT_ECC_P384_PUBLIC_KEY_LEN, XCERT_AUTH_KEY_ID_OPTIONAL_PARAM,
    XCERT_OPTIONAL_PARAM_3_TAG, XCERT_OPTIONAL_PARAM_6_TAG, XCERT_DNA_LEN_IN_BYTES,
    XCERT_DNA_LEN_IN_WORDS, XCERT_WORD_LEN, XCERT_MAX_LEN_OF_KEYUSAGE_VAL,
    createOctetString_eq, createBitString_eq, createBoolean_true_eq,
    createRawDataFromByteArray_eq, octetStringBytes, bitStringBytes]

theorem genVersionField_eq (b : List Nat) (p : Nat) :
    XCert_GenVersionField b p = (wrBytes b p versionBytes, 3) := by
  unfold XCert_GenVersionField versionBytes
  simp only [wr_eq_wrBytes, Nat.add_assoc, Nat.reduceAdd, Nat.reduceSub, Nat.reduceMod, Nat.reduceLT,
    Nat.reduceMul, Nat.add_sub_add_left, Nat.add_sub_cancel_left, wrBytes_first_gap, wrBytes_append,
    wrBytes_gap_one, wrBytes_set, wrBytes_set_zero, List.length_cons, List.length_nil,
    List.length_append, fit_length, List.cons_append, List.nil_append, List.append_assoc,
    List.singleton_append, List.set_cons_succ, List.set_cons_zero, ne_eq, not_true_eq_false,
    if_false, ite_false, if_true, ite_true, XCERT_ASN1_TAG_INTEGER, XCERT_ASN1_TAG_BITSTRING,
    XCERT_ASN1_TAG_OCTETSTRING, XCERT_ASN1_TAG_NULL, XCERT_ASN1_TAG_BOOLEAN,
    XCERT_ASN1_TAG_SEQUENCE, XCERT_NULL_VALUE, XCERT_LEN_OF_VALUE_OF_VERSION,
    XCERT_VERSION_VALUE_V3, XCERT_LEN_OF_VALUE_OF_SERIAL, XCERT_SUB_KEY_ID_VAL_LEN,
    XCERT_AUTH_KEY_ID_VAL_LEN, XCERT_HASH_SIZE_IN_BYTES, XSECURE_ECC_P384_SIZE_IN_BYTES,
    XCERT_ECC_P384_PUBLIC_KEY_LEN, XCERT_AUTH_KEY_ID_OPTIONAL_PARAM,
    XCERT_OPTIONAL_PARAM_3_TAG, XCERT_OPTIONAL_PARAM_6_TAG, XCERT_DNA_LEN_IN_BYTES,
    XCERT_DNA_LEN_IN_WORDS, XCERT_WORD_LEN, XCERT_MAX_LEN_OF_KEYUSAGE_VAL,
    createOctetString_eq, createBitString_eq, createBoolean_true_eq,
    createRawDataFromByteArray_eq, octetStringBytes, bitStringBytes]

theorem genPubKeyAlgIdentifierField_eq (b : List Nat) (p : Nat) :
    XCert_GenPubKeyAlgIdentifierField b p =
      (XST_SUCCESS, wrBytes b p pubKeyAlgIdentifierBytes, 18) := by
  unfold XCert_GenPubKeyAlgIdentifierField pubKeyAlgIdentifierBytes
  simp only [createRawDataFromStr_eq _ _ _ _ oid_ec_public_key,
    createRawDataFromStr_eq _ _ _ _ oid_p384, wr_eq_wrBytes, Nat.add_assoc, Nat.reduceAdd, Nat.reduceSub, Nat.reduceMod, Nat.reduceLT,
    Nat.reduceMul, Nat.add_sub_add_left, Nat.add_sub_cancel_left, wrBytes_first_gap, wrBytes_append,
    wrBytes_gap_one, wrBytes_set, wrBytes_set_zero, List.length_cons, List.length_nil,
    List.length_append, fit_length, List.cons_append, List.nil_append, List.append_assoc,
    List.singleton_append, List.set_cons_succ, List.set_cons_zero, ne_eq, not_true_eq_false,
    if_false, ite_false, if_true, ite_true, XCERT_ASN1_TAG_INTEGER, XCERT_ASN1_TAG_BITSTRING,
    XCERT_ASN1_TAG_OCTETSTRING, XCERT_ASN1_TAG_NULL, XCERT_ASN1_TAG_BOOLEAN,
    XCERT_ASN1_TAG_SEQUENCE, XCERT_NULL_VALUE, XCERT_LEN_OF_VALUE_OF_VERSION,
    XCERT_VERSION_VALUE_V3, XCERT_LEN_OF_VALUE_OF_SERIAL, XCERT_SUB_KEY_ID_VAL_LEN,
    XCERT_AUTH_KEY_ID_VAL_LEN, XCERT_HASH_SIZE_IN_BYTES, XSECURE_ECC_P384_SIZE_IN_BYTES,
    XCERT_ECC_P384_PUBLIC_KEY_LEN, XCERT_AUTH_KEY_ID_OPTIONAL_PARAM,
    XCERT_OPTIONAL_PARAM_3_TAG, XCERT_OPTIONAL_PARAM_6_TAG, XCERT_DNA_LEN_IN_BYTES,
    XCERT_DNA_LEN_IN_WORDS, XCERT_WORD_LEN, XCERT_MAX_LEN_OF_KEYUSAGE_VAL,
    createOctetString_eq, createBitString_eq, createBoolean_true_eq,
    createRawDataFromByteArray_eq, octetStringBytes, bitStringBytes]

theorem genPublicKeyInfoField_eq (b : List Nat) (p : Nat) (key : List Nat) :
    XCert_GenPublicKeyInfoField b p key =
      (XST_SUCCESS, wrBytes b p (publicKeyInfoBytes key), 119) := by
  unfold XCert_GenPublicKeyInfoField publicKeyInfoBytes
  simp only [genPubKeyAlgIdentifierField_eq, pubKeyAlgIdentifierBytes, wr_eq_wrBytes, Nat.add_assoc, Nat.reduceAdd, Nat.reduceSub, Nat.reduceMod, Nat.reduceLT,
    Nat.reduceMul, Nat.add_sub_add_left, Nat.add_sub_cancel_left, wrBytes_first_gap, wrBytes_append,
    wrBytes_gap_one, wrBytes_set, wrBytes_set_zero, List.length_cons, List.length_nil,
    List.length_append, fit_length, List.cons_append, List.nil_append, List.append_assoc,
    List.singleton_append, List.set_cons_succ, List.set_cons_zero, ne_eq, not_true_eq_false,
    if_false, ite_false, if_true, ite_true, XCERT_ASN1_TAG_INTEGER, XCERT_ASN1_TAG_BITSTRING,
    XCERT_ASN1_TAG_OCTETSTRING, XCERT_ASN1_TAG_NULL, XCERT_ASN1_TAG_BOOLEAN,
    XCERT_ASN1_TAG_SEQUENCE, XCERT_NULL_VALUE, XCERT_LEN_OF_VALUE_OF_VERSION,
    XCERT_VERSION_VALUE_V3, XCERT_LEN_OF_VALUE_OF_SERIAL, XCERT_SUB_KEY_ID_VAL_LEN,
    XCERT_AUTH_KEY_ID_VAL_LEN, XCERT_HASH_SIZE_IN_BYTES, XSECURE_ECC_P384_SIZE_IN_BYTES,
    XCERT_ECC_P384_PUBLIC_KEY_LEN, XCERT_AUTH_KEY_ID_OPTIONAL_PARAM,
    XCERT_OPTIONAL_PARAM_3_TAG, XCERT_OPTIONAL_PARAM_6_TAG, XCERT_DNA_LEN_IN_BYTES,
    XCERT_DNA_LEN_IN_WORDS, XCERT_WORD_LEN, XCERT_MAX_LEN_OF_KEYUSAGE_VAL,
    createOctetString_eq, createBitString_eq, createBoolean_true_eq,
    createRawDataFromByteArray_eq, octetStringBytes, bitStringBytes]

theorem genTcbInfoExtnField_eq (b : List Nat) (p : Nat) (A : XCert_AppCfg) :
    XCert_GenTcbInfoExtnField b p A =
      (XST_SUCCESS, wrBytes b p (tcbInfoExtnBytes A.FwHash), 79) := by
  unfold XCert_GenTcbInfoExtnField tcbInfoExtnBytes
  simp only [createRawDataFromStr_eq _ _ _ _ oid_tcb_info_extn,
    createRawDataFromStr_eq _ _ _ _ oid_sha3_384, wr_eq_wrBytes, Nat.add_assoc, Nat.reduceAdd, Nat.reduceSub, Nat.reduceMod, Nat.reduceLT,
    Nat.reduceMul, Nat.add_sub_add_left, Nat.add_sub_cancel_left, wrBytes_first_gap, wrBytes_append,
    wrBytes_gap_one, wrBytes_set, wrBytes_set_zero, List.length_cons, List.length_nil,
    List.length_append, fit_length, List.cons_append, List.nil_append, List.append_assoc,
    List.singleton_append, List.set_cons_succ, List.set_cons_zero, ne_eq, not_true_eq_false,
    if_false, ite_false, if_true, ite_true, XCERT_ASN1_TAG_INTEGER, XCERT_ASN1_TAG_BITSTRING,
    XCERT_ASN1_TAG_OCTETSTRING, XCERT_ASN1_TAG_NULL, XCERT_ASN1_TAG_BOOLEAN,
    XCERT_ASN1_TAG_SEQUENCE, XCERT_NULL_VALUE, XCERT_LEN_OF_VALUE_OF_VERSION,
    XCERT_VERSION_VALUE_V3, XCERT_LEN_OF_VALUE_OF_SERIAL, XCERT_SUB_KEY_ID_VAL_LEN,
    XCERT_AUTH_KEY_ID_VAL_LEN, XCERT_HASH_SIZE_IN_BYTES, XSECURE_ECC_P384_SIZE_IN_BYTES,
    XCERT_ECC_P384_PUBLIC_KEY_LEN, XCERT_AUTH_KEY_ID_OPTIONAL_PARAM,
    XCERT_OPTIONAL_PARAM_3_TAG, XCERT_OPTIONAL_PARAM_6_TAG, XCERT_DNA_LEN_IN_BYTES,
    XCERT_DNA_LEN_IN_WORDS, XCERT_WORD_LEN, XCERT_MAX_LEN_OF_KEYUSAGE_VAL,
    createOctetString_eq, createBitString_eq, createBoolean_true_eq,
    createRawDataFromByteArray_eq, octetStringBytes, bitStringBytes]

theorem genUeidExnField_eq (E : Env) (b : List Nat) (p : Nat) :
    XCert_GenUeidExnField E b p = (XST_SUCCESS, wrBytes b p (ueidExnBytes (dnaBytes E)), 32) := by
  unfold XCert_GenUeidExnField ueidExnBytes dnaBytes
  simp only [createRawDataFromStr_eq _ _ _ _ oid_ueid_extn, wr_eq_wrBytes, Nat.add_assoc, Nat.reduceAdd, Nat.reduceSub, Nat.reduceMod, Nat.reduceLT,
    Nat.reduceMul, Nat.add_sub_add_left, Nat.add_sub_cancel_left, wrBytes_first_gap, wrBytes_append,
    wrBytes_gap_one, wrBytes_set, wrBytes_set_zero, List.length_cons, List.length_nil,
    List.length_append, fit_length, List.cons_append, List.nil_append, List.append_assoc,
    List.singleton_append, List.set_cons_succ, List.set_cons_zero, ne_eq, not_true_eq_false,
    if_false, ite_false, if_true, ite_true, XCERT_ASN1_TAG_INTEGER, XCERT_ASN1_TAG_BITSTRING,
    XCERT_ASN1_TAG_OCTETSTRING, XCERT_ASN1_TAG_NULL, XCERT_ASN1_TAG_BOOLEAN,
    XCERT_ASN1_TAG_SEQUENCE, XCERT_NULL_VALUE, XCERT_LEN_OF_VALUE_OF_VERSION,
    XCERT_VERSION_VALUE_V3, XCERT_LEN_OF_VALUE_OF_SERIAL, XCERT_SUB_KEY_ID_VAL_LEN,
    XCERT_AUTH_KEY_ID_VAL_LEN, XCERT_HASH_SIZE_IN_BYTES, XSECURE_ECC_P384_SIZE_IN_BYTES,
    XCERT_ECC_P384_PUBLIC_KEY_LEN, XCERT_AUTH_KEY_ID_OPTIONAL_PARAM,
    XCERT_OPTIONAL_PARAM_3_TAG, XCERT_OPTIONAL_PARAM_6_TAG, XCERT_DNA_LEN_IN_BYTES,
    XCERT_DNA_LEN_IN_WORDS, XCERT_WORD_LEN, XCERT_MAX_LEN_OF_KEYUSAGE_VAL,
    createOctetString_eq, createBitString_eq, createBoolean_true_eq,
    createRawDataFromByteArray_eq, octetStringBytes, bitStringBytes]

theorem genExtKeyUsageField_eq (b : List Nat) (p : Nat) :
    XCert_GenExtKeyUsageField b p = (XST_SUCCESS, wrBytes b p extKeyUsageBytes, 24) := by
  unfold XCert_GenExtKeyUsageField extKeyUsageBytes
  simp only [createRawDataFromStr_eq _ _ _ _ oid_eku_extn,
    createRawDataFromStr_eq _ _ _ _ oid_eku_client_auth, wr_eq_wrBytes, Nat.add_assoc, Nat.reduceAdd, Nat.reduceSub, Nat.reduceMod, Nat.reduceLT,
    Nat.reduceMul, Nat.add_sub_add_left, Nat.add_sub_cancel_left, wrBytes_first_gap, wrBytes_append,
    wrBytes_gap_one, wrBytes_set, wrBytes_set_zero, List.length_cons, List.length_nil,
    List.length_append, fit_length, List.cons_append, List.nil_append, List.append_assoc,
    List.singleton_append, List.set_cons_succ, List.set_cons_zero, ne_eq, not_true_eq_false,
    if_false, ite_false, if_true, ite_true, XCERT_ASN1_TAG_INTEGER, XCERT_ASN1_TAG_BITSTRING,
    XCERT_ASN1_TAG_OCTETSTRING, XCERT_ASN1_TAG_NULL, XCERT_ASN1_TAG_BOOLEAN,
    XCERT_ASN1_TAG_SEQUENCE, XCERT_NULL_VALUE, XCERT_LEN_OF_VALUE_OF_VERSION,
    XCERT_VERSION_VALUE_V3, XCERT_LEN_OF_VALUE_OF_SERIAL, XCERT_SUB_KEY_ID_VAL_LEN,
    XCERT_AUTH_KEY_ID_VAL_LEN, XCERT_HASH_SIZE_IN_BYTES, XSECURE_ECC_P384_SIZE_IN_BYTES,
    XCERT_ECC_P384_PUBLIC_KEY_LEN, XCERT_AUTH_KEY_ID_OPTIONAL_PARAM,
    XCERT_OPTIONAL_PARAM_3_TAG, XCERT_OPTIONAL_PARAM_6_TAG, XCERT_DNA_LEN_IN_BYTES,
    XCERT_DNA_LEN_IN_WORDS, XCERT_WORD_LEN, XCERT_MAX_LEN_OF_KEYUSAGE_VAL,
    createOctetString_eq, createBitString_eq, createBoolean_true_eq,
    createRawDataFromByteArray_eq, octetStringBytes, bitStringBytes]

theorem keyUsageVal_self :
    XCert_UpdateKeyUsageVal (List.replicate 2 0) XCERT_KEYCERTSIGN = [0x04, 0x00] := by decide

theorem keyUsageVal_other :
    XCert_UpdateKeyUsageVal (XCert_UpdateKeyUsageVal (List.replicate 2 0)
      XCERT_DIGITALSIGNATURE) XCERT_KEYAGREEMENT = [0x88, 0x00] := by decide

theorem genKeyUsageField_eq (b : List Nat) (p : Nat) (A : XCert_AppCfg) :
    XCert_GenKeyUsageField b p A =
      (XST_SUCCESS, wrBytes b p (keyUsageBytes A.IsSelfSigned), 16) := by
  unfold XCert_GenKeyUsageField keyUsageBytes
  have h1 : ([0x04, 0x00] : List Nat).getD 1 0 &&& 255 = 0 := by decide
  have h2 : ([0x88, 0x00] : List Nat).getD 1 0 &&& 255 = 0 := by decide
  have f1 : fit 1 [0x04, 0x00] = [0x04] := by decide
  have f2 : fit 1 [0x88, 0x00] = [0x88] := by decide
  by_cases hs : A.IsSelfSigned = TRUE
  · simp only [hs, keyUsageVal_self, createRawDataFromStr_eq _ _ _ _ oid_key_usage_extn,
      XCERT_BYTE_MASK, h1, f1, eq_self_iff_true, wr_eq_wrBytes, Nat.add_assoc, Nat.reduceAdd, Nat.reduceSub, Nat.reduceMod, Nat.reduceLT,
    Nat.reduceMul, Nat.add_sub_add_left, Nat.add_sub_cancel_left, wrBytes_first_gap, wrBytes_append,
    wrBytes_gap_one, wrBytes_set, wrBytes_set_zero, List.length_cons, List.length_nil,
    List.length_append, fit_length, List.cons_append, List.nil_append, List.append_assoc,
    List.singleton_append, List.set_cons_succ, List.set_cons_zero, ne_eq, not_true_eq_false,
    if_false, ite_false, if_true, ite_true, XCERT_ASN1_TAG_INTEGER, XCERT_ASN1_TAG_BITSTRING,
    XCERT_ASN1_TAG_OCTETSTRING, XCERT_ASN1_TAG_NULL, XCERT_ASN1_TAG_BOOLEAN,
    XCERT_ASN1_TAG_SEQUENCE, XCERT_NULL_VALUE, XCERT_LEN_OF_VALUE_OF_VERSION,
    XCERT_VERSION_VALUE_V3, XCERT_LEN_OF_VALUE_OF_SERIAL, XCERT_SUB_KEY_ID_VAL_LEN,
    XCERT_AUTH_KEY_ID_VAL_LEN, XCERT_HASH_SIZE_IN_BYTES, XSECURE_ECC_P384_SIZE_IN_BYTES,
    XCERT_ECC_P384_PUBLIC_KEY_LEN, XCERT_AUTH_KEY_ID_OPTIONAL_PARAM,
    XCERT_OPTIONAL_PARAM_3_TAG, XCERT_OPTIONAL_PARAM_6_TAG, XCERT_DNA_LEN_IN_BYTES,
    XCERT_DNA_LEN_IN_WORDS, XCERT_WORD_LEN, XCERT_MAX_LEN_OF_KEYUSAGE_VAL,
    createOctetString_eq, createBitString_eq, createBoolean_true_eq,
    createRawDataFromByteArray_eq, octetStringBytes, bitStringBytes]
  · simp only [hs, keyUsageVal_other, createRawDataFromStr_eq _ _ _ _ oid_key_usage_extn,
      XCERT_BYTE_MASK, h2, f2, eq_self_iff_true, wr_eq_wrBytes, Nat.add_assoc, Nat.reduceAdd, Nat.reduceSub, Nat.reduceMod, Nat.reduceLT,
    Nat.reduceMul, Nat.add_sub_add_left, Nat.add_sub_cancel_left, wrBytes_first_gap, wrBytes_append,
    wrBytes_gap_one, wrBytes_set, wrBytes_set_zero, List.length_cons, List.length_nil,
    List.length_append, fit_length, List.cons_append, List.nil_append, List.append_assoc,
    List.singleton_append, List.set_cons_succ, List.set_cons_zero, ne_eq, not_true_eq_false,
    if_false, ite_false, if_true, ite_true, XCERT_ASN1_TAG_INTEGER, XCERT_ASN1_TAG_BITSTRING,
    XCERT_ASN1_TAG_OCTETSTRING, XCERT_ASN1_TAG_NULL, XCERT_ASN1_TAG_BOOLEAN,
    XCERT_ASN1_TAG_SEQUENCE, XCERT_NULL_VALUE, XCERT_LEN_OF_VALUE_OF_VERSION,
    XCERT_VERSION_VALUE_V3, XCERT_LEN_OF_VALUE_OF_SERIAL, XCERT_SUB_KEY_ID_VAL_LEN,
    XCERT_AUTH_KEY_ID_VAL_LEN, XCERT_HASH_SIZE_IN_BYTES, XSECURE_ECC_P384_SIZE_IN_BYTES,
    XCERT_ECC_P384_PUBLIC_KEY_LEN, XCERT_AUTH_KEY_ID_OPTIONAL_PARAM,
    XCERT_OPTIONAL_PARAM_3_TAG, XCERT_OPTIONAL_PARAM_6_TAG, XCERT_DNA_LEN_IN_BYTES,
    XCERT_DNA_LEN_IN_WORDS, XCERT_WORD_LEN, XCERT_MAX_LEN_OF_KEYUSAGE_VAL,
    createOctetString_eq, createBitString_eq, createBoolean_true_eq,
    createRawDataFromByteArray_eq, octetStringBytes, bitStringBytes]

theorem genSubjectKeyIdentifierField_ok (E : Env) (b : List Nat) (p : Nat) (k : List Nat)
    (h : (XSecure_Sha384Digest E (fit 96 k)).1 = XST_SUCCESS) :
    XCert_GenSubjectKeyIdentifierField E b p k =
      (XST_SUCCESS, [Event.Digest (fit 96 k)],
        wrBytes b p (subjectKeyIdentifierBytes (XSecure_Sha384Digest E (fit 96 k)).2), 31) := by
  unfold XCert_GenSubjectKeyIdentifierField subjectKeyIdentifierBytes
  simp only [h, createRawDataFromStr_eq _ _ _ _ oid_sub_key_identifier, wr_eq_wrBytes, Nat.add_assoc, Nat.reduceAdd, Nat.reduceSub, Nat.reduceMod, Nat.reduceLT,
    Nat.reduceMul, Nat.add_sub_add_left, Nat.add_sub_cancel_left, wrBytes_first_gap, wrBytes_append,
    wrBytes_gap_one, wrBytes_set, wrBytes_set_zero, List.length_cons, List.length_nil,
    List.length_append, fit_length, List.cons_append, List.nil_append, List.append_assoc,
    List.singleton_append, List.set_cons_succ, List.set_cons_zero, ne_eq, not_true_eq_false,
    if_false, ite_false, if_true, ite_true, XCERT_ASN1_TAG_INTEGER, XCERT_ASN1_TAG_BITSTRING,
    XCERT_ASN1_TAG_OCTETSTRING, XCERT_ASN1_TAG_NULL, XCERT_ASN1_TAG_BOOLEAN,
    XCERT_ASN1_TAG_SEQUENCE, XCERT_NULL_VALUE, XCERT_LEN_OF_VALUE_OF_VERSION,
    XCERT_VERSION_VALUE_V3, XCERT_LEN_OF_VALUE_OF_SERIAL, XCERT_SUB_KEY_ID_VAL_LEN,
    XCERT_AUTH_KEY_ID_VAL_LEN, XCERT_HASH_SIZE_IN_BYTES, XSECURE_ECC_P384_SIZE_IN_BYTES,
    XCERT_ECC_P384_PUBLIC_KEY_LEN, XCERT_AUTH_KEY_ID_OPTIONAL_PARAM,
    XCERT_OPTIONAL_PARAM_3_TAG, XCERT_OPTIONAL_PARAM_6_TAG, XCERT_DNA_LEN_IN_BYTES,
    XCERT_DNA_LEN_IN_WORDS, XCERT_WORD_LEN, XCERT_MAX_LEN_OF_KEYUSAGE_VAL,
    createOctetString_eq, createBitString_eq, createBoolean_true_eq,
    createRawDataFromByteArray_eq, octetStringBytes, bitStringBytes]

theorem genSubjectKeyIdentifierField_fail (E : Env) (b : List Nat) (p : Nat) (k : List Nat)
    (h : (XSecure_Sha384Digest E (fit 96 k)).1 ≠ XST_SUCCESS) :
    ∃ b2, XCert_GenSubjectKeyIdentifierField E b p k =
      ((XSecure_Sha384Digest E (fit 96 k)).1, [Event.Digest (fit 96 k)], b2, 0) := by
  unfold XCert_GenSubjectKeyIdentifierField
  simp only [h, createRawDataFromStr_eq _ _ _ _ oid_sub_key_identifier, wr_eq_wrBytes, Nat.add_assoc, Nat.reduceAdd, Nat.reduceSub, Nat.reduceMod, Nat.reduceLT,
    Nat.reduceMul, Nat.add_sub_add_left, Nat.add_sub_cancel_left, wrBytes_first_gap, wrBytes_append,
    wrBytes_gap_one, wrBytes_set, wrBytes_set_zero, List.length_cons, List.length_nil,
    List.length_append, fit_length, List.cons_append, List.nil_append, List.append_assoc,
    List.singleton_append, List.set_cons_succ, List.set_cons_zero, ne_eq, not_true_eq_false,
    if_false, ite_false, if_true, ite_true, XCERT_ASN1_TAG_INTEGER, XCERT_ASN1_TAG_BITSTRING,
    XCERT_ASN1_TAG_OCTETSTRING, XCERT_ASN1_TAG_NULL, XCERT_ASN1_TAG_BOOLEAN,
    XCERT_ASN1_TAG_SEQUENCE, XCERT_NULL_VALUE, XCERT_LEN_OF_VALUE_OF_VERSION,
    XCERT_VERSION_VALUE_V3, XCERT_LEN_OF_VALUE_OF_SERIAL, XCERT_SUB_KEY_ID_VAL_LEN,
    XCERT_AUTH_KEY_ID_VAL_LEN, XCERT_HASH_SIZE_IN_BYTES, XSECURE_ECC_P384_SIZE_IN_BYTES,
    XCERT_ECC_P384_PUBLIC_KEY_LEN, XCERT_AUTH_KEY_ID_OPTIONAL_PARAM,
    XCERT_OPTIONAL_PARAM_3_TAG, XCERT_OPTIONAL_PARAM_6_TAG, XCERT_DNA_LEN_IN_BYTES,
    XCERT_DNA_LEN_IN_WORDS, XCERT_WORD_LEN, XCERT_MAX_LEN_OF_KEYUSAGE_VAL,
    createOctetString_eq, createBitString_eq, createBoolean_true_eq,
    createRawDataFromByteArray_eq, octetStringBytes, bitStringBytes]
  exact ⟨_, rfl⟩

theorem genAuthorityKeyIdentifierField_ok (E : Env) (b : List Nat) (p : Nat) (k : List Nat)
    (h : (XSecure_Sha384Digest E (fit 96 k)).1 = XST_SUCCESS) :
    XCert_GenAuthorityKeyIdentifierField E b p k =
      (XST_SUCCESS, [Event.Digest (fit 96 k)],
        wrBytes b p (authorityKeyIdentifierBytes (XSecure_Sha384Digest E (fit 96 k)).2), 33) := by
  unfold XCert_GenAuthorityKeyIdentifierField authorityKeyIdentifierBytes
  simp only [h, createRawDataFromStr_eq _ _ _ _ oid_auth_key_identifier, wr_eq_wrBytes, Nat.add_assoc, Nat.reduceAdd, Nat.reduceSub, Nat.reduceMod, Nat.reduceLT,
    Nat.reduceMul, Nat.add_sub_add_left, Nat.add_sub_cancel_left, wrBytes_first_gap, wrBytes_append,
    wrBytes_gap_one, wrBytes_set, wrBytes_set_zero, List.length_cons, List.length_nil,
    List.length_append, fit_length, List.cons_append, List.nil_append, List.append_assoc,
    List.singleton_append, List.set_cons_succ, List.set_cons_zero, ne_eq, not_true_eq_false,
    if_false, ite_false, if_true, ite_true, XCERT_ASN1_TAG_INTEGER, XCERT_ASN1_TAG_BITSTRING,
    XCERT_ASN1_TAG_OCTETSTRING, XCERT_ASN1_TAG_NULL, XCERT_ASN1_TAG_BOOLEAN,
    XCERT_ASN1_TAG_SEQUENCE, XCERT_NULL_VALUE, XCERT_LEN_OF_VALUE_OF_VERSION,
    XCERT_VERSION_VALUE_V3, XCERT_LEN_OF_VALUE_OF_SERIAL, XCERT_SUB_KEY_ID_VAL_LEN,
    XCERT_AUTH_KEY_ID_VAL_LEN, XCERT_HASH_SIZE_IN_BYTES, XSECURE_ECC_P384_SIZE_IN_BYTES,
    XCERT_ECC_P384_PUBLIC_KEY_LEN, XCERT_AUTH_KEY_ID_OPTIONAL_PARAM,
    XCERT_OPTIONAL_PARAM_3_TAG, XCERT_OPTIONAL_PARAM_6_TAG, XCERT_DNA_LEN_IN_BYTES,
    XCERT_DNA_LEN_IN_WORDS, XCERT_WORD_LEN, XCERT_MAX_LEN_OF_KEYUSAGE_VAL,
    createOctetString_eq, createBitString_eq, createBoolean_true_eq,
    createRawDataFromByteArray_eq, octetStringBytes, bitStringBytes]

theorem genAuthorityKeyIdentifierField_fail (E : Env) (b : List Nat) (p : Nat) (k : List Nat)
    (h : (XSecure_Sha384Digest E (fit 96 k)).1 ≠ XST_SUCCESS) :
    ∃ b2, XCert_GenAuthorityKeyIdentifierField E b p k =
      ((XSecure_Sha384Digest E (fit 96 k)).1, [Event.Digest (fit 96 k)], b2, 0) := by
  unfold XCert_GenAuthorityKeyIdentifierField
  simp only [h, createRawDataFromStr_eq _ _ _ _ oid_auth_key_identifier, wr_eq_wrBytes, Nat.add_assoc, Nat.reduceAdd, Nat.reduceSub, Nat.reduceMod, Nat.reduceLT,
    Nat.reduceMul, Nat.add_sub_add_left, Nat.add_sub_cancel_left, wrBytes_first_gap, wrBytes_append,
    wrBytes_gap_one, wrBytes_set, wrBytes_set_zero, List.length_cons, List.length_nil,
    List.length_append, fit_length, List.cons_append, List.nil_append, List.append_assoc,
    List.singleton_append, List.set_cons_succ, List.set_cons_zero, ne_eq, not_true_eq_false,
    if_false, ite_false, if_true, ite_true, XCERT_ASN1_TAG_INTEGER, XCERT_ASN1_TAG_BITSTRING,
    XCERT_ASN1_TAG_OCTETSTRING, XCERT_ASN1_TAG_NULL, XCERT_ASN1_TAG_BOOLEAN,
    XCERT_ASN1_TAG_SEQUENCE, XCERT_NULL_VALUE, XCERT_LEN_OF_VALUE_OF_VERSION,
    XCERT_VERSION_VALUE_V3, XCERT_LEN_OF_VALUE_OF_SERIAL, XCERT_SUB_KEY_ID_VAL_LEN,
    XCERT_AUTH_KEY_ID_VAL_LEN, XCERT_HASH_SIZE_IN_BYTES, XSECURE_ECC_P384_SIZE_IN_BYTES,
    XCERT_ECC_P384_PUBLIC_KEY_LEN, XCERT_AUTH_KEY_ID_OPTIONAL_PARAM,
    XCERT_OPTIONAL_PARAM_3_TAG, XCERT_OPTIONAL_PARAM_6_TAG, XCERT_DNA_LEN_IN_BYTES,
    XCERT_DNA_LEN_IN_WORDS, XCERT_WORD_LEN, XCERT_MAX_LEN_OF_KEYUSAGE_VAL,
    createOctetString_eq, createBitString_eq, createBoolean_true_eq,
    createRawDataFromByteArray_eq, octetStringBytes, bitStringBytes]
  exact ⟨_, rfl⟩

/-! ## Reads from the buffer and the length back-patch -/

/-- A store that starts inside the part an earlier store has written. -/
theorem wrBytes_splice (b : List Nat) (p i : Nat) (xs ys : List Nat) (h : i ≤ xs.length) :
    wrBytes (wrBytes b p xs) (p + i) ys =
      wrBytes b p (xs.take i ++ ys ++ xs.drop (i + ys.length)) := by
  apply List.ext_getElem?
  intro j
  simp only [wrBytes_getElem?, wrBytes_length, List.length_append, List.length_take,
    List.length_drop, Nat.min_eq_left h]
  by_cases h1 : p + i ≤ j ∧ j < p + i + ys.length ∧ j < b.length
  · rw [if_pos h1]
    have h2 : p ≤ j ∧ j < p + (i + ys.length + (xs.length - (i + ys.length))) ∧
        j < b.length := by omega
    rw [if_pos h2]
    rw [List.getElem?_append_left (by simp [Nat.min_eq_left h]; omega)]
    rw [List.getElem?_append_right (by simp [Nat.min_eq_left h]; omega)]
    simp only [List.length_take, Nat.min_eq_left h]
    congr 1
    omega
  · rw [if_neg h1]
    by_cases h2 : p ≤ j ∧ j < p + xs.length ∧ j < b.length
    · rw [if_pos h2]
      have h3 : p ≤ j ∧ j < p + (i + ys.length + (xs.length - (i + ys.length))) ∧
          j < b.length := by omega
      rw [if_pos h3]
      by_cases h4 : j < p + i
      · rw [List.getElem?_append_left (by simp [Nat.min_eq_left h]; omega)]
        rw [List.getElem?_append_left (by simp [Nat.min_eq_left h]; omega)]
        rw [List.getElem?_take]
        rw [if_pos (by omega)]
      · rw [List.getElem?_append_right (by simp [Nat.min_eq_left h]; omega)]
        simp only [List.length_append, List.length_take, Nat.min_eq_left h]
        rw [List.getElem?_drop]
        congr 1
        omega
    · rw [if_neg h2]
      have h3 : ¬ (p ≤ j ∧ j < p + (i + ys.length + (xs.length - (i + ys.length))) ∧
          j < b.length) := by omega
      rw [if_neg h3]

theorem rd_wrBytes (b : List Nat) (p i n : Nat) (xs : List Nat)
    (h : i + n ≤ xs.length) (hb : p + xs.length ≤ b.length) :
    rd (wrBytes b p xs) (p + i) n = (xs.drop i).take n := by
  unfold rd
  apply List.ext_getElem?
  intro j
  simp only [List.getElem?_take, List.getElem?_drop, wrBytes_getElem?]
  by_cases hj : j < n
  · rw [if_pos hj, if_pos hj]
    have h2 : p ≤ p + i + j ∧ p + i + j < p + xs.length ∧ p + i + j < b.length := by omega
    rw [if_pos h2]
    congr 1
    omega
  · rw [if_neg hj, if_neg hj]

theorem getD_wrBytes (b : List Nat) (p i : Nat) (xs : List Nat)
    (h : i < xs.length) (hb : p + xs.length ≤ b.length) :
    (wrBytes b p xs).getD (p + i) 0 = xs.getD i 0 := by
  simp only [List.getD_eq_getElem?_getD, wrBytes_getElem?]
  have h2 : p ≤ p + i ∧ p + i < p + xs.length ∧ p + i < b.length := by omega
  rw [if_pos h2]
  congr 2
  omega

theorem set_after (hdr ys : List Nat) (k v : Nat) :
    (hdr ++ ys).set (hdr.length + k) v = hdr ++ ys.set k v := by
  rw [List.set_append_right _ _ (Nat.le_add_right _ _)]
  simp

/-- The back-patch of a length between 128 and 255: the reserved byte becomes 0x81, the
content moves right by one, and the byte in front of it takes the length. -/
theorem updateEncodedLength_81 (b : List Nat) (p : Nat) (hdr : List Nat) (g : Nat)
    (content : List Nat) (LenIdx ValIdx Len : Nat)
    (hLenIdx : LenIdx = p + hdr.length) (hValIdx : ValIdx = p + (hdr.length + 1))
    (hLen : Len = content.length)
    (h1 : 127 < content.length) (h2 : content.length ≤ 255)
    (hb : p + (hdr.length + 1 + content.length) ≤ b.length) :
    XCert_UpdateEncodedLength (wrBytes b p (hdr ++ g :: content)) LenIdx Len ValIdx =
      (XST_SUCCESS, wrBytes b p (hdr ++ 0x81 :: content.length :: content)) := by
  subst hLenIdx hValIdx hLen
  obtain ⟨c0, cs, rfl⟩ : ∃ c0 cs, content = c0 :: cs := by
    cases content with
    | nil => simp at h1
    | cons c0 cs => exact ⟨c0, cs, rfl⟩
  unfold XCert_UpdateEncodedLength Xil_SMemMove
  have c1 : ¬ (c0 :: cs).length ≤ 127 := by omega
  have c3 : ¬ ((c0 :: cs).length = 0 ∨ (c0 :: cs).length < (c0 :: cs).length ∨
      (c0 :: cs).length < (c0 :: cs).length) := by simp
  simp only [c1, h2, c3, if_false, if_true, ne_eq, not_true_eq_false, wr_eq_wrBytes]
  rw [wrBytes_set b p hdr.length _ _ (by simp)]
  have s1 : (hdr ++ g :: c0 :: cs).set hdr.length 129 = hdr ++ 129 :: c0 :: cs := by
    simp
  rw [s1]
  rw [rd_wrBytes _ p (hdr.length + 1) (c0 :: cs).length _ (by simp; omega) (by simp at hb ⊢; omega)]
  have d1 : ((hdr ++ 129 :: c0 :: cs).drop (hdr.length + 1)).take (c0 :: cs).length =
      c0 :: cs := by
    rw [List.drop_append]
    simp
  rw [d1]
  have e1 : p + (hdr.length + 1) + 1 = p + (hdr.length + 2) := by omega
  rw [e1, wrBytes_splice _ p (hdr.length + 2) _ _ (by simp)]
  have t1 : (hdr ++ 129 :: c0 :: cs).take (hdr.length + 2) = hdr ++ [129, c0] := by
    rw [List.take_append]
    simp
  have t2 : (hdr ++ 129 :: c0 :: cs).drop (hdr.length + 2 + (c0 :: cs).length) = [] := by
    rw [List.drop_eq_nil_iff]
    simp
    omega
  rw [t1, t2]
  rw [wrBytes_set b p (hdr.length + 1) _ _ (by simp)]
  have s2 : (hdr ++ [129, c0] ++ c0 :: cs ++ []).set (hdr.length + 1) (c0 :: cs).length =
      hdr ++ 129 :: (c0 :: cs).length :: c0 :: cs := by
    simp
  rw [s2]

/-- The back-patch of a length between 256 and 65535: the reserved byte becomes 0x82,
the content moves right by two, and the two bytes in front of it take the length, high
byte first. -/
theorem updateEncodedLength_82 (b : List Nat) (p : Nat) (hdr : List Nat) (g : Nat)
    (content : List Nat) (LenIdx ValIdx Len : Nat)
    (hLenIdx : LenIdx = p + hdr.length) (hValIdx : ValIdx = p + (hdr.length + 1))
    (hLen : Len = content.length)
    (h1 : 255 < content.length) (h2 : content.length ≤ 65535)
    (hb : p + (hdr.length + 1 + content.length) ≤ b.length) :
    XCert_UpdateEncodedLength (wrBytes b p (hdr ++ g :: content)) LenIdx Len ValIdx =
      (XST_SUCCESS,
        wrBytes b p (hdr ++ 0x82 :: (content.length / 256) :: (content.length % 256) ::
          content)) := by
  subst hLenIdx hValIdx hLen
  obtain ⟨c0, c1, cs, rfl⟩ : ∃ c0 c1 cs, content = c0 :: c1 :: cs := by
    cases content with
    | nil => simp at h1
    | cons c0 cs =>
      cases cs with
      | nil => simp at h1
      | cons c1 cs => exact ⟨c0, c1, cs, rfl⟩
  unfold XCert_UpdateEncodedLength Xil_SMemMove
  have k1 : ¬ (c0 :: c1 :: cs).length ≤ 127 := by omega
  have k2 : ¬ (c0 :: c1 :: cs).length ≤ 255 := by omega
  have k3 : ¬ ((c0 :: c1 :: cs).length = 0 ∨ (c0 :: c1 :: cs).length < (c0 :: c1 :: cs).length ∨
      (c0 :: c1 :: cs).length < (c0 :: c1 :: cs).length) := by simp
  simp only [k1, k2, h2, k3, if_false, if_true, ne_eq, not_true_eq_false, wr_eq_wrBytes]
  rw [wrBytes_set b p hdr.length _ _ (by simp)]
  have s1 : (hdr ++ g :: c0 :: c1 :: cs).set hdr.length 130 = hdr ++ 130 :: c0 :: c1 :: cs := by
    simp
  rw [s1]
  rw [rd_wrBytes _ p (hdr.length + 1) (c0 :: c1 :: cs).length _ (by simp; omega)
    (by simp at hb ⊢; omega)]
  have d1 : ((hdr ++ 130 :: c0 :: c1 :: cs).drop (hdr.length + 1)).take
      (c0 :: c1 :: cs).length = c0 :: c1 :: cs := by
    rw [List.drop_append]
    simp
  rw [d1]
  have e1 : p + (hdr.length + 1) + 2 = p + (hdr.length + 3) := by omega
  rw [e1, wrBytes_splice _ p (hdr.length + 3) _ _ (by simp)]
  have t1 : (hdr ++ 130 :: c0 :: c1 :: cs).take (hdr.length + 3) = hdr ++ [130, c0, c1] := by
    rw [List.take_append]
    simp
  have t2 : (hdr ++ 130 :: c0 :: c1 :: cs).drop (hdr.length + 3 + (c0 :: c1 :: cs).length)
      = [] := by
    rw [List.drop_eq_nil_iff]
    simp
    omega
  rw [t1, t2]
  rw [wrBytes_set b p (hdr.length + 1) _ _ (by simp)]
  have s2 : (hdr ++ [130, c0, c1] ++ c0 :: c1 :: cs ++ []).set (hdr.length + 1)
      ((c0 :: c1 :: cs).length / 256) =
      hdr ++ 130 :: ((c0 :: c1 :: cs).length / 256) :: c1 :: c0 :: c1 :: cs := by
    simp
  rw [s2]
  have e2 : p + (hdr.length + 1) + 1 = p + (hdr.length + 2) := by omega
  rw [e2, wrBytes_set b p (hdr.length + 2) _ _ (by simp)]
  have s3 : (hdr ++ 130 :: ((c0 :: c1 :: cs).length / 256) :: c1 :: c0 :: c1 :: cs).set
      (hdr.length + 2) ((c0 :: c1 :: cs).length % 256) =
      hdr ++ 130 :: ((c0 :: c1 :: cs).length / 256) :: ((c0 :: c1 :: cs).length % 256) ::
        c0 :: c1 :: cs := by
    simp
  rw [s3]

theorem updateEncodedLength_81_h3 (b : List Nat) (p h0 h1 h2 g : Nat) (content : List Nat)
    (Len : Nat) (hLen : Len = content.length)
    (hl : 127 < content.length) (hu : content.length ≤ 255)
    (hb : p + (4 + content.length) ≤ b.length) :
    XCert_UpdateEncodedLength (wrBytes b p (h0 :: h1 :: h2 :: g :: content)) (p + 3) Len
        (p + 4) =
      (XST_SUCCESS, wrBytes b p (h0 :: h1 :: h2 :: 0x81 :: content.length :: content)) :=
  updateEncodedLength_81 b p [h0, h1, h2] g content (p + 3) (p + 4) Len rfl rfl hLen hl hu
    (by simp only [List.length_cons, List.length_nil]; omega)

theorem updateEncodedLength_81_h1 (b : List Nat) (p h0 g : Nat) (content : List Nat)
    (Len : Nat) (hLen : Len = content.length)
    (hl : 127 < content.length) (hu : content.length ≤ 255)
    (hb : p + (2 + content.length) ≤ b.length) :
    XCert_UpdateEncodedLength (wrBytes b p (h0 :: g :: content)) (p + 1) Len (p + 2) =
      (XST_SUCCESS, wrBytes b p (h0 :: 0x81 :: content.length :: content)) :=
  updateEncodedLength_81 b p [h0] g content (p + 1) (p + 2) Len rfl rfl hLen hl hu
    (by simp only [List.length_cons, List.length_nil]; omega)

theorem updateEncodedLength_82_h1 (b : List Nat) (p h0 g : Nat) (content : List Nat)
    (Len : Nat) (hLen : Len = content.length)
    (hl : 255 < content.length) (hu : content.length ≤ 65535)
    (hb : p + (2 + content.length) ≤ b.length) :
    XCert_UpdateEncodedLength (wrBytes b p (h0 :: g :: content)) (p + 1) Len (p + 2) =
      (XST_SUCCESS,
        wrBytes b p (h0 :: 0x82 :: (content.length / 256) :: (content.length % 256) ::
          content)) :=
  updateEncodedLength_82 b p [h0] g content (p + 1) (p + 2) Len rfl rfl hLen hl hu
    (by simp only [List.length_cons, List.length_nil]; omega)

theorem getD_wrBytes_1 (b : List Nat) (p x0 x1 : Nat) (xs : List Nat)
    (hb : p + (2 + xs.length) ≤ b.length) :
    (wrBytes b p (x0 :: x1 :: xs)).getD (p + 1) 0 = x1 := by
  rw [getD_wrBytes b p 1 _ (by simp) (by simp only [List.length_cons]; omega)]
  rfl

theorem getD_wrBytes_3 (b : List Nat) (p x0 x1 x2 x3 : Nat) (xs : List Nat)
    (hb : p + (4 + xs.length) ≤ b.length) :
    (wrBytes b p (x0 :: x1 :: x2 :: x3 :: xs)).getD (p + 3) 0 = x3 := by
  rw [getD_wrBytes b p 3 _ (by simp) (by simp only [List.length_cons]; omega)]
  rfl

theorem extensionListBytes_length (E : Env) (A : XCert_AppCfg) (hs hi : List Nat) :
    (extensionListBytes E A hs hi).length = if A.IsSelfSigned = TRUE then 215 else 159 := by
  unfold extensionListBytes subjectKeyIdentifierBytes authorityKeyIdentifierBytes
    tcbInfoExtnBytes ueidExnBytes keyUsageBytes extKeyUsageBytes
  by_cases h : A.IsSelfSigned = TRUE <;> simp [h, fit_length]

theorem extensionsBytes_length (E : Env) (A : XCert_AppCfg) (hs hi : List Nat) :
    (extensionsBytes E A hs hi).length = if A.IsSelfSigned = TRUE then 221 else 165 := by
  unfold extensionsBytes
  simp only [List.length_cons, extensionListBytes_length]
  split_ifs <;> rfl

theorem genX509v3ExtensionsField_finish_eq (b : List Nat) (p h0 g1 h2 g2 : Nat)
    (content : List Nat) (Curr : Nat)
    (hCurr : Curr = p + (4 + content.length))
    (hl : 127 < content.length) (hu : content.length + 3 ≤ 255)
    (hb : p + (6 + content.length) ≤ b.length) :
    XCert_GenX509v3ExtensionsField_finish (wrBytes b p (h0 :: g1 :: h2 :: g2 :: content)) p
        (p + 1) (p + 2) (p + 3) (p + 4) Curr =
      (XST_SUCCESS,
        wrBytes b p (h0 :: 0x81 :: (content.length + 3) :: h2 :: 0x81 :: content.length ::
          content),
        content.length + 6) := by
  subst hCurr
  unfold XCert_GenX509v3ExtensionsField_finish
  have e1 : p + (4 + content.length) - (p + 4) = content.length := by omega
  rw [e1, updateEncodedLength_81_h3 b p h0 g1 h2 g2 content _ rfl hl (by omega) (by omega)]
  simp only [ne_eq, not_true_eq_false, if_false]
  rw [getD_wrBytes_3 b p _ _ _ _ _ (by simp only [List.length_cons]; omega)]
  have n1 : (129 &&& XCERT_LOWER_NIBBLE_MASK) = 1 := by decide
  rw [n1]
  have e2 : p + (4 + content.length) + 1 - (p + 2) =
      (h2 :: 129 :: content.length :: content).length := by
    simp only [List.length_cons]; omega
  rw [e2, updateEncodedLength_81_h1 b p h0 g1 _ _ rfl (by simp only [List.length_cons]; omega)
    (by simp only [List.length_cons]; omega) (by simp only [List.length_cons]; omega)]
  simp only [ne_eq, not_true_eq_false, if_false]
  rw [getD_wrBytes_1 b p _ _ _ (by simp only [List.length_cons]; omega)]
  rw [n1]
  simp only [List.length_cons]
  have e3 : p + (4 + content.length) + 1 + 1 - p = content.length + 6 := by omega
  rw [e3]

theorem wrBytes_empty (b : List Nat) (p : Nat) : wrBytes b p [] = b := by
  apply List.ext_getElem?
  intro i
  rw [wrBytes_getElem?]
  have : ¬ (p ≤ i ∧ i < p + ([] : List Nat).length ∧ i < b.length) := by
    simp only [List.length_nil]; omega
  rw [if_neg this]

theorem genUeidExnField_if (E : Env) (b : List Nat) (p : Nat) (c : Prop) [Decidable c] :
    (if c then XCert_GenUeidExnField E b p else (XST_SUCCESS, b, 0)) =
      (XST_SUCCESS, wrBytes b p (if c then ueidExnBytes (dnaBytes E) else []),
        if c then 32 else 0) := by
  by_cases h : c
  · simp only [h, if_true, genUeidExnField_eq]
  · simp only [h, if_false, wrBytes_empty]

theorem genExtKeyUsageField_if (b : List Nat) (p : Nat) (c : Prop) [Decidable c] :
    (if c then XCert_GenExtKeyUsageField b p else (XST_SUCCESS, b, 0)) =
      (XST_SUCCESS, wrBytes b p (if c then extKeyUsageBytes else []),
        if c then 24 else 0) := by
  by_cases h : c
  · simp only [h, if_true, genExtKeyUsageField_eq]
  · simp only [h, if_false, wrBytes_empty]

theorem genX509v3ExtensionsField_ok (E : Env) (b : List Nat) (p : Nat) (A : XCert_AppCfg)
    (h1 : (XSecure_Sha384Digest E (fit 96 A.SubjectPublicKey)).1 = XST_SUCCESS)
    (h2 : (XSecure_Sha384Digest E (fit 96 A.IssuerPublicKey)).1 = XST_SUCCESS)
    (hb : p + (if A.IsSelfSigned = TRUE then 221 else 165) ≤ b.length) :
    XCert_GenX509v3ExtensionsField E b p A =
      (XST_SUCCESS,
        [Event.Digest (fit 96 A.SubjectPublicKey), Event.Digest (fit 96 A.IssuerPublicKey)],
        wrBytes b p (extensionsBytes E A
          (XSecure_Sha384Digest E (fit 96 A.SubjectPublicKey)).2
          (XSecure_Sha384Digest E (fit 96 A.IssuerPublicKey)).2),
        (extensionsBytes E A
          (XSecure_Sha384Digest E (fit 96 A.SubjectPublicKey)).2
          (XSecure_Sha384Digest E (fit 96 A.IssuerPublicKey)).2).length) := by
  rw [extensionsBytes_length]
  unfold XCert_GenX509v3ExtensionsField extensionsBytes
  rw [extensionListBytes_length]
  unfold extensionListBytes
  conv => zeta
  rw [genSubjectKeyIdentifierField_ok E _ _ _ h1]
  dsimp only
  rw [genAuthorityKeyIdentifierField_ok E _ _ _ h2]
  dsimp only
  rw [genTcbInfoExtnField_eq]
  dsimp only
  rw [genUeidExnField_if]
  dsimp only
  rw [genKeyUsageField_eq]
  dsimp only
  rw [genExtKeyUsageField_if]
  dsimp only
  by_cases hs : A.IsSelfSigned = TRUE
  · rw [if_pos hs] at hb
    simp only [subjectKeyIdentifierBytes, authorityKeyIdentifierBytes, tcbInfoExtnBytes,
      ueidExnBytes, keyUsageBytes, extKeyUsageBytes, hs, wr_eq_wrBytes, Nat.add_assoc, Nat.reduceAdd, Nat.reduceSub, Nat.reduceMod, Nat.reduceLT,
    Nat.reduceMul, Nat.add_sub_add_left, Nat.add_sub_cancel_left, wrBytes_first_gap, wrBytes_append,
    wrBytes_gap_one, wrBytes_set, wrBytes_set_zero, List.length_cons, List.length_nil,
    List.length_append, fit_length, List.cons_append, List.nil_append, List.append_assoc,
    List.singleton_append, List.set_cons_succ, List.set_cons_zero, ne_eq, not_true_eq_false,
    if_false, ite_false, if_true, ite_true, XCERT_ASN1_TAG_INTEGER, XCERT_ASN1_TAG_BITSTRING,
    XCERT_ASN1_TAG_OCTETSTRING, XCERT_ASN1_TAG_NULL, XCERT_ASN1_TAG_BOOLEAN,
    XCERT_ASN1_TAG_SEQUENCE, XCERT_NULL_VALUE, XCERT_LEN_OF_VALUE_OF_VERSION,
    XCERT_VERSION_VALUE_V3, XCERT_LEN_OF_VALUE_OF_SERIAL, XCERT_SUB_KEY_ID_VAL_LEN,
    XCERT_AUTH_KEY_ID_VAL_LEN, XCERT_HASH_SIZE_IN_BYTES, XSECURE_ECC_P384_SIZE_IN_BYTES,
    XCERT_ECC_P384_PUBLIC_KEY_LEN, XCERT_AUTH_KEY_ID_OPTIONAL_PARAM,
    XCERT_OPTIONAL_PARAM_3_TAG, XCERT_OPTIONAL_PARAM_6_TAG, XCERT_DNA_LEN_IN_BYTES,
    XCERT_DNA_LEN_IN_WORDS, XCERT_WORD_LEN, XCERT_MAX_LEN_OF_KEYUSAGE_VAL,
    createOctetString_eq, createBitString_eq, createBoolean_true_eq,
    createRawDataFromByteArray_eq, octetStringBytes, bitStringBytes]
    rw [genX509v3ExtensionsField_finish_eq b p _ _ _ _ _ _ (by simp [fit_length])
      (by simp [fit_length]) (by simp [fit_length]) (by simp [fit_length]; omega)]
    simp [fit_length]
  · rw [if_neg hs] at hb
    simp only [subjectKeyIdentifierBytes, authorityKeyIdentifierBytes, tcbInfoExtnBytes,
      ueidExnBytes, keyUsageBytes, extKeyUsageBytes, hs, wrBytes_empty, Nat.add_zero,
      List.append_nil, wr_eq_wrBytes, Nat.add_assoc, Nat.reduceAdd, Nat.reduceSub, Nat.reduceMod, Nat.reduceLT,
    Nat.reduceMul, Nat.add_sub_add_left, Nat.add_sub_cancel_left, wrBytes_first_gap, wrBytes_append,
    wrBytes_gap_one, wrBytes_set, wrBytes_set_zero, List.length_cons, List.length_nil,
    List.length_append, fit_length, List.cons_append, List.nil_append, List.append_assoc,
    List.singleton_append, List.set_cons_succ, List.set_cons_zero, ne_eq, not_true_eq_false,
    if_false, ite_false, if_true, ite_true, XCERT_ASN1_TAG_INTEGER, XCERT_ASN1_TAG_BITSTRING,
    XCERT_ASN1_TAG_OCTETSTRING, XCERT_ASN1_TAG_NULL, XCERT_ASN1_TAG_BOOLEAN,
    XCERT_ASN1_TAG_SEQUENCE, XCERT_NULL_VALUE, XCERT_LEN_OF_VALUE_OF_VERSION,
    XCERT_VERSION_VALUE_V3, XCERT_LEN_OF_VALUE_OF_SERIAL, XCERT_SUB_KEY_ID_VAL_LEN,
    XCERT_AUTH_KEY_ID_VAL_LEN, XCERT_HASH_SIZE_IN_BYTES, XSECURE_ECC_P384_SIZE_IN_BYTES,
    XCERT_ECC_P384_PUBLIC_KEY_LEN, XCERT_AUTH_KEY_ID_OPTIONAL_PARAM,
    XCERT_OPTIONAL_PARAM_3_TAG, XCERT_OPTIONAL_PARAM_6_TAG, XCERT_DNA_LEN_IN_BYTES,
    XCERT_DNA_LEN_IN_WORDS, XCERT_WORD_LEN, XCERT_MAX_LEN_OF_KEYUSAGE_VAL,
    createOctetString_eq, createBitString_eq, createBoolean_true_eq,
    createRawDataFromByteArray_eq, octetStringBytes, bitStringBytes]
    rw [genX509v3ExtensionsField_finish_eq b p _ _ _ _ _ _ (by simp [fit_length])
      (by simp [fit_length]) (by simp [fit_length]) (by simp [fit_length]; omega)]
    simp [fit_length]

theorem quiet_nil : quiet [] := by
  intro e he; simp at he

theorem quiet_cons_digest (d : List Nat) (ev : List Event) (h : quiet ev) :
    quiet (Event.Digest d :: ev) := by
  intro e he
  rcases List.mem_cons.mp he with h1 | h1
  · exact Or.inl ⟨d, h1⟩
  · exact h e h1

theorem quiet_cons_kat (ev : List Event) (h : quiet ev) : quiet (Event.Kat :: ev) := by
  intro e he
  rcases List.mem_cons.mp he with h1 | h1
  · exact Or.inr h1
  · exact h e h1

theorem quiet_append (a b : List Event) (ha : quiet a) (hb : quiet b) : quiet (a ++ b) := by
  intro e he
  rcases List.mem_append.mp he with h | h
  · exact ha e h
  · exact hb e h

theorem signCalls_append (a b : List Event) : signCalls (a ++ b) = signCalls a + signCalls b := by
  unfold signCalls
  rw [List.countP_append]

theorem outBytes_append (a b : List Event) : outBytes (a ++ b) = outBytes a ++ outBytes b := by
  unfold outBytes
  rw [List.filterMap_append]

theorem signCalls_quiet (ev : List Event) (h : quiet ev) : signCalls ev = 0 := by
  unfold signCalls
  rw [List.countP_eq_zero]
  intro e he
  rcases h e he with ⟨d, rfl⟩ | rfl <;> simp

theorem outBytes_quiet (ev : List Event) (h : quiet ev) : outBytes ev = [] := by
  unfold outBytes
  rw [List.filterMap_eq_nil_iff]
  intro e he
  rcases h e he with ⟨d, rfl⟩ | rfl <;> rfl

/-- The Extensions field succeeds only when both key digests succeed, and whatever
happens it calls nothing but the digest. -/
theorem genX509v3ExtensionsField_status (E : Env) (b : List Nat) (p : Nat) (A : XCert_AppCfg) :
    ((XCert_GenX509v3ExtensionsField E b p A).1 = XST_SUCCESS →
      (XSecure_Sha384Digest E (fit 96 A.SubjectPublicKey)).1 = XST_SUCCESS ∧
      (XSecure_Sha384Digest E (fit 96 A.IssuerPublicKey)).1 = XST_SUCCESS) ∧
    quiet (XCert_GenX509v3ExtensionsField E b p A).2.1 := by
  unfold XCert_GenX509v3ExtensionsField
  conv => zeta
  by_cases h1 : (XSecure_Sha384Digest E (fit 96 A.SubjectPublicKey)).1 = XST_SUCCESS
  · rw [genSubjectKeyIdentifierField_ok E _ _ _ h1]
    dsimp only
    by_cases h2 : (XSecure_Sha384Digest E (fit 96 A.IssuerPublicKey)).1 = XST_SUCCESS
    · rw [genAuthorityKeyIdentifierField_ok E _ _ _ h2]
      dsimp only
      rw [genTcbInfoExtnField_eq]
      dsimp only
      rw [genUeidExnField_if]
      dsimp only
      rw [genKeyUsageField_eq]
      dsimp only
      rw [genExtKeyUsageField_if]
      dsimp only
      simp only [ne_eq, not_true_eq_false, if_false]
      exact ⟨fun _ => ⟨h1, h2⟩, quiet_cons_digest _ _ (quiet_cons_digest _ _ quiet_nil)⟩
    · obtain ⟨b2, hak⟩ := genAuthorityKeyIdentifierField_fail E
        (wrBytes (wr (wr b p XCERT_OPTIONAL_PARAM_3_TAG) (p + 1 + 1) XCERT_ASN1_TAG_SEQUENCE)
          (p + 1 + 1 + 1 + 1)
          (subjectKeyIdentifierBytes (XSecure_Sha384Digest E (fit 96 A.SubjectPublicKey)).2))
        (p + 1 + 1 + 1 + 1 + 31) A.IssuerPublicKey h2
      rw [hak]
      dsimp only
      simp only [ne_eq, not_true_eq_false, if_false, h2, not_false_eq_true, if_true]
      exact ⟨fun hc => hc.elim, quiet_cons_digest _ _ (quiet_cons_digest _ _ quiet_nil)⟩
  · obtain ⟨b2, hsk⟩ := genSubjectKeyIdentifierField_fail E
      (wr (wr b p XCERT_OPTIONAL_PARAM_3_TAG) (p + 1 + 1) XCERT_ASN1_TAG_SEQUENCE)
      (p + 1 + 1 + 1 + 1) A.SubjectPublicKey h1
    rw [hsk]
    dsimp only
    simp only [ne_eq, h1, not_false_eq_true, if_true]
    exact ⟨fun hc => hc.elim, quiet_cons_digest _ _ quiet_nil⟩

theorem serialCopyLen_cases (h : List Nat) :
    (needsPad h = true ∧ serialCopyLen h = 19) ∨ (needsPad h = false ∧ serialCopyLen h = 20) := by
  unfold needsPad serialCopyLen XCERT_LEN_OF_VALUE_OF_SERIAL
  by_cases hp : (h.getD 0 0 &&& XCERT_BIT7_MASK) = XCERT_BIT7_MASK
  · left
    exact ⟨decide_eq_true hp, by rw [if_pos hp]⟩
  · right
    exact ⟨decide_eq_false hp, by rw [if_neg hp]⟩

theorem getD_zero_fit (n : Nat) (l : List Nat) (hn : 0 < n) : (fit n l).getD 0 0 = l.getD 0 0 := by
  unfold fit
  cases l with
  | nil =>
    cases n with
    | zero => omega
    | succ n => simp [List.replicate_succ]
  | cons x xs =>
    cases n with
    | zero => omega
    | succ n => simp

theorem needsPad_serial (h : List Nat) :
    needsPad (XSecure_MemCpy (List.replicate XCERT_LEN_OF_VALUE_OF_SERIAL 0) h (serialCopyLen h))
      = needsPad h := by
  have hpos : 0 < serialCopyLen h := by
    rcases serialCopyLen_cases h with ⟨-, e⟩ | ⟨-, e⟩ <;> rw [e] <;> decide
  have hg : (XSecure_MemCpy (List.replicate XCERT_LEN_OF_VALUE_OF_SERIAL 0) h
      (serialCopyLen h)).getD 0 0 = h.getD 0 0 := by
    unfold XSecure_MemCpy
    rw [List.getD_append _ _ _ _ (by rw [fit_length]; exact hpos)]
    exact getD_zero_fit _ _ hpos
  unfold needsPad
  rw [hg]

theorem serialFieldBytes_length (h : List Nat) : (serialFieldBytes h).length = 22 := by
  unfold serialFieldBytes
  rw [integerBytes_length, needsPad_serial]
  rcases serialCopyLen_cases h with ⟨e1, e2⟩ | ⟨e1, e2⟩ <;> rw [e1, e2] <;> rfl

theorem genSerialField_eq (b : List Nat) (p : Nat) (h : List Nat) :
    XCert_GenSerialField b p h = (wrBytes b p (serialFieldBytes h), 22) := by
  unfold XCert_GenSerialField
  simp only []
  rw [createInteger_eq]
  have : (integerBytes
      (XSecure_MemCpy (List.replicate XCERT_LEN_OF_VALUE_OF_SERIAL 0) h
        (if h.getD 0 0 &&& XCERT_BIT7_MASK = XCERT_BIT7_MASK then
          XCERT_LEN_OF_VALUE_OF_SERIAL - 1 else XCERT_LEN_OF_VALUE_OF_SERIAL))
      (if h.getD 0 0 &&& XCERT_BIT7_MASK = XCERT_BIT7_MASK then
          XCERT_LEN_OF_VALUE_OF_SERIAL - 1 else XCERT_LEN_OF_VALUE_OF_SERIAL)) =
      serialFieldBytes h := rfl
  rw [this, serialFieldBytes_length]

/-! ## The TBS certificate in closed form -/

/-- The KAT gate of `XCert_GenTBSCertificate`: the KAT is passed when it has been
recorded or when it runs now and succeeds. -/
theorem tbs_finish_ok (E : Env) (KatRan : Bool) (b : List Nat) (p g : Nat) (body : List Nat)
    (Curr : Nat) (hCurr : Curr = p + (5 + body.length))
    (hkat : KatRan = true ∨ E.Sha384Kat = XST_SUCCESS)
    (hd : (XSecure_Sha384Digest E body).1 = XST_SUCCESS)
    (hn : 231 ≤ body.length) (hL : body.length + 25 ≤ 65535)
    (hb : p + (body.length + 29) ≤ b.length) :
    XCert_GenTBSCertificate_finish E KatRan
        (wrBytes b p (0x30 :: g :: 0x02 :: 0x01 :: 0x02 :: body)) p (p + 1) (p + 2) (p + 5)
        Curr =
      (XST_SUCCESS, true,
        (if KatRan = true then [] else [Event.Kat]) ++ [Event.Digest body],
        wrBytes b p (tbsBytes body (XSecure_Sha384Digest E body).2),
        body.length + 29) := by
  subst hCurr
  unfold XCert_GenTBSCertificate_finish
  have hgate : (if KatRan ≠ true then
          (if E.Sha384Kat ≠ XST_SUCCESS then (E.Sha384Kat, KatRan, [Event.Kat])
           else (XST_SUCCESS, true, [Event.Kat]))
         else (XST_SUCCESS, KatRan, [])) =
      (XST_SUCCESS, true, if KatRan = true then [] else [Event.Kat]) := by
    by_cases hk : KatRan = true
    · simp [hk]
    · have hs : E.Sha384Kat = XST_SUCCESS := hkat.resolve_left hk
      simp [hk, hs]
  rw [hgate]
  dsimp only
  simp only [ne_eq, not_true_eq_false, if_false]
  have e1 : p + (5 + body.length) - (p + 5) = body.length := by omega
  rw [e1]
  have hrd : rd (wrBytes b p (0x30 :: g :: 0x02 :: 0x01 :: 0x02 :: body)) (p + 5) body.length
      = body := by
    rw [rd_wrBytes b p 5 body.length _ (by simp only [List.length_cons]; omega)
      (by simp only [List.length_cons]; omega)]
    simp
  rw [hrd]
  simp only [hd, not_true_eq_false, if_false]
  unfold Xil_SMemMove
  have c3 : ¬ (body.length = 0 ∨ body.length < body.length ∨ body.length < body.length) := by
    omega
  simp only [c3, if_false]
  rw [hrd]
  have e2 : p + 5 + XCERT_SERIAL_FIELD_LEN = p + 27 := by
    unfold XCERT_SERIAL_FIELD_LEN; omega
  rw [e2, wrBytes_splice b p 27 _ body (by simp only [List.length_cons]; omega)]
  rw [genSerialField_eq]
  dsimp only
  rw [wrBytes_splice b p 5 _ (serialFieldBytes _) (by simp)]
  have hxs : (((0x30 :: g :: 0x02 :: 0x01 :: 0x02 :: body).take 27 ++ body ++
        (0x30 :: g :: 0x02 :: 0x01 :: 0x02 :: body).drop (27 + body.length)).take 5 ++
      serialFieldBytes (XSecure_Sha384Digest E body).2 ++
      ((0x30 :: g :: 0x02 :: 0x01 :: 0x02 :: body).take 27 ++ body ++
        (0x30 :: g :: 0x02 :: 0x01 :: 0x02 :: body).drop (27 + body.length)).drop
          (5 + (serialFieldBytes (XSecure_Sha384Digest E body).2).length)) =
      0x30 :: g :: (0x02 :: 0x01 :: 0x02 ::
        (serialFieldBytes (XSecure_Sha384Digest E body).2 ++ body)) := by
    rw [serialFieldBytes_length]
    have t1 : (0x30 :: g :: 0x02 :: 0x01 :: 0x02 :: body).take 27 =
        0x30 :: g :: 0x02 :: 0x01 :: 0x02 :: body.take 22 := by simp
    have t2 : (0x30 :: g :: 0x02 :: 0x01 :: 0x02 :: body).drop (27 + body.length) = [] := by
      rw [List.drop_eq_nil_iff]
      simp only [List.length_cons]
      omega
    rw [t1, t2]
    have t3 : (0x30 :: g :: 0x02 :: 0x01 :: 0x02 :: body.take 22 ++ body ++ []).take 5 =
        [0x30, g, 0x02, 0x01, 0x02] := by simp
    have t4 : (0x30 :: g :: 0x02 :: 0x01 :: 0x02 :: body.take 22 ++ body ++ []).drop (5 + 22) =
        body := by
      have hl : (0x30 :: g :: 0x02 :: 0x01 :: 0x02 :: body.take 22).length = 5 + 22 := by
        simp only [List.length_cons, List.length_take]
        omega
      rw [List.append_nil, ← hl, List.drop_left]
    rw [t3, t4]
    simp
  rw [hxs]
  have e3 : p + (5 + body.length) + XCERT_SERIAL_FIELD_LEN - (p + 2) =
      (0x02 :: 0x01 :: 0x02 ::
        (serialFieldBytes (XSecure_Sha384Digest E body).2 ++ body)).length := by
    simp only [List.length_cons, List.length_append, serialFieldBytes_length]
    unfold XCERT_SERIAL_FIELD_LEN
    omega
  have hcl : (0x02 :: 0x01 :: 0x02 ::
      (serialFieldBytes (XSecure_Sha384Digest E body).2 ++ body)).length = body.length + 25 := by
    simp only [List.length_cons, List.length_append, serialFieldBytes_length]
    omega
  rw [e3, updateEncodedLength_82_h1 b p 0x30 g _ _ rfl (by rw [hcl]; omega) (by rw [hcl]; omega)
    (by rw [hcl]; omega)]
  dsimp only
  simp only [ne_eq, not_true_eq_false, if_false]
  rw [getD_wrBytes_1 b p _ _ _ (by simp only [List.length_cons, hcl]; omega)]
  have n2 : (130 &&& XCERT_LOWER_NIBBLE_MASK) = 2 := by decide
  rw [n2, hcl]
  have e4 : p + (5 + body.length) + XCERT_SERIAL_FIELD_LEN + 2 - p = body.length + 29 := by
    unfold XCERT_SERIAL_FIELD_LEN; omega
  rw [e4]
  rfl

theorem tbs_finish_status (E : Env) (KatRan : Bool) (b : List Nat)
    (Start i1 i2 i3 Curr : Nat) :
    ((XCert_GenTBSCertificate_finish E KatRan b Start i1 i2 i3 Curr).1 = XST_SUCCESS →
      (KatRan = true ∨ E.Sha384Kat = XST_SUCCESS) ∧
      (XSecure_Sha384Digest E (rd b i3 (Curr - i3))).1 = XST_SUCCESS) ∧
    quiet (XCert_GenTBSCertificate_finish E KatRan b Start i1 i2 i3 Curr).2.2.1 := by
  unfold XCert_GenTBSCertificate_finish
  cases KatRan <;> by_cases hs : E.Sha384Kat = XST_SUCCESS <;>
    by_cases hd : (XSecure_Sha384Digest E (rd b i3 (Curr - i3))).1 = XST_SUCCESS <;>
    simp only [ne_eq, hs, hd, not_true_eq_false, not_false_eq_true, if_true, if_false,
      Bool.false_eq_true, List.nil_append, List.singleton_append, or_true, true_or, and_true,
      false_or, or_false, implies_true, true_and] <;>
    (try (refine ⟨fun hc => ?_, ?_⟩)) <;>
    (try (exact hc.elim)) <;>
    (repeat' split) <;>
    (first
      | exact quiet_nil
      | exact quiet_cons_digest _ _ quiet_nil
      | exact quiet_cons_kat _ quiet_nil
      | exact quiet_cons_kat _ (quiet_cons_digest _ _ quiet_nil))

theorem wr_length (b : List Nat) (i v : Nat) : (wr b i v).length = b.length := by
  unfold wr
  simp

theorem wrBytes_chain (b : List Nat) (p x0 : Nat) (s1 s2 s3 s4 s5 s6 s7 : List Nat)
    (n1 n2 n3 n4 n5 n6 : Nat)
    (h1 : s1.length = n1) (h2 : s2.length = n2) (h3 : s3.length = n3)
    (h4 : s4.length = n4) (h5 : s5.length = n5) (h6 : s6.length = n6) :
    wrBytes (wrBytes (wrBytes (wrBytes (wrBytes (wrBytes (wrBytes (wr b p x0) (p + 1 + 1) s1)
      (p + 1 + 1 + n1) s2) (p + 1 + 1 + n1 + n2) s3) (p + 1 + 1 + n1 + n2 + n3) s4)
      (p + 1 + 1 + n1 + n2 + n3 + n4) s5) (p + 1 + 1 + n1 + n2 + n3 + n4 + n5) s6)
      (p + 1 + 1 + n1 + n2 + n3 + n4 + n5 + n6) s7 =
    wrBytes b p (x0 :: b.getD (p + 1) 0 ::
      (s1 ++ (s2 ++ (s3 ++ (s4 ++ (s5 ++ (s6 ++ s7))))))) := by
  subst h1 h2 h3 h4 h5 h6
  rw [wr_eq_wrBytes]
  have e0 : p + 1 + 1 = p + 2 := by omega
  rw [e0, wrBytes_first_gap]
  have e1 : p + 2 + s1.length = p + (2 + s1.length) := by omega
  rw [e1, wrBytes_append b p _ _ s2 (by simp only [List.length_cons]; omega)]
  have e2 : p + (2 + s1.length) + s2.length = p + (2 + s1.length + s2.length) := by omega
  rw [e2, wrBytes_append b p _ _ s3
    (by simp only [List.length_cons, List.length_append]; omega)]
  have e3 : p + (2 + s1.length + s2.length) + s3.length =
      p + (2 + s1.length + s2.length + s3.length) := by omega
  rw [e3, wrBytes_append b p _ _ s4
    (by simp only [List.length_cons, List.length_append]; omega)]
  have e4 : p + (2 + s1.length + s2.length + s3.length) + s4.length =
      p + (2 + s1.length + s2.length + s3.length + s4.length) := by omega
  rw [e4, wrBytes_append b p _ _ s5
    (by simp only [List.length_cons, List.length_append]; omega)]
  have e5 : p + (2 + s1.length + s2.length + s3.length + s4.length) + s5.length =
      p + (2 + s1.length + s2.length + s3.length + s4.length + s5.length) := by omega
  rw [e5, wrBytes_append b p _ _ s6
    (by simp only [List.length_cons, List.length_append]; omega)]
  have e6 : p + (2 + s1.length + s2.length + s3.length + s4.length + s5.length) + s6.length =
      p + (2 + s1.length + s2.length + s3.length + s4.length + s5.length + s6.length) := by
    omega
  rw [e6, wrBytes_append b p _ _ s7
    (by simp only [List.length_cons, List.length_append]; omega)]
  simp only [List.cons_append, List.append_assoc]

theorem publicKeyInfoBytes_length (key : List Nat) : (publicKeyInfoBytes key).length = 119 := by
  simp [publicKeyInfoBytes, pubKeyAlgIdentifierBytes, fit_length]

theorem tbsBodyBytes_length (E : Env) (U : XCert_UserCfg) (A : XCert_AppCfg) (hs hi : List Nat) :
    (tbsBodyBytes E U A hs hi).length =
      U.IssuerLen + U.ValidityLen + U.SubjectLen + 133 +
        (if A.IsSelfSigned = TRUE then 221 else 165) := by
  unfold tbsBodyBytes
  simp only [List.length_append, fit_length, publicKeyInfoBytes_length, extensionsBytes_length,
    signAlgoBytes, List.length_cons, List.length_nil]
  omega

theorem genTBSCertificate_status (E : Env) (Z : Build) (KatRan : Bool) (b : List Nat) (p : Nat)
    (U : XCert_UserCfg) (A : XCert_AppCfg) :
    ((XCert_GenTBSCertificate E Z KatRan b p U A).1 = XST_SUCCESS →
      Z.PLM_ECDSA_EXCLUDE = false ∧
      (XSecure_Sha384Digest E (fit 96 A.SubjectPublicKey)).1 = XST_SUCCESS ∧
      (XSecure_Sha384Digest E (fit 96 A.IssuerPublicKey)).1 = XST_SUCCESS) ∧
    quiet (XCert_GenTBSCertificate E Z KatRan b p U A).2.2.1 := by
  unfold XCert_GenTBSCertificate
  conv => zeta
  rw [genVersionField_eq]
  dsimp only
  rw [genSignAlgoField_eq]
  dsimp only
  unfold XCert_GenIssuerField XCert_GenValidityField XCert_GenSubjectField
  rw [createRawDataFromByteArray_eq]
  dsimp only
  rw [createRawDataFromByteArray_eq]
  dsimp only
  rw [createRawDataFromByteArray_eq]
  dsimp only
  cases hx : Z.PLM_ECDSA_EXCLUDE
  · rw [genPublicKeyInfoField_eq]
    dsimp only
    simp only [ne_eq, not_true_eq_false, if_false, Bool.false_eq_true]
    generalize hr : XCert_GenX509v3ExtensionsField E _ _ A = r
    have key : (r.1 = XST_SUCCESS →
        (XSecure_Sha384Digest E (fit 96 A.SubjectPublicKey)).1 = XST_SUCCESS ∧
        (XSecure_Sha384Digest E (fit 96 A.IssuerPublicKey)).1 = XST_SUCCESS) ∧
        quiet r.2.1 := by
      rw [← hr]
      exact genX509v3ExtensionsField_status E _ _ A
    by_cases hs : r.1 = XST_SUCCESS
    · simp only [hs, not_true_eq_false, if_false]
      generalize hf : XCert_GenTBSCertificate_finish E KatRan _ _ _ _ _ _ = f
      have kf : quiet f.2.2.1 := by
        rw [← hf]
        exact (tbs_finish_status E KatRan _ _ _ _ _ _).2
      exact ⟨fun _ => ⟨trivial, key.1 hs⟩, quiet_append _ _ key.2 kf⟩
    · simp only [hs, not_false_eq_true, if_true]
      exact ⟨fun hc => hc.elim, key.2⟩
  · simp only [ne_eq, not_true_eq_false, if_false, if_true]
    exact ⟨fun hc => by simp at hc, quiet_nil⟩

theorem genTBSCertificate_eq (E : Env) (Z : Build) (KatRan : Bool) (b : List Nat) (p : Nat)
    (U : XCert_UserCfg) (A : XCert_AppCfg) (body : List Nat)
    (hbody : body = tbsBodyBytes E U A (XSecure_Sha384Digest E (fit 96 A.SubjectPublicKey)).2
      (XSecure_Sha384Digest E (fit 96 A.IssuerPublicKey)).2)
    (hx : Z.PLM_ECDSA_EXCLUDE = false)
    (h1 : (XSecure_Sha384Digest E (fit 96 A.SubjectPublicKey)).1 = XST_SUCCESS)
    (h2 : (XSecure_Sha384Digest E (fit 96 A.IssuerPublicKey)).1 = XST_SUCCESS)
    (hb : p + (5 + body.length) ≤ b.length) :
    XCert_GenTBSCertificate E Z KatRan b p U A =
      ((XCert_GenTBSCertificate_finish E KatRan
          (wrBytes b p (0x30 :: b.getD (p + 1) 0 :: 0x02 :: 0x01 :: 0x02 :: body))
          p (p + 1) (p + 2) (p + 5) (p + (5 + body.length))).1,
       (XCert_GenTBSCertificate_finish E KatRan
          (wrBytes b p (0x30 :: b.getD (p + 1) 0 :: 0x02 :: 0x01 :: 0x02 :: body))
          p (p + 1) (p + 2) (p + 5) (p + (5 + body.length))).2.1,
       [Event.Digest (fit 96 A.SubjectPublicKey), Event.Digest (fit 96 A.IssuerPublicKey)] ++
       (XCert_GenTBSCertificate_finish E KatRan
          (wrBytes b p (0x30 :: b.getD (p + 1) 0 :: 0x02 :: 0x01 :: 0x02 :: body))
          p (p + 1) (p + 2) (p + 5) (p + (5 + body.length))).2.2.1,
       (XCert_GenTBSCertificate_finish E KatRan
          (wrBytes b p (0x30 :: b.getD (p + 1) 0 :: 0x02 :: 0x01 :: 0x02 :: body))
          p (p + 1) (p + 2) (p + 5) (p + (5 + body.length))).2.2.2.1,
       (XCert_GenTBSCertificate_finish E KatRan
          (wrBytes b p (0x30 :: b.getD (p + 1) 0 :: 0x02 :: 0x01 :: 0x02 :: body))
          p (p + 1) (p + 2) (p + 5) (p + (5 + body.length))).2.2.2.2) := by
  have hlen := tbsBodyBytes_length E U A (XSecure_Sha384Digest E (fit 96 A.SubjectPublicKey)).2
      (XSecure_Sha384Digest E (fit 96 A.IssuerPublicKey)).2
  rw [← hbody] at hlen
  unfold XCert_GenTBSCertificate
  conv => zeta
  rw [genVersionField_eq]
  dsimp only
  rw [genSignAlgoField_eq]
  dsimp only
  unfold XCert_GenIssuerField XCert_GenValidityField XCert_GenSubjectField
  rw [createRawDataFromByteArray_eq]
  dsimp only
  rw [createRawDataFromByteArray_eq]
  dsimp only
  rw [createRawDataFromByteArray_eq]
  dsimp only
  rw [hx]
  rw [genPublicKeyInfoField_eq]
  dsimp only
  rw [genX509v3ExtensionsField_ok E _ _ A h1 h2
    (by simp only [wrBytes_length, wr_length]; omega)]
  dsimp only
  rw [wrBytes_chain b p XCERT_ASN1_TAG_SEQUENCE versionBytes signAlgoBytes _ _ _ _ _ 3 14
    U.IssuerLen U.ValidityLen U.SubjectLen 119 rfl rfl (fit_length _ _) (fit_length _ _)
    (fit_length _ _) (publicKeyInfoBytes_length _)]
  simp only [ne_eq, not_true_eq_false, if_false, Bool.false_eq_true]
  have e1 : p + 1 + 1 = p + 2 := by omega
  have e2 : p + 2 + 3 = p + 5 := by omega
  have e3 : p + 5 + 14 + U.IssuerLen + U.ValidityLen + U.SubjectLen + 119 +
      (extensionsBytes E A (XSecure_Sha384Digest E (fit 96 A.SubjectPublicKey)).2
        (XSecure_Sha384Digest E (fit 96 A.IssuerPublicKey)).2).length =
      p + (5 + body.length) := by
    rw [hlen, extensionsBytes_length]
    omega
  rw [e1, e2, e3]
  have e4 : XCERT_ASN1_TAG_SEQUENCE :: b.getD (p + 1) 0 ::
      (versionBytes ++ (signAlgoBytes ++ (fit U.IssuerLen U.Issuer ++
        (fit U.ValidityLen U.Validity ++ (fit U.SubjectLen U.Subject ++
          (publicKeyInfoBytes A.SubjectPublicKey ++
            extensionsBytes E A (XSecure_Sha384Digest E (fit 96 A.SubjectPublicKey)).2
              (XSecure_Sha384Digest E (fit 96 A.IssuerPublicKey)).2)))))) =
      0x30 :: b.getD (p + 1) 0 :: 0x02 :: 0x01 :: 0x02 :: body := by
    rw [hbody]
    rfl
  rw [e4]

theorem tbsBodyBytes_length_ge (E : Env) (U : XCert_UserCfg) (A : XCert_AppCfg)
    (hs hi : List Nat) : 298 ≤ (tbsBodyBytes E U A hs hi).length := by
  rw [tbsBodyBytes_length]
  split <;> omega

theorem tbsBytes_length (body h : List Nat) : (tbsBytes body h).length = body.length + 29 := by
  simp only [tbsBytes, List.length_cons, List.length_append, serialFieldBytes_length]
  omega

theorem genTBSCertificate_ok (E : Env) (Z : Build) (KatRan : Bool) (b : List Nat) (p : Nat)
    (U : XCert_UserCfg) (A : XCert_AppCfg) (body : List Nat)
    (hbody : body = tbsBodyBytes E U A (XSecure_Sha384Digest E (fit 96 A.SubjectPublicKey)).2
      (XSecure_Sha384Digest E (fit 96 A.IssuerPublicKey)).2)
    (hx : Z.PLM_ECDSA_EXCLUDE = false)
    (h1 : (XSecure_Sha384Digest E (fit 96 A.SubjectPublicKey)).1 = XST_SUCCESS)
    (h2 : (XSecure_Sha384Digest E (fit 96 A.IssuerPublicKey)).1 = XST_SUCCESS)
    (hkat : KatRan = true ∨ E.Sha384Kat = XST_SUCCESS)
    (hd : (XSecure_Sha384Digest E body).1 = XST_SUCCESS)
    (hL : body.length + 25 ≤ 65535)
    (hb : p + (body.length + 29) ≤ b.length) :
    XCert_GenTBSCertificate E Z KatRan b p U A =
      (XST_SUCCESS, true,
        [Event.Digest (fit 96 A.SubjectPublicKey), Event.Digest (fit 96 A.IssuerPublicKey)] ++
          ((if KatRan = true then [] else [Event.Kat]) ++ [Event.Digest body]),
        wrBytes b p (tbsBytes body (XSecure_Sha384Digest E body).2),
        body.length + 29) := by
  have hge : 298 ≤ body.length := by
    rw [hbody]
    exact tbsBodyBytes_length_ge _ _ _ _ _
  rw [genTBSCertificate_eq E Z KatRan b p U A body hbody hx h1 h2 (by omega)]
  rw [tbs_finish_ok E KatRan b p _ body _ rfl hkat hd (by omega) hL hb]

theorem genTBSCertificate_success (E : Env) (Z : Build) (KatRan : Bool) (b : List Nat) (p : Nat)
    (U : XCert_UserCfg) (A : XCert_AppCfg) (body : List Nat)
    (hbody : body = tbsBodyBytes E U A (XSecure_Sha384Digest E (fit 96 A.SubjectPublicKey)).2
      (XSecure_Sha384Digest E (fit 96 A.IssuerPublicKey)).2)
    (hb : p + (body.length + 29) ≤ b.length)
    (hok : (XCert_GenTBSCertificate E Z KatRan b p U A).1 = XST_SUCCESS) :
    Z.PLM_ECDSA_EXCLUDE = false ∧
    (XSecure_Sha384Digest E (fit 96 A.SubjectPublicKey)).1 = XST_SUCCESS ∧
    (XSecure_Sha384Digest E (fit 96 A.IssuerPublicKey)).1 = XST_SUCCESS ∧
    (KatRan = true ∨ E.Sha384Kat = XST_SUCCESS) ∧
    (XSecure_Sha384Digest E body).1 = XST_SUCCESS := by
  obtain ⟨hx, h1, h2⟩ := (genTBSCertificate_status E Z KatRan b p U A).1 hok
  refine ⟨hx, h1, h2, ?_⟩
  rw [genTBSCertificate_eq E Z KatRan b p U A body hbody hx h1 h2 (by omega)] at hok
  have hf := (tbs_finish_status E KatRan _ _ _ _ _ _).1 hok
  have e1 : p + (5 + body.length) - (p + 5) = body.length := by omega
  rw [e1, rd_wrBytes b p 5 body.length _ (by simp only [List.length_cons]; omega)
      (by simp only [List.length_cons]; omega)] at hf
  simpa using hf

/-! ## The signing step -/

theorem setSignStore_setSignStore (Z : Build) (st : CertStore) (Idx : Nat)
    (S1 S2 : XCert_SignStore) :
    setSignStore Z (setSignStore Z st Idx S1) Idx S2 = setSignStore Z st Idx S2 := by
  unfold setSignStore
  by_cases hin : Idx < st.CertDB.length
  · rw [slot_setSlot_same Z _ _ _ hin]
    simp [setSlot]
  · have e1 : ∀ e, setSlot st Idx e = st := by
      intro e
      unfold setSlot
      rw [List.set_eq_of_length_le (Nat.le_of_not_lt hin)]
    rw [e1, e1]

theorem slot_setSignStore_same (Z : Build) (st : CertStore) (Idx : Nat) (S : XCert_SignStore)
    (h : Idx < st.CertDB.length) :
    (slot Z (setSignStore Z st Idx S) Idx).SignStore = S := by
  unfold setSignStore
  rw [slot_setSlot_same Z _ _ _ h]

theorem sameCfg_findIdx (Z : Build) (st st2 : CertStore) (Id : Nat) (h : sameCfg Z st st2) :
    findIdx Z st2 Id = findIdx Z st Id := by
  unfold findIdx
  rw [h.1]
  congr 1
  funext i
  rw [(h.2.2 i).1]

theorem sameCfg_getUserCfg (Z : Build) (st st2 : CertStore) (Id : Nat) (h : sameCfg Z st st2) :
    XCert_GetUserCfg Z st2 Id = XCert_GetUserCfg Z st Id := by
  unfold XCert_GetUserCfg
  rw [sameCfg_findIdx Z st st2 Id h]
  cases findIdx Z st Id with
  | none => rfl
  | some Idx =>
    simp only []
    rw [(h.2.2 Idx).2]

theorem sign_reuse (E : Env) (Z : Build) (st : CertStore) (t : List Event) (Id : Nat)
    (H Key : List Nat) (Idx : Nat) (hf : findIdx Z st Id = some Idx)
    (ha : (slot Z st Idx).SignStore.IsSignAvailable = XCERT_SIGN_AVAILABLE)
    (hh : fit 48 H = fit 48 (slot Z st Idx).SignStore.Hash) :
    XCert_GenerateX509Cert_sign E Z st t Id H Key =
      (XST_SUCCESS, st, t, fit 96 (slot Z st Idx).SignStore.Sign) := by
  unfold XCert_GenerateX509Cert_sign XCert_GetSignStored
  rw [hf]
  simp [ha, hh, Xil_SMemCmp, Xil_SMemCpy, XSecure_MemCpy, XCERT_HASH_SIZE_IN_BYTES,
    XSECURE_ECC_P384_SIZE_IN_BYTES]

theorem signFromTmp_length (s : List Nat) : (signFromTmp s).length = 96 := by
  simp [signFromTmp, fit_length]

theorem fit_rev_halves (s : List Nat) :
    fit 96 ((fit 48 s).reverse ++ (fit 48 (List.drop 48 s)).reverse) =
      (fit 48 s).reverse ++ (fit 48 (List.drop 48 s)).reverse :=
  fit_of_length _ _ (by simp [fit_length])

theorem sign_fresh (E : Env) (Z : Build) (st : CertStore) (t : List Event) (Id : Nat)
    (H Key : List Nat) (Idx : Nat) (hf : findIdx Z st Id = some Idx)
    (hn : ¬ ((slot Z st Idx).SignStore.IsSignAvailable = XCERT_SIGN_AVAILABLE ∧
      fit 48 H = fit 48 (slot Z st Idx).SignStore.Hash))
    (hs : (XSecure_EllipticGenEphemeralNSign E (signCalls t) (hashForSign H) Key).1
      = XST_SUCCESS) :
    XCert_GenerateX509Cert_sign E Z st t Id H Key =
      (XST_SUCCESS,
        setSignStore Z st Idx
          { Hash := fit 48 H ++ (slot Z st Idx).SignStore.Hash.drop 48
            Sign := signFromTmp
                (XSecure_EllipticGenEphemeralNSign E (signCalls t) (hashForSign H) Key).2 ++
              (slot Z st Idx).SignStore.Sign.drop 96
            IsSignAvailable := XCERT_SIGN_AVAILABLE },
        t ++ [Event.Sign (hashForSign H) Key],
        signFromTmp
          (XSecure_EllipticGenEphemeralNSign E (signCalls t) (hashForSign H) Key).2) := by
  have hfe : XSecure_FixEndiannessNCopy XSECURE_ECC_P384_SIZE_IN_BYTES
      (List.replicate XCERT_HASH_SIZE_IN_BYTES 0) H = hashForSign H := by
    simp [XSecure_FixEndiannessNCopy, hashForSign, XSECURE_ECC_P384_SIZE_IN_BYTES,
      XCERT_HASH_SIZE_IN_BYTES]
  unfold XCert_GenerateX509Cert_sign XCert_GetSignStored
  rw [hf]
  dsimp only
  rw [hfe]
  by_cases ha : (slot Z st Idx).SignStore.IsSignAvailable = XCERT_SIGN_AVAILABLE
  · have hh : ¬ fit 48 H = fit 48 (slot Z st Idx).SignStore.Hash := fun h => hn ⟨ha, h⟩
    simp [ha, hh, hs, Xil_SMemCmp, Xil_SMemCpy, XSecure_MemCpy, XCERT_HASH_SIZE_IN_BYTES,
      XSECURE_ECC_P384_SIZE_IN_BYTES, setSignStore_setSignStore, signFromTmp,
      XSecure_FixEndiannessNCopy, fit_length, fit_rev_halves]
  · simp [ha, hs, Xil_SMemCmp, Xil_SMemCpy, XSecure_MemCpy, XCERT_HASH_SIZE_IN_BYTES,
      XSECURE_ECC_P384_SIZE_IN_BYTES, setSignStore_setSignStore, signFromTmp,
      XSecure_FixEndiannessNCopy, fit_length, fit_rev_halves]

theorem sign_cases (E : Env) (Z : Build) (st : CertStore) (t : List Event) (Id : Nat)
    (H Key : List Nat)
    (hok : (XCert_GenerateX509Cert_sign E Z st t Id H Key).1 = XST_SUCCESS) :
    ∃ Idx, findIdx Z st Id = some Idx ∧
      ((((slot Z st Idx).SignStore.IsSignAvailable = XCERT_SIGN_AVAILABLE ∧
          fit 48 H = fit 48 (slot Z st Idx).SignStore.Hash) ∧
        XCert_GenerateX509Cert_sign E Z st t Id H Key =
          (XST_SUCCESS, st, t, fit 96 (slot Z st Idx).SignStore.Sign)) ∨
       (¬ ((slot Z st Idx).SignStore.IsSignAvailable = XCERT_SIGN_AVAILABLE ∧
          fit 48 H = fit 48 (slot Z st Idx).SignStore.Hash) ∧
        XCert_GenerateX509Cert_sign E Z st t Id H Key =
          (XST_SUCCESS,
            setSignStore Z st Idx
              { Hash := fit 48 H ++ (slot Z st Idx).SignStore.Hash.drop 48
                Sign := signFromTmp
                    (XSecure_EllipticGenEphemeralNSign E (signCalls t) (hashForSign H) Key).2 ++
                  (slot Z st Idx).SignStore.Sign.drop 96
                IsSignAvailable := XCERT_SIGN_AVAILABLE },
            t ++ [Event.Sign (hashForSign H) Key],
            signFromTmp
              (XSecure_EllipticGenEphemeralNSign E (signCalls t) (hashForSign H) Key).2))) := by
  cases hf : findIdx Z st Id with
  | none =>
    unfold XCert_GenerateX509Cert_sign XCert_GetSignStored at hok
    rw [hf] at hok
    simp at hok
  | some Idx =>
    refine ⟨Idx, rfl, ?_⟩
    by_cases hc : (slot Z st Idx).SignStore.IsSignAvailable = XCERT_SIGN_AVAILABLE ∧
        fit 48 H = fit 48 (slot Z st Idx).SignStore.Hash
    · exact Or.inl ⟨hc, sign_reuse E Z st t Id H Key Idx hf hc.1 hc.2⟩
    · by_cases hs : (XSecure_EllipticGenEphemeralNSign E (signCalls t) (hashForSign H) Key).1
          = XST_SUCCESS
      · exact Or.inr ⟨hc, sign_fresh E Z st t Id H Key Idx hf hc hs⟩
      · exfalso
        have hfe : XSecure_FixEndiannessNCopy XSECURE_ECC_P384_SIZE_IN_BYTES
            (List.replicate XCERT_HASH_SIZE_IN_BYTES 0) H = hashForSign H := by
          simp [XSecure_FixEndiannessNCopy, hashForSign, XSECURE_ECC_P384_SIZE_IN_BYTES,
            XCERT_HASH_SIZE_IN_BYTES]
        unfold XCert_GenerateX509Cert_sign XCert_GetSignStored at hok
        rw [hf] at hok
        dsimp only at hok
        rw [hfe] at hok
        by_cases ha : (slot Z st Idx).SignStore.IsSignAvailable = XCERT_SIGN_AVAILABLE
        · have hh : ¬ fit 48 H = fit 48 (slot Z st Idx).SignStore.Hash := fun h => hc ⟨ha, h⟩
          simp [ha, hh, hs, Xil_SMemCmp, Xil_SMemCpy, XCERT_HASH_SIZE_IN_BYTES,
            XSECURE_ECC_P384_SIZE_IN_BYTES] at hok
        · simp [ha, hs, Xil_SMemCmp, Xil_SMemCpy, XCERT_HASH_SIZE_IN_BYTES,
            XSECURE_ECC_P384_SIZE_IN_BYTES] at hok

theorem fit_append_left (n : Nat) (l r : List Nat) (h : l.length = n) :
    fit n (l ++ r) = l := by
  unfold fit
  rw [List.append_assoc, List.take_append_of_le_length (by omega),
    List.take_of_length_le (by omega)]

theorem sign_idem (E : Env) (Z : Build) (st : CertStore) (t t2 : List Event) (Id : Nat)
    (H Key : List Nat) (hwf : st.NumOfEntriesInUserCfgDB ≤ st.CertDB.length)
    (hok : (XCert_GenerateX509Cert_sign E Z st t Id H Key).1 = XST_SUCCESS) :
    XCert_GenerateX509Cert_sign E Z (XCert_GenerateX509Cert_sign E Z st t Id H Key).2.1 t2 Id
        H Key =
      (XST_SUCCESS, (XCert_GenerateX509Cert_sign E Z st t Id H Key).2.1, t2,
        (XCert_GenerateX509Cert_sign E Z st t Id H Key).2.2.2) := by
  obtain ⟨Idx, hf, hcase⟩ := sign_cases E Z st t Id H Key hok
  have hlt : Idx < st.CertDB.length :=
    lt_of_lt_of_le ((findIdx_some_iff Z st Id Idx).mp hf).1 hwf
  rcases hcase with ⟨hc, he⟩ | ⟨_, he⟩
  · rw [he]
    dsimp only
    exact sign_reuse E Z st t2 Id H Key Idx hf hc.1 hc.2
  · rw [he]
    dsimp only
    have hf2 : findIdx Z (setSignStore Z st Idx
        { Hash := fit 48 H ++ (slot Z st Idx).SignStore.Hash.drop 48
          Sign := signFromTmp
              (XSecure_EllipticGenEphemeralNSign E (signCalls t) (hashForSign H) Key).2 ++
            (slot Z st Idx).SignStore.Sign.drop 96
          IsSignAvailable := XCERT_SIGN_AVAILABLE }) Id = some Idx := by
      rw [sameCfg_findIdx Z st _ Id (sameCfg_setSignStore Z st Idx _)]
      exact hf
    rw [sign_reuse E Z _ t2 Id H Key Idx hf2
      (by rw [slot_setSignStore_same Z st Idx _ hlt])
      (by
        rw [slot_setSignStore_same Z st Idx _ hlt]
        dsimp only
        rw [fit_append_left 48 _ _ (fit_length _ _)])]
    rw [slot_setSignStore_same Z st Idx _ hlt]
    dsimp only
    rw [fit_append_left 96 _ _ (signFromTmp_length _)]

/-! ## The generator in closed form -/

theorem genSignField_eq (b : List Nat) (p : Nat) (Sign : List Nat) :
    XCert_GenSignField b p Sign =
      (wrBytes b p (signFieldBytes Sign), (signFieldBytes Sign).length) := by
  unfold XCert_GenSignField
  conv => zeta
  rw [createInteger_eq]
  dsimp only
  rw [createInteger_eq]
  dsimp only
  simp only [XSECURE_ECC_P384_SIZE_IN_BYTES, XCERT_ASN1_TAG_BITSTRING, XCERT_ASN1_TAG_SEQUENCE,
    wr_eq_wrBytes]
  generalize hr : integerBytes Sign 48 = r
  generalize hs : integerBytes (List.drop 48 Sign) 48 = s
  have e2 : p + 1 + 1 = p + 2 := by omega
  have e3 : p + 2 + 1 = p + 3 := by omega
  have e4 : p + 3 + 1 = p + 4 := by omega
  have e5 : p + 4 + 1 = p + 5 := by omega
  have e6 : p + 5 + r.length = p + (5 + r.length) := by omega
  rw [e2, e3, e4, e5, e6, wrBytes_first_gap b p 3 [0], wrBytes_append b p 3 _ [48] (by rfl),
    wrBytes_gap_one b p 5 _ r (by rfl),
    wrBytes_append b p (5 + r.length) _ s
      (by simp only [List.length_cons, List.length_append, List.length_nil]; omega),
    wrBytes_set b p 4 _ _
      (by simp only [List.length_cons, List.length_append, List.length_nil]; omega),
    wrBytes_set b p 1 _ _
      (by simp only [List.length_cons, List.length_append, List.length_nil, List.length_set]
          omega)]
  have e7 : p + (5 + r.length) + s.length - (p + 5) = r.length + s.length := by omega
  have e8 : p + (5 + r.length) + s.length - (p + 2) = r.length + s.length + 3 := by omega
  have e9 : p + (5 + r.length) + s.length - p = 5 + r.length + s.length := by omega
  rw [e7, e8, e9]
  unfold signFieldBytes
  rw [hr, hs]
  simp only [List.cons_append, List.nil_append, List.append_assoc, List.set_cons_succ,
    List.set_cons_zero, List.length_cons, List.length_append, List.length_nil]
  refine Prod.ext rfl ?_
  dsimp only
  omega

theorem signFieldBytes_length (Sign : List Nat) :
    105 ≤ (signFieldBytes Sign).length ∧ (signFieldBytes Sign).length ≤ 107 := by
  unfold signFieldBytes
  simp only [List.length_cons, List.length_append, integerBytes_length]
  constructor <;> split <;> split <;> omega

theorem certContentBytes_length (tbs Sign : List Nat) :
    (certContentBytes tbs Sign).length = tbs.length + 14 + (signFieldBytes Sign).length := by
  simp only [certContentBytes, List.length_append, signAlgoBytes, List.length_cons,
    List.length_nil]
  omega

theorem certBytes_length (tbs Sign : List Nat) :
    (certBytes tbs Sign).length = tbs.length + 18 + (signFieldBytes Sign).length := by
  simp only [certBytes, List.length_cons, certContentBytes_length]
  omega

theorem generate_ok (E : Env) (Z : Build) (m : Machine) (buf : List Nat)
    (Addr MaxCertSize Id : Nat) (A : XCert_AppCfg) (Idx : Nat) (body tbs : List Nat)
    (q : Status × CertStore × List Event × List Nat)
    (hcfg : XCert_GetUserCfg Z m.Store Id = (XST_SUCCESS, some Idx))
    (hbody : body = tbsBodyBytes E (slot Z m.Store Idx).UserCfg A
      (XSecure_Sha384Digest E (fit 96 A.SubjectPublicKey)).2
      (XSecure_Sha384Digest E (fit 96 A.IssuerPublicKey)).2)
    (htbs : tbs = tbsBytes body (XSecure_Sha384Digest E body).2)
    (hx : Z.PLM_ECDSA_EXCLUDE = false)
    (h1 : (XSecure_Sha384Digest E (fit 96 A.SubjectPublicKey)).1 = XST_SUCCESS)
    (h2 : (XSecure_Sha384Digest E (fit 96 A.IssuerPublicKey)).1 = XST_SUCCESS)
    (hkat : m.KatRan = true ∨ E.Sha384Kat = XST_SUCCESS)
    (hd : (XSecure_Sha384Digest E body).1 = XST_SUCCESS)
    (hdt : (XSecure_Sha384Digest E tbs).1 = XST_SUCCESS)
    (hq : q = XCert_GenerateX509Cert_sign E Z m.Store
      (m.Trace ++
        ([Event.Digest (fit 96 A.SubjectPublicKey), Event.Digest (fit 96 A.IssuerPublicKey)] ++
          ((if m.KatRan = true then [] else [Event.Kat]) ++ [Event.Digest body])) ++
        [Event.Digest tbs])
      Id (XSecure_Sha384Digest E tbs).2 A.IssuerPrvtKey)
    (hqs : q.1 = XST_SUCCESS)
    (hfit : body.length + 154 ≤ buf.length) (hL : buf.length ≤ 65535) :
    XCert_GenerateX509Cert E Z m buf Addr MaxCertSize Id A =
      { Ret := XST_SUCCESS
        M := { Store := q.2.1, KatRan := true,
               Trace := q.2.2.1 ++
                 XCert_GetData (certBytes tbs q.2.2.2).length
                   (wrBytes buf 0 (certBytes tbs q.2.2.2)) Addr }
        X509CertSize := some (certBytes tbs q.2.2.2).length
        HashTmp := (XSecure_Sha384Digest E tbs).2
        Sign := q.2.2.2 } := by
  have htl : tbs.length = body.length + 29 := by
    rw [htbs, tbsBytes_length]
  have hge : 298 ≤ body.length := by
    rw [hbody]
    exact tbsBodyBytes_length_ge _ _ _ _ _
  unfold XCert_GenerateX509Cert
  conv => zeta
  rw [hcfg]
  dsimp only
  rw [show (some Idx).getD 0 = Idx from rfl]
  rw [genTBSCertificate_ok E Z m.KatRan _ _ _ A body hbody hx h1 h2 hkat hd (by omega)
    (by rw [wr_length]; omega)]
  dsimp only
  rw [genSignAlgoField_eq]
  dsimp only
  rw [← htbs]
  have hb1 : wrBytes (wrBytes (wr buf 0 XCERT_ASN1_TAG_SEQUENCE) (0 + 1 + 1) tbs)
      (0 + 1 + 1 + (body.length + 29)) signAlgoBytes =
      wrBytes buf 0 (0x30 :: buf.getD 1 0 :: (tbs ++ signAlgoBytes)) := by
    rw [wr_eq_wrBytes, show (0 : Nat) + 1 + 1 = 0 + 2 from rfl, wrBytes_first_gap,
      show (0 : Nat) + 2 + (body.length + 29) = 0 + (2 + (body.length + 29)) by omega,
      wrBytes_append buf 0 _ _ signAlgoBytes (by simp only [List.length_cons]; omega)]
    rfl
  rw [hb1]
  have hrd : rd (wrBytes buf 0 (0x30 :: buf.getD 1 0 :: (tbs ++ signAlgoBytes))) (0 + 1 + 1)
      (body.length + 29) = tbs := by
    rw [show (0 : Nat) + 1 + 1 = 0 + 2 from rfl,
      rd_wrBytes buf 0 2 _ _
        (by simp only [List.length_cons, List.length_append]; omega)
        (by simp only [List.length_cons, List.length_append, signAlgoBytes, List.length_nil]
            omega)]
    simp only [List.drop_succ_cons, List.drop_zero]
    rw [← htl, List.take_left]
  rw [hrd, ← hq]
  simp only [ne_eq, not_true_eq_false, if_false, hdt, hx, Bool.false_eq_true, hqs]
  rw [genSignField_eq]
  dsimp only
  have hsl := signFieldBytes_length q.2.2.2
  have hcl := certContentBytes_length tbs q.2.2.2
  rw [show (0 : Nat) + 1 + 1 = 0 + 2 from rfl]
  have hb2 : wrBytes (wrBytes buf 0 (48 :: buf.getD 1 0 :: (tbs ++ signAlgoBytes)))
      (0 + 2 + (body.length + 29) + 14) (signFieldBytes q.2.2.2) =
      wrBytes buf 0 (0x30 :: buf.getD 1 0 :: certContentBytes tbs q.2.2.2) := by
    rw [show (0 : Nat) + 2 + (body.length + 29) + 14 = 0 + (2 + (body.length + 29) + 14) by omega,
      wrBytes_append buf 0 _ _ (signFieldBytes q.2.2.2)
        (by simp only [List.length_cons, List.length_append, signAlgoBytes, List.length_nil]
            omega)]
    simp only [certContentBytes, List.cons_append, List.append_assoc]
  rw [hb2]
  have hlen : 0 + 2 + (body.length + 29) + 14 + (signFieldBytes q.2.2.2).length - (0 + 2) =
      (certContentBytes tbs q.2.2.2).length := by
    rw [hcl]
    omega
  rw [hlen, updateEncodedLength_82_h1 buf 0 0x30 (buf.getD 1 0) (certContentBytes tbs q.2.2.2)
    _ rfl (by omega) (by omega) (by omega)]
  dsimp only
  simp only [not_true_eq_false, if_false]
  rw [getD_wrBytes_1 buf 0 _ _ _ (by simp only [List.length_cons]; omega)]
  have n2 : (130 &&& XCERT_LOWER_NIBBLE_MASK) = 2 := by decide
  have hsz : 0 + 2 + (body.length + 29) + 14 + (signFieldBytes q.2.2.2).length + 2 - 0 =
      (certBytes tbs q.2.2.2).length := by
    rw [certBytes_length]
    omega
  rw [n2, hsz]
  rfl

theorem signCalls_getData (Size : Nat) (Src : List Nat) (Addr : Nat) :
    signCalls (XCert_GetData Size Src Addr) = 0 := by
  unfold signCalls XCert_GetData
  rw [List.countP_eq_zero]
  intro e he
  rw [List.mem_map] at he
  obtain ⟨i, _, rfl⟩ := he
  simp

theorem generate_shape (E : Env) (Z : Build) (m : Machine) (buf : List Nat)
    (Addr MaxCertSize Id : Nat) (A : XCert_AppCfg) (r : GenResult)
    (hr : r = XCert_GenerateX509Cert E Z m buf Addr MaxCertSize Id A) :
    (∃ ev, quiet ev ∧ r.M.Store = m.Store ∧ r.M.Trace = m.Trace ++ ev ∧
      r.Ret ≠ XST_SUCCESS) ∨
    (∃ ev Data out, quiet ev ∧ signCalls out = 0 ∧
      r.M.Store =
        (XCert_GenerateX509Cert_sign E Z m.Store (m.Trace ++ ev) Id
          (XSecure_Sha384Digest E Data).2 A.IssuerPrvtKey).2.1 ∧
      r.M.Trace =
        (XCert_GenerateX509Cert_sign E Z m.Store (m.Trace ++ ev) Id
          (XSecure_Sha384Digest E Data).2 A.IssuerPrvtKey).2.2.1 ++ out ∧
      r.HashTmp = (XSecure_Sha384Digest E Data).2 ∧
      r.Sign =
        (XCert_GenerateX509Cert_sign E Z m.Store (m.Trace ++ ev) Id
          (XSecure_Sha384Digest E Data).2 A.IssuerPrvtKey).2.2.2 ∧
      (r.Ret = XST_SUCCESS →
        (XCert_GenerateX509Cert_sign E Z m.Store (m.Trace ++ ev) Id
          (XSecure_Sha384Digest E Data).2 A.IssuerPrvtKey).1 = XST_SUCCESS)) := by
  unfold XCert_GenerateX509Cert at hr
  conv at hr => zeta
  generalize XCert_GetUserCfg Z m.Store Id = c at hr
  obtain ⟨s, p⟩ := c
  dsimp only at hr
  by_cases hs : s = XST_SUCCESS
  swap
  · left
    rw [if_pos hs] at hr
    subst hr
    exact ⟨[], quiet_nil, rfl, (List.append_nil _).symm, hs⟩
  rw [if_neg (not_not.mpr hs)] at hr
  generalize hr1 : XCert_GenTBSCertificate E Z m.KatRan _ _ _ A = r1 at hr
  have hq1 : quiet r1.2.2.1 := by
    rw [← hr1]
    exact (genTBSCertificate_status E Z m.KatRan _ _ _ A).2
  obtain ⟨s1, k1, t1, b1, n1⟩ := r1
  dsimp only at hq1 hr
  by_cases hs1 : s1 = XST_SUCCESS
  swap
  · left
    rw [if_pos hs1] at hr
    subst hr
    exact ⟨t1, hq1, rfl, rfl, hs1⟩
  rw [if_neg (not_not.mpr hs1)] at hr
  rw [genSignAlgoField_eq] at hr
  dsimp only at hr
  rw [if_neg (not_not.mpr rfl)] at hr
  generalize rd (wrBytes b1 (0 + 1 + 1 + n1) signAlgoBytes) (0 + 1 + 1) n1 = Data at hr
  have hqd : quiet (t1 ++ [Event.Digest Data]) :=
    quiet_append _ _ hq1 (quiet_cons_digest _ _ quiet_nil)
  by_cases hd : (XSecure_Sha384Digest E Data).1 = XST_SUCCESS
  swap
  · left
    rw [if_pos hd] at hr
    subst hr
    exact ⟨t1 ++ [Event.Digest Data], hqd, rfl, (List.append_assoc _ _ _), fun h => Status.noConfusion h⟩
  rw [if_neg (not_not.mpr hd)] at hr
  cases hx : Z.PLM_ECDSA_EXCLUDE
  swap
  · left
    rw [hx, if_pos rfl] at hr
    subst hr
    exact ⟨t1 ++ [Event.Digest Data], hqd, rfl, (List.append_assoc _ _ _), fun h => Status.noConfusion h⟩
  rw [hx, if_neg (by decide)] at hr
  right
  refine ⟨t1 ++ [Event.Digest Data], Data, ?_⟩
  rw [← List.append_assoc]
  generalize XCert_GenerateX509Cert_sign E Z m.Store (m.Trace ++ t1 ++ [Event.Digest Data]) Id
    (XSecure_Sha384Digest E Data).2 A.IssuerPrvtKey = q at hr ⊢
  obtain ⟨sq, stq, tq, Sq⟩ := q
  dsimp only at hr ⊢
  by_cases hsq : sq = XST_SUCCESS
  swap
  · rw [if_pos hsq] at hr
    subst hr
    exact ⟨[], hqd, rfl, rfl, (List.append_nil _).symm, rfl, rfl, fun h => h⟩
  rw [if_neg (not_not.mpr hsq)] at hr
  split at hr
  · subst hr
    exact ⟨[], hqd, rfl, rfl, (List.append_nil _).symm, rfl, rfl, fun _ => hsq⟩
  · subst hr
    exact ⟨_, hqd, signCalls_getData _ _ _, rfl, rfl, rfl, rfl, fun _ => hsq⟩

theorem getUserCfg_some (Z : Build) (st : CertStore) (Id : Nat)
    (h : (XCert_GetUserCfg Z st Id).1 = XST_SUCCESS) :
    ∃ Idx, XCert_GetUserCfg Z st Id = (XST_SUCCESS, some Idx) ∧ findIdx Z st Id = some Idx := by
  unfold XCert_GetUserCfg at h ⊢
  cases hf : findIdx Z st Id with
  | none =>
    rw [hf] at h
    exact Status.noConfusion h
  | some Idx =>
    rw [hf] at h
    dsimp only at h ⊢
    refine ⟨Idx, ?_, rfl⟩
    split_ifs at h ⊢
    rfl

theorem generate_success (E : Env) (Z : Build) (m : Machine) (buf : List Nat)
    (Addr MaxCertSize Id : Nat) (A : XCert_AppCfg) (Idx : Nat) (body tbs : List Nat)
    (hcfg : XCert_GetUserCfg Z m.Store Id = (XST_SUCCESS, some Idx))
    (hbody : body = tbsBodyBytes E (slot Z m.Store Idx).UserCfg A
      (XSecure_Sha384Digest E (fit 96 A.SubjectPublicKey)).2
      (XSecure_Sha384Digest E (fit 96 A.IssuerPublicKey)).2)
    (htbs : tbs = tbsBytes body (XSecure_Sha384Digest E body).2)
    (hfit : body.length + 154 ≤ buf.length) (hL : buf.length ≤ 65535)
    (hok : (XCert_GenerateX509Cert E Z m buf Addr MaxCertSize Id A).Ret = XST_SUCCESS) :
    Z.PLM_ECDSA_EXCLUDE = false ∧
    (XSecure_Sha384Digest E (fit 96 A.SubjectPublicKey)).1 = XST_SUCCESS ∧
    (XSecure_Sha384Digest E (fit 96 A.IssuerPublicKey)).1 = XST_SUCCESS ∧
    (m.KatRan = true ∨ E.Sha384Kat = XST_SUCCESS) ∧
    (XSecure_Sha384Digest E body).1 = XST_SUCCESS ∧
    (XSecure_Sha384Digest E tbs).1 = XST_SUCCESS ∧
    (XCert_GenerateX509Cert_sign E Z m.Store
      (m.Trace ++
        ([Event.Digest (fit 96 A.SubjectPublicKey), Event.Digest (fit 96 A.IssuerPublicKey)] ++
          ((if m.KatRan = true then [] else [Event.Kat]) ++ [Event.Digest body])) ++
        [Event.Digest tbs])
      Id (XSecure_Sha384Digest E tbs).2 A.IssuerPrvtKey).1 = XST_SUCCESS := by
  have htl : tbs.length = body.length + 29 := by
    rw [htbs, tbsBytes_length]
  have hge : 298 ≤ body.length := by
    rw [hbody]
    exact tbsBodyBytes_length_ge _ _ _ _ _
  unfold XCert_GenerateX509Cert at hok
  conv at hok => zeta
  rw [hcfg] at hok
  dsimp only at hok
  rw [show (some Idx).getD 0 = Idx from rfl] at hok
  rw [if_neg (not_not.mpr rfl)] at hok
  by_cases ht : (XCert_GenTBSCertificate E Z m.KatRan (wr buf 0 XCERT_ASN1_TAG_SEQUENCE)
      (0 + 1 + 1) (slot Z m.Store Idx).UserCfg A).1 = XST_SUCCESS
  swap
  · rw [if_pos ht] at hok
    exact absurd hok ht
  obtain ⟨hx, h1, h2, hkat, hd⟩ := genTBSCertificate_success E Z m.KatRan _ _ _ A body hbody
    (by rw [wr_length]; omega) ht
  refine ⟨hx, h1, h2, hkat, hd, ?_⟩
  rw [genTBSCertificate_ok E Z m.KatRan _ _ _ A body hbody hx h1 h2 hkat hd (by omega)
    (by rw [wr_length]; omega)] at hok
  dsimp only at hok
  rw [genSignAlgoField_eq] at hok
  dsimp only at hok
  rw [← htbs] at hok
  have hb1 : wrBytes (wrBytes (wr buf 0 XCERT_ASN1_TAG_SEQUENCE) (0 + 1 + 1) tbs)
      (0 + 1 + 1 + (body.length + 29)) signAlgoBytes =
      wrBytes buf 0 (0x30 :: buf.getD 1 0 :: (tbs ++ signAlgoBytes)) := by
    rw [wr_eq_wrBytes, show (0 : Nat) + 1 + 1 = 0 + 2 from rfl, wrBytes_first_gap,
      show (0 : Nat) + 2 + (body.length + 29) = 0 + (2 + (body.length + 29)) by omega,
      wrBytes_append buf 0 _ _ signAlgoBytes (by simp only [List.length_cons]; omega)]
    rfl
  rw [hb1] at hok
  have hrd : rd (wrBytes buf 0 (0x30 :: buf.getD 1 0 :: (tbs ++ signAlgoBytes))) (0 + 1 + 1)
      (body.length + 29) = tbs := by
    rw [show (0 : Nat) + 1 + 1 = 0 + 2 from rfl,
      rd_wrBytes buf 0 2 _ _
        (by simp only [List.length_cons, List.length_append]; omega)
        (by simp only [List.length_cons, List.length_append, signAlgoBytes, List.length_nil]
            omega)]
    simp only [List.drop_succ_cons, List.drop_zero]
    rw [← htl, List.take_left]
  rw [hrd] at hok
  rw [if_neg (not_not.mpr rfl), if_neg (not_not.mpr rfl)] at hok
  by_cases hdt : (XSecure_Sha384Digest E tbs).1 = XST_SUCCESS
  swap
  · rw [if_pos hdt] at hok
    exact Status.noConfusion hok
  refine ⟨hdt, ?_⟩
  rw [if_neg (not_not.mpr hdt), hx, if_neg (by decide)] at hok
  by_contra hqs
  rw [if_pos hqs] at hok
  exact hqs hok

/-! ## The store invariant -/

theorem store_fail_unchanged (Z : Build) (st : CertStore) (Id k : Nat) (Val : List Nat)
    (Len : Nat) (h : (XCert_StoreCertUserInput Z st Id k Val Len).1 ≠ XST_SUCCESS) :
    (XCert_StoreCertUserInput Z st Id k Val Len).2 = st := by
  unfold XCert_StoreCertUserInput at h ⊢
  split_ifs at h ⊢
  · rfl
  · rfl
  · cases hf : findIdx Z st Id with
    | some Idx =>
      rw [hf] at h
      exact absurd rfl h
    | none =>
      rw [hf] at h
      dsimp only at h ⊢
      split_ifs at h ⊢
      · rfl
      · exact absurd rfl h

theorem generate_sameCfg (E : Env) (Z : Build) (m : Machine) (buf : List Nat)
    (Addr MaxCertSize Id : Nat) (A : XCert_AppCfg) :
    sameCfg Z m.Store (XCert_GenerateX509Cert E Z m buf Addr MaxCertSize Id A).M.Store := by
  rcases generate_shape E Z m buf Addr MaxCertSize Id A _ rfl with
    ⟨ev, -, hst, -, -⟩ | ⟨ev, Data, out, -, -, hst, -, -, -, -⟩
  · rw [hst]
    exact sameCfg_refl Z _
  · rw [hst]
    exact sign_sameCfg E Z _ _ _ _ _

theorem step_inv (E : Env) (Z : Build) (m : Machine) (c : Call)
    (hdb : m.Store.CertDB.length = XCERT_MAX_CERT_SUPPORT)
    (hnum : m.Store.NumOfEntriesInUserCfgDB ≤ XCERT_MAX_CERT_SUPPORT)
    (hdist : idsDistinct Z m.Store) :
    (step E Z m c).Store.CertDB.length = XCERT_MAX_CERT_SUPPORT ∧
    (step E Z m c).Store.NumOfEntriesInUserCfgDB ≤ XCERT_MAX_CERT_SUPPORT ∧
    idsDistinct Z (step E Z m c).Store ∧
    m.Store.NumOfEntriesInUserCfgDB ≤ (step E Z m c).Store.NumOfEntriesInUserCfgDB ∧
    ∀ i, i < m.Store.NumOfEntriesInUserCfgDB →
      (slot Z (step E Z m c).Store i).SubsystemId = (slot Z m.Store i).SubsystemId := by
  cases c with
  | generate buf Addr MaxCertSize Id A =>
    have h := generate_sameCfg E Z m buf Addr MaxCertSize Id A
    have hstep : (step E Z m (Call.generate buf Addr MaxCertSize Id A)).Store =
        (XCert_GenerateX509Cert E Z m buf Addr MaxCertSize Id A).M.Store := rfl
    rw [hstep]
    generalize (XCert_GenerateX509Cert E Z m buf Addr MaxCertSize Id A).M.Store = st2 at h ⊢
    obtain ⟨hn, hl, hs⟩ := h
    refine ⟨hl.trans hdb, hn ▸ hnum, ?_, le_of_eq hn.symm, fun i _ => (hs i).1⟩
    intro i j hij hj
    rw [(hs i).1, (hs j).1]
    exact hdist i j hij (hn ▸ hj)
  | store c =>
    have hstep : (step E Z m (Call.store c)).Store =
        (XCert_StoreCertUserInput Z m.Store c.SubSystemId c.FieldType c.Val c.Len).2 := rfl
    rw [hstep]
    by_cases hok : (XCert_StoreCertUserInput Z m.Store c.SubSystemId c.FieldType c.Val c.Len).1
        = XST_SUCCESS
    · obtain ⟨hl, hn, -, -, Idx, hlt, hcase, hother, hsame⟩ :=
        store_step Z m.Store c.SubSystemId c.FieldType c.Val c.Len hdb hnum hok
      generalize (XCert_StoreCertUserInput Z m.Store c.SubSystemId c.FieldType c.Val c.Len).2
        = st2 at hl hn hlt hcase hother hsame ⊢
      have hid : (slot Z st2 Idx).SubsystemId = c.SubSystemId := by rw [hsame]
      rcases hcase with ⟨hf, hnn⟩ | ⟨hf, hi, hnn⟩
      · have hold := (findIdx_some_iff Z m.Store c.SubSystemId Idx).mp hf
        have hids : ∀ i, (slot Z st2 i).SubsystemId = (slot Z m.Store i).SubsystemId := by
          intro i
          by_cases hii : i = Idx
          · rw [hii, hid, hold.2.1]
          · rw [hother i hii]
        refine ⟨hl, hn, ?_, le_of_eq hnn.symm, fun i _ => hids i⟩
        intro i j hij hj
        rw [hids i, hids j]
        exact hdist i j hij (hnn ▸ hj)
      · have hnone := (findIdx_none_iff Z m.Store c.SubSystemId).mp hf
        have hids : ∀ i, i < m.Store.NumOfEntriesInUserCfgDB →
            (slot Z st2 i).SubsystemId = (slot Z m.Store i).SubsystemId := by
          intro i hi2
          rw [hother i (by omega)]
        refine ⟨hl, hn, ?_, by omega, hids⟩
        intro i j hij hj
        rw [hnn] at hj
        by_cases hjn : j = Idx
        · rw [hjn, hid, hids i (by omega)]
          exact hnone i (by omega)
        · rw [hids i (by omega), hids j (by omega)]
          exact hdist i j hij (by omega)
    · rw [store_fail_unchanged Z m.Store _ _ _ _ hok]
      exact ⟨hdb, hnum, hdist, le_refl _, fun _ _ => rfl⟩

theorem run_inv (E : Env) (Z : Build) (kat0 : Bool) (cs : List Call) :
    (run E Z ⟨initStore Z, kat0, []⟩ cs).Store.CertDB.length = XCERT_MAX_CERT_SUPPORT ∧
    (run E Z ⟨initStore Z, kat0, []⟩ cs).Store.NumOfEntriesInUserCfgDB
      ≤ XCERT_MAX_CERT_SUPPORT ∧
    idsDistinct Z (run E Z ⟨initStore Z, kat0, []⟩ cs).Store := by
  induction cs using List.reverseRecOn with
  | nil =>
    refine ⟨by simp [run, initStore], by simp [run, initStore], ?_⟩
    intro i j _ hj
    simp [run, initStore] at hj
  | append_singleton cs c ih =>
    have hrun : run E Z ⟨initStore Z, kat0, []⟩ (cs ++ [c]) =
        step E Z (run E Z ⟨initStore Z, kat0, []⟩ cs) c := by
      simp [run, List.foldl_append]
    rw [hrun]
    obtain ⟨a, b, c2, -, -⟩ := step_inv E Z _ c ih.1 ih.2.1 ih.2.2
    exact ⟨a, b, c2⟩

/-- C8: in every state reached from the empty store by a sequence of
`XCert_StoreCertUserInput` and `XCert_GenerateX509Cert` calls (failed calls included, any
external primitives), the entry count is at most 4 and the identifiers of the slots in use
are pairwise distinct; and one more call of either kind leaves the count at least as
large and the identifier of every slot in use as it was. -/
theorem store_invariant (E : Env) (Z : Build) (kat0 : Bool) (cs : List Call) :
    (run E Z ⟨initStore Z, kat0, []⟩ cs).Store.NumOfEntriesInUserCfgDB
      ≤ XCERT_MAX_CERT_SUPPORT ∧
    idsDistinct Z (run E Z ⟨initStore Z, kat0, []⟩ cs).Store ∧
    ∀ c : Call,
      (run E Z ⟨initStore Z, kat0, []⟩ cs).Store.NumOfEntriesInUserCfgDB ≤
        (step E Z (run E Z ⟨initStore Z, kat0, []⟩ cs) c).Store.NumOfEntriesInUserCfgDB ∧
      ∀ i, i < (run E Z ⟨initStore Z, kat0, []⟩ cs).Store.NumOfEntriesInUserCfgDB →
        (slot Z (step E Z (run E Z ⟨initStore Z, kat0, []⟩ cs) c).Store i).SubsystemId =
          (slot Z (run E Z ⟨initStore Z, kat0, []⟩ cs).Store i).SubsystemId := by
  obtain ⟨hdb, hnum, hdist⟩ := run_inv E Z kat0 cs
  refine ⟨hnum, hdist, fun c => ?_⟩
  obtain ⟨-, -, -, hmono, hids⟩ := step_inv E Z _ c hdb hnum hdist
  exact ⟨hmono, hids⟩

/-! ## Reuse of the stored signature -/

theorem digest_length (E : Env) (Data : List Nat) :
    (XSecure_Sha384Digest E Data).2.length = 48 := by
  simp [XSecure_Sha384Digest, fit_length, XCERT_HASH_SIZE_IN_BYTES]

/-- C9: for a call of `XCert_GenerateX509Cert` that returns `XST_SUCCESS`, with `Idx` the
slot of the subsystem and `Hash` and `Sign` of that slot arrays of 48 and 96 bytes: the
call makes no run of the signing primitive and hands the stored `Sign` unchanged to
`XCert_GenSignField` if and only if, on entry, `IsSignAvailable` of the slot is
`XCERT_SIGN_AVAILABLE` and the stored `Hash` equals the digest of the TBS certificate
built by this call (the local array `HashTmp`); and when that condition fails the call
makes exactly one run of the signing primitive. -/
theorem generate_sign_reuse (E : Env) (Z : Build) (m : Machine) (X509CertBuf : List Nat)
    (X509CertAddr MaxCertSize SubSystemId : Nat) (A : XCert_AppCfg) (Idx : Nat)
    (hIdx : findIdx Z m.Store SubSystemId = some Idx)
    (hHash : (slot Z m.Store Idx).SignStore.Hash.length = XCERT_HASH_SIZE_IN_BYTES)
    (hSign : (slot Z m.Store Idx).SignStore.Sign.length = XSECURE_ECC_P384_SIZE_IN_BYTES * 2)
    (hok : (XCert_GenerateX509Cert E Z m X509CertBuf X509CertAddr MaxCertSize SubSystemId
      A).Ret = XST_SUCCESS) :
    ((signCalls (XCert_GenerateX509Cert E Z m X509CertBuf X509CertAddr MaxCertSize SubSystemId
          A).M.Trace = signCalls m.Trace ∧
        (XCert_GenerateX509Cert E Z m X509CertBuf X509CertAddr MaxCertSize SubSystemId A).Sign =
          (slot Z m.Store Idx).SignStore.Sign) ↔
      ((slot Z m.Store Idx).SignStore.IsSignAvailable = XCERT_SIGN_AVAILABLE ∧
        (slot Z m.Store Idx).SignStore.Hash =
          (XCert_GenerateX509Cert E Z m X509CertBuf X509CertAddr MaxCertSize SubSystemId
            A).HashTmp)) ∧
    (¬ ((slot Z m.Store Idx).SignStore.IsSignAvailable = XCERT_SIGN_AVAILABLE ∧
        (slot Z m.Store Idx).SignStore.Hash =
          (XCert_GenerateX509Cert E Z m X509CertBuf X509CertAddr MaxCertSize SubSystemId
            A).HashTmp) →
      signCalls (XCert_GenerateX509Cert E Z m X509CertBuf X509CertAddr MaxCertSize SubSystemId
        A).M.Trace = signCalls m.Trace + 1) := by
  rcases generate_shape E Z m X509CertBuf X509CertAddr MaxCertSize SubSystemId A _ rfl with
    ⟨ev, -, -, -, hne⟩ | ⟨ev, Data, out, hq, hout, -, htr, hh, hsg, hs⟩
  · exact absurd hok hne
  have hqs := hs hok
  rw [htr, hh, hsg]
  have hH : fit 48 (XSecure_Sha384Digest E Data).2 = (XSecure_Sha384Digest E Data).2 :=
    fit_of_length _ _ (digest_length E Data)
  have hS : fit 48 (slot Z m.Store Idx).SignStore.Hash = (slot Z m.Store Idx).SignStore.Hash :=
    fit_of_length _ _ hHash
  have hS2 : fit 96 (slot Z m.Store Idx).SignStore.Sign = (slot Z m.Store Idx).SignStore.Sign :=
    fit_of_length _ _ hSign
  obtain ⟨Idx2, hf, hcase⟩ := sign_cases E Z m.Store (m.Trace ++ ev) SubSystemId
    (XSecure_Sha384Digest E Data).2 A.IssuerPrvtKey hqs
  have hi : Idx2 = Idx := Option.some.inj (hf.symm.trans hIdx)
  subst hi
  rw [hH, hS] at hcase
  have hev : signCalls ev = 0 := signCalls_quiet ev hq
  rcases hcase with ⟨hc, he⟩ | ⟨hc, he⟩
  · rw [he]
    dsimp only
    rw [hS2]
    have hc2 : (slot Z m.Store Idx2).SignStore.IsSignAvailable = XCERT_SIGN_AVAILABLE ∧
        (slot Z m.Store Idx2).SignStore.Hash = (XSecure_Sha384Digest E Data).2 :=
      ⟨hc.1, hc.2.symm⟩
    refine ⟨⟨fun _ => hc2, fun _ => ⟨?_, rfl⟩⟩, fun hn => absurd hc2 hn⟩
    rw [signCalls_append, signCalls_append, hev, hout]
    rfl
  · rw [he]
    dsimp only
    have hc2 : ¬ ((slot Z m.Store Idx2).SignStore.IsSignAvailable = XCERT_SIGN_AVAILABLE ∧
        (slot Z m.Store Idx2).SignStore.Hash = (XSecure_Sha384Digest E Data).2) :=
      fun h => hc ⟨h.1, h.2.symm⟩
    have hcnt : signCalls (m.Trace ++ ev ++
        [Event.Sign (hashForSign (XSecure_Sha384Digest E Data).2) A.IssuerPrvtKey] ++ out) =
        signCalls m.Trace + 1 := by
      rw [signCalls_append, signCalls_append, signCalls_append, hev, hout]
      rfl
    refine ⟨⟨fun h => ?_, fun h => absurd h hc2⟩, fun _ => hcnt⟩
    rw [hcnt] at h
    omega

theorem generate_sign_reuse_witness :
    (XCert_GenerateX509Cert envW buildW machineW bufW 4096 1024 7 appW).Ret = XST_SUCCESS ∧
    signCalls (XCert_GenerateX509Cert envW buildW machineW bufW 4096 1024 7 appW).M.Trace =
      signCalls machineW.Trace + 1 :=
  ⟨by decide!,
    (generate_sign_reuse envW buildW machineW bufW 4096 1024 7 appW 1 (by decide) (by decide)
      (by decide) (by decide!)).2 (by decide!)⟩

/-! ## Two generation calls in succession -/

theorem generate_cfg_fail (E : Env) (Z : Build) (m : Machine) (buf : List Nat)
    (Addr MaxCertSize Id : Nat) (A : XCert_AppCfg)
    (h : (XCert_GetUserCfg Z m.Store Id).1 ≠ XST_SUCCESS) :
    (XCert_GenerateX509Cert E Z m buf Addr MaxCertSize Id A).Ret ≠ XST_SUCCESS := by
  unfold XCert_GenerateX509Cert
  conv => zeta
  generalize XCert_GetUserCfg Z m.Store Id = c at h ⊢
  obtain ⟨s, p⟩ := c
  dsimp only at h ⊢
  rw [if_pos h]
  exact h

theorem outBytes_getData (buf cert : List Nat) (Addr : Nat) (h : cert.length ≤ buf.length) :
    outBytes (XCert_GetData cert.length (wrBytes buf 0 cert) Addr) = certOut Addr cert := by
  unfold outBytes XCert_GetData certOut
  rw [List.filterMap_map]
  rw [← List.filterMap_eq_map]
  apply List.filterMap_congr
  intro i hi
  rw [List.mem_range] at hi
  simp only [Function.comp_apply, Option.some.injEq, Prod.mk.injEq, true_and]
  have := getD_wrBytes buf 0 i cert hi (by omega)
  rw [Nat.zero_add] at this
  exact this

theorem outBytes_sign (h k : List Nat) : outBytes [Event.Sign h k] = [] := rfl

theorem signCalls_sign (h k : List Nat) : signCalls [Event.Sign h k] = 1 := rfl

theorem wf_slot_hash (Z : Build) (st : CertStore) (Idx : Nat) (hwf : st.WF Z)
    (h : Idx < st.NumOfEntriesInUserCfgDB) :
    Idx < st.CertDB.length ∧
    (slot Z st Idx).SignStore.Hash.length = XCERT_HASH_SIZE_IN_BYTES := by
  obtain ⟨hl, hn, hall⟩ := hwf
  have hlt : Idx < st.CertDB.length := by omega
  refine ⟨hlt, ?_⟩
  have hmem : slot Z st Idx ∈ st.CertDB := by
    unfold slot
    rw [List.getD_eq_getElem _ _ hlt]
    exact List.getElem_mem _
  exact (hall _ hmem).2.2.2.1

theorem quiet_tbs_prefix (k : Bool) (a b c : List Nat) :
    quiet ([Event.Digest a, Event.Digest b] ++
      ((if k = true then [] else [Event.Kat]) ++ [Event.Digest c])) := by
  cases k
  · exact quiet_cons_digest _ _ (quiet_cons_digest _ _ (quiet_cons_kat _
      (quiet_cons_digest _ _ quiet_nil)))
  · exact quiet_cons_digest _ _ (quiet_cons_digest _ _ (quiet_cons_digest _ _ quiet_nil))

theorem trace_counts (t X out : List Event) (d : List Nat) (hX : quiet X) :
    signCalls (t ++ X ++ [Event.Digest d] ++ out) = signCalls t + signCalls out ∧
    outBytes (t ++ X ++ [Event.Digest d] ++ out) = outBytes t ++ outBytes out := by
  constructor
  · rw [signCalls_append, signCalls_append, signCalls_append, signCalls_quiet X hX]
    rfl
  · rw [outBytes_append, outBytes_append, outBytes_append, outBytes_quiet X hX]
    simp [outBytes]

theorem trace_counts_sign (t X out : List Event) (d h k : List Nat) (hX : quiet X) :
    signCalls (t ++ X ++ [Event.Digest d] ++ [Event.Sign h k] ++ out) =
      signCalls t + 1 + signCalls out ∧
    outBytes (t ++ X ++ [Event.Digest d] ++ [Event.Sign h k] ++ out) =
      outBytes t ++ outBytes out := by
  constructor
  · rw [signCalls_append, signCalls_append, signCalls_append, signCalls_append,
      signCalls_quiet X hX]
    rfl
  · rw [outBytes_append, outBytes_append, outBytes_append, outBytes_append,
      outBytes_quiet X hX]
    simp [outBytes]

/-- C10, amended: let a call of `XCert_GenerateX509Cert` on a well-formed store return
`XST_SUCCESS`, and let a second call follow with the same subsystem identifier and the
same application configuration, on the state the first call left and with the same
external primitives (device DNA included). The local array has 1024 bytes with any
content on entry of either call, and the certificate fits in it. Then the second call
returns `XST_SUCCESS`, both calls report the same size and send the same bytes `cert` to
their destinations, the second call makes no run of the signing primitive, the first
makes at most one, and the two calls together make exactly one run if and only if the
first call found no signature to reuse: the count is zero when the slot already held a
signature for the digest of this TBS certificate. -/
theorem generate_idempotent (E : Env) (Z : Build) (m : Machine) (buf1 buf2 : List Nat)
    (Addr1 Addr2 Max1 Max2 SubSystemId : Nat) (A : XCert_AppCfg) (Idx : Nat)
    (hwf : m.Store.WF Z)
    (hIdx : findIdx Z m.Store SubSystemId = some Idx)
    (hb1 : buf1.length = 1024) (hb2 : buf2.length = 1024)
    (hfit : (slot Z m.Store Idx).UserCfg.IssuerLen + (slot Z m.Store Idx).UserCfg.ValidityLen +
      (slot Z m.Store Idx).UserCfg.SubjectLen + 508 ≤ 1024)
    (hok : (XCert_GenerateX509Cert E Z m buf1 Addr1 Max1 SubSystemId A).Ret = XST_SUCCESS) :
    (XCert_GenerateX509Cert E Z
        (XCert_GenerateX509Cert E Z m buf1 Addr1 Max1 SubSystemId A).M
        buf2 Addr2 Max2 SubSystemId A).Ret = XST_SUCCESS ∧
    (∃ cert,
      (XCert_GenerateX509Cert E Z m buf1 Addr1 Max1 SubSystemId A).X509CertSize =
        some cert.length ∧
      (XCert_GenerateX509Cert E Z
        (XCert_GenerateX509Cert E Z m buf1 Addr1 Max1 SubSystemId A).M
        buf2 Addr2 Max2 SubSystemId A).X509CertSize = some cert.length ∧
      outBytes (XCert_GenerateX509Cert E Z m buf1 Addr1 Max1 SubSystemId A).M.Trace =
        outBytes m.Trace ++ certOut Addr1 cert ∧
      outBytes (XCert_GenerateX509Cert E Z
        (XCert_GenerateX509Cert E Z m buf1 Addr1 Max1 SubSystemId A).M
        buf2 Addr2 Max2 SubSystemId A).M.Trace =
        outBytes (XCert_GenerateX509Cert E Z m buf1 Addr1 Max1 SubSystemId A).M.Trace ++
          certOut Addr2 cert) ∧
    signCalls (XCert_GenerateX509Cert E Z
        (XCert_GenerateX509Cert E Z m buf1 Addr1 Max1 SubSystemId A).M
        buf2 Addr2 Max2 SubSystemId A).M.Trace =
      signCalls (XCert_GenerateX509Cert E Z m buf1 Addr1 Max1 SubSystemId A).M.Trace ∧
    signCalls (XCert_GenerateX509Cert E Z m buf1 Addr1 Max1 SubSystemId A).M.Trace ≤
      signCalls m.Trace + 1 ∧
    (signCalls (XCert_GenerateX509Cert E Z
        (XCert_GenerateX509Cert E Z m buf1 Addr1 Max1 SubSystemId A).M
        buf2 Addr2 Max2 SubSystemId A).M.Trace = signCalls m.Trace + 1 ↔
      ¬ ((slot Z m.Store Idx).SignStore.IsSignAvailable = XCERT_SIGN_AVAILABLE ∧
        (slot Z m.Store Idx).SignStore.Hash =
          (XCert_GenerateX509Cert E Z m buf1 Addr1 Max1 SubSystemId A).HashTmp)) := by
  -- the first call
  have hc1 : (XCert_GetUserCfg Z m.Store SubSystemId).1 = XST_SUCCESS := by
    by_contra h
    exact generate_cfg_fail E Z m buf1 Addr1 Max1 SubSystemId A h hok
  obtain ⟨Idx2, hcfg, hf2⟩ := getUserCfg_some Z m.Store SubSystemId hc1
  have hi : Idx2 = Idx := Option.some.inj (hf2.symm.trans hIdx)
  subst hi
  have hlt := ((findIdx_some_iff Z m.Store SubSystemId Idx2).mp hIdx).1
  obtain ⟨hin, hHash⟩ := wf_slot_hash Z m.Store Idx2 hwf hlt
  obtain ⟨body, hbody⟩ : ∃ body, body = tbsBodyBytes E (slot Z m.Store Idx2).UserCfg A
      (XSecure_Sha384Digest E (fit 96 A.SubjectPublicKey)).2
      (XSecure_Sha384Digest E (fit 96 A.IssuerPublicKey)).2 := ⟨_, rfl⟩
  obtain ⟨tbs, htbs⟩ : ∃ tbs, tbs = tbsBytes body (XSecure_Sha384Digest E body).2 := ⟨_, rfl⟩
  have hbl : body.length ≤ (slot Z m.Store Idx2).UserCfg.IssuerLen +
      (slot Z m.Store Idx2).UserCfg.ValidityLen + (slot Z m.Store Idx2).UserCfg.SubjectLen +
      354 := by
    rw [hbody, tbsBodyBytes_length]
    split <;> omega
  have htl : tbs.length = body.length + 29 := by
    rw [htbs, tbsBytes_length]
  obtain ⟨hx, h1, h2, hkat, hd, hdt, hqs⟩ := generate_success E Z m buf1 Addr1 Max1 SubSystemId
    A Idx2 body tbs hcfg hbody htbs (by omega) (by omega) hok
  obtain ⟨q1, hq1⟩ : ∃ q1, q1 = XCert_GenerateX509Cert_sign E Z m.Store
      (m.Trace ++
        ([Event.Digest (fit 96 A.SubjectPublicKey), Event.Digest (fit 96 A.IssuerPublicKey)] ++
          ((if m.KatRan = true then [] else [Event.Kat]) ++ [Event.Digest body])) ++
        [Event.Digest tbs])
      SubSystemId (XSecure_Sha384Digest E tbs).2 A.IssuerPrvtKey := ⟨_, rfl⟩
  rw [← hq1] at hqs
  have e1 := generate_ok E Z m buf1 Addr1 Max1 SubSystemId A Idx2 body tbs q1 hcfg hbody htbs
    hx h1 h2 hkat hd hdt hq1 hqs (by omega) (by omega)
  -- the second call
  have hsame : sameCfg Z m.Store q1.2.1 := by
    rw [hq1]
    exact sign_sameCfg E Z _ _ _ _ _
  have hcfg2 : XCert_GetUserCfg Z q1.2.1 SubSystemId = (XST_SUCCESS, some Idx2) := by
    rw [sameCfg_getUserCfg Z m.Store q1.2.1 SubSystemId hsame]
    exact hcfg
  have hbody2 : body = tbsBodyBytes E (slot Z q1.2.1 Idx2).UserCfg A
      (XSecure_Sha384Digest E (fit 96 A.SubjectPublicKey)).2
      (XSecure_Sha384Digest E (fit 96 A.IssuerPublicKey)).2 := by
    rw [(hsame.2.2 Idx2).2]
    exact hbody
  obtain ⟨tr1, htr1⟩ : ∃ tr1, tr1 = q1.2.2.1 ++
      XCert_GetData (certBytes tbs q1.2.2.2).length (wrBytes buf1 0 (certBytes tbs q1.2.2.2))
        Addr1 := ⟨_, rfl⟩
  rw [← htr1] at e1
  have hidem := sign_idem E Z m.Store
    (m.Trace ++
      ([Event.Digest (fit 96 A.SubjectPublicKey), Event.Digest (fit 96 A.IssuerPublicKey)] ++
        ((if m.KatRan = true then [] else [Event.Kat]) ++ [Event.Digest body])) ++
      [Event.Digest tbs])
    (tr1 ++
      ([Event.Digest (fit 96 A.SubjectPublicKey), Event.Digest (fit 96 A.IssuerPublicKey)] ++
        ((if true = true then [] else [Event.Kat]) ++ [Event.Digest body])) ++
      [Event.Digest tbs])
    SubSystemId (XSecure_Sha384Digest E tbs).2 A.IssuerPrvtKey
    (by obtain ⟨hl, hn, -⟩ := hwf; omega)
    (by rw [← hq1]; exact hqs)
  rw [← hq1] at hidem
  have e2 := generate_ok E Z ⟨q1.2.1, true, tr1⟩ buf2 Addr2 Max2 SubSystemId A Idx2 body tbs
    _ hcfg2 hbody2 htbs hx h1 h2 (Or.inl rfl) hd hdt rfl (by rw [hidem]) (by omega) (by omega)
  rw [hidem] at e2
  dsimp only at e2
  rw [e1]
  dsimp only
  rw [e2]
  dsimp only
  -- counting
  have hsl := signFieldBytes_length q1.2.2.2
  have hcb := certBytes_length tbs q1.2.2.2
  have hle1 : (certBytes tbs q1.2.2.2).length ≤ buf1.length := by omega
  have hle2 : (certBytes tbs q1.2.2.2).length ≤ buf2.length := by omega
  have hq := quiet_tbs_prefix m.KatRan (fit 96 A.SubjectPublicKey) (fit 96 A.IssuerPublicKey)
    body
  have hq2 := quiet_tbs_prefix true (fit 96 A.SubjectPublicKey) (fit 96 A.IssuerPublicKey)
    body
  obtain ⟨Idx3, hf3, hcase⟩ := sign_cases E Z m.Store _ SubSystemId
    (XSecure_Sha384Digest E tbs).2 A.IssuerPrvtKey (by rw [← hq1]; exact hqs)
  have hi3 : Idx3 = Idx2 := Option.some.inj (hf3.symm.trans hIdx)
  subst hi3
  rw [← hq1, fit_of_length 48 _ (digest_length E tbs), fit_of_length 48 _ hHash] at hcase
  obtain ⟨hsc2, hob2⟩ := trace_counts tr1 _
    (XCert_GetData (certBytes tbs q1.2.2.2).length (wrBytes buf2 0 (certBytes tbs q1.2.2.2))
      Addr2) tbs hq2
  rw [signCalls_getData] at hsc2
  rw [outBytes_getData _ _ _ hle2] at hob2
  have hob1 : outBytes tr1 = outBytes m.Trace ++ certOut Addr1 (certBytes tbs q1.2.2.2) ∧
      ((signCalls tr1 = signCalls m.Trace ∧
          ((slot Z m.Store Idx3).SignStore.IsSignAvailable = XCERT_SIGN_AVAILABLE ∧
            (slot Z m.Store Idx3).SignStore.Hash = (XSecure_Sha384Digest E tbs).2)) ∨
        (signCalls tr1 = signCalls m.Trace + 1 ∧
          ¬ ((slot Z m.Store Idx3).SignStore.IsSignAvailable = XCERT_SIGN_AVAILABLE ∧
            (slot Z m.Store Idx3).SignStore.Hash = (XSecure_Sha384Digest E tbs).2))) := by
    rw [htr1]
    rcases hcase with ⟨hc, he⟩ | ⟨hc, he⟩
    · have ht : q1.2.2.1 = m.Trace ++
          ([Event.Digest (fit 96 A.SubjectPublicKey), Event.Digest (fit 96 A.IssuerPublicKey)] ++
            ((if m.KatRan = true then [] else [Event.Kat]) ++ [Event.Digest body])) ++
          [Event.Digest tbs] := by rw [he]
      obtain ⟨k1, k2⟩ := trace_counts m.Trace _
        (XCert_GetData (certBytes tbs q1.2.2.2).length
          (wrBytes buf1 0 (certBytes tbs q1.2.2.2)) Addr1) tbs hq
      rw [signCalls_getData] at k1
      rw [outBytes_getData _ _ _ hle1] at k2
      rw [ht]
      exact ⟨k2, Or.inl ⟨k1, hc.1, hc.2.symm⟩⟩
    · have ht : q1.2.2.1 = m.Trace ++
          ([Event.Digest (fit 96 A.SubjectPublicKey), Event.Digest (fit 96 A.IssuerPublicKey)] ++
            ((if m.KatRan = true then [] else [Event.Kat]) ++ [Event.Digest body])) ++
          [Event.Digest tbs] ++
          [Event.Sign (hashForSign (XSecure_Sha384Digest E tbs).2) A.IssuerPrvtKey] := by
        rw [he]
      obtain ⟨k1, k2⟩ := trace_counts_sign m.Trace _
        (XCert_GetData (certBytes tbs q1.2.2.2).length
          (wrBytes buf1 0 (certBytes tbs q1.2.2.2)) Addr1) tbs
        (hashForSign (XSecure_Sha384Digest E tbs).2) A.IssuerPrvtKey hq
      rw [signCalls_getData] at k1
      rw [outBytes_getData _ _ _ hle1] at k2
      rw [ht]
      exact ⟨k2, Or.inr ⟨k1, fun h => hc ⟨h.1, h.2.symm⟩⟩⟩
  refine ⟨rfl, ⟨certBytes tbs q1.2.2.2, rfl, rfl, hob1.1, hob2⟩, hsc2, ?_, ?_⟩
  · rcases hob1.2 with ⟨h, -⟩ | ⟨h, -⟩ <;> omega
  · rw [hsc2]
    rcases hob1.2 with ⟨h, hc⟩ | ⟨h, hc⟩
    · exact ⟨fun h2 => by omega, fun hn => absurd hc hn⟩
    · exact ⟨fun _ => hc, fun _ => h⟩

theorem generate_idempotent_witness :
    (XCert_GenerateX509Cert envW buildW machineW bufW 4096 1024 7 appW).Ret = XST_SUCCESS ∧
    (XCert_GenerateX509Cert envW buildW
      (XCert_GenerateX509Cert envW buildW machineW bufW 4096 1024 7 appW).M
      bufW2 8192 1024 7 appW).Ret = XST_SUCCESS ∧
    signCalls (XCert_GenerateX509Cert envW buildW
      (XCert_GenerateX509Cert envW buildW machineW bufW 4096 1024 7 appW).M
      bufW2 8192 1024 7 appW).M.Trace =
      signCalls (XCert_GenerateX509Cert envW buildW machineW bufW 4096 1024 7 appW).M.Trace :=
  ⟨by decide!,
    (generate_idempotent envW buildW machineW bufW bufW2 4096 8192 1024 1024 7 appW 1
      (by unfold CertStore.WF; decide) (by decide) (List.length_replicate _ _)
      (List.length_replicate _ _) (by decide)
      (by decide!)).1,
    (generate_idempotent envW buildW machineW bufW bufW2 4096 8192 1024 1024 7 appW 1
      (by unfold CertStore.WF; decide) (by decide) (List.length_replicate _ _)
      (List.length_replicate _ _) (by decide)
      (by decide!)).2.2.1⟩

/-- C10, counterexample to the count of signing runs: on `machineCachedW`, the state that
one successful call for subsystem 7 leaves, two further calls with the same identifier
and application configuration both return `XST_SUCCESS`, and the trace after them holds as
many runs of the signing primitive as before them: none across the two calls, not one. -/
theorem generate_idempotent_counterexample :
    (XCert_GenerateX509Cert envW buildW machineCachedW bufW 4096 1024 7 appW).Ret
      = XST_SUCCESS ∧
    (XCert_GenerateX509Cert envW buildW
      (XCert_GenerateX509Cert envW buildW machineCachedW bufW 4096 1024 7 appW).M
      bufW 4096 1024 7 appW).Ret = XST_SUCCESS ∧
    signCalls (XCert_GenerateX509Cert envW buildW
      (XCert_GenerateX509Cert envW buildW machineCachedW bufW 4096 1024 7 appW).M
      bufW 4096 1024 7 appW).M.Trace = signCalls machineCachedW.Trace ∧
    signCalls (XCert_GenerateX509Cert envW buildW
      (XCert_GenerateX509Cert envW buildW machineCachedW bufW 4096 1024 7 appW).M
      bufW 4096 1024 7 appW).M.Trace ≠ signCalls machineCachedW.Trace + 1 := by
  decide!

/-! ## Every outcome of the signing step -/

theorem sign_notfound (E : Env) (Z : Build) (st : CertStore) (t : List Event) (Id : Nat)
    (H Key : List Nat) (hf : findIdx Z st Id = none) :
    XCert_GenerateX509Cert_sign E Z st t Id H Key =
      (XOCP_ERR_X509_GET_SIGN, st, t, List.replicate (XSECURE_ECC_P384_SIZE_IN_BYTES * 2) 0) := by
  unfold XCert_GenerateX509Cert_sign XCert_GetSignStored
  rw [hf]
  rfl

theorem sign_sigfail (E : Env) (Z : Build) (st : CertStore) (t : List Event) (Id : Nat)
    (H Key : List Nat) (Idx : Nat) (hf : findIdx Z st Id = some Idx)
    (hn : ¬ ((slot Z st Idx).SignStore.IsSignAvailable = XCERT_SIGN_AVAILABLE ∧
      fit 48 H = fit 48 (slot Z st Idx).SignStore.Hash))
    (hs : (XSecure_EllipticGenEphemeralNSign E (signCalls t) (hashForSign H) Key).1
      ≠ XST_SUCCESS) :
    XCert_GenerateX509Cert_sign E Z st t Id H Key =
      (XOCP_ERR_X509_CALC_SIGN, st, t ++ [Event.Sign (hashForSign H) Key],
        List.replicate (XSECURE_ECC_P384_SIZE_IN_BYTES * 2) 0) := by
  have hfe : XSecure_FixEndiannessNCopy XSECURE_ECC_P384_SIZE_IN_BYTES
      (List.replicate XCERT_HASH_SIZE_IN_BYTES 0) H = hashForSign H := by
    simp [XSecure_FixEndiannessNCopy, hashForSign, XSECURE_ECC_P384_SIZE_IN_BYTES,
      XCERT_HASH_SIZE_IN_BYTES]
  unfold XCert_GenerateX509Cert_sign XCert_GetSignStored
  rw [hf]
  dsimp only
  rw [hfe]
  by_cases ha : (slot Z st Idx).SignStore.IsSignAvailable = XCERT_SIGN_AVAILABLE
  · have hh : ¬ fit 48 H = fit 48 (slot Z st Idx).SignStore.Hash := fun h => hn ⟨ha, h⟩
    simp [ha, hh, hs, Xil_SMemCmp, XCERT_HASH_SIZE_IN_BYTES, XSECURE_ECC_P384_SIZE_IN_BYTES]
  · simp [ha, hs, XCERT_HASH_SIZE_IN_BYTES, XSECURE_ECC_P384_SIZE_IN_BYTES]

theorem generate_outcome (E : Env) (Z : Build) (m : Machine) (buf : List Nat)
    (Addr MaxCertSize Id : Nat) (A : XCert_AppCfg) (r : GenResult)
    (hr : r = XCert_GenerateX509Cert E Z m buf Addr MaxCertSize Id A) :
    (r.M.Store = m.Store ∧ r.Ret ≠ XST_SUCCESS ∧ signCalls r.M.Trace = signCalls m.Trace) ∨
    (∃ Idx, findIdx Z m.Store Id = some Idx ∧
      ((((slot Z m.Store Idx).SignStore.IsSignAvailable = XCERT_SIGN_AVAILABLE ∧
            r.HashTmp = fit 48 (slot Z m.Store Idx).SignStore.Hash) ∧
          r.M.Store = m.Store ∧ signCalls r.M.Trace = signCalls m.Trace ∧
          r.Sign = fit 96 (slot Z m.Store Idx).SignStore.Sign) ∨
        (¬ ((slot Z m.Store Idx).SignStore.IsSignAvailable = XCERT_SIGN_AVAILABLE ∧
            r.HashTmp = fit 48 (slot Z m.Store Idx).SignStore.Hash) ∧
          (XSecure_EllipticGenEphemeralNSign E (signCalls m.Trace) (hashForSign r.HashTmp)
            A.IssuerPrvtKey).1 ≠ XST_SUCCESS ∧
          r.M.Store = m.Store ∧ r.Ret ≠ XST_SUCCESS ∧
          signCalls r.M.Trace = signCalls m.Trace + 1) ∨
        (¬ ((slot Z m.Store Idx).SignStore.IsSignAvailable = XCERT_SIGN_AVAILABLE ∧
            r.HashTmp = fit 48 (slot Z m.Store Idx).SignStore.Hash) ∧
          (XSecure_EllipticGenEphemeralNSign E (signCalls m.Trace) (hashForSign r.HashTmp)
            A.IssuerPrvtKey).1 = XST_SUCCESS ∧
          r.M.Store = setSignStore Z m.Store Idx
            { Hash := r.HashTmp ++ (slot Z m.Store Idx).SignStore.Hash.drop 48
              Sign := r.Sign ++ (slot Z m.Store Idx).SignStore.Sign.drop 96
              IsSignAvailable := XCERT_SIGN_AVAILABLE } ∧
          signCalls r.M.Trace = signCalls m.Trace + 1 ∧
          r.Sign = signFromTmp (XSecure_EllipticGenEphemeralNSign E (signCalls m.Trace)
            (hashForSign r.HashTmp) A.IssuerPrvtKey).2))) := by
  rcases generate_shape E Z m buf Addr MaxCertSize Id A r hr with
    ⟨ev, hq, hst, htr, hne⟩ | ⟨ev, Data, out, hq, hout, hst, htr, hh, hsg, hs⟩
  · left
    refine ⟨hst, hne, ?_⟩
    rw [htr, signCalls_append, signCalls_quiet ev hq]
    rfl
  have hev : signCalls (m.Trace ++ ev) = signCalls m.Trace := by
    rw [signCalls_append, signCalls_quiet ev hq]
    rfl
  have hH : fit 48 r.HashTmp = r.HashTmp := by
    rw [hh]
    exact fit_of_length _ _ (digest_length E Data)
  rw [← hh] at hst htr hsg hs
  cases hf : findIdx Z m.Store Id with
  | none =>
    left
    rw [sign_notfound E Z m.Store _ Id _ _ hf] at hst htr hs
    dsimp only at hst htr hs
    refine ⟨hst, fun h => Status.noConfusion (hs h), ?_⟩
    rw [htr, signCalls_append, hev, hout]
    rfl
  | some Idx =>
    right
    refine ⟨Idx, rfl, ?_⟩
    by_cases hc : (slot Z m.Store Idx).SignStore.IsSignAvailable = XCERT_SIGN_AVAILABLE ∧
        r.HashTmp = fit 48 (slot Z m.Store Idx).SignStore.Hash
    · left
      rw [sign_reuse E Z m.Store _ Id _ _ Idx hf hc.1 (by rw [hH]; exact hc.2)] at hst htr hsg
      dsimp only at hst htr hsg
      refine ⟨hc, hst, ?_, hsg⟩
      rw [htr, signCalls_append, hev, hout]
      rfl
    · right
      have hc2 : ¬ ((slot Z m.Store Idx).SignStore.IsSignAvailable = XCERT_SIGN_AVAILABLE ∧
          fit 48 r.HashTmp = fit 48 (slot Z m.Store Idx).SignStore.Hash) := by
        rw [hH]
        exact hc
      by_cases hsig : (XSecure_EllipticGenEphemeralNSign E (signCalls m.Trace)
          (hashForSign r.HashTmp) A.IssuerPrvtKey).1 = XST_SUCCESS
      · right
        rw [sign_fresh E Z m.Store _ Id _ _ Idx hf hc2 (by rw [hev]; exact hsig)] at hst htr hsg
        dsimp only at hst htr hsg
        rw [hev, hH] at hst
        rw [hev] at hsg
        rw [← hsg] at hst
        refine ⟨hc, hsig, hst, ?_, hsg⟩
        rw [htr, signCalls_append, signCalls_append, hev, hout]
        rfl
      · left
        rw [sign_sigfail E Z m.Store _ Id _ _ Idx hf hc2 (by rw [hev]; exact hsig)] at hst htr hs
        dsimp only at hst htr hs
        refine ⟨hc, hsig, hst, fun h => Status.noConfusion (hs h), ?_⟩
        rw [htr, signCalls_append, signCalls_append, hev, hout]
        rfl

theorem wf_slot (Z : Build) (st : CertStore) (Idx : Nat) (hwf : st.WF Z)
    (h : Idx < st.NumOfEntriesInUserCfgDB) :
    Idx < st.CertDB.length ∧
    (slot Z st Idx).SignStore.Hash.length = 48 ∧
    (slot Z st Idx).SignStore.Sign.length = 96 := by
  obtain ⟨hl, hn, hall⟩ := hwf
  have hlt : Idx < st.CertDB.length := by omega
  refine ⟨hlt, ?_⟩
  have hmem : slot Z st Idx ∈ st.CertDB := by
    unfold slot
    rw [List.getD_eq_getElem _ _ hlt]
    exact List.getElem_mem _
  exact ⟨(hall _ hmem).2.2.2.1, (hall _ hmem).2.2.2.2⟩

theorem generate_signstore_after (E : Env) (Z : Build) (m : Machine) (buf : List Nat)
    (Addr MaxCertSize Id : Nat) (A : XCert_AppCfg) (Idx : Nat)
    (hIdx : findIdx Z m.Store Id = some Idx)
    (hlt : Idx < m.Store.CertDB.length)
    (hHash : (slot Z m.Store Idx).SignStore.Hash.length = 48)
    (hSign : (slot Z m.Store Idx).SignStore.Sign.length = 96)
    (hok : (XCert_GenerateX509Cert E Z m buf Addr MaxCertSize Id A).Ret = XST_SUCCESS) :
    (slot Z (XCert_GenerateX509Cert E Z m buf Addr MaxCertSize Id A).M.Store Idx).SignStore =
      { Hash := (XCert_GenerateX509Cert E Z m buf Addr MaxCertSize Id A).HashTmp
        Sign := (XCert_GenerateX509Cert E Z m buf Addr MaxCertSize Id A).Sign
        IsSignAvailable := XCERT_SIGN_AVAILABLE } ∧
    (XCert_GenerateX509Cert E Z m buf Addr MaxCertSize Id A).HashTmp.length = 48 ∧
    (XCert_GenerateX509Cert E Z m buf Addr MaxCertSize Id A).Sign.length = 96 := by
  have hd48 : (slot Z m.Store Idx).SignStore.Hash.drop 48 = [] := by
    rw [List.drop_eq_nil_iff]
    omega
  have hd96 : (slot Z m.Store Idx).SignStore.Sign.drop 96 = [] := by
    rw [List.drop_eq_nil_iff]
    omega
  rcases generate_outcome E Z m buf Addr MaxCertSize Id A _ rfl with
    ⟨-, hne, -⟩ | ⟨Idx2, hf, hcase⟩
  · exact absurd hok hne
  have hi : Idx2 = Idx := Option.some.inj (hf.symm.trans hIdx)
  subst hi
  rcases hcase with ⟨hc, hst, -, hsg⟩ | ⟨-, -, -, hne, -⟩ | ⟨-, -, hst, -, hsg⟩
  · rw [hst, hsg, hc.2, fit_of_length 48 _ hHash, fit_of_length 96 _ hSign]
    refine ⟨?_, hHash, hSign⟩
    rw [← hc.1]
  · exact absurd hok hne
  · rw [hd48, hd96, List.append_nil, List.append_nil] at hst
    rw [hst, slot_setSignStore_same Z m.Store Idx2 _ hlt]
    refine ⟨rfl, ?_, ?_⟩
    · rcases generate_shape E Z m buf Addr MaxCertSize Id A _ rfl with
        ⟨_, -, -, -, hne⟩ | ⟨_, Data, _, -, -, -, -, hh, -, -⟩
      · exact absurd hok hne
      · rw [hh]
        exact digest_length E Data
    · rw [hsg]
      exact signFromTmp_length _

theorem store_keeps_sign (Z : Build) (st : CertStore) (c : StoreCall) (Id Idx : Nat)
    (hdb : st.CertDB.length = XCERT_MAX_CERT_SUPPORT)
    (hnum : st.NumOfEntriesInUserCfgDB ≤ XCERT_MAX_CERT_SUPPORT)
    (hIdx : findIdx Z st Id = some Idx) :
    findIdx Z (storeCall Z st c).2 Id = some Idx ∧
    (slot Z (storeCall Z st c).2 Idx).SignStore = (slot Z st Idx).SignStore ∧
    (storeCall Z st c).2.CertDB.length = XCERT_MAX_CERT_SUPPORT ∧
    (storeCall Z st c).2.NumOfEntriesInUserCfgDB ≤ XCERT_MAX_CERT_SUPPORT := by
  unfold storeCall
  by_cases hok : (XCert_StoreCertUserInput Z st c.SubSystemId c.FieldType c.Val c.Len).1
      = XST_SUCCESS
  · obtain ⟨hl, hn, -, -, -⟩ := store_step Z st c.SubSystemId c.FieldType c.Val c.Len hdb hnum hok
    by_cases hid : Id = c.SubSystemId
    · subst hid
      obtain ⟨Idx2, hf2, hor, hsame⟩ :=
        store_step_findIdx_same Z st c.SubSystemId c.FieldType c.Val c.Len hdb hnum hok
      have hi : Idx2 = Idx := by
        rcases hor with h | h
        · exact Option.some.inj (h.symm.trans hIdx)
        · rw [hIdx] at h
          exact Option.noConfusion h
      subst hi
      exact ⟨hf2, by rw [hsame], hl, hn⟩
    · obtain ⟨hf2, hsl⟩ :=
        store_step_findIdx_other Z st c.SubSystemId c.FieldType c.Val c.Len Id hdb hnum hok hid
      exact ⟨hf2.trans hIdx, by rw [hsl Idx hIdx], hl, hn⟩
  · rw [store_fail_unchanged Z st _ _ _ _ hok]
    exact ⟨hIdx, rfl, hdb, hnum⟩

/-! ## The signing record across generation calls -/

/-- C11: let a call of `XCert_GenerateX509Cert` for a subsystem on a well-formed store
return `XST_SUCCESS`, let a call of `XCert_StoreCertUserInput` follow (for any subsystem
and field), and let a second generation call for the same subsystem, with any application
configuration, return `XST_SUCCESS` with a digest of its TBS certificate that differs
from the digest of the first call. Then the second call makes exactly one run of the
signing primitive, and afterwards the signing record of the slot holds the digest of the
new TBS certificate, the signature made from the output of that run, and
`XCERT_SIGN_AVAILABLE`. -/
theorem generate_cache_invalidation (E : Env) (Z : Build) (m : Machine) (buf1 buf2 : List Nat)
    (Addr1 Addr2 Max1 Max2 SubSystemId : Nat) (A1 A2 : XCert_AppCfg) (c : StoreCall)
    (Idx : Nat)
    (hwf : m.Store.WF Z)
    (hIdx : findIdx Z m.Store SubSystemId = some Idx)
    (hok1 : (XCert_GenerateX509Cert E Z m buf1 Addr1 Max1 SubSystemId A1).Ret = XST_SUCCESS)
    (hok2 : (XCert_GenerateX509Cert E Z
      (step E Z (XCert_GenerateX509Cert E Z m buf1 Addr1 Max1 SubSystemId A1).M (Call.store c))
      buf2 Addr2 Max2 SubSystemId A2).Ret = XST_SUCCESS)
    (hdiff : (XCert_GenerateX509Cert E Z
      (step E Z (XCert_GenerateX509Cert E Z m buf1 Addr1 Max1 SubSystemId A1).M (Call.store c))
      buf2 Addr2 Max2 SubSystemId A2).HashTmp ≠
        (XCert_GenerateX509Cert E Z m buf1 Addr1 Max1 SubSystemId A1).HashTmp) :
    signCalls (XCert_GenerateX509Cert E Z
      (step E Z (XCert_GenerateX509Cert E Z m buf1 Addr1 Max1 SubSystemId A1).M (Call.store c))
      buf2 Addr2 Max2 SubSystemId A2).M.Trace =
      signCalls (XCert_GenerateX509Cert E Z m buf1 Addr1 Max1 SubSystemId A1).M.Trace + 1 ∧
    (slot Z (XCert_GenerateX509Cert E Z
      (step E Z (XCert_GenerateX509Cert E Z m buf1 Addr1 Max1 SubSystemId A1).M (Call.store c))
      buf2 Addr2 Max2 SubSystemId A2).M.Store Idx).SignStore =
      { Hash := (XCert_GenerateX509Cert E Z
          (step E Z (XCert_GenerateX509Cert E Z m buf1 Addr1 Max1 SubSystemId A1).M
            (Call.store c)) buf2 Addr2 Max2 SubSystemId A2).HashTmp
        Sign := (XCert_GenerateX509Cert E Z
          (step E Z (XCert_GenerateX509Cert E Z m buf1 Addr1 Max1 SubSystemId A1).M
            (Call.store c)) buf2 Addr2 Max2 SubSystemId A2).Sign
        IsSignAvailable := XCERT_SIGN_AVAILABLE } ∧
    (XCert_GenerateX509Cert E Z
      (step E Z (XCert_GenerateX509Cert E Z m buf1 Addr1 Max1 SubSystemId A1).M (Call.store c))
      buf2 Addr2 Max2 SubSystemId A2).Sign =
      signFromTmp (XSecure_EllipticGenEphemeralNSign E
        (signCalls (XCert_GenerateX509Cert E Z m buf1 Addr1 Max1 SubSystemId A1).M.Trace)
        (hashForSign (XCert_GenerateX509Cert E Z
          (step E Z (XCert_GenerateX509Cert E Z m buf1 Addr1 Max1 SubSystemId A1).M
            (Call.store c)) buf2 Addr2 Max2 SubSystemId A2).HashTmp)
        A2.IssuerPrvtKey).2 := by
  have hlt := ((findIdx_some_iff Z m.Store SubSystemId Idx).mp hIdx).1
  obtain ⟨hin, hHash, hSign⟩ := wf_slot Z m.Store Idx hwf hlt
  -- the state after the first call
  obtain ⟨hss1, hl1, hs1⟩ := generate_signstore_after E Z m buf1 Addr1 Max1 SubSystemId A1 Idx
    hIdx hin hHash hSign hok1
  have hsame1 := generate_sameCfg E Z m buf1 Addr1 Max1 SubSystemId A1
  generalize XCert_GenerateX509Cert E Z m buf1 Addr1 Max1 SubSystemId A1 = r1 at *
  have hf1 : findIdx Z r1.M.Store SubSystemId = some Idx := by
    rw [sameCfg_findIdx Z m.Store r1.M.Store SubSystemId hsame1]
    exact hIdx
  have hdb1 : r1.M.Store.CertDB.length = XCERT_MAX_CERT_SUPPORT := hsame1.2.1.trans hwf.1
  have hnum1 : r1.M.Store.NumOfEntriesInUserCfgDB ≤ XCERT_MAX_CERT_SUPPORT := by
    rw [hsame1.1]
    exact hwf.2.1
  -- the state after the store call
  obtain ⟨hf2, hss2, hdb2, -⟩ := store_keeps_sign Z r1.M.Store c SubSystemId Idx hdb1 hnum1 hf1
  have hstep : step E Z r1.M (Call.store c) =
      { Store := (storeCall Z r1.M.Store c).2, KatRan := r1.M.KatRan, Trace := r1.M.Trace } := rfl
  rw [hstep] at hok2 hdiff ⊢
  generalize (storeCall Z r1.M.Store c).2 = st2 at *
  rw [hss1] at hss2
  -- the second call
  have hin2 : Idx < st2.CertDB.length := by
    rw [hdb2, ← hwf.1]
    exact hin
  rcases generate_outcome E Z ⟨st2, r1.M.KatRan, r1.M.Trace⟩ buf2 Addr2 Max2 SubSystemId A2 _ rfl
    with ⟨-, hne, -⟩ | ⟨Idx2, hf, hcase⟩
  · exact absurd hok2 hne
  have hi : Idx2 = Idx := Option.some.inj (hf.symm.trans hf2)
  subst hi
  generalize XCert_GenerateX509Cert E Z ⟨st2, r1.M.KatRan, r1.M.Trace⟩ buf2 Addr2 Max2
    SubSystemId A2 = r2 at *
  dsimp only at hcase
  rcases hcase with ⟨hc, -, -, -⟩ | ⟨-, -, -, hne, -⟩ | ⟨-, -, hst, hsc, hsg⟩
  · exfalso
    apply hdiff
    rw [hc.2, hss2]
    exact fit_of_length 48 _ hl1
  · exact absurd hok2 hne
  · refine ⟨hsc, ?_, hsg⟩
    rw [hss2] at hst
    dsimp only at hst
    have hd48 : r1.HashTmp.drop 48 = [] := by
      rw [List.drop_eq_nil_iff]
      omega
    have hd96 : r1.Sign.drop 96 = [] := by
      rw [List.drop_eq_nil_iff]
      omega
    rw [hd48, hd96, List.append_nil, List.append_nil] at hst
    rw [hst, slot_setSignStore_same Z st2 Idx2 _ hin2]
theorem generate_cache_invalidation_witness :
    signCalls (XCert_GenerateX509Cert envW buildW
      (step envW buildW (XCert_GenerateX509Cert envW buildW machineW bufW 4096 1024 7 appW).M
        (Call.store subjectCallW))
      bufW2 4096 1024 7 appW).M.Trace =
      signCalls (XCert_GenerateX509Cert envW buildW machineW bufW 4096 1024 7 appW).M.Trace
        + 1 :=
  (generate_cache_invalidation envW buildW machineW bufW bufW2 4096 4096 1024 1024 7 appW appW
    subjectCallW 1 (by unfold CertStore.WF; decide) (by decide) (by decide!) (by decide!)
    (by decide!)).1

/-- C12: a call of `XCert_GenerateX509Cert` on a well-formed store, whatever it returns,
leaves the entry count, the number of slots and the identifier and user configuration of
every slot as they were, and either leaves the whole store as it was or changes one thing
only: the signing record of the slot of the requested subsystem, whose `Hash`, `Sign` and
`IsSignAvailable` then hold the digest of the TBS certificate of this call, the signature
made from the output of the one run of the signing primitive, and `XCERT_SIGN_AVAILABLE`,
all three. -/
theorem generate_store_atomic (E : Env) (Z : Build) (m : Machine) (X509CertBuf : List Nat)
    (X509CertAddr MaxCertSize SubSystemId : Nat) (A : XCert_AppCfg)
    (hwf : m.Store.WF Z) :
    sameCfg Z m.Store
      (XCert_GenerateX509Cert E Z m X509CertBuf X509CertAddr MaxCertSize SubSystemId A).M.Store ∧
    ((XCert_GenerateX509Cert E Z m X509CertBuf X509CertAddr MaxCertSize SubSystemId A).M.Store
        = m.Store ∨
      ∃ Idx, findIdx Z m.Store SubSystemId = some Idx ∧
        (∀ j, j ≠ Idx →
          slot Z (XCert_GenerateX509Cert E Z m X509CertBuf X509CertAddr MaxCertSize SubSystemId
            A).M.Store j = slot Z m.Store j) ∧
        slot Z (XCert_GenerateX509Cert E Z m X509CertBuf X509CertAddr MaxCertSize SubSystemId
            A).M.Store Idx =
          { SubsystemId := (slot Z m.Store Idx).SubsystemId
            UserCfg := (slot Z m.Store Idx).UserCfg
            SignStore :=
              { Hash := (XCert_GenerateX509Cert E Z m X509CertBuf X509CertAddr MaxCertSize
                  SubSystemId A).HashTmp
                Sign := (XCert_GenerateX509Cert E Z m X509CertBuf X509CertAddr MaxCertSize
                  SubSystemId A).Sign
                IsSignAvailable := XCERT_SIGN_AVAILABLE } } ∧
        (XCert_GenerateX509Cert E Z m X509CertBuf X509CertAddr MaxCertSize SubSystemId A).Sign =
          signFromTmp (XSecure_EllipticGenEphemeralNSign E (signCalls m.Trace)
            (hashForSign (XCert_GenerateX509Cert E Z m X509CertBuf X509CertAddr MaxCertSize
              SubSystemId A).HashTmp) A.IssuerPrvtKey).2 ∧
        signCalls (XCert_GenerateX509Cert E Z m X509CertBuf X509CertAddr MaxCertSize
          SubSystemId A).M.Trace = signCalls m.Trace + 1) := by
  refine ⟨generate_sameCfg E Z m X509CertBuf X509CertAddr MaxCertSize SubSystemId A, ?_⟩
  rcases generate_outcome E Z m X509CertBuf X509CertAddr MaxCertSize SubSystemId A _ rfl with
    ⟨hst, -, -⟩ | ⟨Idx, hf, hcase⟩
  · exact Or.inl hst
  rcases hcase with ⟨-, hst, -, -⟩ | ⟨-, -, hst, -, -⟩ | ⟨-, -, hst, hsc, hsg⟩
  · exact Or.inl hst
  · exact Or.inl hst
  right
  have hlt := ((findIdx_some_iff Z m.Store SubSystemId Idx).mp hf).1
  obtain ⟨hin, hHash, hSign⟩ := wf_slot Z m.Store Idx hwf hlt
  have hd48 : (slot Z m.Store Idx).SignStore.Hash.drop 48 = [] := by
    rw [List.drop_eq_nil_iff]
    omega
  have hd96 : (slot Z m.Store Idx).SignStore.Sign.drop 96 = [] := by
    rw [List.drop_eq_nil_iff]
    omega
  rw [hd48, hd96, List.append_nil, List.append_nil] at hst
  refine ⟨Idx, hf, ?_, ?_, hsg, hsc⟩
  · intro j hj
    rw [hst]
    unfold setSignStore
    exact slot_setSlot_other Z _ _ _ _ hj
  · rw [hst]
    unfold setSignStore
    rw [slot_setSlot_same Z _ _ _ hin]

theorem generate_store_atomic_witness :
    sameCfg buildW machineW.Store
      (XCert_GenerateX509Cert envW buildW machineW bufW 4096 1024 7 appW).M.Store :=
  (generate_store_atomic envW buildW machineW bufW 4096 1024 7 appW
    (by unfold CertStore.WF; decide)).1

/-- C13: when `IsSignAvailable` of the slot of the subsystem is not
`XCERT_SIGN_AVAILABLE` on entry, a call of `XCert_GenerateX509Cert` that returns
`XST_SUCCESS` makes exactly one run of the signing primitive, and the signature it hands
to `XCert_GenSignField` is made from the output of that run: the stored `Hash` is not
compared and the stored `Sign` is not read, whatever they hold. -/
theorem generate_flag_gates (E : Env) (Z : Build) (m : Machine) (X509CertBuf : List Nat)
    (X509CertAddr MaxCertSize SubSystemId : Nat) (A : XCert_AppCfg) (Idx : Nat)
    (hIdx : findIdx Z m.Store SubSystemId = some Idx)
    (hflag : (slot Z m.Store Idx).SignStore.IsSignAvailable ≠ XCERT_SIGN_AVAILABLE)
    (hok : (XCert_GenerateX509Cert E Z m X509CertBuf X509CertAddr MaxCertSize SubSystemId
      A).Ret = XST_SUCCESS) :
    signCalls (XCert_GenerateX509Cert E Z m X509CertBuf X509CertAddr MaxCertSize SubSystemId
      A).M.Trace = signCalls m.Trace + 1 ∧
    (XCert_GenerateX509Cert E Z m X509CertBuf X509CertAddr MaxCertSize SubSystemId A).Sign =
      signFromTmp (XSecure_EllipticGenEphemeralNSign E (signCalls m.Trace)
        (hashForSign (XCert_GenerateX509Cert E Z m X509CertBuf X509CertAddr MaxCertSize
          SubSystemId A).HashTmp) A.IssuerPrvtKey).2 := by
  rcases generate_outcome E Z m X509CertBuf X509CertAddr MaxCertSize SubSystemId A _ rfl with
    ⟨-, hne, -⟩ | ⟨Idx2, hf, hcase⟩
  · exact absurd hok hne
  have hi : Idx2 = Idx := Option.some.inj (hf.symm.trans hIdx)
  subst hi
  rcases hcase with ⟨hc, -, -, -⟩ | ⟨-, -, -, hne, -⟩ | ⟨-, -, -, hsc, hsg⟩
  · exact absurd hc.1 hflag
  · exact absurd hok hne
  · exact ⟨hsc, hsg⟩

theorem generate_flag_gates_witness :
    (slot buildW machineStaleW.Store 1).SignStore.Hash =
      (XCert_GenerateX509Cert envW buildW machineStaleW bufW 4096 1024 7 appW).HashTmp ∧
    signCalls (XCert_GenerateX509Cert envW buildW machineStaleW bufW 4096 1024 7
      appW).M.Trace = signCalls machineStaleW.Trace + 1 :=
  ⟨by decide!,
    (generate_flag_gates envW buildW machineStaleW bufW 4096 1024 7 appW 1 (by decide)
      (by decide) (by decide!)).1⟩

/-! ## Writes to the destination -/

theorem sign_trace_out (E : Env) (Z : Build) (st : CertStore) (t : List Event) (Id : Nat)
    (H Key : List Nat) :
    ∃ ev, (XCert_GenerateX509Cert_sign E Z st t Id H Key).2.2.1 = t ++ ev ∧ outBytes ev = [] := by
  cases hf : findIdx Z st Id with
  | none =>
    rw [sign_notfound E Z st t Id H Key hf]
    exact ⟨[], (List.append_nil _).symm, rfl⟩
  | some Idx =>
    by_cases hc : (slot Z st Idx).SignStore.IsSignAvailable = XCERT_SIGN_AVAILABLE ∧
        fit 48 H = fit 48 (slot Z st Idx).SignStore.Hash
    · rw [sign_reuse E Z st t Id H Key Idx hf hc.1 hc.2]
      exact ⟨[], (List.append_nil _).symm, rfl⟩
    · by_cases hs : (XSecure_EllipticGenEphemeralNSign E (signCalls t) (hashForSign H) Key).1
          = XST_SUCCESS
      · rw [sign_fresh E Z st t Id H Key Idx hf hc hs]
        exact ⟨_, rfl, rfl⟩
      · rw [sign_sigfail E Z st t Id H Key Idx hf hc hs]
        exact ⟨_, rfl, rfl⟩

theorem generate_output (E : Env) (Z : Build) (m : Machine) (buf : List Nat)
    (Addr MaxCertSize Id : Nat) (A : XCert_AppCfg) (r : GenResult)
    (hr : r = XCert_GenerateX509Cert E Z m buf Addr MaxCertSize Id A) :
    (r.Ret ≠ XST_SUCCESS ∧ r.X509CertSize = none ∧
      ∃ ev, r.M.Trace = m.Trace ++ ev ∧ outBytes ev = []) ∨
    (r.Ret = XST_SUCCESS ∧
      ∃ ev Size b, r.M.Trace = m.Trace ++ ev ++ XCert_GetData Size b Addr ∧ outBytes ev = [] ∧
        r.X509CertSize = some Size) := by
  unfold XCert_GenerateX509Cert at hr
  conv at hr => zeta
  generalize XCert_GetUserCfg Z m.Store Id = c at hr
  obtain ⟨s, p⟩ := c
  dsimp only at hr
  by_cases hs : s = XST_SUCCESS
  swap
  · left
    rw [if_pos hs] at hr
    subst hr
    exact ⟨hs, rfl, [], (List.append_nil _).symm, rfl⟩
  rw [if_neg (not_not.mpr hs)] at hr
  generalize hr1 : XCert_GenTBSCertificate E Z m.KatRan _ _ _ A = r1 at hr
  have hq1 : quiet r1.2.2.1 := by
    rw [← hr1]
    exact (genTBSCertificate_status E Z m.KatRan _ _ _ A).2
  obtain ⟨s1, k1, t1, b1, n1⟩ := r1
  dsimp only at hq1 hr
  have ho1 : outBytes t1 = [] := outBytes_quiet t1 hq1
  by_cases hs1 : s1 = XST_SUCCESS
  swap
  · left
    rw [if_pos hs1] at hr
    subst hr
    exact ⟨hs1, rfl, t1, rfl, ho1⟩
  rw [if_neg (not_not.mpr hs1)] at hr
  rw [genSignAlgoField_eq] at hr
  dsimp only at hr
  rw [if_neg (not_not.mpr rfl)] at hr
  generalize rd (wrBytes b1 (0 + 1 + 1 + n1) signAlgoBytes) (0 + 1 + 1) n1 = Data at hr
  have hqd : outBytes (t1 ++ [Event.Digest Data]) = [] := by
    rw [outBytes_append, ho1]
    rfl
  by_cases hd : (XSecure_Sha384Digest E Data).1 = XST_SUCCESS
  swap
  · left
    rw [if_pos hd] at hr
    subst hr
    exact ⟨fun h => Status.noConfusion h, rfl, t1 ++ [Event.Digest Data],
      List.append_assoc _ _ _, hqd⟩
  rw [if_neg (not_not.mpr hd)] at hr
  cases hx : Z.PLM_ECDSA_EXCLUDE
  swap
  · left
    rw [hx, if_pos rfl] at hr
    subst hr
    exact ⟨fun h => Status.noConfusion h, rfl, t1 ++ [Event.Digest Data],
      List.append_assoc _ _ _, hqd⟩
  rw [hx, if_neg (by decide)] at hr
  obtain ⟨ev2, hev2, hout2⟩ := sign_trace_out E Z m.Store (m.Trace ++ t1 ++ [Event.Digest Data])
    Id (XSecure_Sha384Digest E Data).2 A.IssuerPrvtKey
  generalize XCert_GenerateX509Cert_sign E Z m.Store (m.Trace ++ t1 ++ [Event.Digest Data]) Id
    (XSecure_Sha384Digest E Data).2 A.IssuerPrvtKey = q at hr hev2
  obtain ⟨sq, stq, tq, Sq⟩ := q
  dsimp only at hr hev2
  have htq : tq = m.Trace ++ (t1 ++ [Event.Digest Data] ++ ev2) := by
    rw [hev2]
    simp only [List.append_assoc]
  have hoq : outBytes (t1 ++ [Event.Digest Data] ++ ev2) = [] := by
    rw [outBytes_append, hqd, hout2]
    rfl
  by_cases hsq : sq = XST_SUCCESS
  swap
  · left
    rw [if_pos hsq] at hr
    subst hr
    exact ⟨hsq, rfl, _, htq, hoq⟩
  rw [if_neg (not_not.mpr hsq)] at hr
  generalize XCert_GenSignField _ _ Sq = g at hr
  generalize XCert_UpdateEncodedLength _ _ _ _ = u at hr
  split at hr
  · left
    subst hr
    exact ⟨fun h => Status.noConfusion h, rfl, _, htq, hoq⟩
  · right
    subst hr
    refine ⟨rfl, t1 ++ [Event.Digest Data] ++ ev2, _, u.2, ?_, hoq, rfl⟩
    dsimp only
    rw [htq]

/-- C14: when `XCert_GenerateX509Cert` returns a status other than `XST_SUCCESS`, the call
has made no write to the destination (the trace holds the same destination writes as
before the call) and has not written `*X509CertSize`. -/
theorem generate_no_partial_output (E : Env) (Z : Build) (m : Machine) (X509CertBuf : List Nat)
    (X509CertAddr MaxCertSize SubSystemId : Nat) (A : XCert_AppCfg)
    (hfail : (XCert_GenerateX509Cert E Z m X509CertBuf X509CertAddr MaxCertSize SubSystemId
      A).Ret ≠ XST_SUCCESS) :
    outBytes (XCert_GenerateX509Cert E Z m X509CertBuf X509CertAddr MaxCertSize SubSystemId
      A).M.Trace = outBytes m.Trace ∧
    (XCert_GenerateX509Cert E Z m X509CertBuf X509CertAddr MaxCertSize SubSystemId
      A).X509CertSize = none := by
  rcases generate_output E Z m X509CertBuf X509CertAddr MaxCertSize SubSystemId A _ rfl with
    ⟨-, hsz, ev, htr, hout⟩ | ⟨hok, -⟩
  · refine ⟨?_, hsz⟩
    rw [htr, outBytes_append, hout, List.append_nil]
  · exact absurd hok hfail

theorem generate_no_partial_output_witness :
    (XCert_GenerateX509Cert envSignFailW buildW machineW bufW 4096 1024 7 appW).Ret =
      XOCP_ERR_X509_CALC_SIGN ∧
    outBytes (XCert_GenerateX509Cert envSignFailW buildW machineW bufW 4096 1024 7
      appW).M.Trace = outBytes machineW.Trace :=
  ⟨by decide!,
    (generate_no_partial_output envSignFailW buildW machineW bufW 4096 1024 7 appW
      (by decide!)).1⟩

/-! ## Configuration errors -/

theorem generate_cfg_fail_eq (E : Env) (Z : Build) (m : Machine) (buf : List Nat)
    (Addr MaxCertSize Id : Nat) (A : XCert_AppCfg)
    (h : (XCert_GetUserCfg Z m.Store Id).1 ≠ XST_SUCCESS) :
    (XCert_GenerateX509Cert E Z m buf Addr MaxCertSize Id A).Ret =
      (XCert_GetUserCfg Z m.Store Id).1 ∧
    (XCert_GenerateX509Cert E Z m buf Addr MaxCertSize Id A).M = m ∧
    (XCert_GenerateX509Cert E Z m buf Addr MaxCertSize Id A).X509CertSize = none := by
  unfold XCert_GenerateX509Cert
  conv => zeta
  generalize XCert_GetUserCfg Z m.Store Id = c at h ⊢
  obtain ⟨s, p⟩ := c
  dsimp only at h ⊢
  rw [if_pos h]
  exact ⟨rfl, rfl, rfl⟩

theorem getUserCfg_notfound (Z : Build) (st : CertStore) (Id : Nat)
    (h : findIdx Z st Id = none) :
    XCert_GetUserCfg Z st Id = (XOCP_ERR_X509_USR_CFG_NOT_FOUND, none) := by
  unfold XCert_GetUserCfg
  rw [h]

theorem getUserCfg_invalid (Z : Build) (st : CertStore) (Id Idx : Nat)
    (hf : findIdx Z st Id = some Idx)
    (hI : (slot Z st Idx).UserCfg.IssuerLen < 2 ^ 31)
    (hS : (slot Z st Idx).UserCfg.SubjectLen < 2 ^ 31)
    (hV : (slot Z st Idx).UserCfg.ValidityLen < 2 ^ 31)
    (hz : allZero (slot Z st Idx).UserCfg.Issuer (slot Z st Idx).UserCfg.IssuerLen ∨
      allZero (slot Z st Idx).UserCfg.Subject (slot Z st Idx).UserCfg.SubjectLen ∨
      allZero (slot Z st Idx).UserCfg.Validity (slot Z st Idx).UserCfg.ValidityLen) :
    XCert_GetUserCfg Z st Id = (XOCP_ERR_X509_INVALID_USER_CFG, none) := by
  unfold XCert_GetUserCfg
  rw [hf]
  dsimp only
  by_cases h1 : XCert_IsBufferNonZero (slot Z st Idx).UserCfg.Issuer
      (u32ToInt (slot Z st Idx).UserCfg.IssuerLen) ≠ XST_SUCCESS
  · rw [if_pos h1]
  rw [if_neg h1]
  by_cases h2 : XCert_IsBufferNonZero (slot Z st Idx).UserCfg.Subject
      (u32ToInt (slot Z st Idx).UserCfg.SubjectLen) ≠ XST_SUCCESS
  · rw [if_pos h2]
  rw [if_neg h2]
  by_cases h3 : XCert_IsBufferNonZero (slot Z st Idx).UserCfg.Validity
      (u32ToInt (slot Z st Idx).UserCfg.ValidityLen) ≠ XST_SUCCESS
  · rw [if_pos h3]
  exfalso
  rcases hz with h | h | h
  · exact h1 ((isBufferNonZero_failure_iff _ _ hI).mpr h)
  · exact h2 ((isBufferNonZero_failure_iff _ _ hS).mpr h)
  · exact h3 ((isBufferNonZero_failure_iff _ _ hV).mpr h)

/-- C15: when no slot in use carries the subsystem identifier, `XCert_GenerateX509Cert`
returns `XOCP_ERR_X509_USR_CFG_NOT_FOUND`; when slot `Idx` is the first that carries it and
one of Issuer, Subject, Validity has no non-zero byte within its stored length (a length
below 2^31), it returns `XOCP_ERR_X509_INVALID_USER_CFG`. In both cases the machine state
after the call is the state before it: the store is untouched and the trace has no new
entry, so neither the digest nor the signing primitive (nor the KAT) has run, and
`*X509CertSize` is not written. -/
theorem generate_cfg_error (E : Env) (Z : Build) (m : Machine) (X509CertBuf : List Nat)
    (X509CertAddr MaxCertSize SubSystemId : Nat) (A : XCert_AppCfg) :
    ((∀ i, i < m.Store.NumOfEntriesInUserCfgDB →
        (slot Z m.Store i).SubsystemId ≠ SubSystemId) →
      (XCert_GenerateX509Cert E Z m X509CertBuf X509CertAddr MaxCertSize SubSystemId A).Ret =
        XOCP_ERR_X509_USR_CFG_NOT_FOUND ∧
      (XCert_GenerateX509Cert E Z m X509CertBuf X509CertAddr MaxCertSize SubSystemId A).M = m ∧
      (XCert_GenerateX509Cert E Z m X509CertBuf X509CertAddr MaxCertSize SubSystemId
        A).X509CertSize = none) ∧
    (∀ Idx, Idx < m.Store.NumOfEntriesInUserCfgDB →
      (slot Z m.Store Idx).SubsystemId = SubSystemId →
      (∀ j, j < Idx → (slot Z m.Store j).SubsystemId ≠ SubSystemId) →
      (slot Z m.Store Idx).UserCfg.IssuerLen < 2 ^ 31 →
      (slot Z m.Store Idx).UserCfg.SubjectLen < 2 ^ 31 →
      (slot Z m.Store Idx).UserCfg.ValidityLen < 2 ^ 31 →
      (allZero (slot Z m.Store Idx).UserCfg.Issuer (slot Z m.Store Idx).UserCfg.IssuerLen ∨
        allZero (slot Z m.Store Idx).UserCfg.Subject (slot Z m.Store Idx).UserCfg.SubjectLen ∨
        allZero (slot Z m.Store Idx).UserCfg.Validity
          (slot Z m.Store Idx).UserCfg.ValidityLen) →
      (XCert_GenerateX509Cert E Z m X509CertBuf X509CertAddr MaxCertSize SubSystemId A).Ret =
        XOCP_ERR_X509_INVALID_USER_CFG ∧
      (XCert_GenerateX509Cert E Z m X509CertBuf X509CertAddr MaxCertSize SubSystemId A).M = m ∧
      (XCert_GenerateX509Cert E Z m X509CertBuf X509CertAddr MaxCertSize SubSystemId
        A).X509CertSize = none) := by
  constructor
  · intro hno
    have hc := getUserCfg_notfound Z m.Store SubSystemId
      ((findIdx_none_iff Z m.Store SubSystemId).mpr hno)
    have h := generate_cfg_fail_eq E Z m X509CertBuf X509CertAddr MaxCertSize SubSystemId A
      (by rw [hc]; exact fun h => Status.noConfusion h)
    rw [hc] at h
    exact h
  · intro Idx hlt hid hfirst hI hS hV hz
    have hc := getUserCfg_invalid Z m.Store SubSystemId Idx
      ((findIdx_some_iff Z m.Store SubSystemId Idx).mpr ⟨hlt, hid, hfirst⟩) hI hS hV hz
    have h := generate_cfg_fail_eq E Z m X509CertBuf X509CertAddr MaxCertSize SubSystemId A
      (by rw [hc]; exact fun h => Status.noConfusion h)
    rw [hc] at h
    exact h

theorem generate_cfg_error_witness :
    ((XCert_GenerateX509Cert envW buildW machineW bufW 4096 1024 9 appW).Ret =
        XOCP_ERR_X509_USR_CFG_NOT_FOUND ∧
      (XCert_GenerateX509Cert envW buildW machineW bufW 4096 1024 9 appW).M = machineW ∧
      (XCert_GenerateX509Cert envW buildW machineW bufW 4096 1024 9 appW).X509CertSize = none) ∧
    ((XCert_GenerateX509Cert envW buildW machineW bufW 4096 1024 1 appW).Ret =
        XOCP_ERR_X509_INVALID_USER_CFG ∧
      (XCert_GenerateX509Cert envW buildW machineW bufW 4096 1024 1 appW).M = machineW ∧
      (XCert_GenerateX509Cert envW buildW machineW bufW 4096 1024 1 appW).X509CertSize = none) :=
  ⟨(generate_cfg_error envW buildW machineW bufW 4096 1024 9 appW).1 (by decide),
    (generate_cfg_error envW buildW machineW bufW 4096 1024 1 appW).2 0 (by decide) (by decide)
      (by decide) (by decide) (by decide) (by decide) (by decide)⟩

/-! ## The Serial and Version fields -/

/-- C20: for a digest `h` of 48 bytes, `XCert_GenSerialField` writes at its position the
22 bytes `02 14` followed by 20 value bytes and returns the length 22, which is
`XCERT_SERIAL_FIELD_LEN`, the width by which `XCert_GenTBSCertificate` has shifted the
fields that follow: when bit 7 of `h[0]` is set the value is `00` followed by the 19 bytes
`h[0 .. 19)`, otherwise it is the 20 bytes `h[0 .. 20)`. -/
theorem genSerialField_spec (b : List Nat) (p : Nat) (h : List Nat) (hlen : h.length = 48) :
    XCert_GenSerialField b p h =
      (wrBytes b p (0x02 :: 0x14 ::
        (if (h.getD 0 0 &&& 0x80) = 0x80 then 0x00 :: h.take 19 else h.take 20)),
       XCERT_SERIAL_FIELD_LEN) ∧
    (0x02 :: 0x14 ::
      (if (h.getD 0 0 &&& 0x80) = 0x80 then 0x00 :: h.take 19 else h.take 20)).length =
        XCERT_SERIAL_FIELD_LEN ∧
    XCERT_SERIAL_FIELD_LEN = 22 := by
  have hbytes : serialFieldBytes h = 0x02 :: 0x14 ::
      (if (h.getD 0 0 &&& 0x80) = 0x80 then 0x00 :: h.take 19 else h.take 20) := by
    unfold serialFieldBytes integerBytes
    rw [needsPad_serial]
    have hfit : ∀ n, n ≤ 20 →
        fit n (XSecure_MemCpy (List.replicate XCERT_LEN_OF_VALUE_OF_SERIAL 0) h n) =
          h.take n := by
      intro n hn
      have hml : (XSecure_MemCpy (List.replicate XCERT_LEN_OF_VALUE_OF_SERIAL 0) h n).length
          = 20 := by
        rw [memCpy_length _ _ _ (by simp [XCERT_LEN_OF_VALUE_OF_SERIAL]; exact hn)]
        simp [XCERT_LEN_OF_VALUE_OF_SERIAL]
      rw [fit_eq_take n _ (by omega), memCpy_take, fit_eq_take n h (by omega)]
    by_cases hp : (h.getD 0 0 &&& 0x80) = 0x80
    · have hn : needsPad h = true := by
        unfold needsPad XCERT_BIT7_MASK
        exact decide_eq_true hp
      have hc : serialCopyLen h = 19 := by
        unfold serialCopyLen XCERT_BIT7_MASK XCERT_LEN_OF_VALUE_OF_SERIAL
        rw [if_pos hp]
      rw [hn, hc, if_pos rfl, if_pos hp, hfit 19 (by omega)]
    · have hn : needsPad h = false := by
        unfold needsPad XCERT_BIT7_MASK
        exact decide_eq_false hp
      have hc : serialCopyLen h = 20 := by
        unfold serialCopyLen XCERT_BIT7_MASK XCERT_LEN_OF_VALUE_OF_SERIAL
        rw [if_neg hp]
      rw [hn, hc, if_neg (by decide), if_neg hp, hfit 20 (by omega)]
  have hl := serialFieldBytes_length h
  rw [hbytes] at hl
  refine ⟨?_, hl, rfl⟩
  rw [genSerialField_eq, hbytes]
  rfl

theorem genSerialField_spec_witness :
    XCert_GenSerialField (List.replicate 26 0xEE) 2 (List.replicate 48 0x90) =
      (0xEE :: 0xEE :: 0x02 :: 0x14 :: 0x00 :: (List.replicate 19 0x90 ++ [0xEE, 0xEE]), 22) :=
  (genSerialField_spec (List.replicate 26 0xEE) 2 (List.replicate 48 0x90)
    (List.length_replicate _ _)).1.trans (by decide)

set_option maxRecDepth 100000 in
/-- C19: the Version field as the code writes it. `XCert_GenVersionField` writes the three
bytes `02 01 02`, an INTEGER 2 without the `[0]` wrapper `A0 03`, at any position of any
buffer; and in the certificate of the worked example (`envW`, `machineW`, `appW`) the
header of the TBS certificate, `30 82 01 82`, is followed by `02 01 02`, not by
`A0 03 02 01 02`. -/
theorem genVersionField_no_wrapper :
    (∀ (b : List Nat) (p : Nat),
      XCert_GenVersionField b p = (wrBytes b p [0x02, 0x01, 0x02], 3)) ∧
    ((outBytes (XCert_GenerateX509Cert envW buildW machineW bufW 4096 1024 7
      appW).M.Trace).map Prod.snd).take 11 =
      [0x30, 0x82, 0x01, 0xFF, 0x30, 0x82, 0x01, 0x82, 0x02, 0x01, 0x02] :=
  ⟨fun b p => genVersionField_eq b p, by decide!⟩

/-! ## The content of the TBS certificate and of the certificate -/

/-- C18: when `XCert_GenTBSCertificate` returns `XST_SUCCESS` (the TBS certificate within
the buffer), it has written at its position one SEQUENCE with a two-byte long-form length
whose content is, with no byte between them and in this order: the Version bytes, the
Serial field (made from the digest of all that follows it), the signature algorithm
(`signAlgoBytes`: OID ecdsa-with-SHA384, NULL), the first `IssuerLen` bytes of the stored
Issuer, the first `ValidityLen` bytes of the stored Validity, the first `SubjectLen` bytes
of the stored Subject, the public key info (`publicKeyInfoBytes`: AlgorithmIdentifier
with the OIDs ecPublicKey and secp384r1, then a BIT STRING with 0 unused bits around the
96 key bytes) and the Extensions field; and `*TBSCertLen` is the length of that SEQUENCE. -/
theorem genTBSCertificate_content (E : Env) (Z : Build) (KatRan : Bool) (b : List Nat)
    (p : Nat) (U : XCert_UserCfg) (A : XCert_AppCfg)
    (hb : p + (U.IssuerLen + U.ValidityLen + U.SubjectLen + 383) ≤ b.length)
    (hlen : b.length ≤ 65535)
    (hok : (XCert_GenTBSCertificate E Z KatRan b p U A).1 = XST_SUCCESS) :
    ∃ serial content : List Nat,
      serial = serialFieldBytes (XSecure_Sha384Digest E
        (signAlgoBytes ++ fit U.IssuerLen U.Issuer ++ fit U.ValidityLen U.Validity ++
          fit U.SubjectLen U.Subject ++ publicKeyInfoBytes A.SubjectPublicKey ++
          extensionsBytes E A (XSecure_Sha384Digest E (fit 96 A.SubjectPublicKey)).2
            (XSecure_Sha384Digest E (fit 96 A.IssuerPublicKey)).2)).2 ∧
      content = versionBytes ++ serial ++ signAlgoBytes ++ fit U.IssuerLen U.Issuer ++
        fit U.ValidityLen U.Validity ++ fit U.SubjectLen U.Subject ++
        publicKeyInfoBytes A.SubjectPublicKey ++
        extensionsBytes E A (XSecure_Sha384Digest E (fit 96 A.SubjectPublicKey)).2
          (XSecure_Sha384Digest E (fit 96 A.IssuerPublicKey)).2 ∧
      (XCert_GenTBSCertificate E Z KatRan b p U A).2.2.2.1 =
        wrBytes b p (0x30 :: 0x82 :: (content.length / 256) :: (content.length % 256) ::
          content) ∧
      (XCert_GenTBSCertificate E Z KatRan b p U A).2.2.2.2 = content.length + 4 := by
  obtain ⟨body, hbody⟩ : ∃ body, body = tbsBodyBytes E U A
      (XSecure_Sha384Digest E (fit 96 A.SubjectPublicKey)).2
      (XSecure_Sha384Digest E (fit 96 A.IssuerPublicKey)).2 := ⟨_, rfl⟩
  have hbl : body.length ≤ U.IssuerLen + U.ValidityLen + U.SubjectLen + 354 := by
    rw [hbody, tbsBodyBytes_length]
    split <;> omega
  obtain ⟨hx, h1, h2, hkat, hd⟩ := genTBSCertificate_success E Z KatRan b p U A body hbody
    (by omega) hok
  rw [genTBSCertificate_ok E Z KatRan b p U A body hbody hx h1 h2 hkat hd (by omega)
    (by omega)]
  have hbody2 : signAlgoBytes ++ fit U.IssuerLen U.Issuer ++ fit U.ValidityLen U.Validity ++
      fit U.SubjectLen U.Subject ++ publicKeyInfoBytes A.SubjectPublicKey ++
      extensionsBytes E A (XSecure_Sha384Digest E (fit 96 A.SubjectPublicKey)).2
        (XSecure_Sha384Digest E (fit 96 A.IssuerPublicKey)).2 = body := by
    rw [hbody]
    unfold tbsBodyBytes
    simp only [List.append_assoc]
  rw [hbody2]
  refine ⟨_, _, rfl, rfl, ?_, ?_⟩
  · dsimp only
    have hc : versionBytes ++ serialFieldBytes (XSecure_Sha384Digest E body).2 ++ signAlgoBytes ++
        fit U.IssuerLen U.Issuer ++ fit U.ValidityLen U.Validity ++ fit U.SubjectLen U.Subject ++
        publicKeyInfoBytes A.SubjectPublicKey ++
        extensionsBytes E A (XSecure_Sha384Digest E (fit 96 A.SubjectPublicKey)).2
          (XSecure_Sha384Digest E (fit 96 A.IssuerPublicKey)).2 =
        0x02 :: 0x01 :: 0x02 :: (serialFieldBytes (XSecure_Sha384Digest E body).2 ++ body) := by
      rw [← hbody2]
      simp only [versionBytes, List.append_assoc, List.cons_append, List.nil_append]
    rw [hc]
    have hl : (0x02 :: 0x01 :: 0x02 ::
        (serialFieldBytes (XSecure_Sha384Digest E body).2 ++ body)).length = body.length + 25 := by
      simp only [List.length_cons, List.length_append, serialFieldBytes_length]
      omega
    rw [hl]
    rfl
  · dsimp only
    simp only [List.length_append, versionBytes, List.length_cons, List.length_nil,
      serialFieldBytes_length]
    rw [← hbody2]
    simp only [List.length_append]
    omega

theorem genTBSCertificate_content_witness :
    ∃ content : List Nat,
      (XCert_GenTBSCertificate envW buildW false bufW 2 slotCfgW.UserCfg appW).2.2.2.2 =
        content.length + 4 :=
  let ⟨_, content, _, _, _, h⟩ :=
    genTBSCertificate_content envW buildW false bufW 2 slotCfgW.UserCfg appW
      (by decide!) (by decide!) (by decide!)
  ⟨content, h⟩

theorem generate_bytes (E : Env) (Z : Build) (m : Machine) (buf : List Nat)
    (Addr MaxCertSize Id : Nat) (A : XCert_AppCfg) (Idx : Nat) (body tbs : List Nat)
    (hIdx : findIdx Z m.Store Id = some Idx)
    (hbody : body = tbsBodyBytes E (slot Z m.Store Idx).UserCfg A
      (XSecure_Sha384Digest E (fit 96 A.SubjectPublicKey)).2
      (XSecure_Sha384Digest E (fit 96 A.IssuerPublicKey)).2)
    (htbs : tbs = tbsBytes body (XSecure_Sha384Digest E body).2)
    (hb : buf.length = 1024)
    (hfit : (slot Z m.Store Idx).UserCfg.IssuerLen + (slot Z m.Store Idx).UserCfg.ValidityLen +
      (slot Z m.Store Idx).UserCfg.SubjectLen + 508 ≤ 1024)
    (hok : (XCert_GenerateX509Cert E Z m buf Addr MaxCertSize Id A).Ret = XST_SUCCESS) :
    (XCert_GenerateX509Cert E Z m buf Addr MaxCertSize Id A).X509CertSize =
      some (certBytes tbs (XCert_GenerateX509Cert E Z m buf Addr MaxCertSize Id A).Sign).length ∧
    outBytes (XCert_GenerateX509Cert E Z m buf Addr MaxCertSize Id A).M.Trace =
      outBytes m.Trace ++
        certOut Addr (certBytes tbs (XCert_GenerateX509Cert E Z m buf Addr MaxCertSize Id A).Sign) ∧
    (XCert_GenerateX509Cert E Z m buf Addr MaxCertSize Id A).HashTmp =
      (XSecure_Sha384Digest E tbs).2 ∧
    (certBytes tbs (XCert_GenerateX509Cert E Z m buf Addr MaxCertSize Id A).Sign).length ≤ 1024 := by
  have hc1 : (XCert_GetUserCfg Z m.Store Id).1 = XST_SUCCESS := by
    by_contra h
    exact generate_cfg_fail E Z m buf Addr MaxCertSize Id A h hok
  obtain ⟨Idx2, hcfg, hf2⟩ := getUserCfg_some Z m.Store Id hc1
  have hi : Idx2 = Idx := Option.some.inj (hf2.symm.trans hIdx)
  subst hi
  have hbl : body.length ≤ (slot Z m.Store Idx2).UserCfg.IssuerLen +
      (slot Z m.Store Idx2).UserCfg.ValidityLen + (slot Z m.Store Idx2).UserCfg.SubjectLen +
      354 := by
    rw [hbody, tbsBodyBytes_length]
    split <;> omega
  have htl : tbs.length = body.length + 29 := by
    rw [htbs, tbsBytes_length]
  obtain ⟨hx, h1, h2, hkat, hd, hdt, hqs⟩ := generate_success E Z m buf Addr MaxCertSize Id
    A Idx2 body tbs hcfg hbody htbs (by omega) (by omega) hok
  obtain ⟨q1, hq1⟩ : ∃ q1, q1 = XCert_GenerateX509Cert_sign E Z m.Store
      (m.Trace ++
        ([Event.Digest (fit 96 A.SubjectPublicKey), Event.Digest (fit 96 A.IssuerPublicKey)] ++
          ((if m.KatRan = true then [] else [Event.Kat]) ++ [Event.Digest body])) ++
        [Event.Digest tbs])
      Id (XSecure_Sha384Digest E tbs).2 A.IssuerPrvtKey := ⟨_, rfl⟩
  rw [← hq1] at hqs
  have e1 := generate_ok E Z m buf Addr MaxCertSize Id A Idx2 body tbs q1 hcfg hbody htbs
    hx h1 h2 hkat hd hdt hq1 hqs (by omega) (by omega)
  rw [e1]
  dsimp only
  have hsl := signFieldBytes_length q1.2.2.2
  have hcb := certBytes_length tbs q1.2.2.2
  have hle : (certBytes tbs q1.2.2.2).length ≤ buf.length := by omega
  refine ⟨rfl, ?_, rfl, by omega⟩
  obtain ⟨ev2, hev2, hout2⟩ := sign_trace_out E Z m.Store
    (m.Trace ++
      ([Event.Digest (fit 96 A.SubjectPublicKey), Event.Digest (fit 96 A.IssuerPublicKey)] ++
        ((if m.KatRan = true then [] else [Event.Kat]) ++ [Event.Digest body])) ++
      [Event.Digest tbs])
    Id (XSecure_Sha384Digest E tbs).2 A.IssuerPrvtKey
  rw [← hq1] at hev2
  rw [hev2, outBytes_append, outBytes_append, outBytes_append, outBytes_append, hout2,
    outBytes_getData _ _ _ hle,
    outBytes_quiet _ ( quiet_tbs_prefix m.KatRan _ _ _)]
  simp [outBytes]

/-- C17: when `XCert_GenerateX509Cert` returns `XST_SUCCESS` (a local array of 1024 bytes
that holds the certificate), the bytes sent to the destination are one SEQUENCE with a
two-byte long-form length whose content is exactly three elements in this order: the TBS
certificate `tbs`; the 14 bytes `30 0C 06 08 2A 86 48 CE 3D 04 03 03 05 00` of the signature
algorithm; and a BIT STRING whose content is the byte `00` followed by a SEQUENCE of the
two INTEGERs made from the first and the second 48 bytes of the signature. The length in
the outer header is the sum of the lengths of the three elements, and `*X509CertSize` is
the number of bytes sent. -/
theorem generate_structure (E : Env) (Z : Build) (m : Machine) (X509CertBuf : List Nat)
    (X509CertAddr MaxCertSize SubSystemId : Nat) (A : XCert_AppCfg) (Idx : Nat)
    (hIdx : findIdx Z m.Store SubSystemId = some Idx)
    (hb : X509CertBuf.length = 1024)
    (hfit : (slot Z m.Store Idx).UserCfg.IssuerLen + (slot Z m.Store Idx).UserCfg.ValidityLen +
      (slot Z m.Store Idx).UserCfg.SubjectLen + 508 ≤ 1024)
    (hok : (XCert_GenerateX509Cert E Z m X509CertBuf X509CertAddr MaxCertSize SubSystemId
      A).Ret = XST_SUCCESS) :
    ∃ tbs r s signField cert : List Nat, ∃ n : Nat,
      tbs = tbsBytes
        (tbsBodyBytes E (slot Z m.Store Idx).UserCfg A
          (XSecure_Sha384Digest E (fit 96 A.SubjectPublicKey)).2
          (XSecure_Sha384Digest E (fit 96 A.IssuerPublicKey)).2)
        (XSecure_Sha384Digest E
          (tbsBodyBytes E (slot Z m.Store Idx).UserCfg A
            (XSecure_Sha384Digest E (fit 96 A.SubjectPublicKey)).2
            (XSecure_Sha384Digest E (fit 96 A.IssuerPublicKey)).2)).2 ∧
      r = integerBytes ((XCert_GenerateX509Cert E Z m X509CertBuf X509CertAddr MaxCertSize
        SubSystemId A).Sign.take 48) 48 ∧
      s = integerBytes ((XCert_GenerateX509Cert E Z m X509CertBuf X509CertAddr MaxCertSize
        SubSystemId A).Sign.drop 48) 48 ∧
      signField = 0x03 :: (r.length + s.length + 3) :: 0x00 ::
        0x30 :: (r.length + s.length) :: (r ++ s) ∧
      n = tbs.length + 14 + signField.length ∧
      cert = 0x30 :: 0x82 :: (n / 256) :: (n % 256) ::
        (tbs ++ [0x30, 0x0C, 0x06, 0x08, 0x2A, 0x86, 0x48, 0xCE, 0x3D, 0x04, 0x03, 0x03, 0x05,
          0x00] ++ signField) ∧
      outBytes (XCert_GenerateX509Cert E Z m X509CertBuf X509CertAddr MaxCertSize SubSystemId
        A).M.Trace = outBytes m.Trace ++ certOut X509CertAddr cert ∧
      (XCert_GenerateX509Cert E Z m X509CertBuf X509CertAddr MaxCertSize SubSystemId
        A).X509CertSize = some cert.length := by
  obtain ⟨hsz, hout, -, -⟩ := generate_bytes E Z m X509CertBuf X509CertAddr MaxCertSize
    SubSystemId A Idx _ _ hIdx rfl rfl hb hfit hok
  have hsl : (XCert_GenerateX509Cert E Z m X509CertBuf X509CertAddr MaxCertSize SubSystemId
      A).Sign.length = 96 := by
    rcases generate_outcome E Z m X509CertBuf X509CertAddr MaxCertSize SubSystemId A _ rfl with
      ⟨-, hne, -⟩ | ⟨Idx2, -, hcase⟩
    · exact absurd hok hne
    rcases hcase with ⟨-, -, -, hsg⟩ | ⟨-, -, -, hne, -⟩ | ⟨-, -, -, -, hsg⟩
    · rw [hsg]
      exact fit_length _ _
    · exact absurd hok hne
    · rw [hsg]
      exact signFromTmp_length _
  generalize (XCert_GenerateX509Cert E Z m X509CertBuf X509CertAddr MaxCertSize SubSystemId
    A).Sign = Sign at hsz hout hsl ⊢
  have hr : integerBytes (Sign.take 48) 48 = integerBytes Sign 48 := by
    unfold integerBytes needsPad
    have h0 : (Sign.take 48).getD 0 0 = Sign.getD 0 0 := by
      cases Sign with
      | nil => rfl
      | cons x xs => rfl
    have hf : fit 48 (Sign.take 48) = fit 48 Sign := by
      rw [fit_eq_take 48 Sign (by omega), fit_of_length 48 _ (by simp; omega)]
    rw [h0, hf]
  have hrl := integerBytes_length Sign 48
  have hsl2 := integerBytes_length (Sign.drop 48) 48
  have hrb : (integerBytes Sign 48).length ≤ 51 := by
    rw [hrl]
    split <;> omega
  have hsb : (integerBytes (Sign.drop 48) 48).length ≤ 51 := by
    rw [hsl2]
    split <;> omega
  have hsf : signFieldBytes Sign = 0x03 ::
      ((integerBytes Sign 48).length + (integerBytes (Sign.drop 48) 48).length + 3) :: 0x00 ::
      0x30 :: ((integerBytes Sign 48).length + (integerBytes (Sign.drop 48) 48).length) ::
      (integerBytes Sign 48 ++ integerBytes (Sign.drop 48) 48) := by
    unfold signFieldBytes
    rw [Nat.mod_eq_of_lt (by omega), Nat.mod_eq_of_lt (by omega)]
  refine ⟨_, _, _, _, _, _, rfl, rfl, rfl, rfl, rfl, rfl, ?_, ?_⟩
  · rw [hout, hr, ← hsf]
    congr 2
    unfold certBytes
    rw [certContentBytes_length]
    simp only [certContentBytes, signAlgoBytes, List.append_assoc, List.cons_append,
      List.nil_append]
  · rw [hsz, hr, ← hsf]
    congr 2
    unfold certBytes
    rw [certContentBytes_length]
    simp only [certContentBytes, signAlgoBytes, List.append_assoc, List.cons_append,
      List.nil_append]

theorem generate_structure_witness :
    ∃ cert : List Nat,
      outBytes (XCert_GenerateX509Cert envW buildW machineW bufW 4096 1024 7 appW).M.Trace =
        outBytes machineW.Trace ++ certOut 4096 cert ∧
      (XCert_GenerateX509Cert envW buildW machineW bufW 4096 1024 7 appW).X509CertSize =
        some cert.length :=
  let ⟨_, _, _, _, cert, _, _, _, _, _, _, _, h1, h2⟩ :=
    generate_structure envW buildW machineW bufW 4096 1024 7 appW 1 (by decide)
      (List.length_replicate _ _) (by decide) (by decide!)
  ⟨cert, h1, h2⟩

/-! ## Well-formed DER: the checker -/

theorem derSeq_nil (f : Nat) : derSeq f [] = true := by
  cases f <;> rfl

theorem derSeq_mono (f : Nat) : ∀ (f2 : Nat) (bs : List Nat), f ≤ f2 →
    derSeq f bs = true → derSeq f2 bs = true := by
  induction f with
  | zero =>
    intro f2 bs _ h
    cases bs with
    | nil => exact derSeq_nil f2
    | cons t rest => exact absurd h (by simp [derSeq])
  | succ f ih =>
    intro f2 bs hle h
    cases bs with
    | nil => exact derSeq_nil f2
    | cons t rest =>
      obtain ⟨g, rfl⟩ : ∃ g, f2 = g + 1 := ⟨f2 - 1, by omega⟩
      have hfg : f ≤ g := by omega
      unfold derSeq at h ⊢
      cases hl : derLen rest with
      | none =>
        rw [hl] at h
        exact absurd h (by simp)
      | some r =>
        obtain ⟨n, after⟩ := r
        rw [hl] at h
        simp only [Bool.and_eq_true, decide_eq_true_eq] at h ⊢
        refine ⟨h.1, ?_, ih g _ hfg h.2.2⟩
        by_cases ht : t &&& 0x20 = 0x20
        · rw [if_pos ht] at h ⊢
          exact ih g _ hfg h.2.1
        · rw [if_neg ht]

theorem good_of_seq (bs : List Nat) (h : derSeq bs.length bs = true) : GoodSeq bs :=
  fun f hf => derSeq_mono bs.length f bs hf h

theorem good_nil : GoodSeq [] := fun f _ => derSeq_nil f

theorem good_cons (t : Nat) (rest c b : List Nat)
    (hl : derLen rest = some (c.length, c ++ b))
    (hc : t &&& 0x20 = 0x20 → GoodSeq c) (hb : GoodSeq b)
    (hlen : c.length + b.length ≤ rest.length) :
    GoodSeq (t :: rest) := by
  intro f hf
  obtain ⟨g, rfl⟩ : ∃ g, f = g + 1 := ⟨f - 1, by simp only [List.length_cons] at hf; omega⟩
  simp only [List.length_cons] at hf
  unfold derSeq
  rw [hl]
  simp only [Bool.and_eq_true, decide_eq_true_eq, List.length_append, List.take_left,
    List.drop_left]
  refine ⟨by omega, ?_, hb g (by omega)⟩
  by_cases ht : t &&& 0x20 = 0x20
  · rw [if_pos ht]
    exact hc ht g (by omega)
  · rw [if_neg ht]

theorem good_short (t : Nat) (c b : List Nat) (h : c.length < 128)
    (hc : t &&& 0x20 = 0x20 → GoodSeq c) (hb : GoodSeq b) :
    GoodSeq (t :: c.length :: (c ++ b)) := by
  apply good_cons t _ c b _ hc hb
  · simp only [List.length_cons, List.length_append]
    omega
  · unfold derLen
    dsimp only
    rw [if_pos h]

theorem good_81 (t : Nat) (c b : List Nat) (h1 : 128 ≤ c.length) (h2 : c.length < 256)
    (hc : t &&& 0x20 = 0x20 → GoodSeq c) (hb : GoodSeq b) :
    GoodSeq (t :: 0x81 :: c.length :: (c ++ b)) := by
  apply good_cons t _ c b _ hc hb
  · simp only [List.length_cons, List.length_append]
    omega
  · unfold derLen
    dsimp only
    rw [if_neg (by decide), if_pos rfl, if_pos ⟨h1, h2⟩]

theorem good_82 (t : Nat) (c b : List Nat) (h1 : 256 ≤ c.length) (h2 : c.length < 65536)
    (hc : t &&& 0x20 = 0x20 → GoodSeq c) (hb : GoodSeq b) :
    GoodSeq (t :: 0x82 :: (c.length / 256) :: (c.length % 256) :: (c ++ b)) := by
  apply good_cons t _ c b _ hc hb
  · simp only [List.length_cons, List.length_append]
    omega
  · unfold derLen
    dsimp only
    rw [if_neg (by decide), if_neg (by decide), if_pos rfl,
      if_pos ⟨by omega, by omega, by omega⟩]
    congr 2
    omega

theorem derLen_append (rest c b : List Nat) (n : Nat) (h : derLen rest = some (n, c)) :
    derLen (rest ++ b) = some (n, c ++ b) ∧ c.length < rest.length := by
  cases rest with
  | nil => exact absurd h (by simp [derLen])
  | cons l r1 =>
    rw [List.cons_append]
    unfold derLen at h ⊢
    dsimp only at h ⊢
    by_cases h0 : l < 0x80
    · rw [if_pos h0] at h ⊢
      simp only [Option.some.injEq, Prod.mk.injEq] at h
      obtain ⟨rfl, rfl⟩ := h
      exact ⟨rfl, by simp⟩
    rw [if_neg h0] at h ⊢
    by_cases h1 : l = 0x81
    · rw [if_pos h1] at h ⊢
      cases r1 with
      | nil => exact absurd h (by simp)
      | cons k r2 =>
        simp only [List.cons_append] at h ⊢
        by_cases hk : 0x80 ≤ k ∧ k < 0x100
        · rw [if_pos hk] at h ⊢
          simp only [Option.some.injEq, Prod.mk.injEq] at h
          obtain ⟨rfl, rfl⟩ := h
          exact ⟨rfl, by simp only [List.length_cons]; omega⟩
        · rw [if_neg hk] at h
          exact absurd h (by simp)
    rw [if_neg h1] at h ⊢
    by_cases h2 : l = 0x82
    · rw [if_pos h2] at h ⊢
      cases r1 with
      | nil => exact absurd h (by simp)
      | cons hi r2 =>
        cases r2 with
        | nil => exact absurd h (by simp)
        | cons lo r3 =>
          simp only [List.cons_append] at h ⊢
          by_cases hk : 0 < hi ∧ hi < 0x100 ∧ lo < 0x100
          · rw [if_pos hk] at h ⊢
            simp only [Option.some.injEq, Prod.mk.injEq] at h
            obtain ⟨rfl, rfl⟩ := h
            exact ⟨rfl, by simp only [List.length_cons]; omega⟩
          · rw [if_neg hk] at h
            exact absurd h (by simp)
    · rw [if_neg h2] at h
      exact absurd h (by simp)

theorem good_one_append (a b : List Nat) (ha : derOne a = true) (hb : GoodSeq b) :
    GoodSeq (a ++ b) := by
  unfold derOne at ha
  cases a with
  | nil => exact absurd ha (by simp)
  | cons t rest =>
    dsimp only at ha
    cases hl : derLen rest with
    | none =>
      rw [hl] at ha
      exact absurd ha (by simp)
    | some r =>
      obtain ⟨n, c⟩ := r
      rw [hl] at ha
      simp only [Bool.and_eq_true, decide_eq_true_eq] at ha
      obtain ⟨hn, hc⟩ := ha
      subst hn
      obtain ⟨hl2, hlt⟩ := derLen_append rest c b c.length hl
      rw [List.cons_append]
      apply good_cons t _ c b hl2 _ hb
      · simp only [List.length_append]
        omega
      · intro ht
        rw [if_pos ht] at hc
        exact good_of_seq c hc

theorem one_of_good (t : Nat) (rest c : List Nat) (hl : derLen rest = some (c.length, c))
    (hc : t &&& 0x20 = 0x20 → GoodSeq c) : derOne (t :: rest) = true := by
  unfold derOne
  dsimp only
  rw [hl]
  simp only [Bool.and_eq_true, decide_eq_true_eq, true_and]
  by_cases ht : t &&& 0x20 = 0x20
  · rw [if_pos ht]
    exact hc ht c.length (le_refl _)
  · rw [if_neg ht]

theorem good_of_one (a : List Nat) (ha : derOne a = true) : GoodSeq a := by
  have h := good_one_append a [] ha good_nil
  rwa [List.append_nil] at h

theorem one_short (t n : Nat) (c : List Nat) (hn : c.length = n) (h : n < 128)
    (hc : t &&& 0x20 = 0x20 → GoodSeq c) : derOne (t :: n :: c) = true := by
  subst hn
  apply one_of_good t _ c _ hc
  unfold derLen
  dsimp only
  rw [if_pos h]

theorem one_81 (t n : Nat) (c : List Nat) (hn : c.length = n) (h1 : 128 ≤ n) (h2 : n < 256)
    (hc : t &&& 0x20 = 0x20 → GoodSeq c) : derOne (t :: 0x81 :: n :: c) = true := by
  subst hn
  apply one_of_good t _ c _ hc
  unfold derLen
  dsimp only
  rw [if_neg (by decide), if_pos rfl, if_pos ⟨h1, h2⟩]

theorem one_82 (t n : Nat) (c : List Nat) (hn : c.length = n) (h1 : 256 ≤ n) (h2 : n < 65536)
    (hc : t &&& 0x20 = 0x20 → GoodSeq c) :
    derOne (t :: 0x82 :: (n / 256) :: (n % 256) :: c) = true := by
  subst hn
  apply one_of_good t _ c _ hc
  unfold derLen
  dsimp only
  rw [if_neg (by decide), if_neg (by decide), if_pos rfl,
    if_pos ⟨by omega, by omega, by omega⟩]
  congr 2
  omega

/-! ## Well-formed DER: the fields of the certificate -/

theorem one_integerBytes (v : List Nat) (n : Nat) (h : n < 125) :
    derOne (integerBytes v n) = true := by
  unfold integerBytes
  split
  · rw [Nat.mod_eq_of_lt (by omega)]
    exact one_short 0x02 (n + 1) _ (by simp [fit_length]) (by omega)
      (fun h => absurd h (by decide))
  · rw [Nat.mod_eq_of_lt (by omega)]
    exact one_short 0x02 n _ (fit_length _ _) (by omega) (fun h => absurd h (by decide))

theorem one_serialFieldBytes (h : List Nat) : derOne (serialFieldBytes h) = true := by
  unfold serialFieldBytes
  apply one_integerBytes
  rcases serialCopyLen_cases h with ⟨-, e⟩ | ⟨-, e⟩ <;> rw [e] <;> decide

theorem one_signAlgoBytes : derOne signAlgoBytes = true := by decide

theorem one_versionBytes : derOne versionBytes = true := by decide

theorem one_publicKeyInfoBytes (key : List Nat) : derOne (publicKeyInfoBytes key) = true := by
  have h1 : derOne pubKeyAlgIdentifierBytes = true := by decide
  have h2 : derOne (0x03 :: 0x61 :: (0x00 :: fit 96 key)) = true :=
    one_short 0x03 0x61 _ (by simp [fit_length]) (by decide) (fun h => absurd h (by decide))
  have hg := good_one_append _ _ h1 (good_of_one _ h2)
  exact one_short 0x30 0x75 (pubKeyAlgIdentifierBytes ++ (0x03 :: 0x61 :: (0x00 :: fit 96 key)))
    (by simp [pubKeyAlgIdentifierBytes, fit_length]) (by decide) (fun _ => hg)

theorem one_subjectKeyIdentifierBytes (h : List Nat) :
    derOne (subjectKeyIdentifierBytes h) = true := by
  have h1 : derOne [0x06, 0x03, 0x55, 0x1D, 0x0E] = true := by decide
  have h2 : derOne (0x04 :: 0x16 :: (0x04 :: 0x14 :: fit 20 h)) = true :=
    one_short 0x04 0x16 _ (by simp [fit_length]) (by decide) (fun h => absurd h (by decide))
  have hg := good_one_append _ _ h1 (good_of_one _ h2)
  exact one_short 0x30 0x1D ([0x06, 0x03, 0x55, 0x1D, 0x0E] ++
      (0x04 :: 0x16 :: (0x04 :: 0x14 :: fit 20 h)))
    (by simp [fit_length]) (by decide) (fun _ => hg)

theorem one_authorityKeyIdentifierBytes (h : List Nat) :
    derOne (authorityKeyIdentifierBytes h) = true := by
  have h1 : derOne [0x06, 0x03, 0x55, 0x1D, 0x23] = true := by decide
  have h2 : derOne (0x04 :: 0x18 :: (0x30 :: 0x16 :: 0x80 :: 0x14 :: fit 20 h)) = true :=
    one_short 0x04 0x18 _ (by simp [fit_length]) (by decide) (fun h => absurd h (by decide))
  have hg := good_one_append _ _ h1 (good_of_one _ h2)
  exact one_short 0x30 0x1F ([0x06, 0x03, 0x55, 0x1D, 0x23] ++
      (0x04 :: 0x18 :: (0x30 :: 0x16 :: 0x80 :: 0x14 :: fit 20 h)))
    (by simp [fit_length]) (by decide) (fun _ => hg)

theorem one_tcbInfoExtnBytes (fw : List Nat) : derOne (tcbInfoExtnBytes fw) = true := by
  have h1 : derOne [0x06, 0x06, 0x67, 0x81, 0x05, 0x05, 0x04, 0x01] = true := by decide
  have h2 : derOne (0x04 :: 0x43 :: ([0x30, 0x41, 0xA6, 0x3F, 0x30, 0x3D, 0x06, 0x09, 0x60,
      0x86, 0x48, 0x01, 0x65, 0x03, 0x04, 0x02, 0x09, 0x04, 0x30] ++ fit 48 fw)) = true :=
    one_short 0x04 0x43 _ (by simp [fit_length]) (by decide) (fun h => absurd h (by decide))
  have hg := good_one_append _ _ h1 (good_of_one _ h2)
  exact one_short 0x30 0x4D ([0x06, 0x06, 0x67, 0x81, 0x05, 0x05, 0x04, 0x01] ++
      (0x04 :: 0x43 :: ([0x30, 0x41, 0xA6, 0x3F, 0x30, 0x3D, 0x06, 0x09, 0x60,
        0x86, 0x48, 0x01, 0x65, 0x03, 0x04, 0x02, 0x09, 0x04, 0x30] ++ fit 48 fw)))
    (by simp [fit_length]) (by decide) (fun _ => hg)

theorem one_ueidExnBytes (dna : List Nat) : derOne (ueidExnBytes dna) = true := by
  have h1 : derOne [0x06, 0x06, 0x67, 0x81, 0x05, 0x05, 0x04, 0x04] = true := by decide
  have h2 : derOne (0x04 :: 0x14 :: (0x30 :: 0x12 :: 0x04 :: 0x10 :: fit 16 dna)) = true :=
    one_short 0x04 0x14 _ (by simp [fit_length]) (by decide) (fun h => absurd h (by decide))
  have hg := good_one_append _ _ h1 (good_of_one _ h2)
  exact one_short 0x30 0x1E ([0x06, 0x06, 0x67, 0x81, 0x05, 0x05, 0x04, 0x04] ++
      (0x04 :: 0x14 :: (0x30 :: 0x12 :: 0x04 :: 0x10 :: fit 16 dna)))
    (by simp [fit_length]) (by decide) (fun _ => hg)

theorem one_keyUsageBytes (IsSelfSigned : Nat) : derOne (keyUsageBytes IsSelfSigned) = true := by
  unfold keyUsageBytes
  split <;> decide

theorem one_extKeyUsageBytes : derOne extKeyUsageBytes = true := by decide

theorem good_extensionListBytes (E : Env) (A : XCert_AppCfg) (hs hi : List Nat) :
    GoodSeq (extensionListBytes E A hs hi) := by
  unfold extensionListBytes
  refine good_one_append _ _ (one_subjectKeyIdentifierBytes hs)
    (good_one_append _ _ (one_authorityKeyIdentifierBytes hi)
      (good_one_append _ _ (one_tcbInfoExtnBytes A.FwHash) ?_))
  by_cases h : A.IsSelfSigned = TRUE
  · rw [if_pos h, if_pos h]
    exact good_one_append _ _ (one_ueidExnBytes _)
      (good_one_append _ _ (one_keyUsageBytes _) (good_of_one _ one_extKeyUsageBytes))
  · rw [if_neg h, if_neg h, List.nil_append, List.append_nil]
    exact good_of_one _ (one_keyUsageBytes _)

theorem one_extensionsBytes (E : Env) (A : XCert_AppCfg) (hs hi : List Nat) :
    derOne (extensionsBytes E A hs hi) = true := by
  have hl := extensionListBytes_length E A hs hi
  have hb : 128 ≤ (extensionListBytes E A hs hi).length ∧
      (extensionListBytes E A hs hi).length + 3 < 256 := by
    rw [hl]
    split <;> omega
  have h1 : derOne (0x30 :: 0x81 :: (extensionListBytes E A hs hi).length ::
      extensionListBytes E A hs hi) = true :=
    one_81 0x30 _ _ rfl hb.1 (by omega) (fun _ => good_extensionListBytes E A hs hi)
  exact one_81 0xA3 _ _ (by simp only [List.length_cons]) (by omega) hb.2
    (fun _ => good_of_one _ h1)

theorem one_signFieldBytes (Sign : List Nat) : derOne (signFieldBytes Sign) = true := by
  have h1 := integerBytes_length Sign 48
  have h2 := integerBytes_length (Sign.drop 48) 48
  have hb : (integerBytes Sign 48).length + (integerBytes (Sign.drop 48) 48).length ≤ 102 := by
    rw [h1, h2]
    split <;> split <;> omega
  unfold signFieldBytes
  rw [Nat.mod_eq_of_lt (by omega), Nat.mod_eq_of_lt (by omega)]
  exact one_short 0x03 _ _ (by simp only [List.length_cons, List.length_append])
    (by omega) (fun h => absurd h (by decide))

theorem good_tbsBodyBytes (E : Env) (U : XCert_UserCfg) (A : XCert_AppCfg) (hs hi : List Nat)
    (hI : derOne (fit U.IssuerLen U.Issuer) = true)
    (hV : derOne (fit U.ValidityLen U.Validity) = true)
    (hS : derOne (fit U.SubjectLen U.Subject) = true) :
    GoodSeq (tbsBodyBytes E U A hs hi) := by
  unfold tbsBodyBytes
  exact good_one_append _ _ one_signAlgoBytes
    (good_one_append _ _ hI (good_one_append _ _ hV (good_one_append _ _ hS
      (good_one_append _ _ (one_publicKeyInfoBytes _)
        (good_of_one _ (one_extensionsBytes E A hs hi))))))

theorem one_tbsBytes (body h : List Nat) (hg : GoodSeq body) (h1 : 231 ≤ body.length)
    (h2 : body.length < 65000) : derOne (tbsBytes body h) = true := by
  unfold tbsBytes
  have hc : GoodSeq (versionBytes ++ (serialFieldBytes h ++ body)) :=
    good_one_append _ _ one_versionBytes (good_one_append _ _ (one_serialFieldBytes h) hg)
  exact one_82 0x30 (body.length + 25) (versionBytes ++ (serialFieldBytes h ++ body))
    (by simp only [List.length_append, serialFieldBytes_length, versionBytes, List.length_cons,
      List.length_nil]; omega) (by omega) (by omega) (fun _ => hc)

theorem one_certBytes (tbs Sign : List Nat) (ht : derOne tbs = true) (h1 : 256 ≤ tbs.length)
    (h2 : tbs.length < 65000) : derOne (certBytes tbs Sign) = true := by
  unfold certBytes
  have hl := certContentBytes_length tbs Sign
  have hs := signFieldBytes_length Sign
  have hc : GoodSeq (certContentBytes tbs Sign) := by
    unfold certContentBytes
    exact good_one_append _ _ ht
      (good_one_append _ _ one_signAlgoBytes (good_of_one _ (one_signFieldBytes Sign)))
  exact one_82 0x30 _ _ rfl (by omega) (by omega) (fun _ => hc)

/-! ## The certificate is well-formed DER -/

/-- C16: when `XCert_GenerateX509Cert` returns `XST_SUCCESS` for a subsystem whose stored
Issuer, Validity and Subject are each one well-formed DER element (`derOne`), with any
application configuration (a local array of 1024 bytes that holds the certificate), the
bytes `cert` sent to the destination are one well-formed DER element: the length field of
the outer SEQUENCE equals the number of bytes that follow it, so that the element is all
of the `*X509CertSize` bytes, and the content of every constructed element, at every depth,
is a concatenation of elements each of whose length fields is in minimal form and stays
within the bytes that follow it. -/
theorem generate_wellformed_der (E : Env) (Z : Build) (m : Machine) (X509CertBuf : List Nat)
    (X509CertAddr MaxCertSize SubSystemId : Nat) (A : XCert_AppCfg) (Idx : Nat)
    (hIdx : findIdx Z m.Store SubSystemId = some Idx)
    (hb : X509CertBuf.length = 1024)
    (hfit : (slot Z m.Store Idx).UserCfg.IssuerLen + (slot Z m.Store Idx).UserCfg.ValidityLen +
      (slot Z m.Store Idx).UserCfg.SubjectLen + 508 ≤ 1024)
    (hI : derOne (fit (slot Z m.Store Idx).UserCfg.IssuerLen
      (slot Z m.Store Idx).UserCfg.Issuer) = true)
    (hV : derOne (fit (slot Z m.Store Idx).UserCfg.ValidityLen
      (slot Z m.Store Idx).UserCfg.Validity) = true)
    (hS : derOne (fit (slot Z m.Store Idx).UserCfg.SubjectLen
      (slot Z m.Store Idx).UserCfg.Subject) = true)
    (hok : (XCert_GenerateX509Cert E Z m X509CertBuf X509CertAddr MaxCertSize SubSystemId
      A).Ret = XST_SUCCESS) :
    ∃ cert : List Nat,
      outBytes (XCert_GenerateX509Cert E Z m X509CertBuf X509CertAddr MaxCertSize SubSystemId
        A).M.Trace = outBytes m.Trace ++ certOut X509CertAddr cert ∧
      (XCert_GenerateX509Cert E Z m X509CertBuf X509CertAddr MaxCertSize SubSystemId
        A).X509CertSize = some cert.length ∧
      derOne cert = true := by
  obtain ⟨hsz, hout, -, -⟩ := generate_bytes E Z m X509CertBuf X509CertAddr MaxCertSize
    SubSystemId A Idx _ _ hIdx rfl rfl hb hfit hok
  refine ⟨_, hout, hsz, ?_⟩
  have hbl := tbsBodyBytes_length E (slot Z m.Store Idx).UserCfg A
    (XSecure_Sha384Digest E (fit 96 A.SubjectPublicKey)).2
    (XSecure_Sha384Digest E (fit 96 A.IssuerPublicKey)).2
  have hge := tbsBodyBytes_length_ge E (slot Z m.Store Idx).UserCfg A
    (XSecure_Sha384Digest E (fit 96 A.SubjectPublicKey)).2
    (XSecure_Sha384Digest E (fit 96 A.IssuerPublicKey)).2
  have hle : (tbsBodyBytes E (slot Z m.Store Idx).UserCfg A
      (XSecure_Sha384Digest E (fit 96 A.SubjectPublicKey)).2
      (XSecure_Sha384Digest E (fit 96 A.IssuerPublicKey)).2).length ≤ 1024 := by
    rw [hbl]
    split <;> omega
  have hg := good_tbsBodyBytes E (slot Z m.Store Idx).UserCfg A
    (XSecure_Sha384Digest E (fit 96 A.SubjectPublicKey)).2
    (XSecure_Sha384Digest E (fit 96 A.IssuerPublicKey)).2 hI hV hS
  have ht := one_tbsBytes _ (XSecure_Sha384Digest E
    (tbsBodyBytes E (slot Z m.Store Idx).UserCfg A
      (XSecure_Sha384Digest E (fit 96 A.SubjectPublicKey)).2
      (XSecure_Sha384Digest E (fit 96 A.IssuerPublicKey)).2)).2 hg (by omega) (by omega)
  have htl := tbsBytes_length (tbsBodyBytes E (slot Z m.Store Idx).UserCfg A
      (XSecure_Sha384Digest E (fit 96 A.SubjectPublicKey)).2
      (XSecure_Sha384Digest E (fit 96 A.IssuerPublicKey)).2)
    (XSecure_Sha384Digest E
      (tbsBodyBytes E (slot Z m.Store Idx).UserCfg A
        (XSecure_Sha384Digest E (fit 96 A.SubjectPublicKey)).2
        (XSecure_Sha384Digest E (fit 96 A.IssuerPublicKey)).2)).2
  exact one_certBytes _ _ ht (by omega) (by omega)

theorem generate_wellformed_der_witness :
    ∃ cert : List Nat,
      outBytes (XCert_GenerateX509Cert envW buildW machineDerW bufW 4096 1024 7 appW).M.Trace =
        outBytes machineDerW.Trace ++ certOut 4096 cert ∧
      (XCert_GenerateX509Cert envW buildW machineDerW bufW 4096 1024 7 appW).X509CertSize =
        some cert.length ∧
      derOne cert = true :=
  generate_wellformed_der envW buildW machineDerW bufW 4096 1024 7 appW 1 (by decide)
    (List.length_replicate _ _) (by decide) (by decide) (by decide) (by decide) (by decide!)

/-! ## The Serial field: number of value bytes -/

theorem serialFieldBytes_eq (h : List Nat) (hlen : 20 ≤ h.length) :
    serialFieldBytes h = 0x02 :: 0x14 ::
      (if (h.getD 0 0 &&& 0x80) = 0x80 then 0x00 :: h.take 19 else h.take 20) := by
  unfold serialFieldBytes integerBytes
  rw [needsPad_serial]
  have hfit : ∀ n, n ≤ 20 →
      fit n (XSecure_MemCpy (List.replicate XCERT_LEN_OF_VALUE_OF_SERIAL 0) h n) =
        h.take n := by
    intro n hn
    have hml : (XSecure_MemCpy (List.replicate XCERT_LEN_OF_VALUE_OF_SERIAL 0) h n).length
        = 20 := by
      rw [memCpy_length _ _ _ (by simp [XCERT_LEN_OF_VALUE_OF_SERIAL]; exact hn)]
      simp [XCERT_LEN_OF_VALUE_OF_SERIAL]
    rw [fit_eq_take n _ (by omega), memCpy_take, fit_eq_take n h (by omega)]
  by_cases hp : (h.getD 0 0 &&& 0x80) = 0x80
  · have hn : needsPad h = true := by
      unfold needsPad XCERT_BIT7_MASK
      exact decide_eq_true hp
    have hc : serialCopyLen h = 19 := by
      unfold serialCopyLen XCERT_BIT7_MASK XCERT_LEN_OF_VALUE_OF_SERIAL
      rw [if_pos hp]
    rw [hn, hc, if_pos rfl, if_pos hp, hfit 19 (by omega)]
  · have hn : needsPad h = false := by
      unfold needsPad XCERT_BIT7_MASK
      exact decide_eq_false hp
    have hc : serialCopyLen h = 20 := by
      unfold serialCopyLen XCERT_BIT7_MASK XCERT_LEN_OF_VALUE_OF_SERIAL
      rw [if_neg hp]
    rw [hn, hc, if_neg (by decide), if_neg hp, hfit 20 (by omega)]

/-- C21, as amended: for every digest `h` of 48 bytes the Serial INTEGER that
`XCert_GenSerialField` writes has 20 value bytes `v`, in both cases: when bit 7 of `h[0]`
is set they are one `00` pad followed by the 19 digest bytes `h[0 .. 19)`, otherwise they
are the 20 digest bytes `h[0 .. 20)`. The field is tag, the length byte 20 and `v`, and the
returned length of the field is 22. -/
theorem genSerialField_canonical (b : List Nat) (p : Nat) (h : List Nat)
    (hlen : h.length = 48) :
    ∃ v : List Nat,
      XCert_GenSerialField b p h = (wrBytes b p (0x02 :: v.length :: v), 2 + v.length) ∧
      v.length = 20 ∧
      ((h.getD 0 0 &&& 0x80) = 0x80 → v = 0x00 :: h.take 19 ∧ (h.take 19).length = 19) ∧
      ((h.getD 0 0 &&& 0x80) ≠ 0x80 → v = h.take 20) := by
  have hb := serialFieldBytes_eq h (by omega)
  have hl := serialFieldBytes_length h
  rw [hb] at hl
  simp only [List.length_cons] at hl
  have hv : (if (h.getD 0 0 &&& 0x80) = 0x80 then 0x00 :: h.take 19 else h.take 20).length
      = 20 := by omega
  refine ⟨if (h.getD 0 0 &&& 0x80) = 0x80 then 0x00 :: h.take 19 else h.take 20, ?_, hv, ?_, ?_⟩
  · rw [genSerialField_eq, hb, hv]
  · intro hp
    rw [if_pos hp]
    exact ⟨rfl, by rw [List.length_take]; omega⟩
  · intro hp
    rw [if_neg hp]

theorem genSerialField_canonical_witness :
    ∃ v : List Nat,
      XCert_GenSerialField (List.replicate 26 0xEE) 2 (List.replicate 48 0x90) =
        (wrBytes (List.replicate 26 0xEE) 2 (0x02 :: v.length :: v), 2 + v.length) ∧
      v.length = 20 :=
  let ⟨v, h1, h2, _, _⟩ :=
    genSerialField_canonical (List.replicate 26 0xEE) 2 (List.replicate 48 0x90)
      (List.length_replicate _ _)
  ⟨v, h1, h2⟩

/-- For the digest of 48 bytes `90`, whose first byte has bit 7 set, the Serial field is
not an INTEGER of 21 value bytes (`00` and 20 digest bytes, 23 bytes with tag and length):
the length byte is 20, the value is `00` and 19 digest bytes, and the field is 22 bytes
long. -/
theorem genSerialField_canonical_counterexample :
    (XCert_GenSerialField (List.replicate 26 0xEE) 2 (List.replicate 48 0x90)).1 ≠
        wrBytes (List.replicate 26 0xEE) 2
          (0x02 :: 21 :: 0x00 :: (List.replicate 48 0x90).take 20) ∧
    rd (XCert_GenSerialField (List.replicate 26 0xEE) 2 (List.replicate 48 0x90)).1 2 22 =
        0x02 :: 20 :: 0x00 :: List.replicate 19 0x90 ∧
    (XCert_GenSerialField (List.replicate 26 0xEE) 2 (List.replicate 48 0x90)).2 = 22 := by
  decide

/-! ## The digest behind the Serial field -/

theorem tbsBytes_split (body h : List Nat) :
    tbsBytes body h =
      [0x30, 0x82, (body.length + 25) / 256, (body.length + 25) % 256] ++
        ([0x02, 0x01, 0x02] ++ (serialFieldBytes h ++ body)) := rfl

theorem tbsBytes_parts (body h : List Nat) :
    ((tbsBytes body h).drop 4).take 3 = [0x02, 0x01, 0x02] ∧
    ((tbsBytes body h).drop 7).take 22 = serialFieldBytes h ∧
    ((tbsBytes body h).drop 29).take body.length = body := by
  have hs := serialFieldBytes_length h
  refine ⟨rfl, ?_, ?_⟩
  · have h7 : (tbsBytes body h).drop 7 = serialFieldBytes h ++ body := rfl
    rw [h7, ← hs, List.take_left]
  · have h7 : (tbsBytes body h).drop 29 = ((tbsBytes body h).drop 7).drop 22 := by
      rw [List.drop_drop]
    have h8 : (tbsBytes body h).drop 7 = serialFieldBytes h ++ body := rfl
    rw [h7, h8, ← hs, List.drop_left, List.take_length]

/-- C22: when `XCert_GenTBSCertificate` returns `XST_SUCCESS` (the TBS certificate within
the buffer), the last digest of the call is taken over a byte string `Data` that is the
signature algorithm, Issuer, Validity, Subject, public key info and Extensions bytes; the
Serial field of the finished TBS certificate, the 22 bytes at offset 7 after the header
and the Version bytes `02 01 02`, is the one made from that digest; and the bytes of the
finished TBS certificate from offset 29, right after the Serial field, to its end are
`Data`, byte for byte and in the same order. The hashed bytes are thus the ones after the
Serial field: neither the Version nor the Serial bytes are among them. -/
theorem genTBSCertificate_serial_digest (E : Env) (Z : Build) (KatRan : Bool) (b : List Nat)
    (p : Nat) (U : XCert_UserCfg) (A : XCert_AppCfg)
    (hb : p + (U.IssuerLen + U.ValidityLen + U.SubjectLen + 383) ≤ b.length)
    (hlen : b.length ≤ 65535)
    (hok : (XCert_GenTBSCertificate E Z KatRan b p U A).1 = XST_SUCCESS) :
    ∃ Data : List Nat,
      Data = signAlgoBytes ++ fit U.IssuerLen U.Issuer ++ fit U.ValidityLen U.Validity ++
        fit U.SubjectLen U.Subject ++ publicKeyInfoBytes A.SubjectPublicKey ++
        extensionsBytes E A (XSecure_Sha384Digest E (fit 96 A.SubjectPublicKey)).2
          (XSecure_Sha384Digest E (fit 96 A.IssuerPublicKey)).2 ∧
      (XCert_GenTBSCertificate E Z KatRan b p U A).2.2.1 =
        [Event.Digest (fit 96 A.SubjectPublicKey), Event.Digest (fit 96 A.IssuerPublicKey)] ++
          (if KatRan = true then [] else [Event.Kat]) ++ [Event.Digest Data] ∧
      rd (XCert_GenTBSCertificate E Z KatRan b p U A).2.2.2.1 (p + 4) 3 = [0x02, 0x01, 0x02] ∧
      rd (XCert_GenTBSCertificate E Z KatRan b p U A).2.2.2.1 (p + 7) XCERT_SERIAL_FIELD_LEN =
        serialFieldBytes (XSecure_Sha384Digest E Data).2 ∧
      (XCert_GenTBSCertificate E Z KatRan b p U A).2.2.2.2 = 29 + Data.length ∧
      rd (XCert_GenTBSCertificate E Z KatRan b p U A).2.2.2.1 (p + 29) Data.length = Data := by
  obtain ⟨body, hbody⟩ : ∃ body, body = tbsBodyBytes E U A
      (XSecure_Sha384Digest E (fit 96 A.SubjectPublicKey)).2
      (XSecure_Sha384Digest E (fit 96 A.IssuerPublicKey)).2 := ⟨_, rfl⟩
  have hbl : body.length ≤ U.IssuerLen + U.ValidityLen + U.SubjectLen + 354 := by
    rw [hbody, tbsBodyBytes_length]
    split <;> omega
  obtain ⟨hx, h1, h2, hkat, hd⟩ := genTBSCertificate_success E Z KatRan b p U A body hbody
    (by omega) hok
  rw [genTBSCertificate_ok E Z KatRan b p U A body hbody hx h1 h2 hkat hd (by omega)
    (by omega)]
  have hbody2 : signAlgoBytes ++ fit U.IssuerLen U.Issuer ++ fit U.ValidityLen U.Validity ++
      fit U.SubjectLen U.Subject ++ publicKeyInfoBytes A.SubjectPublicKey ++
      extensionsBytes E A (XSecure_Sha384Digest E (fit 96 A.SubjectPublicKey)).2
        (XSecure_Sha384Digest E (fit 96 A.IssuerPublicKey)).2 = body := by
    rw [hbody]
    unfold tbsBodyBytes
    simp only [List.append_assoc]
  rw [hbody2]
  have htl := tbsBytes_length body (XSecure_Sha384Digest E body).2
  obtain ⟨e1, e2, e3⟩ := tbsBytes_parts body (XSecure_Sha384Digest E body).2
  refine ⟨body, rfl, ?_, ?_, ?_, ?_, ?_⟩
  · dsimp only
    simp only [List.append_assoc]
  · dsimp only
    rw [rd_wrBytes b p 4 3 _ (by omega) (by omega), e1]
  · dsimp only
    rw [show XCERT_SERIAL_FIELD_LEN = 22 from rfl,
      rd_wrBytes b p 7 22 _ (by omega) (by omega), e2]
  · dsimp only
    omega
  · dsimp only
    rw [rd_wrBytes b p 29 body.length _ (by omega) (by omega), e3]

theorem genTBSCertificate_serial_digest_witness :
    ∃ Data : List Nat,
      rd (XCert_GenTBSCertificate envW buildW false bufW 2 slotCfgW.UserCfg appW).2.2.2.1
        (2 + 7) XCERT_SERIAL_FIELD_LEN = serialFieldBytes (XSecure_Sha384Digest envW Data).2 ∧
      rd (XCert_GenTBSCertificate envW buildW false bufW 2 slotCfgW.UserCfg appW).2.2.2.1
        (2 + 29) Data.length = Data :=
  let ⟨Data, _, _, _, h1, _, h2⟩ :=
    genTBSCertificate_serial_digest envW buildW false bufW 2 slotCfgW.UserCfg appW
      (by decide!) (by decide!) (by decide!)
  ⟨Data, h1, h2⟩

/-! ## The extension builders -/

/-- C23: for every application configuration `XCert_GenKeyUsageField` succeeds and writes
16 bytes: the SEQUENCE header `30 0E`, the OID `06 03 55 1D 0F`, the critical flag
`01 01 FF` (BOOLEAN TRUE), and the OCTET STRING `04 04` around the BIT STRING `03 02 00 v`
with one value byte `v`. `v` is `04`, bit 5 (keyCertSign) alone counted from the most
significant bit, when `IsSelfSigned` is `TRUE`, and `88`, bits 0 (digitalSignature) and 4
(keyAgreement), otherwise. The two-byte value that `XCert_UpdateKeyUsageVal` builds is
`v 00` in both cases, and its second byte is not written. -/
theorem genKeyUsageField_spec (b : List Nat) (p : Nat) (A : XCert_AppCfg) :
    XCert_GenKeyUsageField b p A =
      (XST_SUCCESS,
        wrBytes b p ([0x30, 0x0E] ++ [0x06, 0x03, 0x55, 0x1D, 0x0F] ++ [0x01, 0x01, 0xFF] ++
          [0x04, 0x04] ++ [0x03, 0x02, 0x00, if A.IsSelfSigned = TRUE then 0x04 else 0x88]),
        16) ∧
    XCert_UpdateKeyUsageVal (List.replicate XCERT_MAX_LEN_OF_KEYUSAGE_VAL 0) XCERT_KEYCERTSIGN =
      [0x80 >>> 5, 0x00] ∧
    XCert_UpdateKeyUsageVal
      (XCert_UpdateKeyUsageVal (List.replicate XCERT_MAX_LEN_OF_KEYUSAGE_VAL 0)
        XCERT_DIGITALSIGNATURE) XCERT_KEYAGREEMENT = [0x80 >>> 0 ||| 0x80 >>> 4, 0x00] ∧
    (0x80 >>> 5 = 0x04 ∧ 0x80 >>> 0 ||| 0x80 >>> 4 = 0x88) :=
  ⟨genKeyUsageField_eq b p A, by decide, by decide, by decide⟩

/-- C24: when `XCert_GenX509v3ExtensionsField` returns `XST_SUCCESS` (the field within the
buffer), it has written `A3 81 n+3 30 81 n` followed by the `n` bytes of the content of
the Extensions SEQUENCE, and that content is, with `IsSelfSigned` equal to `TRUE`, the six
extensions SubjectKeyIdentifier, AuthorityKeyIdentifier, TcbInfo, UEID, KeyUsage and
ExtendedKeyUsage in this order, and otherwise the four extensions SubjectKeyIdentifier,
AuthorityKeyIdentifier, TcbInfo and KeyUsage in this order. Each extension is the byte
string that its own builder writes. -/
theorem genX509v3ExtensionsField_order (E : Env) (b : List Nat) (p : Nat) (A : XCert_AppCfg)
    (hb : p + 221 ≤ b.length)
    (hok : (XCert_GenX509v3ExtensionsField E b p A).1 = XST_SUCCESS) :
    ∃ ski aki tcb ueid ku eku content : List Nat,
      XCert_GenSubjectKeyIdentifierField E b p A.SubjectPublicKey =
        (XST_SUCCESS, [Event.Digest (fit 96 A.SubjectPublicKey)], wrBytes b p ski, ski.length) ∧
      XCert_GenAuthorityKeyIdentifierField E b p A.IssuerPublicKey =
        (XST_SUCCESS, [Event.Digest (fit 96 A.IssuerPublicKey)], wrBytes b p aki, aki.length) ∧
      XCert_GenTcbInfoExtnField b p A = (XST_SUCCESS, wrBytes b p tcb, tcb.length) ∧
      XCert_GenUeidExnField E b p = (XST_SUCCESS, wrBytes b p ueid, ueid.length) ∧
      XCert_GenKeyUsageField b p A = (XST_SUCCESS, wrBytes b p ku, ku.length) ∧
      XCert_GenExtKeyUsageField b p = (XST_SUCCESS, wrBytes b p eku, eku.length) ∧
      (A.IsSelfSigned = TRUE → content = ski ++ aki ++ tcb ++ ueid ++ ku ++ eku) ∧
      (A.IsSelfSigned ≠ TRUE → content = ski ++ aki ++ tcb ++ ku) ∧
      (XCert_GenX509v3ExtensionsField E b p A).2.2.1 =
        wrBytes b p (0xA3 :: 0x81 :: (content.length + 3) :: 0x30 :: 0x81 :: content.length ::
          content) ∧
      (XCert_GenX509v3ExtensionsField E b p A).2.2.2 = content.length + 6 := by
  obtain ⟨h1, h2⟩ := (genX509v3ExtensionsField_status E b p A).1 hok
  have hb2 : p + (if A.IsSelfSigned = TRUE then 221 else 165) ≤ b.length := by
    split <;> omega
  rw [genX509v3ExtensionsField_ok E b p A h1 h2 hb2]
  refine ⟨subjectKeyIdentifierBytes (XSecure_Sha384Digest E (fit 96 A.SubjectPublicKey)).2,
    authorityKeyIdentifierBytes (XSecure_Sha384Digest E (fit 96 A.IssuerPublicKey)).2,
    tcbInfoExtnBytes A.FwHash, ueidExnBytes (dnaBytes E), keyUsageBytes A.IsSelfSigned,
    extKeyUsageBytes,
    extensionListBytes E A (XSecure_Sha384Digest E (fit 96 A.SubjectPublicKey)).2
      (XSecure_Sha384Digest E (fit 96 A.IssuerPublicKey)).2, ?_, ?_, ?_, ?_, ?_, ?_, ?_, ?_,
    rfl, ?_⟩
  · rw [genSubjectKeyIdentifierField_ok E b p _ h1]
    simp [subjectKeyIdentifierBytes, fit_length]
  · rw [genAuthorityKeyIdentifierField_ok E b p _ h2]
    simp [authorityKeyIdentifierBytes, fit_length]
  · rw [genTcbInfoExtnField_eq]
    simp [tcbInfoExtnBytes, fit_length]
  · rw [genUeidExnField_eq]
    simp [ueidExnBytes, fit_length]
  · rw [genKeyUsageField_eq]
    simp [keyUsageBytes]
  · rw [genExtKeyUsageField_eq]
    simp [extKeyUsageBytes]
  · intro hs
    unfold extensionListBytes
    rw [if_pos hs, if_pos hs]
    simp only [List.append_assoc]
  · intro hs
    unfold extensionListBytes
    rw [if_neg hs, if_neg hs]
    simp only [List.append_assoc, List.nil_append, List.append_nil]
  · dsimp only
    unfold extensionsBytes
    simp only [List.length_cons]

theorem genX509v3ExtensionsField_order_witness :
    ∃ content : List Nat,
      (XCert_GenX509v3ExtensionsField envW bufW 10 appW).2.2.1 =
        wrBytes bufW 10 (0xA3 :: 0x81 :: (content.length + 3) :: 0x30 :: 0x81 ::
          content.length :: content) ∧
      (XCert_GenX509v3ExtensionsField envW bufW 10 appW).2.2.2 = content.length + 6 :=
  let ⟨_, _, _, _, _, _, content, _, _, _, _, _, _, _, _, h1, h2⟩ :=
    genX509v3ExtensionsField_order envW bufW 10 appW (by decide!) (by decide!)
  ⟨content, h1, h2⟩

/-- C25: for a subject public key `k` of 96 bytes whose SHA-384 digest the primitive
delivers, `XCert_GenSubjectKeyIdentifierField` succeeds after one digest call, over the 96
key bytes, and writes exactly 31 bytes: `30 1D 06 03 55 1D 0E 04 16 04 14` followed by the
first 20 bytes of the digest. After the OID comes the OCTET STRING of the value: there is
no BOOLEAN for a critical flag. -/
theorem genSubjectKeyIdentifierField_spec (E : Env) (b : List Nat) (p : Nat) (k : List Nat)
    (hk : k.length = XCERT_ECC_P384_PUBLIC_KEY_LEN)
    (hd : (XSecure_Sha384Digest E k).1 = XST_SUCCESS) :
    XCert_GenSubjectKeyIdentifierField E b p k =
      (XST_SUCCESS, [Event.Digest k],
        wrBytes b p ([0x30, 0x1D, 0x06, 0x03, 0x55, 0x1D, 0x0E, 0x04, 0x16, 0x04, 0x14] ++
          (XSecure_Sha384Digest E k).2.take 20), 31) ∧
    ([0x30, 0x1D, 0x06, 0x03, 0x55, 0x1D, 0x0E, 0x04, 0x16, 0x04, 0x14] ++
      (XSecure_Sha384Digest E k).2.take 20).length = 31 := by
  have hf : fit 96 k = k := fit_of_length 96 k hk
  have hl : (XSecure_Sha384Digest E k).2.length = 48 := fit_length _ _
  have ht : fit 20 (XSecure_Sha384Digest E k).2 = (XSecure_Sha384Digest E k).2.take 20 :=
    fit_eq_take 20 _ (by omega)
  have h := genSubjectKeyIdentifierField_ok E b p k (by rw [hf]; exact hd)
  rw [hf] at h
  unfold subjectKeyIdentifierBytes at h
  rw [ht] at h
  refine ⟨h, ?_⟩
  rw [List.length_append, List.length_take, hl]
  rfl

theorem genSubjectKeyIdentifierField_spec_witness :
    (XCert_GenSubjectKeyIdentifierField envW (List.replicate 40 0xEE) 3
      (List.replicate 96 7)).2.2.1 =
      [0xEE, 0xEE, 0xEE, 0x30, 0x1D, 0x06, 0x03, 0x55, 0x1D, 0x0E, 0x04, 0x16, 0x04, 0x14] ++
        (List.replicate 20 96 ++ List.replicate 6 0xEE) :=
  (congrArg (fun r => r.2.2.1)
    (genSubjectKeyIdentifierField_spec envW (List.replicate 40 0xEE) 3 (List.replicate 96 7)
      (List.length_replicate _ _) (by decide)).1).trans (by decide)

/-- C26: for an issuer public key `k` of 96 bytes whose SHA-384 digest the primitive
delivers, `XCert_GenAuthorityKeyIdentifierField` succeeds after one digest call, over the
96 key bytes, and writes exactly 33 bytes: `30 1F 06 03 55 1D 23 04 18 30 16 80 14`
followed by the first 20 bytes of the digest. The value of the extension is a SEQUENCE of
22 bytes that holds one element with the tag `80`, the `[0]` key identifier, and after the
OID comes the OCTET STRING of the value: there is no BOOLEAN for a critical flag. -/
theorem genAuthorityKeyIdentifierField_spec (E : Env) (b : List Nat) (p : Nat) (k : List Nat)
    (hk : k.length = XCERT_ECC_P384_PUBLIC_KEY_LEN)
    (hd : (XSecure_Sha384Digest E k).1 = XST_SUCCESS) :
    XCert_GenAuthorityKeyIdentifierField E b p k =
      (XST_SUCCESS, [Event.Digest k],
        wrBytes b p
          ([0x30, 0x1F, 0x06, 0x03, 0x55, 0x1D, 0x23, 0x04, 0x18, 0x30, 0x16, 0x80, 0x14] ++
            (XSecure_Sha384Digest E k).2.take 20), 33) ∧
    ([0x30, 0x1F, 0x06, 0x03, 0x55, 0x1D, 0x23, 0x04, 0x18, 0x30, 0x16, 0x80, 0x14] ++
      (XSecure_Sha384Digest E k).2.take 20).length = 33 ∧
    (0x80 :: 0x14 :: (XSecure_Sha384Digest E k).2.take 20).length = 0x16 := by
  have hf : fit 96 k = k := fit_of_length 96 k hk
  have hl : (XSecure_Sha384Digest E k).2.length = 48 := fit_length _ _
  have ht : fit 20 (XSecure_Sha384Digest E k).2 = (XSecure_Sha384Digest E k).2.take 20 :=
    fit_eq_take 20 _ (by omega)
  have h := genAuthorityKeyIdentifierField_ok E b p k (by rw [hf]; exact hd)
  rw [hf] at h
  unfold authorityKeyIdentifierBytes at h
  rw [ht] at h
  refine ⟨h, ?_, ?_⟩
  · rw [List.length_append, List.length_take, hl]
    rfl
  · simp only [List.length_cons, List.length_take, hl]
    rfl

theorem genAuthorityKeyIdentifierField_spec_witness :
    (XCert_GenAuthorityKeyIdentifierField envW (List.replicate 40 0xEE) 3
      (List.replicate 96 5)).2.2.1 =
      [0xEE, 0xEE, 0xEE, 0x30, 0x1F, 0x06, 0x03, 0x55, 0x1D, 0x23, 0x04, 0x18, 0x30, 0x16, 0x80,
        0x14] ++ (List.replicate 20 96 ++ List.replicate 4 0xEE) :=
  (congrArg (fun r => r.2.2.1)
    (genAuthorityKeyIdentifierField_spec envW (List.replicate 40 0xEE) 3 (List.replicate 96 5)
      (List.length_replicate _ _) (by decide)).1).trans (by decide)

/-- C27: for a firmware hash `fw` of 48 bytes `XCert_GenTcbInfoExtnField` succeeds and
writes exactly 79 bytes: `30 4D 06 06 67 81 05 05 04 01 04 43 30 41 A6 3F 30 3D 06 09 60
86 48 01 65 03 04 02 09 04 30` followed by the 48 bytes of `fw`. From the inside out: the
digest is the OCTET STRING `04 30 fw`; the FWID is the SEQUENCE of the SHA3-384 OID and
the digest; the `[6]` element (tag `A6`) holds that one FWID; the DiceTcbInfo SEQUENCE
holds the `[6]` element alone; the value of the extension is the OCTET STRING around it;
and the extension is the SEQUENCE of its OID and that value, with no BOOLEAN between them.
Every length byte is the number of the bytes of the content it stands before. -/
theorem genTcbInfoExtnField_spec (b : List Nat) (p : Nat) (A : XCert_AppCfg)
    (hfw : A.FwHash.length = XCERT_HASH_SIZE_IN_BYTES) :
    ∃ digest fwid fwids tcbInfo extnValue extn : List Nat,
      digest = 0x04 :: A.FwHash.length :: A.FwHash ∧
      fwid = 0x30 :: ([0x06, 0x09, 0x60, 0x86, 0x48, 0x01, 0x65, 0x03, 0x04, 0x02, 0x09] ++
        digest).length ::
        ([0x06, 0x09, 0x60, 0x86, 0x48, 0x01, 0x65, 0x03, 0x04, 0x02, 0x09] ++ digest) ∧
      fwids = 0xA6 :: fwid.length :: fwid ∧
      tcbInfo = 0x30 :: fwids.length :: fwids ∧
      extnValue = 0x04 :: tcbInfo.length :: tcbInfo ∧
      extn = 0x30 :: ([0x06, 0x06, 0x67, 0x81, 0x05, 0x05, 0x04, 0x01] ++ extnValue).length ::
        ([0x06, 0x06, 0x67, 0x81, 0x05, 0x05, 0x04, 0x01] ++ extnValue) ∧
      extn = [0x30, 0x4D, 0x06, 0x06, 0x67, 0x81, 0x05, 0x05, 0x04, 0x01, 0x04, 0x43, 0x30,
        0x41, 0xA6, 0x3F, 0x30, 0x3D, 0x06, 0x09, 0x60, 0x86, 0x48, 0x01, 0x65, 0x03, 0x04,
        0x02, 0x09, 0x04, 0x30] ++ A.FwHash ∧
      extn.length = 79 ∧
      XCert_GenTcbInfoExtnField b p A = (XST_SUCCESS, wrBytes b p extn, 79) := by
  have hf : fit 48 A.FwHash = A.FwHash := fit_of_length 48 _ hfw
  have hfw2 : A.FwHash.length = 48 := hfw
  have h := genTcbInfoExtnField_eq b p A
  unfold tcbInfoExtnBytes at h
  rw [hf] at h
  refine ⟨_, _, _, _, _, _, rfl, rfl, rfl, rfl, rfl, rfl, ?_, ?_, ?_⟩
  · simp only [List.length_cons, List.length_append, List.length_nil, hfw2,
      List.cons_append, List.nil_append]
  · simp only [List.length_cons, List.length_append, List.length_nil, hfw2]
  · rw [h]
    simp only [List.length_cons, List.length_append, List.length_nil, hfw2,
      List.cons_append, List.nil_append]

theorem genTcbInfoExtnField_spec_witness :
    ∃ extn : List Nat, extn.length = 79 ∧
      XCert_GenTcbInfoExtnField bufW 10 appW = (XST_SUCCESS, wrBytes bufW 10 extn, 79) :=
  let ⟨_, _, _, _, _, extn, _, _, _, _, _, _, _, h1, h2⟩ :=
    genTcbInfoExtnField_spec bufW 10 appW (List.length_replicate _ _)
  ⟨extn, h1, h2⟩

/-! ## Byte order around the signing primitive -/

theorem sign_trace_form (E : Env) (Z : Build) (st : CertStore) (t : List Event) (Id : Nat)
    (H Key : List Nat) :
    (XCert_GenerateX509Cert_sign E Z st t Id H Key).2.2.1 = t ∨
    (XCert_GenerateX509Cert_sign E Z st t Id H Key).2.2.1 =
      t ++ [Event.Sign (hashForSign H) Key] := by
  cases hf : findIdx Z st Id with
  | none =>
    rw [sign_notfound E Z st t Id H Key hf]
    exact Or.inl rfl
  | some Idx =>
    by_cases hc : (slot Z st Idx).SignStore.IsSignAvailable = XCERT_SIGN_AVAILABLE ∧
        fit 48 H = fit 48 (slot Z st Idx).SignStore.Hash
    · rw [sign_reuse E Z st t Id H Key Idx hf hc.1 hc.2]
      exact Or.inl rfl
    · by_cases hs : (XSecure_EllipticGenEphemeralNSign E (signCalls t) (hashForSign H) Key).1
          = XST_SUCCESS
      · rw [sign_fresh E Z st t Id H Key Idx hf hc hs]
        exact Or.inr rfl
      · rw [sign_sigfail E Z st t Id H Key Idx hf hc hs]
        exact Or.inr rfl

theorem no_sign_of_signCalls_zero (ev : List Event) (h : signCalls ev = 0) (H K : List Nat) :
    Event.Sign H K ∉ ev := by
  intro hm
  unfold signCalls at h
  rw [List.countP_eq_zero] at h
  exact absurd rfl (h _ hm)

theorem hashForSign_digest (E : Env) (Data : List Nat) :
    hashForSign (XSecure_Sha384Digest E Data).2 = (XSecure_Sha384Digest E Data).2.reverse := by
  unfold hashForSign
  rw [fit_of_length 48 _ (digest_length E Data)]

theorem signFromTmp_halves (T : List Nat) (h : T.length = 96) :
    signFromTmp T = (T.take 48).reverse ++ (T.drop 48).reverse := by
  unfold signFromTmp
  rw [fit_eq_take 48 T (by omega), fit_of_length 48 (T.drop 48) (by simp [h])]

theorem generate_sign_events (E : Env) (Z : Build) (m : Machine) (buf : List Nat)
    (Addr MaxCertSize Id : Nat) (A : XCert_AppCfg) :
    ∃ ev, (XCert_GenerateX509Cert E Z m buf Addr MaxCertSize Id A).M.Trace = m.Trace ++ ev ∧
      ∀ H K, Event.Sign H K ∈ ev →
        H = (XCert_GenerateX509Cert E Z m buf Addr MaxCertSize Id A).HashTmp.reverse ∧
        K = A.IssuerPrvtKey := by
  rcases generate_shape E Z m buf Addr MaxCertSize Id A _ rfl with
    ⟨ev, hq, -, ht, -⟩ | ⟨ev, Data, out, hq, hout, -, ht, hh, -, -⟩
  · refine ⟨ev, ht, ?_⟩
    intro H K hm
    exact absurd hm (no_sign_of_signCalls_zero ev (signCalls_quiet ev hq) H K)
  · rcases sign_trace_form E Z m.Store (m.Trace ++ ev) Id (XSecure_Sha384Digest E Data).2
      A.IssuerPrvtKey with hs | hs
    · rw [hs] at ht
      refine ⟨ev ++ out, by rw [ht, List.append_assoc], ?_⟩
      intro H K hm
      rcases List.mem_append.1 hm with h1 | h1
      · exact absurd h1 (no_sign_of_signCalls_zero ev (signCalls_quiet ev hq) H K)
      · exact absurd h1 (no_sign_of_signCalls_zero out hout H K)
    · rw [hs] at ht
      refine ⟨ev ++ ([Event.Sign (hashForSign (XSecure_Sha384Digest E Data).2)
        A.IssuerPrvtKey] ++ out), by rw [ht]; simp only [List.append_assoc], ?_⟩
      intro H K hm
      rcases List.mem_append.1 hm with h1 | h1
      · exact absurd h1 (no_sign_of_signCalls_zero ev (signCalls_quiet ev hq) H K)
      rcases List.mem_append.1 h1 with h2 | h2
      · rw [List.mem_singleton] at h2
        injection h2 with e1 e2
        rw [hh, e1, e2, hashForSign_digest]
        exact ⟨rfl, rfl⟩
      · exact absurd h2 (no_sign_of_signCalls_zero out hout H K)
/-- C28: for every call of `XCert_GenerateX509Cert`, each run of the signing primitive that
the call adds to the trace receives the byte reversal of the local array `HashTmp` and the
issuer private key. And when the call returns `XST_SUCCESS` after a signing run (a
well-formed store, a local array of 1024 bytes that holds the certificate): `HashTmp` is
the 48-byte SHA-384 digest of the TBS certificate `tbs`, from its tag to its last
extension byte; there is exactly one signing run; the signature `Sign` that goes into the
certificate is the reversal of the first 48 bytes of the output `SignTmp` of the primitive
followed by the reversal of its second 48 bytes, each half reversed on its own; the slot
of the subsystem then holds `HashTmp`, not reversed, as `Hash`, `Sign` as `Sign`, and the
valid flag; and the bytes sent are the certificate around `tbs` and `Sign`. -/
theorem generate_endianness (E : Env) (Z : Build) (m : Machine) (X509CertBuf : List Nat)
    (X509CertAddr MaxCertSize SubSystemId : Nat) (A : XCert_AppCfg) :
    (∃ ev, (XCert_GenerateX509Cert E Z m X509CertBuf X509CertAddr MaxCertSize SubSystemId
        A).M.Trace = m.Trace ++ ev ∧
      ∀ H K, Event.Sign H K ∈ ev →
        H = (XCert_GenerateX509Cert E Z m X509CertBuf X509CertAddr MaxCertSize SubSystemId
          A).HashTmp.reverse ∧ K = A.IssuerPrvtKey) ∧
    (∀ Idx, m.Store.WF Z → findIdx Z m.Store SubSystemId = some Idx →
      X509CertBuf.length = 1024 →
      (slot Z m.Store Idx).UserCfg.IssuerLen + (slot Z m.Store Idx).UserCfg.ValidityLen +
        (slot Z m.Store Idx).UserCfg.SubjectLen + 508 ≤ 1024 →
      (XCert_GenerateX509Cert E Z m X509CertBuf X509CertAddr MaxCertSize SubSystemId
        A).Ret = XST_SUCCESS →
      signCalls (XCert_GenerateX509Cert E Z m X509CertBuf X509CertAddr MaxCertSize SubSystemId
        A).M.Trace ≠ signCalls m.Trace →
      ∃ tbs HashTmp SignTmp Sign : List Nat,
        tbs = tbsBytes
          (tbsBodyBytes E (slot Z m.Store Idx).UserCfg A
            (XSecure_Sha384Digest E (fit 96 A.SubjectPublicKey)).2
            (XSecure_Sha384Digest E (fit 96 A.IssuerPublicKey)).2)
          (XSecure_Sha384Digest E
            (tbsBodyBytes E (slot Z m.Store Idx).UserCfg A
              (XSecure_Sha384Digest E (fit 96 A.SubjectPublicKey)).2
              (XSecure_Sha384Digest E (fit 96 A.IssuerPublicKey)).2)).2 ∧
        HashTmp = (XSecure_Sha384Digest E tbs).2 ∧ HashTmp.length = 48 ∧
        (XCert_GenerateX509Cert E Z m X509CertBuf X509CertAddr MaxCertSize SubSystemId
          A).HashTmp = HashTmp ∧
        signCalls (XCert_GenerateX509Cert E Z m X509CertBuf X509CertAddr MaxCertSize
          SubSystemId A).M.Trace = signCalls m.Trace + 1 ∧
        SignTmp = (XSecure_EllipticGenEphemeralNSign E (signCalls m.Trace) HashTmp.reverse
          A.IssuerPrvtKey).2 ∧
        Sign = (SignTmp.take 48).reverse ++ (SignTmp.drop 48).reverse ∧
        (XCert_GenerateX509Cert E Z m X509CertBuf X509CertAddr MaxCertSize SubSystemId
          A).Sign = Sign ∧
        (slot Z (XCert_GenerateX509Cert E Z m X509CertBuf X509CertAddr MaxCertSize SubSystemId
          A).M.Store Idx).SignStore =
          { Hash := HashTmp, Sign := Sign, IsSignAvailable := XCERT_SIGN_AVAILABLE } ∧
        outBytes (XCert_GenerateX509Cert E Z m X509CertBuf X509CertAddr MaxCertSize SubSystemId
          A).M.Trace = outBytes m.Trace ++ certOut X509CertAddr (certBytes tbs Sign)) := by
  refine ⟨generate_sign_events E Z m X509CertBuf X509CertAddr MaxCertSize SubSystemId A, ?_⟩
  intro Idx hwf hIdx hb hfit hok hsign
  obtain ⟨-, hout, hH, -⟩ := generate_bytes E Z m X509CertBuf X509CertAddr MaxCertSize
    SubSystemId A Idx _ _ hIdx rfl rfl hb hfit hok
  have hlt : Idx < m.Store.NumOfEntriesInUserCfgDB :=
    ((findIdx_some_iff Z m.Store SubSystemId Idx).1 hIdx).1
  obtain ⟨hin, hHl, hSl⟩ := wf_slot Z m.Store Idx hwf hlt
  obtain ⟨hss, -, -⟩ := generate_signstore_after E Z m X509CertBuf X509CertAddr MaxCertSize
    SubSystemId A Idx hIdx hin hHl hSl hok
  rcases generate_outcome E Z m X509CertBuf X509CertAddr MaxCertSize SubSystemId A _ rfl with
    ⟨-, hne, -⟩ | ⟨Idx2, hf, hcase⟩
  · exact absurd hok hne
  have hi : Idx2 = Idx := Option.some.inj (hf.symm.trans hIdx)
  subst hi
  generalize XCert_GenerateX509Cert E Z m X509CertBuf X509CertAddr MaxCertSize SubSystemId A
    = r at *
  rcases hcase with ⟨-, -, hsc, -⟩ | ⟨-, -, -, hne, -⟩ | ⟨-, -, -, hsc, hsg⟩
  · exact absurd hsc hsign
  · exact absurd hok hne
  rw [hH, hashForSign_digest] at hsg
  have hTl : (XSecure_EllipticGenEphemeralNSign E (signCalls m.Trace)
      (XSecure_Sha384Digest E (tbsBytes
        (tbsBodyBytes E (slot Z m.Store Idx2).UserCfg A
          (XSecure_Sha384Digest E (fit 96 A.SubjectPublicKey)).2
          (XSecure_Sha384Digest E (fit 96 A.IssuerPublicKey)).2)
        (XSecure_Sha384Digest E
          (tbsBodyBytes E (slot Z m.Store Idx2).UserCfg A
            (XSecure_Sha384Digest E (fit 96 A.SubjectPublicKey)).2
            (XSecure_Sha384Digest E (fit 96 A.IssuerPublicKey)).2)).2)).2.reverse
      A.IssuerPrvtKey).2.length = 96 := fit_length _ _
  rw [signFromTmp_halves _ hTl] at hsg
  refine ⟨_, _, _, _, rfl, rfl, digest_length E _, hH, hsc, rfl, rfl, hsg, ?_, ?_⟩
  · rw [hss, hH, hsg]
  · rw [hout, hsg]
theorem generate_endianness_witness :
    ∃ tbs HashTmp SignTmp Sign : List Nat,
      HashTmp = (XSecure_Sha384Digest envW tbs).2 ∧
      SignTmp = (XSecure_EllipticGenEphemeralNSign envW (signCalls machineW.Trace)
        HashTmp.reverse appW.IssuerPrvtKey).2 ∧
      Sign = (SignTmp.take 48).reverse ++ (SignTmp.drop 48).reverse ∧
      (slot buildW (XCert_GenerateX509Cert envW buildW machineW bufW 4096 1024 7
        appW).M.Store 1).SignStore =
        { Hash := HashTmp, Sign := Sign, IsSignAvailable := XCERT_SIGN_AVAILABLE } :=
  let ⟨tbs, HashTmp, SignTmp, Sign, _, h1, _, _, _, h2, h3, _, h4, _⟩ :=
    (generate_endianness envW buildW machineW bufW 4096 1024 7 appW).2 1
      (by unfold CertStore.WF; decide) (by decide) (List.length_replicate _ _) (by decide)
      (by decide!) (by decide!)
  ⟨tbs, HashTmp, SignTmp, Sign, h1, h2, h3, h4⟩

/-! ## The place of the KAT among the digest calls -/

/-- C29: the order of the calls of external primitives in a successful call of
`XCert_GenerateX509Cert` that starts with no SHA-384 KAT recorded (a local array of 1024
bytes that holds the certificate). The trace of the call begins with the digest of the
subject public key and the digest of the issuer public key, taken by the two
key-identifier builders; the KAT comes third, and only the digest of the fields behind
the serial position and the digest of the TBS certificate follow it. Two runs of the
digest primitive thus precede the KAT. -/
theorem generate_kat_after_digests (E : Env) (Z : Build) (m : Machine) (X509CertBuf : List Nat)
    (X509CertAddr MaxCertSize SubSystemId : Nat) (A : XCert_AppCfg) (Idx : Nat)
    (hIdx : findIdx Z m.Store SubSystemId = some Idx)
    (hb : X509CertBuf.length = 1024)
    (hfit : (slot Z m.Store Idx).UserCfg.IssuerLen + (slot Z m.Store Idx).UserCfg.ValidityLen +
      (slot Z m.Store Idx).UserCfg.SubjectLen + 508 ≤ 1024)
    (hkat : m.KatRan = false)
    (hok : (XCert_GenerateX509Cert E Z m X509CertBuf X509CertAddr MaxCertSize SubSystemId
      A).Ret = XST_SUCCESS) :
    ∃ body tbs : List Nat, ∃ rest : List Event,
      (XCert_GenerateX509Cert E Z m X509CertBuf X509CertAddr MaxCertSize SubSystemId
        A).M.Trace =
        m.Trace ++ [Event.Digest (fit 96 A.SubjectPublicKey),
          Event.Digest (fit 96 A.IssuerPublicKey), Event.Kat, Event.Digest body,
          Event.Digest tbs] ++ rest ∧
      digestCalls rest = 0 ∧
      (XCert_GenerateX509Cert E Z m X509CertBuf X509CertAddr MaxCertSize SubSystemId
        A).M.KatRan = true := by
  have hc1 : (XCert_GetUserCfg Z m.Store SubSystemId).1 = XST_SUCCESS := by
    by_contra h
    exact generate_cfg_fail E Z m X509CertBuf X509CertAddr MaxCertSize SubSystemId A h hok
  obtain ⟨Idx2, hcfg, hf2⟩ := getUserCfg_some Z m.Store SubSystemId hc1
  have hi : Idx2 = Idx := Option.some.inj (hf2.symm.trans hIdx)
  subst hi
  obtain ⟨body, hbody⟩ : ∃ body, body = tbsBodyBytes E (slot Z m.Store Idx2).UserCfg A
      (XSecure_Sha384Digest E (fit 96 A.SubjectPublicKey)).2
      (XSecure_Sha384Digest E (fit 96 A.IssuerPublicKey)).2 := ⟨_, rfl⟩
  obtain ⟨tbs, htbs⟩ : ∃ tbs, tbs = tbsBytes body (XSecure_Sha384Digest E body).2 := ⟨_, rfl⟩
  have hbl : body.length ≤ (slot Z m.Store Idx2).UserCfg.IssuerLen +
      (slot Z m.Store Idx2).UserCfg.ValidityLen + (slot Z m.Store Idx2).UserCfg.SubjectLen +
      354 := by
    rw [hbody, tbsBodyBytes_length]
    split <;> omega
  obtain ⟨hx, h1, h2, hk, hd, hdt, hqs⟩ := generate_success E Z m X509CertBuf X509CertAddr
    MaxCertSize SubSystemId A Idx2 body tbs hcfg hbody htbs (by omega) (by omega) hok
  obtain ⟨q1, hq1⟩ : ∃ q1, q1 = XCert_GenerateX509Cert_sign E Z m.Store
      (m.Trace ++
        ([Event.Digest (fit 96 A.SubjectPublicKey), Event.Digest (fit 96 A.IssuerPublicKey)] ++
          ((if m.KatRan = true then [] else [Event.Kat]) ++ [Event.Digest body])) ++
        [Event.Digest tbs])
      SubSystemId (XSecure_Sha384Digest E tbs).2 A.IssuerPrvtKey := ⟨_, rfl⟩
  rw [← hq1] at hqs
  have e1 := generate_ok E Z m X509CertBuf X509CertAddr MaxCertSize SubSystemId A Idx2 body tbs
    q1 hcfg hbody htbs hx h1 h2 hk hd hdt hq1 hqs (by omega) (by omega)
  rw [e1]
  dsimp only
  have hform := sign_trace_form E Z m.Store
    (m.Trace ++
      ([Event.Digest (fit 96 A.SubjectPublicKey), Event.Digest (fit 96 A.IssuerPublicKey)] ++
        ((if m.KatRan = true then [] else [Event.Kat]) ++ [Event.Digest body])) ++
      [Event.Digest tbs])
    SubSystemId (XSecure_Sha384Digest E tbs).2 A.IssuerPrvtKey
  rw [← hq1] at hform
  have hg : ∀ (n : Nat) (s : List Nat) (a : Nat), digestCalls (XCert_GetData n s a) = 0 := by
    intro n s a
    unfold digestCalls XCert_GetData
    rw [List.countP_eq_zero]
    intro e he
    obtain ⟨i, -, rfl⟩ := List.mem_map.1 he
    simp
  have hne : (if m.KatRan = true then [] else [Event.Kat]) = [Event.Kat] := by
    rw [hkat]
    rfl
  rw [hne] at hform
  have hG0 := hg (certBytes tbs q1.2.2.2).length
    (wrBytes X509CertBuf 0 (certBytes tbs q1.2.2.2)) X509CertAddr
  generalize XCert_GetData (certBytes tbs q1.2.2.2).length
    (wrBytes X509CertBuf 0 (certBytes tbs q1.2.2.2)) X509CertAddr = G at hG0 ⊢
  rcases hform with hs | hs
  · refine ⟨body, tbs, G, ?_, hG0, rfl⟩
    rw [hs]
    simp only [List.append_assoc, List.cons_append, List.nil_append]
  · refine ⟨body, tbs, [Event.Sign (hashForSign (XSecure_Sha384Digest E tbs).2)
      A.IssuerPrvtKey] ++ G, ?_, ?_, rfl⟩
    · rw [hs]
      simp only [List.append_assoc, List.cons_append, List.nil_append]
    · unfold digestCalls at hG0 ⊢
      rw [List.countP_append, hG0]
      rfl

theorem generate_kat_after_digests_witness :
    ∃ rest : List Event,
      (XCert_GenerateX509Cert envW buildW machineW bufW 4096 1024 7 appW).M.Trace =
        [Event.Digest (List.replicate 96 7), Event.Digest (List.replicate 96 5), Event.Kat] ++
          rest :=
  let ⟨body, tbs, rest, h, _, _⟩ :=
    generate_kat_after_digests envW buildW machineW bufW 4096 1024 7 appW 1 (by decide)
      (List.length_replicate _ _) (by decide) rfl (by decide!)
  ⟨[Event.Digest body, Event.Digest tbs] ++ rest, h.trans (by simp [machineW, appW, fit])⟩

/-! ## A build without ECDSA support -/

theorem genTBSCertificate_excluded (E : Env) (Z : Build) (KatRan : Bool) (b : List Nat)
    (p : Nat) (U : XCert_UserCfg) (A : XCert_AppCfg) (hx : Z.PLM_ECDSA_EXCLUDE = true) :
    XCert_GenTBSCertificate E Z KatRan b p U A =
      (XOCP_ECDSA_NOT_ENABLED_ERR, KatRan, [],
        wrBytes b p (0x30 :: b.getD (p + 1) 0 ::
          (versionBytes ++ (signAlgoBytes ++ (fit U.IssuerLen U.Issuer ++
            (fit U.ValidityLen U.Validity ++ fit U.SubjectLen U.Subject))))), 0) := by
  unfold XCert_GenTBSCertificate
  conv => zeta
  rw [genVersionField_eq]
  dsimp only
  rw [genSignAlgoField_eq]
  dsimp only
  unfold XCert_GenIssuerField XCert_GenValidityField XCert_GenSubjectField
  rw [createRawDataFromByteArray_eq]
  dsimp only
  rw [createRawDataFromByteArray_eq]
  dsimp only
  rw [createRawDataFromByteArray_eq]
  dsimp only
  rw [hx]
  simp only [ne_eq, not_true_eq_false, if_false, if_true]
  have hc := wrBytes_chain b p XCERT_ASN1_TAG_SEQUENCE versionBytes signAlgoBytes
    (fit U.IssuerLen U.Issuer) (fit U.ValidityLen U.Validity) (fit U.SubjectLen U.Subject)
    [] [] 3 14 U.IssuerLen U.ValidityLen U.SubjectLen 0 rfl rfl (fit_length _ _) (fit_length _ _)
    (fit_length _ _) rfl
  rw [wrBytes_empty, wrBytes_empty] at hc
  simp only [List.append_nil] at hc
  rw [hc]
  rfl
/-- C30: in a build that defines `PLM_ECDSA_EXCLUDE`, for every subsystem whose user
configuration `XCert_GetUserCfg` accepts and every application configuration,
`XCert_GenerateX509Cert` returns `XOCP_ECDSA_NOT_ENABLED_ERR` and leaves the machine as it
was: the trace gains no call of the digest primitive, of the KAT or of the signing
primitive and no write to the destination, the store is unchanged, and `*X509CertSize` is
not written. The status comes from `XCert_GenTBSCertificate`, which in such a build
returns it right after the Subject field, for every buffer and configuration: the buffer
then holds the SEQUENCE tag, the Version, the signature algorithm and the three stored
fields, and neither a public key info nor an Extensions field. -/
theorem generate_ecdsa_excluded (E : Env) (Z : Build) (m : Machine) (X509CertBuf : List Nat)
    (X509CertAddr MaxCertSize SubSystemId : Nat) (A : XCert_AppCfg)
    (hx : Z.PLM_ECDSA_EXCLUDE = true)
    (hcfg : (XCert_GetUserCfg Z m.Store SubSystemId).1 = XST_SUCCESS) :
    (XCert_GenerateX509Cert E Z m X509CertBuf X509CertAddr MaxCertSize SubSystemId A).Ret =
      XOCP_ECDSA_NOT_ENABLED_ERR ∧
    (XCert_GenerateX509Cert E Z m X509CertBuf X509CertAddr MaxCertSize SubSystemId A).M = m ∧
    (XCert_GenerateX509Cert E Z m X509CertBuf X509CertAddr MaxCertSize SubSystemId
      A).X509CertSize = none ∧
    ∀ (KatRan : Bool) (b : List Nat) (p : Nat) (U : XCert_UserCfg),
      XCert_GenTBSCertificate E Z KatRan b p U A =
        (XOCP_ECDSA_NOT_ENABLED_ERR, KatRan, [],
          wrBytes b p (0x30 :: b.getD (p + 1) 0 ::
            ([0x02, 0x01, 0x02] ++ (signAlgoBytes ++ (fit U.IssuerLen U.Issuer ++
              (fit U.ValidityLen U.Validity ++ fit U.SubjectLen U.Subject))))), 0) := by
  obtain ⟨Idx, hc, -⟩ := getUserCfg_some Z m.Store SubSystemId hcfg
  have hr : XCert_GenerateX509Cert E Z m X509CertBuf X509CertAddr MaxCertSize SubSystemId A =
      { Ret := XOCP_ECDSA_NOT_ENABLED_ERR
        M := { Store := m.Store, KatRan := m.KatRan, Trace := m.Trace ++ [] }
        X509CertSize := none
        HashTmp := List.replicate XCERT_HASH_SIZE_IN_BYTES 0
        Sign := List.replicate (XSECURE_ECC_P384_SIZE_IN_BYTES * 2) 0 } := by
    unfold XCert_GenerateX509Cert
    conv => zeta
    rw [hc]
    dsimp only
    rw [genTBSCertificate_excluded E Z m.KatRan _ _ _ A hx]
    dsimp only
    rw [if_pos (fun h => Status.noConfusion h), if_neg (fun h => h rfl)]
  rw [hr]
  refine ⟨rfl, ?_, rfl, fun KatRan b p U => genTBSCertificate_excluded E Z KatRan b p U A hx⟩
  dsimp only
  rw [List.append_nil]

theorem generate_ecdsa_excluded_witness :
    (XCert_GenerateX509Cert envW buildNoEcdsaW machineW bufW 4096 1024 7 appW).Ret =
      XOCP_ECDSA_NOT_ENABLED_ERR ∧
    (XCert_GenerateX509Cert envW buildNoEcdsaW machineW bufW 4096 1024 7 appW).M = machineW :=
  let ⟨h1, h2, _, _⟩ :=
    generate_ecdsa_excluded envW buildNoEcdsaW machineW bufW 4096 1024 7 appW rfl (by decide)
  ⟨h1, h2⟩

/-! ## The OID constants -/

/-- C34: each of the 11 OID constants is a hexadecimal string of even length whose bytes
are the tag `06`, a length byte equal to the number of the bytes after it, and the
standard base-128 encoding (`oidBytes`) of the identifier that the name of the constant
states. -/
theorem oid_constants :
    (hexBytes XCERT_OID_SIGN_ALGO.data = some (oidBytes [1, 2, 840, 10045, 4, 3, 3]) ∧
      XCERT_OID_SIGN_ALGO.length % 2 = 0) ∧
    (hexBytes XCERT_OID_EC_PUBLIC_KEY.data = some (oidBytes [1, 2, 840, 10045, 2, 1]) ∧
      XCERT_OID_EC_PUBLIC_KEY.length % 2 = 0) ∧
    (hexBytes XCERT_OID_P384.data = some (oidBytes [1, 3, 132, 0, 34]) ∧
      XCERT_OID_P384.length % 2 = 0) ∧
    (hexBytes XCERT_OID_SUB_KEY_IDENTIFIER.data = some (oidBytes [2, 5, 29, 14]) ∧
      XCERT_OID_SUB_KEY_IDENTIFIER.length % 2 = 0) ∧
    (hexBytes XCERT_OID_AUTH_KEY_IDENTIFIER.data = some (oidBytes [2, 5, 29, 35]) ∧
      XCERT_OID_AUTH_KEY_IDENTIFIER.length % 2 = 0) ∧
    (hexBytes XCERT_OID_TCB_INFO_EXTN.data = some (oidBytes [2, 23, 133, 5, 4, 1]) ∧
      XCERT_OID_TCB_INFO_EXTN.length % 2 = 0) ∧
    (hexBytes XCERT_OID_UEID_EXTN.data = some (oidBytes [2, 23, 133, 5, 4, 4]) ∧
      XCERT_OID_UEID_EXTN.length % 2 = 0) ∧
    (hexBytes XCERT_OID_KEY_USAGE_EXTN.data = some (oidBytes [2, 5, 29, 15]) ∧
      XCERT_OID_KEY_USAGE_EXTN.length % 2 = 0) ∧
    (hexBytes XCERT_OID_EKU_EXTN.data = some (oidBytes [2, 5, 29, 37]) ∧
      XCERT_OID_EKU_EXTN.length % 2 = 0) ∧
    (hexBytes XCERT_OID_EKU_CLIENT_AUTH.data = some (oidBytes [1, 3, 6, 1, 5, 5, 7, 3, 2]) ∧
      XCERT_OID_EKU_CLIENT_AUTH.length % 2 = 0) ∧
    (hexBytes XCERT_OID_SHA3_384.data = some (oidBytes [2, 16, 840, 1, 101, 3, 4, 2, 9]) ∧
      XCERT_OID_SHA3_384.length % 2 = 0) := by
  refine ⟨⟨?_, ?_⟩, ⟨?_, ?_⟩, ⟨?_, ?_⟩, ⟨?_, ?_⟩, ⟨?_, ?_⟩, ⟨?_, ?_⟩, ⟨?_, ?_⟩, ⟨?_, ?_⟩,
    ⟨?_, ?_⟩, ⟨?_, ?_⟩, ⟨?_, ?_⟩⟩ <;> decide

/-! ## The destination capacity -/

set_option maxRecDepth 100000 in
/-- C35: `MaxCertSize` is not used. Two calls of `XCert_GenerateX509Cert` that differ only
in `MaxCertSize` give the same status, the same machine state, hence the same bytes sent to
the destination, and the same `*X509CertSize`. In the worked example, with `MaxCertSize`
equal to 0, the call returns `XST_SUCCESS`, sets `*X509CertSize` to 515 and sends 515
bytes. -/
theorem generate_ignores_maxCertSize :
    (∀ (E : Env) (Z : Build) (m : Machine) (X509CertBuf : List Nat)
      (X509CertAddr MaxCertSize1 MaxCertSize2 SubSystemId : Nat) (A : XCert_AppCfg),
      XCert_GenerateX509Cert E Z m X509CertBuf X509CertAddr MaxCertSize1 SubSystemId A =
        XCert_GenerateX509Cert E Z m X509CertBuf X509CertAddr MaxCertSize2 SubSystemId A) ∧
    (XCert_GenerateX509Cert envW buildW machineW bufW 4096 0 7 appW).Ret = XST_SUCCESS ∧
    (XCert_GenerateX509Cert envW buildW machineW bufW 4096 0 7 appW).X509CertSize = some 515 ∧
    (outBytes (XCert_GenerateX509Cert envW buildW machineW bufW 4096 0 7 appW).M.Trace).length
      = 515 :=
  ⟨fun _ _ _ _ _ _ _ _ _ => rfl, by decide!, by decide!, by decide!⟩

/-! ## The bits of the Key Usage value -/

theorem keyUsage_mask_lt (k : Nat) : 0x80 >>> (k % 8) < 2 ^ 8 := by
  have h : k % 8 < 8 := Nat.mod_lt _ (by decide)
  interval_cases (k % 8) <;> decide

theorem keyUsage_mask_pow (k : Nat) : 0x80 >>> (k % 8) = 2 ^ (7 - k % 8) := by
  have h : k % 8 < 8 := Nat.mod_lt _ (by decide)
  interval_cases (k % 8) <;> decide

theorem updateKeyUsageVal_form (k a0 a1 : Nat) (hk : k ≤ 8) (h0 : a0 < 256) (h1 : a1 < 256) :
    XCert_UpdateKeyUsageVal [a0, a1] k =
      if k < 8 then [a0 ||| (0x80 >>> (k % 8)), a1] else [a0, a1 ||| (0x80 >>> (k % 8))] := by
  have m0 : ∀ m, m < 256 → a0 ||| m < 256 := fun m hm =>
    Nat.or_lt_two_pow (n := 8) h0 hm
  have m1 : ∀ m, m < 256 → a1 ||| m < 256 := fun m hm =>
    Nat.or_lt_two_pow (n := 8) h1 hm
  interval_cases k <;>
    simp [XCert_UpdateKeyUsageVal, XCERT_LEN_OF_BYTE_IN_BITS] <;>
    first
      | (apply m0; decide)
      | (apply m1; decide)

/-- C33: for every key-usage option `k` from 0 to 8 and every array of two bytes,
`XCert_UpdateKeyUsageVal` replaces the byte `k / 8` by its OR with the mask
`0x80 >> (k mod 8)`, which is bit `7 - k mod 8` of the byte, that is bit `k` counted from
the most significant bit of the first byte; every bit of the two bytes other than this one
keeps its value. A second update with the same option changes nothing, and updates with
two options give the same array in either order. -/
theorem updateKeyUsageVal_spec (k a0 a1 : Nat) (hk : k ≤ 8) (h0 : a0 < 256) (h1 : a1 < 256) :
    XCert_UpdateKeyUsageVal [a0, a1] k =
      [a0, a1].set (k / 8) ([a0, a1].getD (k / 8) 0 ||| (0x80 >>> (k % 8))) ∧
    (∀ i j, ((XCert_UpdateKeyUsageVal [a0, a1] k).getD i 0).testBit j =
      (([a0, a1].getD i 0).testBit j || decide (i = k / 8 ∧ j = 7 - k % 8))) ∧
    XCert_UpdateKeyUsageVal (XCert_UpdateKeyUsageVal [a0, a1] k) k =
      XCert_UpdateKeyUsageVal [a0, a1] k ∧
    (∀ k2, k2 ≤ 8 →
      XCert_UpdateKeyUsageVal (XCert_UpdateKeyUsageVal [a0, a1] k) k2 =
        XCert_UpdateKeyUsageVal (XCert_UpdateKeyUsageVal [a0, a1] k2) k) := by
  have hm := keyUsage_mask_lt k
  have hf := updateKeyUsageVal_form k a0 a1 hk h0 h1
  have hb0 : ∀ n, a0 ||| (0x80 >>> (n % 8)) < 256 := fun n =>
    Nat.or_lt_two_pow (n := 8) h0 (keyUsage_mask_lt n)
  have hb1 : ∀ n, a1 ||| (0x80 >>> (n % 8)) < 256 := fun n =>
    Nat.or_lt_two_pow (n := 8) h1 (keyUsage_mask_lt n)
  refine ⟨?_, ?_, ?_, ?_⟩
  · rw [hf]
    by_cases h8 : k < 8
    · rw [if_pos h8, show k / 8 = 0 by omega]
      rfl
    · rw [if_neg h8, show k / 8 = 1 by omega]
      rfl
  · intro i j
    rw [hf]
    by_cases h8 : k < 8
    · rw [if_pos h8, show k / 8 = 0 by omega]
      rcases i with _ | _ | i
      · simp [Nat.testBit_or, keyUsage_mask_pow, Nat.testBit_two_pow, eq_comm]
      · simp
      · simp
    · rw [if_neg h8, show k / 8 = 1 by omega]
      rcases i with _ | _ | i
      · simp
      · simp [Nat.testBit_or, keyUsage_mask_pow, Nat.testBit_two_pow, eq_comm]
      · simp
  · rw [hf]
    by_cases h8 : k < 8
    · rw [if_pos h8, updateKeyUsageVal_form k _ a1 hk (hb0 k) h1, if_pos h8, Nat.lor_assoc,
        Nat.or_self]
    · rw [if_neg h8, updateKeyUsageVal_form k a0 _ hk h0 (hb1 k), if_neg h8, Nat.lor_assoc,
        Nat.or_self]
  · intro k2 hk2
    rw [hf, updateKeyUsageVal_form k2 a0 a1 hk2 h0 h1]
    by_cases h8 : k < 8 <;> by_cases h82 : k2 < 8
    · rw [if_pos h8, if_pos h82, updateKeyUsageVal_form k2 _ a1 hk2 (hb0 k) h1, if_pos h82,
        updateKeyUsageVal_form k _ a1 hk (hb0 k2) h1, if_pos h8, Nat.lor_assoc, Nat.lor_assoc,
        Nat.lor_comm (0x80 >>> (k % 8))]
    · rw [if_pos h8, if_neg h82, updateKeyUsageVal_form k2 _ a1 hk2 (hb0 k) h1, if_neg h82,
        updateKeyUsageVal_form k a0 _ hk h0 (hb1 k2), if_pos h8]
    · rw [if_neg h8, if_pos h82, updateKeyUsageVal_form k2 a0 _ hk2 h0 (hb1 k), if_pos h82,
        updateKeyUsageVal_form k _ a1 hk (hb0 k2) h1, if_neg h8]
    · rw [if_neg h8, if_neg h82, updateKeyUsageVal_form k2 a0 _ hk2 h0 (hb1 k), if_neg h82,
        updateKeyUsageVal_form k a0 _ hk h0 (hb1 k2), if_neg h8, Nat.lor_assoc, Nat.lor_assoc,
        Nat.lor_comm (0x80 >>> (k % 8))]

theorem updateKeyUsageVal_spec_witness :
    XCert_UpdateKeyUsageVal [0x01, 0x00] 5 = [0x05, 0x00] ∧
    XCert_UpdateKeyUsageVal [0x01, 0x00] 8 = [0x01, 0x80] :=
  ⟨(updateKeyUsageVal_spec 5 0x01 0x00 (by decide) (by decide) (by decide)).1.trans (by decide),
    (updateKeyUsageVal_spec 8 0x01 0x00 (by decide) (by decide) (by decide)).1.trans
      (by decide)⟩

/-! ## INTEGER fields are never negative -/

theorem beNat_cons_zero (w : List Nat) : beNat (0 :: w) = beNat w := by
  unfold beNat
  rfl

theorem integerBytes_content (v : List Nat) (n : Nat) (hn : 0 < n) (hlen : n < 127)
    (hv : ∀ x ∈ fit n v, x < 256) :
    integerBytes v n =
      0x02 :: (if 0x80 ≤ (fit n v).getD 0 0 then 0x00 :: fit n v else fit n v).length ::
        (if 0x80 ≤ (fit n v).getD 0 0 then 0x00 :: fit n v else fit n v) := by
  have hx : v.getD 0 0 < 256 := by
    rw [← getD_zero_fit n v hn]
    cases hf : fit n v with
    | nil =>
      have := fit_length n v
      rw [hf] at this
      simp at this
      omega
    | cons y ys =>
      rw [hf] at hv
      exact hv y (List.mem_cons_self _ _)
  have hbit : ((v.getD 0 0 &&& 0x80) = 0x80) ↔ 0x80 ≤ v.getD 0 0 := by
    generalize v.getD 0 0 = x at hx
    interval_cases x <;> decide
  unfold integerBytes needsPad XCERT_BIT7_MASK
  rw [getD_zero_fit n v hn]
  by_cases h : 0x80 ≤ v.getD 0 0
  · rw [if_pos h, decide_eq_true (hbit.2 h), if_pos rfl, Nat.mod_eq_of_lt (by omega)]
    simp only [List.length_cons, fit_length]
  · rw [if_neg h, decide_eq_false (fun hc => h (hbit.1 hc)), if_neg (by decide),
      Nat.mod_eq_of_lt (by omega), fit_length]

/-- C31: every INTEGER that the generator emits goes through `XCert_CreateInteger`: the
Serial field with the value bytes that `XCert_GenSerialField` hands over, and the two
components of the signature in `XCert_GenSignField`. For `n` value bytes `v[0 .. n)`, each
below 256, with `0 < n < 127`, the field written is the tag `02`, the length byte and the
content, which is the value bytes preceded by one `00` exactly when the first value byte
is `80` or above, that is when its bit 7 is set. The content, read as a two's-complement
big-endian integer, is the value bytes read as an unsigned big-endian integer, and is not
negative. -/
theorem createInteger_nonneg (b : List Nat) (p : Nat) (v : List Nat) (n : Nat)
    (hn : 0 < n) (hlen : n < 127) (hv : ∀ x ∈ fit n v, x < 256) :
    ∃ content : List Nat,
      content = (if (v.getD 0 0 &&& 0x80) = 0x80 then 0x00 :: fit n v else fit n v) ∧
      integerBytes v n = 0x02 :: content.length :: content ∧
      XCert_CreateInteger b p v n =
        (wrBytes b p (0x02 :: content.length :: content), 2 + content.length) ∧
      twosBE content = (beNat (fit n v) : Int) ∧
      0 ≤ twosBE content ∧
      (∀ h : List Nat, XCert_GenSerialField b p h =
        XCert_CreateInteger b p
          (XSecure_MemCpy (List.replicate XCERT_LEN_OF_VALUE_OF_SERIAL 0) h (serialCopyLen h))
          (serialCopyLen h)) ∧
      (∀ Sign : List Nat, ∃ L L2 : Nat, XCert_GenSignField b p Sign =
        (wrBytes b p (0x03 :: L :: 0x00 :: 0x30 :: L2 ::
          (integerBytes Sign 48 ++ integerBytes (Sign.drop 48) 48)),
          (integerBytes Sign 48 ++ integerBytes (Sign.drop 48) 48).length + 5)) := by
  have hx0 : (fit n v).getD 0 0 = v.getD 0 0 := getD_zero_fit n v hn
  have hx : v.getD 0 0 < 256 := by
    rw [← hx0]
    cases hf : fit n v with
    | nil =>
      have := fit_length n v
      rw [hf] at this
      simp at this
      omega
    | cons y ys =>
      rw [hf] at hv
      exact hv y (List.mem_cons_self _ _)
  have hbit : ((v.getD 0 0 &&& 0x80) = 0x80) ↔ 0x80 ≤ v.getD 0 0 := by
    generalize v.getD 0 0 = x at hx
    interval_cases x <;> decide
  have hib := integerBytes_content v n hn hlen hv
  rw [hx0] at hib
  have hc : (if 0x80 ≤ v.getD 0 0 then 0x00 :: fit n v else fit n v) =
      (if (v.getD 0 0 &&& 0x80) = 0x80 then 0x00 :: fit n v else fit n v) := by
    by_cases h : 0x80 ≤ v.getD 0 0
    · rw [if_pos h, if_pos (hbit.2 h)]
    · rw [if_neg h, if_neg (fun hc => h (hbit.1 hc))]
  rw [hc] at hib
  have htw : twosBE (if (v.getD 0 0 &&& 0x80) = 0x80 then 0x00 :: fit n v else fit n v) =
      (beNat (fit n v) : Int) := by
    by_cases h : (v.getD 0 0 &&& 0x80) = 0x80
    · rw [if_pos h]
      unfold twosBE
      rw [if_neg (show ¬ 0x80 ≤ (0 :: fit n v).getD 0 0 by simp), beNat_cons_zero]
    · rw [if_neg h]
      unfold twosBE
      rw [hx0, if_neg (fun hc => h (hbit.2 hc))]
  refine ⟨_, rfl, hib, ?_, htw, ?_, ?_, ?_⟩
  · rw [createInteger_eq, hib]
    simp only [List.length_cons]
    congr 1
    omega
  · rw [htw]
    exact Int.natCast_nonneg _
  · intro h
    rfl
  · intro Sign
    refine ⟨((integerBytes Sign 48).length + (integerBytes (Sign.drop 48) 48).length + 3) % 256,
      ((integerBytes Sign 48).length + (integerBytes (Sign.drop 48) 48).length) % 256, ?_⟩
    rw [genSignField_eq]
    unfold signFieldBytes
    simp only [List.length_cons, List.length_append]

theorem createInteger_nonneg_witness :
    ∃ content : List Nat,
      integerBytes (List.replicate 48 0x90) 48 = 0x02 :: content.length :: content ∧
      twosBE content = (beNat (fit 48 (List.replicate 48 0x90)) : Int) ∧
      0 ≤ twosBE content :=
  let ⟨content, _, h1, _, h2, h3, _, _⟩ :=
    createInteger_nonneg [] 0 (List.replicate 48 0x90) 48 (by decide) (by decide) (by decide)
  ⟨content, h1, h2, h3⟩

/-! ## The back-patch and the cursor of its callers -/

theorem getD_append_head (hdr : List Nat) (x : Nat) (rest : List Nat) :
    (hdr ++ x :: rest).getD hdr.length 0 = x := by
  induction hdr with
  | nil => rfl
  | cons y ys ih => simpa using ih

theorem drop_append_pre (hdr pre rest : List Nat) (n : Nat)
    (h : n = hdr.length + pre.length) : (hdr ++ (pre ++ rest)).drop n = rest := by
  rw [← List.append_assoc, List.drop_left' (by rw [List.length_append]; exact h.symm)]

/-- C32, as amended: for a content of `L` bytes with `127 < L ≤ 65535` that stands in the
buffer right after its reserved length byte, `XCert_UpdateEncodedLength` succeeds, and
the low nibble `k` of the length byte it leaves at `LenIdx`, the value that the callers
add to their cursor, is the number of bytes by which the content has moved: the content
is now at `ValIdx + k`, unchanged. `k` is 1 for `L ≤ 255` and 2 above, the length byte is
`0x80 | k`, and the `k` bytes between it and the content spell `L` in big-endian order. -/
theorem updateEncodedLength_nibble (b : List Nat) (p : Nat) (hdr : List Nat) (g : Nat)
    (content : List Nat) (LenIdx ValIdx L : Nat)
    (hLenIdx : LenIdx = p + hdr.length) (hValIdx : ValIdx = p + (hdr.length + 1))
    (hL : L = content.length) (h1 : 127 < L) (h2 : L ≤ 65535)
    (hb : p + (hdr.length + 3 + content.length) ≤ b.length) :
    ∃ k : Nat,
      k = ((XCert_UpdateEncodedLength (wrBytes b p (hdr ++ g :: content)) LenIdx L ValIdx).2.getD
        LenIdx 0 &&& XCERT_LOWER_NIBBLE_MASK) ∧
      (XCert_UpdateEncodedLength (wrBytes b p (hdr ++ g :: content)) LenIdx L ValIdx).1 =
        XST_SUCCESS ∧
      rd (XCert_UpdateEncodedLength (wrBytes b p (hdr ++ g :: content)) LenIdx L ValIdx).2
        (ValIdx + k) L = content ∧
      k = (if L ≤ 255 then 1 else 2) ∧
      (XCert_UpdateEncodedLength (wrBytes b p (hdr ++ g :: content)) LenIdx L ValIdx).2.getD
        LenIdx 0 = 0x80 ||| k ∧
      beNat (rd (XCert_UpdateEncodedLength (wrBytes b p (hdr ++ g :: content)) LenIdx L
        ValIdx).2 ValIdx k) = L := by
  subst hL
  by_cases hs : content.length ≤ 255
  · rw [updateEncodedLength_81 b p hdr g content LenIdx ValIdx _ hLenIdx hValIdx rfl h1 hs
      (by omega)]
    dsimp only
    have hlen : (hdr ++ 0x81 :: content.length :: content).length =
        hdr.length + 2 + content.length := by
      simp only [List.length_append, List.length_cons]
      omega
    have hg : (wrBytes b p (hdr ++ 0x81 :: content.length :: content)).getD LenIdx 0 = 0x81 := by
      rw [hLenIdx, getD_wrBytes b p hdr.length _ (by omega) (by omega), getD_append_head]
    rw [hg, if_pos hs]
    refine ⟨1, by decide, rfl, ?_, rfl, by decide, ?_⟩
    · rw [hValIdx, show p + (hdr.length + 1) + 1 = p + (hdr.length + 2) by omega,
        rd_wrBytes b p (hdr.length + 2) content.length _ (by omega) (by omega)]
      have hd : (hdr ++ 0x81 :: content.length :: content).drop (hdr.length + 2) = content :=
        drop_append_pre hdr [0x81, content.length] content _ rfl
      rw [hd, List.take_length]
    · rw [hValIdx, rd_wrBytes b p (hdr.length + 1) 1 _ (by omega) (by omega)]
      have hd : (hdr ++ 0x81 :: content.length :: content).drop (hdr.length + 1) =
          content.length :: content :=
        drop_append_pre hdr [0x81] (content.length :: content) _ rfl
      rw [hd]
      simp [beNat]
  · rw [updateEncodedLength_82 b p hdr g content LenIdx ValIdx _ hLenIdx hValIdx rfl
      (by omega) h2 (by omega)]
    dsimp only
    have hlen : (hdr ++ 0x82 :: (content.length / 256) :: (content.length % 256) ::
        content).length = hdr.length + 3 + content.length := by
      simp only [List.length_append, List.length_cons]
      omega
    have hg : (wrBytes b p (hdr ++ 0x82 :: (content.length / 256) :: (content.length % 256) ::
        content)).getD LenIdx 0 = 0x82 := by
      rw [hLenIdx, getD_wrBytes b p hdr.length _ (by omega) (by omega), getD_append_head]
    rw [hg, if_neg hs]
    refine ⟨2, by decide, rfl, ?_, rfl, by decide, ?_⟩
    · rw [hValIdx, show p + (hdr.length + 1) + 2 = p + (hdr.length + 3) by omega,
        rd_wrBytes b p (hdr.length + 3) content.length _ (by omega) (by omega)]
      have hd : (hdr ++ 0x82 :: (content.length / 256) :: (content.length % 256) ::
          content).drop (hdr.length + 3) = content :=
        drop_append_pre hdr [0x82, content.length / 256, content.length % 256] content _ rfl
      rw [hd, List.take_length]
    · rw [hValIdx, rd_wrBytes b p (hdr.length + 1) 2 _ (by omega) (by omega)]
      have hd : (hdr ++ 0x82 :: (content.length / 256) :: (content.length % 256) ::
          content).drop (hdr.length + 1) =
          (content.length / 256) :: (content.length % 256) :: content :=
        drop_append_pre hdr [0x82]
          ((content.length / 256) :: (content.length % 256) :: content) _ rfl
      rw [hd]
      simp only [beNat, List.take_succ_cons, List.take_zero, List.foldl_cons, List.foldl_nil]
      omega

theorem updateEncodedLength_nibble_witness :
    ∃ k : Nat,
      rd (XCert_UpdateEncodedLength
        (wrBytes (List.replicate 140 0xEE) 1 ([0x30] ++ 0 :: List.replicate 130 7)) 2 130 3).2
        (3 + k) 130 = List.replicate 130 7 ∧ k = 1 :=
  let ⟨k, _, _, h1, h2, _, _⟩ :=
    updateEncodedLength_nibble (List.replicate 140 0xEE) 1 [0x30] 0 (List.replicate 130 7) 2 3
      130 rfl rfl (List.length_replicate _ _).symm (by decide) (by decide)
      (by rw [List.length_replicate, List.length_replicate]; decide)
  ⟨k, h1, h2.trans (by decide)⟩

/-- For the content `01 02 03 04 05` behind the header byte `30` and a reserved byte,
`XCert_UpdateEncodedLength` with the length 5 succeeds and stores 5 in the reserved
byte. No byte is inserted, the content stays at `ValIdx`; the low nibble of the length
byte is 5, and 5 bytes further on the buffer does not hold the content. -/
theorem updateEncodedLength_nibble_counterexample :
    (XCert_UpdateEncodedLength
      (wrBytes (List.replicate 16 0xEE) 1 [0x30, 0, 1, 2, 3, 4, 5]) 2 5 3).1 = XST_SUCCESS ∧
    ((XCert_UpdateEncodedLength
      (wrBytes (List.replicate 16 0xEE) 1 [0x30, 0, 1, 2, 3, 4, 5]) 2 5 3).2.getD 2 0 &&&
        XCERT_LOWER_NIBBLE_MASK) = 5 ∧
    rd (XCert_UpdateEncodedLength
      (wrBytes (List.replicate 16 0xEE) 1 [0x30, 0, 1, 2, 3, 4, 5]) 2 5 3).2 (3 + 0) 5 =
        [1, 2, 3, 4, 5] ∧
    rd (XCert_UpdateEncodedLength
      (wrBytes (List.replicate 16 0xEE) 1 [0x30, 0, 1, 2, 3, 4, 5]) 2 5 3).2 (3 + 5) 5 ≠
        [1, 2, 3, 4, 5] := by
  decide

/-! ## The two signature algorithm elements -/

theorem tbsBytes_drop (body h : List Nat) : (tbsBytes body h).drop 29 = body := by
  have hs := serialFieldBytes_length h
  have h7 : (tbsBytes body h).drop 29 = ((tbsBytes body h).drop 7).drop 22 := by
    rw [List.drop_drop]
  have h8 : (tbsBytes body h).drop 7 = serialFieldBytes h ++ body := rfl
  rw [h7, h8, ← hs, List.drop_left]

theorem tbsBodyBytes_take (E : Env) (U : XCert_UserCfg) (A : XCert_AppCfg) (hs hi : List Nat)
    (rest : List Nat) : (tbsBodyBytes E U A hs hi ++ rest).take 14 = signAlgoBytes := by
  unfold tbsBodyBytes
  rw [List.append_assoc]
  exact List.take_left' rfl

theorem certBytes_drop (tbs Sign : List Nat) (n : Nat) :
    (certBytes tbs Sign).drop (4 + n) = (tbs ++ (signAlgoBytes ++ signFieldBytes Sign)).drop n := by
  rw [Nat.add_comm]
  rfl

/-- C38: when `XCert_GenerateX509Cert` returns `XST_SUCCESS` (a local array of 1024 bytes
that holds the certificate), the bytes `cert` sent to the destination hold the same 14
bytes twice: at offset 33, right after the Serial field of the TBS certificate (4 bytes
of outer header, 4 of TBS header, 3 of Version, 22 of Serial), and right after the TBS
certificate `tbs`, at offset `4 + tbs.length`. Both are the bytes that
`XCert_GenSignAlgoField` writes, which are the same for every buffer and position: the
function has no other input. -/
theorem generate_sign_algo_twice (E : Env) (Z : Build) (m : Machine) (X509CertBuf : List Nat)
    (X509CertAddr MaxCertSize SubSystemId : Nat) (A : XCert_AppCfg) (Idx : Nat)
    (hIdx : findIdx Z m.Store SubSystemId = some Idx)
    (hb : X509CertBuf.length = 1024)
    (hfit : (slot Z m.Store Idx).UserCfg.IssuerLen + (slot Z m.Store Idx).UserCfg.ValidityLen +
      (slot Z m.Store Idx).UserCfg.SubjectLen + 508 ≤ 1024)
    (hok : (XCert_GenerateX509Cert E Z m X509CertBuf X509CertAddr MaxCertSize SubSystemId
      A).Ret = XST_SUCCESS) :
    ∃ tbs cert algo : List Nat,
      tbs = tbsBytes
        (tbsBodyBytes E (slot Z m.Store Idx).UserCfg A
          (XSecure_Sha384Digest E (fit 96 A.SubjectPublicKey)).2
          (XSecure_Sha384Digest E (fit 96 A.IssuerPublicKey)).2)
        (XSecure_Sha384Digest E
          (tbsBodyBytes E (slot Z m.Store Idx).UserCfg A
            (XSecure_Sha384Digest E (fit 96 A.SubjectPublicKey)).2
            (XSecure_Sha384Digest E (fit 96 A.IssuerPublicKey)).2)).2 ∧
      outBytes (XCert_GenerateX509Cert E Z m X509CertBuf X509CertAddr MaxCertSize SubSystemId
        A).M.Trace = outBytes m.Trace ++ certOut X509CertAddr cert ∧
      (cert.drop 4).take tbs.length = tbs ∧
      (∀ (b : List Nat) (p : Nat), XCert_GenSignAlgoField b p = (XST_SUCCESS, wrBytes b p algo, 14)) ∧
      algo.length = 14 ∧
      (cert.drop 33).take 14 = algo ∧
      (cert.drop (4 + tbs.length)).take 14 = algo := by
  obtain ⟨-, hout, -, -⟩ := generate_bytes E Z m X509CertBuf X509CertAddr MaxCertSize
    SubSystemId A Idx _ _ hIdx rfl rfl hb hfit hok
  refine ⟨_, _, signAlgoBytes, rfl, hout, ?_, fun b p => genSignAlgoField_eq b p, rfl, ?_, ?_⟩
  · rw [show (4 : Nat) = 4 + 0 from rfl, certBytes_drop, List.drop_zero, List.take_left]
  · rw [show (33 : Nat) = 4 + 29 from rfl, certBytes_drop,
      List.drop_append_of_le_length (by rw [tbsBytes_length]; omega), tbsBytes_drop]
    exact tbsBodyBytes_take _ _ _ _ _ _
  · rw [certBytes_drop, List.drop_left]
    exact List.take_left' rfl

theorem generate_sign_algo_twice_witness :
    ∃ tbs cert algo : List Nat,
      outBytes (XCert_GenerateX509Cert envW buildW machineW bufW 4096 1024 7 appW).M.Trace =
        outBytes machineW.Trace ++ certOut 4096 cert ∧
      (cert.drop 4).take tbs.length = tbs ∧
      (cert.drop 33).take 14 = algo ∧
      (cert.drop (4 + tbs.length)).take 14 = algo :=
  let ⟨tbs, cert, algo, _, h1, h2, _, _, h3, h4⟩ :=
    generate_sign_algo_twice envW buildW machineW bufW 4096 1024 7 appW 1 (by decide)
      (List.length_replicate _ _) (by decide) (by decide!)
  ⟨tbs, cert, algo, h1, h2, h3, h4⟩

/-! ## The certificate bytes under the exact bound of the local array -/

theorem generate_bytes_fit (E : Env) (Z : Build) (m : Machine) (buf : List Nat)
    (Addr MaxCertSize Id : Nat) (A : XCert_AppCfg) (Idx : Nat) (body tbs : List Nat)
    (hIdx : findIdx Z m.Store Id = some Idx)
    (hbody : body = tbsBodyBytes E (slot Z m.Store Idx).UserCfg A
      (XSecure_Sha384Digest E (fit 96 A.SubjectPublicKey)).2
      (XSecure_Sha384Digest E (fit 96 A.IssuerPublicKey)).2)
    (htbs : tbs = tbsBytes body (XSecure_Sha384Digest E body).2)
    (hb : buf.length = 1024)
    (hfit : body.length + 154 ≤ 1024)
    (hok : (XCert_GenerateX509Cert E Z m buf Addr MaxCertSize Id A).Ret = XST_SUCCESS) :
    (XCert_GenerateX509Cert E Z m buf Addr MaxCertSize Id A).X509CertSize =
      some (certBytes tbs (XCert_GenerateX509Cert E Z m buf Addr MaxCertSize Id A).Sign).length ∧
    outBytes (XCert_GenerateX509Cert E Z m buf Addr MaxCertSize Id A).M.Trace =
      outBytes m.Trace ++
        certOut Addr (certBytes tbs (XCert_GenerateX509Cert E Z m buf Addr MaxCertSize Id A).Sign) ∧
    (XCert_GenerateX509Cert E Z m buf Addr MaxCertSize Id A).HashTmp =
      (XSecure_Sha384Digest E tbs).2 ∧
    (certBytes tbs (XCert_GenerateX509Cert E Z m buf Addr MaxCertSize Id A).Sign).length ≤ 1024 := by
  have hc1 : (XCert_GetUserCfg Z m.Store Id).1 = XST_SUCCESS := by
    by_contra h
    exact generate_cfg_fail E Z m buf Addr MaxCertSize Id A h hok
  obtain ⟨Idx2, hcfg, hf2⟩ := getUserCfg_some Z m.Store Id hc1
  have hi : Idx2 = Idx := Option.some.inj (hf2.symm.trans hIdx)
  subst hi
  have htl : tbs.length = body.length + 29 := by
    rw [htbs, tbsBytes_length]
  obtain ⟨hx, h1, h2, hkat, hd, hdt, hqs⟩ := generate_success E Z m buf Addr MaxCertSize Id
    A Idx2 body tbs hcfg hbody htbs (by omega) (by omega) hok
  obtain ⟨q1, hq1⟩ : ∃ q1, q1 = XCert_GenerateX509Cert_sign E Z m.Store
      (m.Trace ++
        ([Event.Digest (fit 96 A.SubjectPublicKey), Event.Digest (fit 96 A.IssuerPublicKey)] ++
          ((if m.KatRan = true then [] else [Event.Kat]) ++ [Event.Digest body])) ++
        [Event.Digest tbs])
      Id (XSecure_Sha384Digest E tbs).2 A.IssuerPrvtKey := ⟨_, rfl⟩
  rw [← hq1] at hqs
  have e1 := generate_ok E Z m buf Addr MaxCertSize Id A Idx2 body tbs q1 hcfg hbody htbs
    hx h1 h2 hkat hd hdt hq1 hqs (by omega) (by omega)
  rw [e1]
  dsimp only
  have hsl := signFieldBytes_length q1.2.2.2
  have hcb := certBytes_length tbs q1.2.2.2
  have hle : (certBytes tbs q1.2.2.2).length ≤ buf.length := by omega
  refine ⟨rfl, ?_, rfl, by omega⟩
  obtain ⟨ev2, hev2, hout2⟩ := sign_trace_out E Z m.Store
    (m.Trace ++
      ([Event.Digest (fit 96 A.SubjectPublicKey), Event.Digest (fit 96 A.IssuerPublicKey)] ++
        ((if m.KatRan = true then [] else [Event.Kat]) ++ [Event.Digest body])) ++
      [Event.Digest tbs])
    Id (XSecure_Sha384Digest E tbs).2 A.IssuerPrvtKey
  rw [← hq1] at hev2
  rw [hev2, outBytes_append, outBytes_append, outBytes_append, outBytes_append, hout2,
    outBytes_getData _ _ _ hle,
    outBytes_quiet _ ( quiet_tbs_prefix m.KatRan _ _ _)]
  simp [outBytes]

/-! ## The size of the certificate -/

theorem needsPad_iff (v : List Nat) : needsPad v = true ↔ (v.getD 0 0 &&& 0x80) = 0x80 := by
  unfold needsPad XCERT_BIT7_MASK
  exact decide_eq_true_iff

theorem certBytes_size (E : Env) (U : XCert_UserCfg) (A : XCert_AppCfg)
    (hs hi h Sign : List Nat) :
    (certBytes (tbsBytes (tbsBodyBytes E U A hs hi) h) Sign).length =
      (if A.IsSelfSigned = TRUE then 506 else 450) +
        U.IssuerLen + U.ValidityLen + U.SubjectLen +
        ((if (Sign.getD 0 0 &&& 0x80) = 0x80 then 1 else 0) +
          (if (Sign.getD 48 0 &&& 0x80) = 0x80 then 1 else 0)) := by
  have h48 : (Sign.drop 48).getD 0 0 = Sign.getD 48 0 := by
    rw [List.getD_eq_getElem?_getD, List.getD_eq_getElem?_getD, List.getElem?_drop]
  have e1 : (integerBytes Sign 48).length =
      50 + (if (Sign.getD 0 0 &&& 0x80) = 0x80 then 1 else 0) := by
    rw [integerBytes_length]
    by_cases hp : (Sign.getD 0 0 &&& 0x80) = 0x80
    · rw [if_pos hp, if_pos ((needsPad_iff _).2 hp)]
    · rw [if_neg hp, if_neg (fun hc => hp ((needsPad_iff _).1 hc))]
  have e2 : (integerBytes (Sign.drop 48) 48).length =
      50 + (if (Sign.getD 48 0 &&& 0x80) = 0x80 then 1 else 0) := by
    rw [integerBytes_length, ← h48]
    by_cases hp : ((Sign.drop 48).getD 0 0 &&& 0x80) = 0x80
    · rw [if_pos hp, if_pos ((needsPad_iff _).2 hp)]
    · rw [if_neg hp, if_neg (fun hc => hp ((needsPad_iff _).1 hc))]
  have e3 : (signFieldBytes Sign).length =
      (integerBytes Sign 48).length + (integerBytes (Sign.drop 48) 48).length + 5 := by
    unfold signFieldBytes
    simp only [List.length_cons, List.length_append]
  rw [certBytes_length, tbsBytes_length, tbsBodyBytes_length, e3, e1, e2]
  split <;> omega

/-- C37: the certificate for the stored lengths `IssuerLen`, `ValidityLen`, `SubjectLen`
has `450 + IssuerLen + ValidityLen + SubjectLen + p` bytes when `IsSelfSigned` is not
`TRUE` and `506 + IssuerLen + ValidityLen + SubjectLen + p` bytes when it is, where `p` is
the number of the two signature components, at `Sign[0]` and at `Sign[48]`, whose first
byte has bit 7 set; no key, firmware hash or digest value enters the size otherwise. When
`XCert_GenerateX509Cert` returns `XST_SUCCESS` (a local array of 1024 bytes that holds the
certificate also when both components take the pad byte), `*X509CertSize` is this number,
it is the number of bytes sent, and it is at most 1024. -/
theorem generate_size (E : Env) (Z : Build) (m : Machine) (X509CertBuf : List Nat)
    (X509CertAddr MaxCertSize SubSystemId : Nat) (A : XCert_AppCfg) (Idx : Nat)
    (hIdx : findIdx Z m.Store SubSystemId = some Idx)
    (hb : X509CertBuf.length = 1024)
    (hfit : (if A.IsSelfSigned = TRUE then 506 else 450) +
      (slot Z m.Store Idx).UserCfg.IssuerLen + (slot Z m.Store Idx).UserCfg.ValidityLen +
      (slot Z m.Store Idx).UserCfg.SubjectLen + 2 ≤ 1024)
    (hok : (XCert_GenerateX509Cert E Z m X509CertBuf X509CertAddr MaxCertSize SubSystemId
      A).Ret = XST_SUCCESS) :
    ∃ p size : Nat,
      p = (if ((XCert_GenerateX509Cert E Z m X509CertBuf X509CertAddr MaxCertSize SubSystemId
            A).Sign.getD 0 0 &&& 0x80) = 0x80 then 1 else 0) +
          (if ((XCert_GenerateX509Cert E Z m X509CertBuf X509CertAddr MaxCertSize SubSystemId
            A).Sign.getD 48 0 &&& 0x80) = 0x80 then 1 else 0) ∧
      size = (if A.IsSelfSigned = TRUE then 506 else 450) +
        (slot Z m.Store Idx).UserCfg.IssuerLen + (slot Z m.Store Idx).UserCfg.ValidityLen +
        (slot Z m.Store Idx).UserCfg.SubjectLen + p ∧
      (XCert_GenerateX509Cert E Z m X509CertBuf X509CertAddr MaxCertSize SubSystemId
        A).X509CertSize = some size ∧
      (outBytes (XCert_GenerateX509Cert E Z m X509CertBuf X509CertAddr MaxCertSize SubSystemId
        A).M.Trace).length = (outBytes m.Trace).length + size ∧
      size ≤ 1024 ∧
      (∀ (E2 : Env) (U : XCert_UserCfg) (A2 : XCert_AppCfg) (hs hi h Sign : List Nat),
        (certBytes (tbsBytes (tbsBodyBytes E2 U A2 hs hi) h) Sign).length =
          (if A2.IsSelfSigned = TRUE then 506 else 450) +
            U.IssuerLen + U.ValidityLen + U.SubjectLen +
            ((if (Sign.getD 0 0 &&& 0x80) = 0x80 then 1 else 0) +
              (if (Sign.getD 48 0 &&& 0x80) = 0x80 then 1 else 0))) := by
  have hbl := tbsBodyBytes_length E (slot Z m.Store Idx).UserCfg A
    (XSecure_Sha384Digest E (fit 96 A.SubjectPublicKey)).2
    (XSecure_Sha384Digest E (fit 96 A.IssuerPublicKey)).2
  obtain ⟨hsz, hout, -, hle⟩ := generate_bytes_fit E Z m X509CertBuf X509CertAddr MaxCertSize
    SubSystemId A Idx _ _ hIdx rfl rfl hb
    (by
      rw [hbl]
      by_cases hs : A.IsSelfSigned = TRUE
      · rw [if_pos hs] at hfit ⊢
        omega
      · rw [if_neg hs] at hfit ⊢
        omega) hok
  have hcs := certBytes_size E (slot Z m.Store Idx).UserCfg A
    (XSecure_Sha384Digest E (fit 96 A.SubjectPublicKey)).2
    (XSecure_Sha384Digest E (fit 96 A.IssuerPublicKey)).2
    (XSecure_Sha384Digest E
      (tbsBodyBytes E (slot Z m.Store Idx).UserCfg A
        (XSecure_Sha384Digest E (fit 96 A.SubjectPublicKey)).2
        (XSecure_Sha384Digest E (fit 96 A.IssuerPublicKey)).2)).2
    (XCert_GenerateX509Cert E Z m X509CertBuf X509CertAddr MaxCertSize SubSystemId A).Sign
  rw [hcs] at hsz hle
  refine ⟨_, _, rfl, rfl, hsz, ?_, hle, certBytes_size⟩
  rw [hout, List.length_append]
  unfold certOut
  rw [List.length_map, List.length_range, hcs]

theorem generate_size_witness :
    (XCert_GenerateX509Cert envW buildW machineW bufW 4096 1024 7 appW).X509CertSize =
      some (506 + 2 + 2 + 3 + 2) :=
  let ⟨_, _, h1, h2, h3, _, _, _⟩ :=
    generate_size envW buildW machineW bufW 4096 1024 7 appW 1 (by decide)
      (List.length_replicate _ _) (by decide) (by decide!)
  h3.trans (by rw [h2, h1]; decide!)

/-! ## The four back-patched lengths -/

/-- C36: when `XCert_GenerateX509Cert` returns `XST_SUCCESS` (a local array of 1024 bytes
that holds the certificate also when both signature components take the pad byte), the
four contents whose length is back-patched are each longer than 127 bytes: the content
`extList` of the Extensions SEQUENCE, the content of the `[3]` element (3 bytes more), the
content `tbsContent` of the TBS certificate and the content `certContent` of the
certificate. The length fields are therefore in the long form, `81 n` for the first two
and `82 hi lo` for the other two, and the lengths that the functions report count every
byte of the element built: `*ExtensionsLen` is `6 + extList.length`, `*TBSCertLen` is
`4 + tbsContent.length`, and `*X509CertSize` is `4 + certContent.length`, the four header
bytes plus the number `hi * 256 + lo` that the outer length field spells. -/
theorem generate_lengths_exact (E : Env) (Z : Build) (m : Machine) (X509CertBuf : List Nat)
    (X509CertAddr MaxCertSize SubSystemId : Nat) (A : XCert_AppCfg) (Idx : Nat)
    (hIdx : findIdx Z m.Store SubSystemId = some Idx)
    (hb : X509CertBuf.length = 1024)
    (hfit : (if A.IsSelfSigned = TRUE then 506 else 450) +
      (slot Z m.Store Idx).UserCfg.IssuerLen + (slot Z m.Store Idx).UserCfg.ValidityLen +
      (slot Z m.Store Idx).UserCfg.SubjectLen + 2 ≤ 1024)
    (hok : (XCert_GenerateX509Cert E Z m X509CertBuf X509CertAddr MaxCertSize SubSystemId
      A).Ret = XST_SUCCESS) :
    ∃ extList tbsContent certContent : List Nat,
      (127 < extList.length ∧ extList.length + 3 ≤ 255) ∧
      127 < tbsContent.length ∧ 127 < certContent.length ∧
      (∀ (b : List Nat) (p : Nat), p + 221 ≤ b.length →
        (XCert_GenX509v3ExtensionsField E b p A).2.2.1 =
          wrBytes b p (0xA3 :: 0x81 :: (extList.length + 3) :: 0x30 :: 0x81 ::
            extList.length :: extList) ∧
        (XCert_GenX509v3ExtensionsField E b p A).2.2.2 = 6 + extList.length) ∧
      (XCert_GenTBSCertificate E Z m.KatRan (wr X509CertBuf 0 XCERT_ASN1_TAG_SEQUENCE) 2
          (slot Z m.Store Idx).UserCfg A).2.2.2.1 =
        wrBytes (wr X509CertBuf 0 XCERT_ASN1_TAG_SEQUENCE) 2
          (0x30 :: 0x82 :: (tbsContent.length / 256) :: (tbsContent.length % 256) ::
            tbsContent) ∧
      (XCert_GenTBSCertificate E Z m.KatRan (wr X509CertBuf 0 XCERT_ASN1_TAG_SEQUENCE) 2
          (slot Z m.Store Idx).UserCfg A).2.2.2.2 = 4 + tbsContent.length ∧
      certContent = 0x30 :: 0x82 :: (tbsContent.length / 256) :: (tbsContent.length % 256) ::
        tbsContent ++ (signAlgoBytes ++ signFieldBytes (XCert_GenerateX509Cert E Z m
          X509CertBuf X509CertAddr MaxCertSize SubSystemId A).Sign) ∧
      outBytes (XCert_GenerateX509Cert E Z m X509CertBuf X509CertAddr MaxCertSize SubSystemId
        A).M.Trace = outBytes m.Trace ++ certOut X509CertAddr
          (0x30 :: 0x82 :: (certContent.length / 256) :: (certContent.length % 256) ::
            certContent) ∧
      (XCert_GenerateX509Cert E Z m X509CertBuf X509CertAddr MaxCertSize SubSystemId
        A).X509CertSize = some (4 + certContent.length) ∧
      4 + certContent.length =
        4 + ((certContent.length / 256) * 256 + certContent.length % 256) := by
  have hc1 : (XCert_GetUserCfg Z m.Store SubSystemId).1 = XST_SUCCESS := by
    by_contra h
    exact generate_cfg_fail E Z m X509CertBuf X509CertAddr MaxCertSize SubSystemId A h hok
  obtain ⟨Idx2, hcfg, hf2⟩ := getUserCfg_some Z m.Store SubSystemId hc1
  have hi : Idx2 = Idx := Option.some.inj (hf2.symm.trans hIdx)
  subst hi
  obtain ⟨body, hbody⟩ : ∃ body, body = tbsBodyBytes E (slot Z m.Store Idx2).UserCfg A
      (XSecure_Sha384Digest E (fit 96 A.SubjectPublicKey)).2
      (XSecure_Sha384Digest E (fit 96 A.IssuerPublicKey)).2 := ⟨_, rfl⟩
  have hbl : body.length + 154 ≤ 1024 := by
    rw [hbody, tbsBodyBytes_length]
    by_cases hs : A.IsSelfSigned = TRUE
    · rw [if_pos hs] at hfit ⊢
      omega
    · rw [if_neg hs] at hfit ⊢
      omega
  have hge : 298 ≤ body.length := by
    rw [hbody]
    exact tbsBodyBytes_length_ge _ _ _ _ _
  obtain ⟨hx, h1, h2, hk, hd, -, -⟩ := generate_success E Z m X509CertBuf X509CertAddr
    MaxCertSize SubSystemId A Idx2 body _ hcfg hbody rfl (by omega) (by omega) hok
  obtain ⟨hsz, hout, -, -⟩ := generate_bytes_fit E Z m X509CertBuf X509CertAddr MaxCertSize
    SubSystemId A Idx2 body _ hIdx hbody rfl hb hbl hok
  have hel := extensionListBytes_length E A
    (XSecure_Sha384Digest E (fit 96 A.SubjectPublicKey)).2
    (XSecure_Sha384Digest E (fit 96 A.IssuerPublicKey)).2
  have hsl := serialFieldBytes_length (XSecure_Sha384Digest E body).2
  have htc : (0x02 :: 0x01 :: 0x02 ::
      (serialFieldBytes (XSecure_Sha384Digest E body).2 ++ body)).length = body.length + 25 := by
    simp only [List.length_cons, List.length_append, hsl]
    omega
  have htb : tbsBytes body (XSecure_Sha384Digest E body).2 =
      0x30 :: 0x82 ::
        ((0x02 :: 0x01 :: 0x02 ::
          (serialFieldBytes (XSecure_Sha384Digest E body).2 ++ body)).length / 256) ::
        ((0x02 :: 0x01 :: 0x02 ::
          (serialFieldBytes (XSecure_Sha384Digest E body).2 ++ body)).length % 256) ::
        (0x02 :: 0x01 :: 0x02 ::
          (serialFieldBytes (XSecure_Sha384Digest E body).2 ++ body)) := by
    rw [htc]
    rfl
  have htok := genTBSCertificate_ok E Z m.KatRan (wr X509CertBuf 0 XCERT_ASN1_TAG_SEQUENCE) 2
    (slot Z m.Store Idx2).UserCfg A body hbody hx h1 h2 hk hd (by omega)
    (by rw [wr_length]; omega)
  have hsf := signFieldBytes_length (XCert_GenerateX509Cert E Z m X509CertBuf X509CertAddr
    MaxCertSize SubSystemId A).Sign
  refine ⟨extensionListBytes E A (XSecure_Sha384Digest E (fit 96 A.SubjectPublicKey)).2
      (XSecure_Sha384Digest E (fit 96 A.IssuerPublicKey)).2,
    0x02 :: 0x01 :: 0x02 :: (serialFieldBytes (XSecure_Sha384Digest E body).2 ++ body),
    _, ?_, ?_, ?_, ?_, ?_, ?_, rfl, ?_, ?_, ?_⟩
  · rw [hel]
    split <;> omega
  · rw [htc]
    omega
  · simp only [List.length_cons, List.length_append]
    omega
  · intro b p hp
    rw [genX509v3ExtensionsField_ok E b p A h1 h2 (by split <;> omega)]
    dsimp only
    refine ⟨rfl, ?_⟩
    unfold extensionsBytes
    simp only [List.length_cons]
    omega
  · rw [htok, htb]
  · rw [htok, htc]
    dsimp only
    omega
  · rw [hout, ← htb]
    rfl
  · rw [hsz, ← htb, certBytes_length]
    congr 1
    simp only [List.length_append, signAlgoBytes, List.length_cons, List.length_nil]
    omega
  · omega

theorem generate_lengths_exact_witness :
    ∃ certContent : List Nat,
      127 < certContent.length ∧
      (XCert_GenerateX509Cert envW buildW machineW bufW 4096 1024 7 appW).X509CertSize =
        some (4 + certContent.length) :=
  let ⟨_, _, certContent, _, _, h1, _, _, _, _, _, h2, _⟩ :=
    generate_lengths_exact envW buildW machineW bufW 4096 1024 7 appW 1 (by decide)
      (List.length_replicate _ _) (by decide) (by decide!)
  ⟨certContent, h1, h2⟩

/-! ## The private key and the stored signature -/

theorem sign_idem_key (E : Env) (Z : Build) (st : CertStore) (t t2 : List Event) (Id : Nat)
    (H Key Key2 : List Nat) (hwf : st.NumOfEntriesInUserCfgDB ≤ st.CertDB.length)
    (hok : (XCert_GenerateX509Cert_sign E Z st t Id H Key).1 = XST_SUCCESS) :
    XCert_GenerateX509Cert_sign E Z (XCert_GenerateX509Cert_sign E Z st t Id H Key).2.1 t2 Id
        H Key2 =
      (XST_SUCCESS, (XCert_GenerateX509Cert_sign E Z st t Id H Key).2.1, t2,
        (XCert_GenerateX509Cert_sign E Z st t Id H Key).2.2.2) := by
  obtain ⟨Idx, hf, hcase⟩ := sign_cases E Z st t Id H Key hok
  have hlt : Idx < st.CertDB.length :=
    lt_of_lt_of_le ((findIdx_some_iff Z st Id Idx).mp hf).1 hwf
  rcases hcase with ⟨hc, he⟩ | ⟨_, he⟩
  · rw [he]
    dsimp only
    exact sign_reuse E Z st t2 Id H Key2 Idx hf hc.1 hc.2
  · rw [he]
    dsimp only
    have hf2 : findIdx Z (setSignStore Z st Idx
        { Hash := fit 48 H ++ (slot Z st Idx).SignStore.Hash.drop 48
          Sign := signFromTmp
              (XSecure_EllipticGenEphemeralNSign E (signCalls t) (hashForSign H) Key).2 ++
            (slot Z st Idx).SignStore.Sign.drop 96
          IsSignAvailable := XCERT_SIGN_AVAILABLE }) Id = some Idx := by
      rw [sameCfg_findIdx Z st _ Id (sameCfg_setSignStore Z st Idx _)]
      exact hf
    rw [sign_reuse E Z _ t2 Id H Key2 Idx hf2
      (by rw [slot_setSignStore_same Z st Idx _ hlt])
      (by
        rw [slot_setSignStore_same Z st Idx _ hlt]
        dsimp only
        rw [fit_append_left 48 _ _ (fit_length _ _)])]
    rw [slot_setSignStore_same Z st Idx _ hlt]
    dsimp only
    rw [fit_append_left 96 _ _ (signFromTmp_length _)]

/-- C39: after a successful call of `XCert_GenerateX509Cert` for a subsystem (a
well-formed store, local arrays of 1024 bytes that hold the certificate), a second call
for the same subsystem with an application configuration that differs from the first in
`IssuerPrvtKey` alone, whatever the new key `Key2` is, returns `XST_SUCCESS` without a run
of the signing primitive, leaves the store as the first call left it, uses the signature
`Sign` of the first call, and sends the very bytes `cert` that the first call sent. The new
key enters neither the status nor the bytes. -/
theorem generate_key_not_in_cache (E : Env) (Z : Build) (m : Machine) (buf1 buf2 : List Nat)
    (Addr1 Addr2 Max1 Max2 SubSystemId : Nat) (A : XCert_AppCfg) (Key2 : List Nat) (Idx : Nat)
    (hwf : m.Store.WF Z)
    (hIdx : findIdx Z m.Store SubSystemId = some Idx)
    (hb1 : buf1.length = 1024) (hb2 : buf2.length = 1024)
    (hfit : (slot Z m.Store Idx).UserCfg.IssuerLen + (slot Z m.Store Idx).UserCfg.ValidityLen +
      (slot Z m.Store Idx).UserCfg.SubjectLen + 508 ≤ 1024)
    (hok : (XCert_GenerateX509Cert E Z m buf1 Addr1 Max1 SubSystemId A).Ret = XST_SUCCESS) :
    (XCert_GenerateX509Cert E Z
        (XCert_GenerateX509Cert E Z m buf1 Addr1 Max1 SubSystemId A).M
        buf2 Addr2 Max2 SubSystemId { A with IssuerPrvtKey := Key2 }).Ret = XST_SUCCESS ∧
    signCalls (XCert_GenerateX509Cert E Z
        (XCert_GenerateX509Cert E Z m buf1 Addr1 Max1 SubSystemId A).M
        buf2 Addr2 Max2 SubSystemId { A with IssuerPrvtKey := Key2 }).M.Trace =
      signCalls (XCert_GenerateX509Cert E Z m buf1 Addr1 Max1 SubSystemId A).M.Trace ∧
    (XCert_GenerateX509Cert E Z
        (XCert_GenerateX509Cert E Z m buf1 Addr1 Max1 SubSystemId A).M
        buf2 Addr2 Max2 SubSystemId { A with IssuerPrvtKey := Key2 }).M.Store =
      (XCert_GenerateX509Cert E Z m buf1 Addr1 Max1 SubSystemId A).M.Store ∧
    (XCert_GenerateX509Cert E Z
        (XCert_GenerateX509Cert E Z m buf1 Addr1 Max1 SubSystemId A).M
        buf2 Addr2 Max2 SubSystemId { A with IssuerPrvtKey := Key2 }).Sign =
      (XCert_GenerateX509Cert E Z m buf1 Addr1 Max1 SubSystemId A).Sign ∧
    (∃ cert,
      (XCert_GenerateX509Cert E Z m buf1 Addr1 Max1 SubSystemId A).X509CertSize =
        some cert.length ∧
      outBytes (XCert_GenerateX509Cert E Z m buf1 Addr1 Max1 SubSystemId A).M.Trace =
        outBytes m.Trace ++ certOut Addr1 cert ∧
      (XCert_GenerateX509Cert E Z
        (XCert_GenerateX509Cert E Z m buf1 Addr1 Max1 SubSystemId A).M
        buf2 Addr2 Max2 SubSystemId { A with IssuerPrvtKey := Key2 }).X509CertSize =
          some cert.length ∧
      outBytes (XCert_GenerateX509Cert E Z
        (XCert_GenerateX509Cert E Z m buf1 Addr1 Max1 SubSystemId A).M
        buf2 Addr2 Max2 SubSystemId { A with IssuerPrvtKey := Key2 }).M.Trace =
        outBytes (XCert_GenerateX509Cert E Z m buf1 Addr1 Max1 SubSystemId A).M.Trace ++
          certOut Addr2 cert) := by
  have hc1 : (XCert_GetUserCfg Z m.Store SubSystemId).1 = XST_SUCCESS := by
    by_contra h
    exact generate_cfg_fail E Z m buf1 Addr1 Max1 SubSystemId A h hok
  obtain ⟨Idx2, hcfg, hf2⟩ := getUserCfg_some Z m.Store SubSystemId hc1
  have hi : Idx2 = Idx := Option.some.inj (hf2.symm.trans hIdx)
  subst hi
  obtain ⟨body, hbody⟩ : ∃ body, body = tbsBodyBytes E (slot Z m.Store Idx2).UserCfg A
      (XSecure_Sha384Digest E (fit 96 A.SubjectPublicKey)).2
      (XSecure_Sha384Digest E (fit 96 A.IssuerPublicKey)).2 := ⟨_, rfl⟩
  obtain ⟨tbs, htbs⟩ : ∃ tbs, tbs = tbsBytes body (XSecure_Sha384Digest E body).2 := ⟨_, rfl⟩
  have hbl : body.length ≤ (slot Z m.Store Idx2).UserCfg.IssuerLen +
      (slot Z m.Store Idx2).UserCfg.ValidityLen + (slot Z m.Store Idx2).UserCfg.SubjectLen +
      354 := by
    rw [hbody, tbsBodyBytes_length]
    split <;> omega
  obtain ⟨hx, h1, h2, hkat, hd, hdt, hqs⟩ := generate_success E Z m buf1 Addr1 Max1 SubSystemId
    A Idx2 body tbs hcfg hbody htbs (by omega) (by omega) hok
  obtain ⟨q1, hq1⟩ : ∃ q1, q1 = XCert_GenerateX509Cert_sign E Z m.Store
      (m.Trace ++
        ([Event.Digest (fit 96 A.SubjectPublicKey), Event.Digest (fit 96 A.IssuerPublicKey)] ++
          ((if m.KatRan = true then [] else [Event.Kat]) ++ [Event.Digest body])) ++
        [Event.Digest tbs])
      SubSystemId (XSecure_Sha384Digest E tbs).2 A.IssuerPrvtKey := ⟨_, rfl⟩
  rw [← hq1] at hqs
  have e1 := generate_ok E Z m buf1 Addr1 Max1 SubSystemId A Idx2 body tbs q1 hcfg hbody htbs
    hx h1 h2 hkat hd hdt hq1 hqs (by omega) (by omega)
  have hsame : sameCfg Z m.Store q1.2.1 := by
    rw [hq1]
    exact sign_sameCfg E Z _ _ _ _ _
  have hcfg2 : XCert_GetUserCfg Z q1.2.1 SubSystemId = (XST_SUCCESS, some Idx2) := by
    rw [sameCfg_getUserCfg Z m.Store q1.2.1 SubSystemId hsame]
    exact hcfg
  have hbody2 : body = tbsBodyBytes E (slot Z q1.2.1 Idx2).UserCfg
      { A with IssuerPrvtKey := Key2 }
      (XSecure_Sha384Digest E (fit 96 A.SubjectPublicKey)).2
      (XSecure_Sha384Digest E (fit 96 A.IssuerPublicKey)).2 := by
    rw [(hsame.2.2 Idx2).2]
    exact hbody
  obtain ⟨tr1, htr1⟩ : ∃ tr1, tr1 = q1.2.2.1 ++
      XCert_GetData (certBytes tbs q1.2.2.2).length (wrBytes buf1 0 (certBytes tbs q1.2.2.2))
        Addr1 := ⟨_, rfl⟩
  rw [← htr1] at e1
  have hidem := sign_idem_key E Z m.Store
    (m.Trace ++
      ([Event.Digest (fit 96 A.SubjectPublicKey), Event.Digest (fit 96 A.IssuerPublicKey)] ++
        ((if m.KatRan = true then [] else [Event.Kat]) ++ [Event.Digest body])) ++
      [Event.Digest tbs])
    (tr1 ++
      ([Event.Digest (fit 96 A.SubjectPublicKey), Event.Digest (fit 96 A.IssuerPublicKey)] ++
        ((if true = true then [] else [Event.Kat]) ++ [Event.Digest body])) ++
      [Event.Digest tbs])
    SubSystemId (XSecure_Sha384Digest E tbs).2 A.IssuerPrvtKey Key2
    (by obtain ⟨hl, hn, -⟩ := hwf; omega)
    (by rw [← hq1]; exact hqs)
  rw [← hq1] at hidem
  have e2 := generate_ok E Z ⟨q1.2.1, true, tr1⟩ buf2 Addr2 Max2 SubSystemId
    { A with IssuerPrvtKey := Key2 } Idx2 body tbs
    _ hcfg2 hbody2 htbs hx h1 h2 (Or.inl rfl) hd hdt rfl (by rw [hidem]) (by omega) (by omega)
  rw [hidem] at e2
  dsimp only at e2
  rw [e1]
  dsimp only
  rw [e2]
  dsimp only
  have hsl := signFieldBytes_length q1.2.2.2
  have hcb := certBytes_length tbs q1.2.2.2
  have htl : tbs.length = body.length + 29 := by
    rw [htbs, tbsBytes_length]
  have hle1 : (certBytes tbs q1.2.2.2).length ≤ buf1.length := by omega
  have hle2 : (certBytes tbs q1.2.2.2).length ≤ buf2.length := by omega
  have hq2 := quiet_tbs_prefix true (fit 96 A.SubjectPublicKey) (fit 96 A.IssuerPublicKey)
    body
  obtain ⟨hsc2, hob2⟩ := trace_counts tr1 _
    (XCert_GetData (certBytes tbs q1.2.2.2).length (wrBytes buf2 0 (certBytes tbs q1.2.2.2))
      Addr2) tbs hq2
  rw [signCalls_getData] at hsc2
  rw [outBytes_getData _ _ _ hle2] at hob2
  obtain ⟨ev2, hev2, hout2⟩ := sign_trace_out E Z m.Store
    (m.Trace ++
      ([Event.Digest (fit 96 A.SubjectPublicKey), Event.Digest (fit 96 A.IssuerPublicKey)] ++
        ((if m.KatRan = true then [] else [Event.Kat]) ++ [Event.Digest body])) ++
      [Event.Digest tbs])
    SubSystemId (XSecure_Sha384Digest E tbs).2 A.IssuerPrvtKey
  rw [← hq1] at hev2
  have hob1 : outBytes tr1 = outBytes m.Trace ++ certOut Addr1 (certBytes tbs q1.2.2.2) := by
    rw [htr1, hev2, outBytes_append, outBytes_append, outBytes_append, outBytes_append, hout2,
      outBytes_getData _ _ _ hle1,
      outBytes_quiet _ ( quiet_tbs_prefix m.KatRan _ _ _)]
    simp [outBytes]
  exact ⟨rfl, hsc2, rfl, rfl, certBytes tbs q1.2.2.2, rfl, hob1, rfl, hob2⟩

set_option maxRecDepth 100000 in
theorem generate_key_not_in_cache_witness :
    (XCert_GenerateX509Cert envKeyW buildW machineW bufW 4096 1024 7 appW).Ret = XST_SUCCESS ∧
    (XCert_GenerateX509Cert envKeyW buildW
      (XCert_GenerateX509Cert envKeyW buildW machineW bufW 4096 1024 7 appW).M
      bufW2 8192 1024 7 appKey2W).Ret = XST_SUCCESS ∧
    signCalls (XCert_GenerateX509Cert envKeyW buildW
      (XCert_GenerateX509Cert envKeyW buildW machineW bufW 4096 1024 7 appW).M
      bufW2 8192 1024 7 appKey2W).M.Trace =
      signCalls (XCert_GenerateX509Cert envKeyW buildW machineW bufW 4096 1024 7 appW).M.Trace ∧
    (XCert_GenerateX509Cert envKeyW buildW
      (XCert_GenerateX509Cert envKeyW buildW machineW bufW 4096 1024 7 appW).M
      bufW2 8192 1024 7 appKey2W).Sign =
      (XCert_GenerateX509Cert envKeyW buildW machineW bufW 4096 1024 7 appW).Sign ∧
    (XCert_GenerateX509Cert envKeyW buildW machineW bufW 4096 1024 7 appW).Sign =
      List.replicate 96 9 ∧
    (XCert_GenerateX509Cert envKeyW buildW machineW bufW2 8192 1024 7 appKey2W).Sign =
      List.replicate 96 1 :=
  ⟨by decide!,
    (generate_key_not_in_cache envKeyW buildW machineW bufW bufW2 4096 8192 1024 1024 7 appW
      (List.replicate 48 1) 1
      (by unfold CertStore.WF; decide) (by decide) (List.length_replicate _ _)
      (List.length_replicate _ _) (by decide)
      (by decide!)).1,
    (generate_key_not_in_cache envKeyW buildW machineW bufW bufW2 4096 8192 1024 1024 7 appW
      (List.replicate 48 1) 1
      (by unfold CertStore.WF; decide) (by decide) (List.length_replicate _ _)
      (List.length_replicate _ _) (by decide)
      (by decide!)).2.1,
    (generate_key_not_in_cache envKeyW buildW machineW bufW bufW2 4096 8192 1024 1024 7 appW
      (List.replicate 48 1) 1
      (by unfold CertStore.WF; decide) (by decide) (List.length_replicate _ _)
      (List.length_replicate _ _) (by decide)
      (by decide!)).2.2.2.1,
    by decide!, by decide!⟩

/-! ## The statuses a generation call can return -/

theorem smemMove_no_get_sign (b : List Nat) (Dest DestSize Src SrcSize CopyLen : Nat) :
    (Xil_SMemMove b Dest DestSize Src SrcSize CopyLen).1 ≠ XOCP_ERR_X509_GET_SIGN := by
  unfold Xil_SMemMove
  split <;> exact fun h => Status.noConfusion h

theorem getUserCfg_no_get_sign (Z : Build) (st : CertStore) (Id : Nat) :
    (XCert_GetUserCfg Z st Id).1 ≠ XOCP_ERR_X509_GET_SIGN := by
  unfold XCert_GetUserCfg
  cases findIdx Z st Id with
  | none => exact fun h => Status.noConfusion h
  | some Idx =>
    dsimp only
    split
    · exact fun h => Status.noConfusion h
    · split
      · exact fun h => Status.noConfusion h
      · split <;> exact fun h => Status.noConfusion h

theorem ext_finish_no_get_sign (b : List Nat) (p i1 i2 i3 i4 Curr : Nat) :
    (XCert_GenX509v3ExtensionsField_finish b p i1 i2 i3 i4 Curr).1 ≠
      XOCP_ERR_X509_GET_SIGN := by
  unfold XCert_GenX509v3ExtensionsField_finish
  generalize XCert_UpdateEncodedLength b i3 (Curr - i4) i4 = u
  obtain ⟨s, b1⟩ := u
  dsimp only
  by_cases hs : s = XST_SUCCESS
  · rw [if_neg (not_not.mpr hs)]
    generalize XCert_UpdateEncodedLength b1 _ _ _ = u2
    obtain ⟨s2, b2⟩ := u2
    dsimp only
    by_cases hs2 : s2 = XST_SUCCESS
    · rw [if_neg (not_not.mpr hs2)]
      exact fun h => Status.noConfusion h
    · rw [if_pos hs2]
      exact fun h => Status.noConfusion h
  · rw [if_pos hs]
    exact fun h => Status.noConfusion h

theorem ext_no_get_sign (E : Env) (b : List Nat) (p : Nat) (A : XCert_AppCfg)
    (hE1 : ∀ d, (E.Sha384Digest d).1 ≠ XOCP_ERR_X509_GET_SIGN) :
    (XCert_GenX509v3ExtensionsField E b p A).1 ≠ XOCP_ERR_X509_GET_SIGN := by
  unfold XCert_GenX509v3ExtensionsField
  conv => zeta
  by_cases h1 : (XSecure_Sha384Digest E (fit 96 A.SubjectPublicKey)).1 = XST_SUCCESS
  · rw [genSubjectKeyIdentifierField_ok E _ _ _ h1]
    dsimp only
    by_cases h2 : (XSecure_Sha384Digest E (fit 96 A.IssuerPublicKey)).1 = XST_SUCCESS
    · rw [genAuthorityKeyIdentifierField_ok E _ _ _ h2]
      dsimp only
      rw [genTcbInfoExtnField_eq]
      dsimp only
      rw [genUeidExnField_if]
      dsimp only
      rw [genKeyUsageField_eq]
      dsimp only
      rw [genExtKeyUsageField_if]
      dsimp only
      simp only [ne_eq, not_true_eq_false, if_false]
      generalize hf : XCert_GenX509v3ExtensionsField_finish _ _ _ _ _ _ _ = f
      have k : f.1 ≠ XOCP_ERR_X509_GET_SIGN := by
        rw [← hf]
        exact ext_finish_no_get_sign _ _ _ _ _ _ _
      obtain ⟨s, b2, l⟩ := f
      exact k
    · obtain ⟨b2, hak⟩ := genAuthorityKeyIdentifierField_fail E
        (wrBytes (wr (wr b p XCERT_OPTIONAL_PARAM_3_TAG) (p + 1 + 1) XCERT_ASN1_TAG_SEQUENCE)
          (p + 1 + 1 + 1 + 1)
          (subjectKeyIdentifierBytes (XSecure_Sha384Digest E (fit 96 A.SubjectPublicKey)).2))
        (p + 1 + 1 + 1 + 1 + 31) A.IssuerPublicKey h2
      rw [hak]
      dsimp only
      simp only [ne_eq, not_true_eq_false, if_false, h2, not_false_eq_true, if_true]
      exact hE1 _
  · obtain ⟨b2, hsk⟩ := genSubjectKeyIdentifierField_fail E
      (wr (wr b p XCERT_OPTIONAL_PARAM_3_TAG) (p + 1 + 1) XCERT_ASN1_TAG_SEQUENCE)
      (p + 1 + 1 + 1 + 1) A.SubjectPublicKey h1
    rw [hsk]
    dsimp only
    simp only [ne_eq, h1, not_false_eq_true, if_true]
    exact hE1 _

theorem tbs_finish_no_get_sign (E : Env) (KatRan : Bool) (b : List Nat)
    (Start i1 i2 i3 Curr : Nat)
    (hE1 : ∀ d, (E.Sha384Digest d).1 ≠ XOCP_ERR_X509_GET_SIGN)
    (hE2 : E.Sha384Kat ≠ XOCP_ERR_X509_GET_SIGN) :
    (XCert_GenTBSCertificate_finish E KatRan b Start i1 i2 i3 Curr).1 ≠
      XOCP_ERR_X509_GET_SIGN := by
  unfold XCert_GenTBSCertificate_finish
  conv => zeta
  generalize hk : (if KatRan ≠ true then
      (if E.Sha384Kat ≠ XST_SUCCESS then (E.Sha384Kat, KatRan, [Event.Kat])
       else (XST_SUCCESS, true, [Event.Kat]))
     else (XST_SUCCESS, KatRan, [])) = k
  have hk1 : k.1 ≠ XOCP_ERR_X509_GET_SIGN := by
    rw [← hk]
    split
    · split
      · exact hE2
      · exact fun h => Status.noConfusion h
    · exact fun h => Status.noConfusion h
  obtain ⟨s, K, t⟩ := k
  dsimp only at hk1 ⊢
  by_cases hs : s = XST_SUCCESS
  swap
  · rw [if_pos hs]
    exact hk1
  rw [if_neg (not_not.mpr hs)]
  have hd : (XSecure_Sha384Digest E (rd b i3 (Curr - i3))).1 ≠ XOCP_ERR_X509_GET_SIGN :=
    hE1 _
  generalize XSecure_Sha384Digest E (rd b i3 (Curr - i3)) = d at hd ⊢
  obtain ⟨sd, Hash⟩ := d
  dsimp only at hd ⊢
  by_cases hsd : sd = XST_SUCCESS
  swap
  · rw [if_pos hsd]
    exact hd
  rw [if_neg (not_not.mpr hsd)]
  have hm := smemMove_no_get_sign b (i3 + XCERT_SERIAL_FIELD_LEN) (Curr - i3) i3 (Curr - i3)
    (Curr - i3)
  generalize Xil_SMemMove b (i3 + XCERT_SERIAL_FIELD_LEN) (Curr - i3) i3 (Curr - i3)
    (Curr - i3) = mv at hm ⊢
  obtain ⟨sm, bm⟩ := mv
  dsimp only at hm ⊢
  by_cases hsm : sm = XST_SUCCESS
  swap
  · rw [if_pos hsm]
    exact hm
  rw [if_neg (not_not.mpr hsm)]
  generalize XCert_GenSerialField bm i3 Hash = sf
  obtain ⟨bs, ls⟩ := sf
  dsimp only
  generalize XCert_UpdateEncodedLength bs _ _ _ = u
  obtain ⟨su, bu⟩ := u
  dsimp only
  by_cases hsu : su = XST_SUCCESS
  · rw [if_neg (not_not.mpr hsu)]
    exact fun h => Status.noConfusion h
  · rw [if_pos hsu]
    exact fun h => Status.noConfusion h

theorem tbs_no_get_sign (E : Env) (Z : Build) (KatRan : Bool) (b : List Nat) (p : Nat)
    (U : XCert_UserCfg) (A : XCert_AppCfg)
    (hE1 : ∀ d, (E.Sha384Digest d).1 ≠ XOCP_ERR_X509_GET_SIGN)
    (hE2 : E.Sha384Kat ≠ XOCP_ERR_X509_GET_SIGN) :
    (XCert_GenTBSCertificate E Z KatRan b p U A).1 ≠ XOCP_ERR_X509_GET_SIGN := by
  unfold XCert_GenTBSCertificate
  conv => zeta
  rw [genVersionField_eq]
  dsimp only
  rw [genSignAlgoField_eq]
  dsimp only
  unfold XCert_GenIssuerField XCert_GenValidityField XCert_GenSubjectField
  rw [createRawDataFromByteArray_eq]
  dsimp only
  rw [createRawDataFromByteArray_eq]
  dsimp only
  rw [createRawDataFromByteArray_eq]
  dsimp only
  cases hx : Z.PLM_ECDSA_EXCLUDE
  · rw [genPublicKeyInfoField_eq]
    dsimp only
    simp only [ne_eq, not_true_eq_false, if_false, Bool.false_eq_true]
    generalize hr : XCert_GenX509v3ExtensionsField E _ _ A = r
    have key : r.1 ≠ XOCP_ERR_X509_GET_SIGN := by
      rw [← hr]
      exact ext_no_get_sign E _ _ A hE1
    obtain ⟨sr, tr, br, lr⟩ := r
    dsimp only at key ⊢
    by_cases hs : sr = XST_SUCCESS
    · simp only [hs, not_true_eq_false, if_false]
      generalize hf : XCert_GenTBSCertificate_finish E KatRan _ _ _ _ _ _ = f
      have kf : f.1 ≠ XOCP_ERR_X509_GET_SIGN := by
        rw [← hf]
        exact tbs_finish_no_get_sign E KatRan _ _ _ _ _ _ hE1 hE2
      obtain ⟨s1, k1, t1, b1, n1⟩ := f
      exact kf
    · simp only [hs, not_false_eq_true, if_true]
      exact key
  · simp only [ne_eq, not_true_eq_false, if_false, if_true]
    exact fun h => Status.noConfusion h

theorem sign_no_get_sign (E : Env) (Z : Build) (st : CertStore) (t : List Event) (Id : Nat)
    (H Key : List Nat) (Idx : Nat) (hf : findIdx Z st Id = some Idx) :
    (XCert_GenerateX509Cert_sign E Z st t Id H Key).1 ≠ XOCP_ERR_X509_GET_SIGN := by
  by_cases hc : (slot Z st Idx).SignStore.IsSignAvailable = XCERT_SIGN_AVAILABLE ∧
      fit 48 H = fit 48 (slot Z st Idx).SignStore.Hash
  · rw [sign_reuse E Z st t Id H Key Idx hf hc.1 hc.2]
    exact fun h => Status.noConfusion h
  · by_cases hs : (XSecure_EllipticGenEphemeralNSign E (signCalls t) (hashForSign H) Key).1
        = XST_SUCCESS
    · rw [sign_fresh E Z st t Id H Key Idx hf hc hs]
      exact fun h => Status.noConfusion h
    · rw [sign_sigfail E Z st t Id H Key Idx hf hc hs]
      exact fun h => Status.noConfusion h

theorem generate_ret_no_get_sign (E : Env) (Z : Build) (m : Machine) (buf : List Nat)
    (Addr MaxCertSize Id : Nat) (A : XCert_AppCfg)
    (hE1 : ∀ d, (E.Sha384Digest d).1 ≠ XOCP_ERR_X509_GET_SIGN)
    (hE2 : E.Sha384Kat ≠ XOCP_ERR_X509_GET_SIGN) :
    (XCert_GenerateX509Cert E Z m buf Addr MaxCertSize Id A).Ret ≠ XOCP_ERR_X509_GET_SIGN := by
  generalize hr : XCert_GenerateX509Cert E Z m buf Addr MaxCertSize Id A = r
  replace hr := hr.symm
  unfold XCert_GenerateX509Cert at hr
  conv at hr => zeta
  have hc0 := getUserCfg_no_get_sign Z m.Store Id
  have hc1 := getUserCfg_some Z m.Store Id
  generalize XCert_GetUserCfg Z m.Store Id = c at hr hc0 hc1
  obtain ⟨s, p⟩ := c
  dsimp only at hr hc0 hc1
  by_cases hs : s = XST_SUCCESS
  swap
  · rw [if_pos hs] at hr
    subst hr
    exact hc0
  obtain ⟨Idx, -, hf⟩ := hc1 hs
  rw [if_neg (not_not.mpr hs)] at hr
  generalize hr1 : XCert_GenTBSCertificate E Z m.KatRan _ _ _ A = r1 at hr
  have hq1 : r1.1 ≠ XOCP_ERR_X509_GET_SIGN := by
    rw [← hr1]
    exact tbs_no_get_sign E Z m.KatRan _ _ _ A hE1 hE2
  obtain ⟨s1, k1, t1, b1, n1⟩ := r1
  dsimp only at hq1 hr
  by_cases hs1 : s1 = XST_SUCCESS
  swap
  · rw [if_pos hs1] at hr
    subst hr
    exact hq1
  rw [if_neg (not_not.mpr hs1)] at hr
  rw [genSignAlgoField_eq] at hr
  dsimp only at hr
  rw [if_neg (not_not.mpr rfl)] at hr
  generalize rd (wrBytes b1 (0 + 1 + 1 + n1) signAlgoBytes) (0 + 1 + 1) n1 = Data at hr
  by_cases hd : (XSecure_Sha384Digest E Data).1 = XST_SUCCESS
  swap
  · rw [if_pos hd] at hr
    subst hr
    exact fun h => Status.noConfusion h
  rw [if_neg (not_not.mpr hd)] at hr
  cases hx : Z.PLM_ECDSA_EXCLUDE
  swap
  · rw [hx, if_pos rfl] at hr
    subst hr
    exact fun h => Status.noConfusion h
  rw [hx, if_neg (by decide)] at hr
  have hq := sign_no_get_sign E Z m.Store (m.Trace ++ t1 ++ [Event.Digest Data]) Id
    (XSecure_Sha384Digest E Data).2 A.IssuerPrvtKey Idx hf
  generalize XCert_GenerateX509Cert_sign E Z m.Store (m.Trace ++ t1 ++ [Event.Digest Data]) Id
    (XSecure_Sha384Digest E Data).2 A.IssuerPrvtKey = q at hr hq
  obtain ⟨sq, stq, tq, Sq⟩ := q
  dsimp only at hr hq
  by_cases hsq : sq = XST_SUCCESS
  swap
  · rw [if_pos hsq] at hr
    subst hr
    exact hq
  rw [if_neg (not_not.mpr hsq)] at hr
  split at hr
  · subst hr
    exact fun h => Status.noConfusion h
  · subst hr
    exact fun h => Status.noConfusion h

/-- C40: `XCert_GenerateX509Cert` never takes the branch that sets
`XOCP_ERR_X509_GET_SIGN`. Whenever `XCert_GetUserCfg` succeeds for `Id` on the store of
the call, it designates a slot `Idx`, `XCert_GetSignStored` for the same `Id` on the same
store succeeds and designates the same slot `Idx` (so the `SignStore` used is the one of
the entry whose `UserCfg` built the certificate), and the signing step on that store does
not end in `XOCP_ERR_X509_GET_SIGN`, whatever trace, digest and key it gets. The status
the whole call returns is not `XOCP_ERR_X509_GET_SIGN` either, as long as the digest and
KAT primitives, whose failure codes the function hands back verbatim, do not themselves
return that code. -/
theorem generate_get_sign_unreachable (E : Env) (Z : Build) (m : Machine) (buf : List Nat)
    (Addr MaxCertSize Id : Nat) (A : XCert_AppCfg)
    (hE1 : ∀ d, (E.Sha384Digest d).1 ≠ XOCP_ERR_X509_GET_SIGN)
    (hE2 : E.Sha384Kat ≠ XOCP_ERR_X509_GET_SIGN) :
    (XCert_GenerateX509Cert E Z m buf Addr MaxCertSize Id A).Ret ≠ XOCP_ERR_X509_GET_SIGN ∧
    ((XCert_GetUserCfg Z m.Store Id).1 = XST_SUCCESS →
      ∃ Idx, XCert_GetUserCfg Z m.Store Id = (XST_SUCCESS, some Idx) ∧
        XCert_GetSignStored Z m.Store Id = (XST_SUCCESS, some Idx) ∧
        ∀ t H Key,
          (XCert_GenerateX509Cert_sign E Z m.Store t Id H Key).1 ≠ XOCP_ERR_X509_GET_SIGN) := by
  refine ⟨generate_ret_no_get_sign E Z m buf Addr MaxCertSize Id A hE1 hE2, fun h => ?_⟩
  obtain ⟨Idx, hc, hf⟩ := getUserCfg_some Z m.Store Id h
  refine ⟨Idx, hc, ?_, fun t H Key => sign_no_get_sign E Z m.Store t Id H Key Idx hf⟩
  unfold XCert_GetSignStored
  rw [hf]

set_option maxRecDepth 100000 in
theorem generate_get_sign_unreachable_witness :
    (∀ d, (envSignFailW.Sha384Digest d).1 ≠ XOCP_ERR_X509_GET_SIGN) ∧
    envSignFailW.Sha384Kat ≠ XOCP_ERR_X509_GET_SIGN ∧
    (XCert_GetUserCfg buildW machineW.Store 7).1 = XST_SUCCESS ∧
    (XCert_GenerateX509Cert envSignFailW buildW machineW bufW 4096 1024 7 appW).Ret ≠
      XOCP_ERR_X509_GET_SIGN ∧
    (∃ Idx, XCert_GetUserCfg buildW machineW.Store 7 = (XST_SUCCESS, some Idx) ∧
      XCert_GetSignStored buildW machineW.Store 7 = (XST_SUCCESS, some Idx) ∧
      ∀ t H Key, (XCert_GenerateX509Cert_sign envSignFailW buildW machineW.Store t 7 H Key).1 ≠
        XOCP_ERR_X509_GET_SIGN) :=
  ⟨fun _ h => Status.noConfusion h, fun h => Status.noConfusion h, by decide,
    (generate_get_sign_unreachable envSignFailW buildW machineW bufW 4096 1024 7 appW
      (fun _ h => Status.noConfusion h) (fun h => Status.noConfusion h)).1,
    (generate_get_sign_unreachable envSignFailW buildW machineW bufW 4096 1024 7 appW
      (fun _ h => Status.noConfusion h) (fun h => Status.noConfusion h)).2 (by decide)⟩

end XCert
